import Mathlib

/-! RecoNIC control-plane tools: register access and reset orchestration.

A shallow embedding of the register-access and reset code of the example tools
(`examples/reset_test`, `examples/register_test`) together with the properties
proved about it.

Modelling conventions.

* The mapped CSR window is hardware, so a load does not simply return the last
  stored value.  The device is a deterministic oracle `Hw`: the value of a
  32-bit load is a function of everything done so far (the `Trace`) and of the
  offset.  Every load, store and `usleep` is appended to the trace, so the trace
  is at the same time the state that is passed along and the record of what the
  code did.
* A pointer is its address as a `Nat`; `0` is `NULL`.  Accesses are recorded by
  their byte offset from the base of the window.
* `off_t` and `int` values are `Int`s; `uint32_t` values are `Nat`s reduced
  modulo `2^32` where they are produced.  Signed 32-bit counters are kept in
  range explicitly (`wrap32`).  Signed overflow is undefined in C: the one
  computation on an argument that can overflow, the product `timeout_ms * 1000`
  of `wait_reset_register_autoclear`, gives no result (`none`) when it does.
* `printf`/`fprintf` output is not modelled.
* Loops take a fuel argument and return `none` when it runs out.  The top-level
  functions pass `LOOP_FUEL = 2^32`, the number of distinct values of a 32-bit
  counter.
-/

namespace Reconic

/-! ## Platform constants and machine arithmetic -/

/-- Linux `errno` value of `EINVAL`. -/
def EINVAL : Int := 22

/-- Linux `errno` value of `ETIMEDOUT`. -/
def ETIMEDOUT : Int := 110

/-- Reduce an integer to the value of a C `int` (32 bit, two's complement). -/
def wrap32 (x : Int) : Int := (x + 2 ^ 31) % 2 ^ 32 - 2 ^ 31

/-- Conversion of an integer value to `uint32_t`. -/
def toU32 (x : Int) : Nat := (x % 2 ^ 32).toNat

/-- Bit pattern of a 64-bit signed value (`off_t`, `long`). -/
def bits64 (x : Int) : Nat := (x % 2 ^ 64).toNat

/-- Bitwise AND of two 64-bit signed values, as a bit pattern. -/
def land64 (a b : Int) : Nat := bits64 a &&& bits64 b

/-- Fuel handed to every loop: the number of values of a 32-bit counter. -/
def LOOP_FUEL : Nat := 2 ^ 32

/-! ## Device model -/

/-- One observable action on the device window or the clock. -/
inductive Event
  | read (offset : Int) (value : Nat)
  | write (offset : Int) (value : Nat)
  | usleep (us : Int)
deriving DecidableEq, Repr

/-- History of actions, oldest first. -/
abbrev Trace := List Event

/-- The device: value of a 32-bit load at an offset, given the history. -/
abbrev Hw := Trace → Int → Nat

/-- The stores in a trace, oldest first, as (offset, value). -/
def writes (t : Trace) : List (Int × Nat) :=
  t.filterMap fun e => match e with
    | Event.write o v => some (o, v)
    | _ => none

/-- Number of loads from `off` in a trace. -/
def reads_at (off : Int) (t : Trace) : Nat :=
  t.countP fun e => match e with
    | Event.read o _ => decide (o = off)
    | _ => false

/-- Offsets touched (loaded from or stored to) in a trace. -/
def touched (t : Trace) : List Int :=
  t.filterMap fun e => match e with
    | Event.read o _ => some o
    | Event.write o _ => some o
    | Event.usleep _ => none

/-- Total time slept in a trace, in microseconds. -/
def slept (t : Trace) : Int :=
  (t.map fun e => match e with
    | Event.usleep us => us
    | _ => 0).sum

/-- Trace of a run of unsuccessful polls of one register: for each value
loaded, the load followed by the sleep of `interval_us` microseconds. -/
def poll_trace (off : Int) (interval_us : Int) (vals : List Nat) : Trace :=
  vals.flatMap fun v => [Event.read off v, Event.usleep interval_us]

/-- Trace of a run of unsuccessful lane checks: for each pair of values
loaded, the two loads of the RX status register followed by the sleep of
50000 us. -/
def lane_check_trace (off : Int) (checks : List (Nat × Nat)) : Trace :=
  checks.flatMap fun p => [Event.read off p.1, Event.read off p.2, Event.usleep 50000]

/-- Trace of the status polling of a baseline CMAC reset: unsuccessful polls of
the Shell status register 0x10 (load, then a sleep of 10000 us), ended by the
successful load if there was one. -/
def status_polls (vals : List Nat) (last : Option Nat) : Trace :=
  poll_trace 0x10 10000 vals ++
    (match last with
     | none => []
     | some v => [Event.read 0x10 v])

/-! ### A simulated Shell reset register -/

/-- State of the simulated Shell reset register after one more action: the
value last stored to 0x0C and the number of loads of 0x0C since that store. -/
def shell_reset_step (s : Nat × Nat) : Event → Nat × Nat
  | Event.write off v => if off = 0xC then (v, 0) else s
  | Event.read off _ => if off = 0xC then (s.1, s.2 + 1) else s
  | Event.usleep _ => s

/-- State of the simulated Shell reset register after a history. -/
def shell_reset_state (t : Trace) : Nat × Nat :=
  t.foldl shell_reset_step (0, 0)

/-- Simulated device with a self-clearing Shell reset register: the bits stored
to 0x0C read back for the first `N` loads after the store and read as 0 from
then on; the Shell status register 0x10 reads 0x333 with the bits of a reset
still in progress cleared, so all completion bits read as set once the reset
register has cleared; every other register reads 0. -/
def sim_shell_device (N : Nat) : Hw := fun t off =>
  let s := shell_reset_state t
  let pending := if s.2 < N then s.1 else 0
  if off = 0xC then pending
  else if off = 0x10 then 0x333 ^^^ (pending &&& 0x333)
  else 0

/-! ### A simulated device whose ports come up -/

/-- Simulated device on which a port comes up at once: the Shell status
register 0x10 reads 0x110 (both CMAC ports report their reset complete) and
every other register, among them the RX status registers, reads 0x3 (lanes
aligned). -/
def aligned_device : Hw := fun _ off => if off = 0x10 then 0x110 else 0x3

/-! ### A register window that behaves as plain memory -/

/-- Content of the window after one more action: a store replaces the word at
its offset, loads and sleeps change nothing. -/
def store_word (m : Int → Nat) : Event → Int → Nat
  | Event.write o v => fun x => if x = o then v else m x
  | Event.read _ _ => m
  | Event.usleep _ => m

/-- Device that behaves as plain memory with initial content `init`: a load
returns the value last stored at that offset, or the initial word.  Words are
keyed by their byte offset; the offsets the tools accept are multiples of 4,
so the words of two different accepted offsets do not overlap. -/
def plain_memory (init : Int → Nat) : Hw := fun t off =>
  (t.foldl store_word init) off

end Reconic

/-! ## Reset tool: `reset_utils.h`, `reset_utils.c` -/

namespace Reconic.ResetTool

/-- Size of the mapped window of the reset tool (`reset_utils.h`). -/
def REG_MAP_SIZE : Int := 0x00010000

/-- Store of `reset_utils.c`: returns the status code and the new trace. -/
def safe_write32_data (pcie_base : Nat) (offset : Int) (value : Nat) (t : Trace) :
    Int × Trace :=
  if pcie_base = 0 then (-EINVAL, t)
  else if offset ≥ REG_MAP_SIZE ∨ land64 offset 0x3 ≠ 0 then (-EINVAL, t)
  else (0, t ++ [Event.write offset (value % 2 ^ 32)])

/-- Load of `reset_utils.c`.  `value` is the address of the output variable;
the second component is what was stored through it, if anything (callers
look at it only after a return of 0, when it is present). -/
def safe_read32_data (hw : Hw) (pcie_base : Nat) (offset : Int) (value : Nat) (t : Trace) :
    Int × Option Nat × Trace :=
  if pcie_base = 0 ∨ value = 0 then (-EINVAL, none, t)
  else if offset ≥ REG_MAP_SIZE ∨ land64 offset 0x3 ≠ 0 then (-EINVAL, none, t)
  else
    let v := hw t offset % 2 ^ 32
    (0, some v, t ++ [Event.read offset v])

/-- Address of a local variable handed to a callee as an output pointer
(any non-null address). -/
def LOCAL : Nat := 1

/-! ### Register map (`reset_utils.h`) -/

def RESET_TIMEOUT_MS : Int := 5000
def RESET_POLL_INTERVAL_MS : Int := 10

def SYSCFG_OFFSET : Int := 0x0
def SYSCFG_OFFSET_BUILD_STATUS : Int := SYSCFG_OFFSET + 0x0
def SYSCFG_OFFSET_SYSTEM_RESET : Int := SYSCFG_OFFSET + 0x4
def SYSCFG_OFFSET_SYSTEM_STATUS : Int := SYSCFG_OFFSET + 0x8
def SYSCFG_OFFSET_SHELL_RESET : Int := SYSCFG_OFFSET + 0xC
def SYSCFG_OFFSET_SHELL_STATUS : Int := SYSCFG_OFFSET + 0x10
def SYSCFG_OFFSET_USER_RESET : Int := SYSCFG_OFFSET + 0x14
def SYSCFG_OFFSET_USER_STATUS : Int := SYSCFG_OFFSET + 0x18

def CMAC_SUBSYSTEM_0_OFFSET : Int := 0x8000
def CMAC_SUBSYSTEM_1_OFFSET : Int := 0xC000
def CMAC_SUBSYSTEM_OFFSET (i : Int) : Int :=
  if i = 0 then CMAC_SUBSYSTEM_0_OFFSET else CMAC_SUBSYSTEM_1_OFFSET
def CMAC_OFFSET (i : Int) : Int := CMAC_SUBSYSTEM_OFFSET i + 0x0
def CMAC_OFFSET_GT_RESET (i : Int) : Int := CMAC_OFFSET i + 0x0000
def CMAC_OFFSET_RESET (i : Int) : Int := CMAC_OFFSET i + 0x0004
def CMAC_OFFSET_STAT_STATUS_1 (i : Int) : Int := CMAC_OFFSET i + 0x0208
def CMAC_OFFSET_STAT_RX_STATUS (i : Int) : Int := CMAC_OFFSET i + 0x0204

/-- Reset kinds of `reset_utils.h`. -/
inductive reset_type_t
  | RESET_TYPE_SYSTEM
  | RESET_TYPE_SHELL
  | RESET_TYPE_USER
  | RESET_TYPE_CMAC_PORT0
  | RESET_TYPE_CMAC_PORT1
  | RESET_TYPE_CMAC_GT_PORT0
  | RESET_TYPE_CMAC_GT_PORT1
  | RESET_TYPE_MAX
deriving DecidableEq, Repr

def SHELL_RESET_CMAC_PORT0 : Nat := 0x10
def SHELL_RESET_CMAC_PORT1 : Nat := 0x100

/-! ### Status checks and the baseline resets (`reset_utils.c`) -/

/-- Status check of the system domain.  `reset_completed` is the current value
of the caller's flag; the result carries its value after the call. -/
def check_system_reset_status (hw : Hw) (pcie_base : Nat) (reset_completed : Int)
    (t : Trace) : Int × Int × Trace :=
  match safe_read32_data hw pcie_base SYSCFG_OFFSET_SYSTEM_STATUS LOCAL t with
  | (ret, status_value, t1) =>
    if ret ≠ 0 then (ret, reset_completed, t1)
    else (0, (if status_value.getD 0 &&& 0x1 ≠ 0 then 1 else 0), t1)

/-- Status check of the shell domain. -/
def check_shell_reset_status (hw : Hw) (pcie_base : Nat) (reset_completed : Int)
    (t : Trace) : Int × Int × Trace :=
  match safe_read32_data hw pcie_base SYSCFG_OFFSET_SHELL_STATUS LOCAL t with
  | (ret, status_value, t1) =>
    if ret ≠ 0 then (ret, reset_completed, t1)
    else (0, (if status_value.getD 0 &&& 0x110 ≠ 0 then 1 else 0), t1)

/-- Status check of the user domain. -/
def check_user_reset_status (hw : Hw) (pcie_base : Nat) (reset_completed : Int)
    (t : Trace) : Int × Int × Trace :=
  match safe_read32_data hw pcie_base SYSCFG_OFFSET_USER_STATUS LOCAL t with
  | (ret, status_value, t1) =>
    if ret ≠ 0 then (ret, reset_completed, t1)
    else (0, (if status_value.getD 0 &&& 0x1 ≠ 0 then 1 else 0), t1)

/-- Status check of one CMAC port. -/
def check_cmac_reset_status (hw : Hw) (pcie_base : Nat) (port_id : Int)
    (reset_completed : Int) (t : Trace) : Int × Int × Trace :=
  if port_id ≠ 0 ∧ port_id ≠ 1 then (-EINVAL, reset_completed, t)
  else
    match safe_read32_data hw pcie_base SYSCFG_OFFSET_SHELL_STATUS LOCAL t with
    | (ret, status_value, t1) =>
      if ret ≠ 0 then (ret, reset_completed, t1)
      else
        let expected_mask :=
          if port_id = 0 then SHELL_RESET_CMAC_PORT0 else SHELL_RESET_CMAC_PORT1
        (0, (if status_value.getD 0 &&& expected_mask ≠ 0 then 1 else 0), t1)

/-- Three status loads of `display_all_reset_status`; the decoded text is not
modelled.  Always returns 0. -/
def display_all_reset_status (hw : Hw) (pcie_base : Nat) (t : Trace) : Int × Trace :=
  let t1 := (safe_read32_data hw pcie_base SYSCFG_OFFSET_SYSTEM_STATUS LOCAL t).2.2
  let t2 := (safe_read32_data hw pcie_base SYSCFG_OFFSET_SHELL_STATUS LOCAL t1).2.2
  let t3 := (safe_read32_data hw pcie_base SYSCFG_OFFSET_USER_STATUS LOCAL t2).2.2
  (0, t3)

/-- The `switch` inside the loop of `wait_reset_completion`: `error code` is an
immediate `return code`, `ok (ret, reset_completed, t)` continues after it. -/
def wait_reset_completion_switch (hw : Hw) (pcie_base : Nat) (reset_type : reset_type_t)
    (reset_completed : Int) (t : Trace) : Except Int (Int × Int × Trace) :=
  match reset_type with
  | .RESET_TYPE_SYSTEM => .ok (check_system_reset_status hw pcie_base reset_completed t)
  | .RESET_TYPE_SHELL => .ok (check_shell_reset_status hw pcie_base reset_completed t)
  | .RESET_TYPE_USER => .ok (check_user_reset_status hw pcie_base reset_completed t)
  | .RESET_TYPE_CMAC_PORT0 => .ok (check_cmac_reset_status hw pcie_base 0 reset_completed t)
  | .RESET_TYPE_CMAC_PORT1 => .ok (check_cmac_reset_status hw pcie_base 1 reset_completed t)
  | .RESET_TYPE_CMAC_GT_PORT0 => .error 0
  | .RESET_TYPE_CMAC_GT_PORT1 => .error 0
  | .RESET_TYPE_MAX => .error (-EINVAL)

/-- The `while (elapsed_ms < timeout_ms)` loop of `wait_reset_completion`. -/
def wait_reset_completion_loop (hw : Hw) (pcie_base : Nat) (reset_type : reset_type_t)
    (timeout_ms : Int) : Nat → Int → Int → Trace → Option (Int × Trace)
  | 0, _, _, _ => none
  | fuel + 1, elapsed_ms, reset_completed, t =>
    if elapsed_ms < timeout_ms then
      match wait_reset_completion_switch hw pcie_base reset_type reset_completed t with
      | .error code => some (code, t)
      | .ok (ret, reset_completed1, t1) =>
        if ret ≠ 0 then some (ret, t1)
        else if reset_completed1 ≠ 0 then some (0, t1)
        else
          wait_reset_completion_loop hw pcie_base reset_type timeout_ms fuel
            (wrap32 (elapsed_ms + RESET_POLL_INTERVAL_MS)) reset_completed1
            (t1 ++ [Event.usleep (RESET_POLL_INTERVAL_MS * 1000)])
    else some (-ETIMEDOUT, t)

/-- Polls the status register of the domain until it reports completion. -/
def wait_reset_completion (hw : Hw) (pcie_base : Nat) (reset_type : reset_type_t)
    (timeout_ms : Int) (t : Trace) : Option (Int × Trace) :=
  wait_reset_completion_loop hw pcie_base reset_type timeout_ms LOOP_FUEL 0 0 t

/-- Baseline system reset. -/
def perform_system_reset (hw : Hw) (pcie_base : Nat) (_verbose : Int) (t : Trace) :
    Option (Int × Trace) :=
  match safe_write32_data pcie_base SYSCFG_OFFSET_SYSTEM_RESET 0x1 t with
  | (ret, t1) =>
    if ret ≠ 0 then some (ret, t1)
    else
      match wait_reset_completion hw pcie_base .RESET_TYPE_SYSTEM RESET_TIMEOUT_MS t1 with
      | none => none
      | some (ret2, t2) => if ret2 ≠ 0 then some (ret2, t2) else some (0, t2)

/-- Baseline shell reset. -/
def perform_shell_reset (hw : Hw) (pcie_base : Nat) (_verbose : Int) (t : Trace) :
    Option (Int × Trace) :=
  match safe_write32_data pcie_base SYSCFG_OFFSET_SHELL_RESET 0x110 t with
  | (ret, t1) =>
    if ret ≠ 0 then some (ret, t1)
    else
      match wait_reset_completion hw pcie_base .RESET_TYPE_SHELL RESET_TIMEOUT_MS t1 with
      | none => none
      | some (ret2, t2) => if ret2 ≠ 0 then some (ret2, t2) else some (0, t2)

/-- Baseline user reset. -/
def perform_user_reset (hw : Hw) (pcie_base : Nat) (_verbose : Int) (t : Trace) :
    Option (Int × Trace) :=
  match safe_write32_data pcie_base SYSCFG_OFFSET_USER_RESET 0x1 t with
  | (ret, t1) =>
    if ret ≠ 0 then some (ret, t1)
    else
      match wait_reset_completion hw pcie_base .RESET_TYPE_USER RESET_TIMEOUT_MS t1 with
      | none => none
      | some (ret2, t2) => if ret2 ≠ 0 then some (ret2, t2) else some (0, t2)

/-- Baseline CMAC port reset. -/
def perform_cmac_reset (hw : Hw) (pcie_base : Nat) (port_id : Int) (_verbose : Int)
    (t : Trace) : Option (Int × Trace) :=
  if port_id ≠ 0 ∧ port_id ≠ 1 then some (-EINVAL, t)
  else
    let reset_mask := if port_id = 0 then SHELL_RESET_CMAC_PORT0 else SHELL_RESET_CMAC_PORT1
    match safe_write32_data pcie_base SYSCFG_OFFSET_SHELL_RESET reset_mask t with
    | (ret, t1) =>
      if ret ≠ 0 then some (ret, t1)
      else
        match wait_reset_completion hw pcie_base
            (if port_id = 0 then .RESET_TYPE_CMAC_PORT0 else .RESET_TYPE_CMAC_PORT1)
            RESET_TIMEOUT_MS t1 with
        | none => none
        | some (ret2, t2) => if ret2 ≠ 0 then some (ret2, t2) else some (0, t2)

/-- CMAC GT reset: one store and a fixed 100 ms wait. -/
def perform_cmac_gt_reset (pcie_base : Nat) (port_id : Int) (_verbose : Int) (t : Trace) :
    Int × Trace :=
  if port_id ≠ 0 ∧ port_id ≠ 1 then (-EINVAL, t)
  else
    match safe_write32_data pcie_base (CMAC_OFFSET_GT_RESET port_id) 0x1 t with
    | (ret, t1) =>
      if ret ≠ 0 then (ret, t1)
      else (0, t1 ++ [Event.usleep 100000])

/-! ### Hardware-correct resets (`reset_utils_final.c`) -/

def SHELL_RESET_QDMA_SUBSYSTEM : Nat := 0x01
def SHELL_RESET_RDMA_SUBSYSTEM : Nat := 0x02
def SHELL_RESET_CMAC0_SUBSYSTEM : Nat := 0x10
def SHELL_RESET_CMAC0_ADAPTER : Nat := 0x20
def SHELL_RESET_CMAC1_SUBSYSTEM : Nat := 0x100
def SHELL_RESET_CMAC1_ADAPTER : Nat := 0x200
def SHELL_RESET_CMAC0_COMPLETE : Nat := SHELL_RESET_CMAC0_SUBSYSTEM ||| SHELL_RESET_CMAC0_ADAPTER
def SHELL_RESET_CMAC1_COMPLETE : Nat := SHELL_RESET_CMAC1_SUBSYSTEM ||| SHELL_RESET_CMAC1_ADAPTER
def SHELL_RESET_ALL_CMAC : Nat := SHELL_RESET_CMAC0_COMPLETE ||| SHELL_RESET_CMAC1_COMPLETE

def RESET_REGISTER_POLL_INTERVAL_US : Int := 1000
def RESET_REGISTER_TIMEOUT_MS : Int := 10000
def RESET_STABILIZATION_DELAY_US : Int := 50000
def CMAC_INIT_DELAY_US : Int := 100000

/-- The `while (elapsed_us < (timeout_ms * 1000))` loop of
`wait_reset_register_autoclear`; the product is an `int` product. -/
def wait_reset_register_autoclear_loop (hw : Hw) (pcie_base : Nat) (reset_reg_offset : Nat)
    (reset_mask : Nat) (timeout_ms : Int) : Nat → Int → Trace → Option (Int × Trace)
  | 0, _, _ => none
  | fuel + 1, elapsed_us, t =>
    if elapsed_us < wrap32 (timeout_ms * 1000) then
      match safe_read32_data hw pcie_base (reset_reg_offset : Int) LOCAL t with
      | (ret, reg_value, t1) =>
        if ret ≠ 0 then some (ret, t1)
        else if reg_value.getD 0 &&& reset_mask = 0 then some (0, t1)
        else
          wait_reset_register_autoclear_loop hw pcie_base reset_reg_offset reset_mask
            timeout_ms fuel (wrap32 (elapsed_us + RESET_REGISTER_POLL_INTERVAL_US))
            (t1 ++ [Event.usleep RESET_REGISTER_POLL_INTERVAL_US])
    else some (-ETIMEDOUT, t)

/-- Polls a reset register until the bits of `reset_mask` read as zero.
The bound of the loop is the `int` product `timeout_ms * 1000`.  Where that
product does not fit an `int` the behaviour of the C function is undefined, and
no result is given (`none`); where it fits, `wrap32` in the loop is the
identity on it. -/
def wait_reset_register_autoclear (hw : Hw) (pcie_base : Nat) (reset_reg_offset : Nat)
    (reset_mask : Nat) (timeout_ms : Int) (t : Trace) : Option (Int × Trace) :=
  if timeout_ms * 1000 < -2147483648 ∨ 2147483647 < timeout_ms * 1000 then none
  else
    wait_reset_register_autoclear_loop hw pcie_base reset_reg_offset reset_mask timeout_ms
      LOOP_FUEL 0 t

/-- Composite CMAC port reset of `reset_utils_final.c`. -/
def perform_cmac_reset_hardware_correct (hw : Hw) (pcie_base : Nat) (port_id : Int)
    (verbose : Int) (t : Trace) : Option (Int × Trace) :=
  if port_id ≠ 0 ∧ port_id ≠ 1 then some (-EINVAL, t)
  else
    let reset_mask :=
      if port_id = 0 then SHELL_RESET_CMAC0_COMPLETE else SHELL_RESET_CMAC1_COMPLETE
    -- step 1: state before the reset (verbose only)
    let t1 :=
      if verbose ≠ 0 then (safe_read32_data hw pcie_base SYSCFG_OFFSET_SHELL_STATUS LOCAL t).2.2
      else t
    -- step 2: reset command
    match safe_write32_data pcie_base SYSCFG_OFFSET_SHELL_RESET reset_mask t1 with
    | (ret, t2) =>
      if ret ≠ 0 then some (ret, t2)
      else
        -- step 3: self-clear of the reset register
        match wait_reset_register_autoclear hw pcie_base (toU32 SYSCFG_OFFSET_SHELL_RESET)
            reset_mask RESET_REGISTER_TIMEOUT_MS t2 with
        | none => none
        | some (ret3, t3) =>
          if ret3 ≠ 0 then some (ret3, t3)
          else
            -- step 4: stabilisation
            let t4 := t3 ++ [Event.usleep RESET_STABILIZATION_DELAY_US]
            -- step 5: status verification; the outcome is only printed
            let t5 := (safe_read32_data hw pcie_base SYSCFG_OFFSET_SHELL_STATUS LOCAL t4).2.2
            -- step 6: CMAC initialisation delay
            some (0, t5 ++ [Event.usleep CMAC_INIT_DELAY_US])

/-- The two per-port completion flags computed in step 5 of
`perform_cmac_reset_hardware_correct` from the status value:
`(subsystem_done, adapter_done)`. -/
def cmac_status_done (port_id : Int) (status_value : Nat) : Int × Int :=
  ((if status_value &&& (1 <<< (4 + port_id * 4).toNat) ≠ 0 then 1 else 0),
   (if status_value &&& (1 <<< (5 + port_id * 4).toNat) ≠ 0 then 1 else 0))

/-- Composite shell reset of `reset_utils_final.c`. -/
def perform_shell_reset_hardware_correct (hw : Hw) (pcie_base : Nat) (verbose : Int)
    (t : Trace) : Option (Int × Trace) :=
  let reset_mask := SHELL_RESET_QDMA_SUBSYSTEM ||| SHELL_RESET_RDMA_SUBSYSTEM |||
    SHELL_RESET_CMAC0_COMPLETE ||| SHELL_RESET_CMAC1_COMPLETE
  let t1 :=
    if verbose ≠ 0 then (safe_read32_data hw pcie_base SYSCFG_OFFSET_SHELL_STATUS LOCAL t).2.2
    else t
  match safe_write32_data pcie_base SYSCFG_OFFSET_SHELL_RESET reset_mask t1 with
  | (ret, t2) =>
    if ret ≠ 0 then some (ret, t2)
    else
      match wait_reset_register_autoclear hw pcie_base (toU32 SYSCFG_OFFSET_SHELL_RESET)
          reset_mask RESET_REGISTER_TIMEOUT_MS t2 with
      | none => none
      | some (ret3, t3) =>
        if ret3 ≠ 0 then some (ret3, t3)
        else
          let t4 := t3 ++ [Event.usleep (RESET_STABILIZATION_DELAY_US * 2)]
          let t5 := (safe_read32_data hw pcie_base SYSCFG_OFFSET_SHELL_STATUS LOCAL t4).2.2
          some (0, t5)

/-- System reset of `reset_utils_final.c`. -/
def perform_system_reset_hardware_correct (hw : Hw) (pcie_base : Nat) (verbose : Int)
    (t : Trace) : Option (Int × Trace) :=
  let t1 := if verbose ≠ 0 then (display_all_reset_status hw pcie_base t).2 else t
  match safe_write32_data pcie_base SYSCFG_OFFSET_SYSTEM_RESET 0x1 t1 with
  | (ret, t2) =>
    if ret ≠ 0 then some (ret, t2)
    else
      match wait_reset_register_autoclear hw pcie_base (toU32 SYSCFG_OFFSET_SYSTEM_RESET)
          0x1 RESET_REGISTER_TIMEOUT_MS t2 with
      | none => none
      | some (ret3, t3) =>
        if ret3 ≠ 0 then some (ret3, t3)
        else
          let t4 := t3 ++ [Event.usleep (RESET_STABILIZATION_DELAY_US * 4)]
          let t5 := (safe_read32_data hw pcie_base SYSCFG_OFFSET_SYSTEM_STATUS LOCAL t4).2.2
          some (0, t5)

/-! ### CMAC bring-up (`reset_utils_fixed.c`) -/

def CMAC_OFFSET_CONF_RX_1 (i : Int) : Int := CMAC_OFFSET i + 0x0014
def CMAC_OFFSET_CONF_TX_1 (i : Int) : Int := CMAC_OFFSET i + 0x000C

def LANE_ALIGNMENT_TIMEOUT_CNT : Int := 32
def LANE_ALIGNMENT_RESET_CNT : Int := 8
def LANE_ALIGNMENT_CHECK_INTERVAL_MS : Int := 50

/-- Double-read lane check: 1 when the second load returned `0x3`, else 0. -/
def check_rx_lane_aligned (hw : Hw) (pcie_base : Nat) (port_id : Int) (t : Trace) :
    Int × Trace :=
  let offset : Nat := toU32 (CMAC_OFFSET_STAT_RX_STATUS port_id)
  match safe_read32_data hw pcie_base (offset : Int) LOCAL t with
  | (ret1, _, t1) =>
    if ret1 ≠ 0 then (0, t1)
    else
      match safe_read32_data hw pcie_base (offset : Int) LOCAL t1 with
      | (ret2, val2, t2) =>
        if ret2 ≠ 0 then (0, t2)
        else ((if val2.getD 0 = 0x3 then 1 else 0), t2)

/-- Value of the first load of a lane check started with history `t`. -/
def lane_check_first (hw : Hw) (port_id : Int) (t : Trace) : Nat :=
  hw t (CMAC_OFFSET_STAT_RX_STATUS port_id) % 2 ^ 32

/-- Value of the second load of a lane check started with history `t`. -/
def lane_check_second (hw : Hw) (port_id : Int) (t : Trace) : Nat :=
  hw (t ++ [Event.read (CMAC_OFFSET_STAT_RX_STATUS port_id) (lane_check_first hw port_id t)])
    (CMAC_OFFSET_STAT_RX_STATUS port_id) % 2 ^ 32

/-- Enables RX, then TX. -/
def configure_cmac_rxtx (pcie_base : Nat) (port_id : Int) (_verbose : Int) (t : Trace) :
    Int × Trace :=
  match safe_write32_data pcie_base (CMAC_OFFSET_CONF_RX_1 port_id) 0x1 t with
  | (ret, t1) =>
    if ret ≠ 0 then (ret, t1)
    else
      match safe_write32_data pcie_base (CMAC_OFFSET_CONF_TX_1 port_id) 0x10 t1 with
      | (ret2, t2) => if ret2 ≠ 0 then (ret2, t2) else (0, t2)

/-- The escalation inside the lane-alignment loop: the value of `reset_cnt`
and the trace after the `if (timeout_cnt == ... && reset_cnt == 0)` statement.
The return codes of the two calls are discarded, as in the source. -/
def lane_alignment_escalation (hw : Hw) (pcie_base : Nat) (port_id : Int)
    (timeout_cnt reset_cnt : Int) (t : Trace) : Option (Int × Trace) :=
  if timeout_cnt = LANE_ALIGNMENT_RESET_CNT ∧ reset_cnt = 0 then
    match perform_cmac_reset hw pcie_base port_id 0 t with
    | none => none
    | some (_, t1) => some (wrap32 (reset_cnt + 1), (configure_cmac_rxtx pcie_base port_id 0 t1).2)
  else some (reset_cnt, t)

/-- The `while (!check_rx_lane_aligned(...))` loop of `wait_rx_lane_alignment`. -/
def wait_rx_lane_alignment_loop (hw : Hw) (pcie_base : Nat) (port_id : Int) :
    Nat → Int → Int → Trace → Option (Int × Trace)
  | 0, _, _, _ => none
  | fuel + 1, timeout_cnt, reset_cnt, t =>
    match check_rx_lane_aligned hw pcie_base port_id t with
    | (aligned, t1) =>
      if aligned ≠ 0 then some (0, t1)
      else
        let t2 := t1 ++ [Event.usleep (LANE_ALIGNMENT_CHECK_INTERVAL_MS * 1000)]
        let timeout_cnt1 := wrap32 (timeout_cnt + 1)
        match lane_alignment_escalation hw pcie_base port_id timeout_cnt1 reset_cnt t2 with
        | none => none
        | some (reset_cnt1, t3) =>
          if timeout_cnt1 > LANE_ALIGNMENT_TIMEOUT_CNT then some (-ETIMEDOUT, t3)
          else wait_rx_lane_alignment_loop hw pcie_base port_id fuel timeout_cnt1 reset_cnt1 t3

/-- Waits for RX lane alignment, with one reset escalation. -/
def wait_rx_lane_alignment (hw : Hw) (pcie_base : Nat) (port_id : Int) (_verbose : Int)
    (t : Trace) : Option (Int × Trace) :=
  wait_rx_lane_alignment_loop hw pcie_base port_id LOOP_FUEL 0 0 t

/-! ### RS-FEC, flow control, RETA and the full bring-up (`reset_utils_fixed.c`) -/

def CMAC_OFFSET_RSFEC_CONF_ENABLE (i : Int) : Int := CMAC_OFFSET i + 0x107C
def CMAC_OFFSET_RSFEC_CONF_IND_CORRECTION (i : Int) : Int := CMAC_OFFSET i + 0x1000

def CMAC_OFFSET_CONF_RX_FC_CTRL_1 (i : Int) : Int := CMAC_OFFSET i + 0x0084
def CMAC_OFFSET_CONF_RX_FC_CTRL_2 (i : Int) : Int := CMAC_OFFSET i + 0x0088
def CMAC_OFFSET_CONF_TX_FC_QNTA_1 (i : Int) : Int := CMAC_OFFSET i + 0x0048
def CMAC_OFFSET_CONF_TX_FC_QNTA_2 (i : Int) : Int := CMAC_OFFSET i + 0x004C
def CMAC_OFFSET_CONF_TX_FC_QNTA_3 (i : Int) : Int := CMAC_OFFSET i + 0x0050
def CMAC_OFFSET_CONF_TX_FC_QNTA_4 (i : Int) : Int := CMAC_OFFSET i + 0x0054
def CMAC_OFFSET_CONF_TX_FC_QNTA_5 (i : Int) : Int := CMAC_OFFSET i + 0x0058
def CMAC_OFFSET_CONF_TX_FC_RFRH_1 (i : Int) : Int := CMAC_OFFSET i + 0x0034
def CMAC_OFFSET_CONF_TX_FC_RFRH_2 (i : Int) : Int := CMAC_OFFSET i + 0x0038
def CMAC_OFFSET_CONF_TX_FC_RFRH_3 (i : Int) : Int := CMAC_OFFSET i + 0x003C
def CMAC_OFFSET_CONF_TX_FC_RFRH_4 (i : Int) : Int := CMAC_OFFSET i + 0x0040
def CMAC_OFFSET_CONF_TX_FC_RFRH_5 (i : Int) : Int := CMAC_OFFSET i + 0x0044
def CMAC_OFFSET_CONF_TX_FC_CTRL_1 (i : Int) : Int := CMAC_OFFSET i + 0x0030

def QDMA_FUNC_OFFSET : Int := 0x1000
def QDMA_FUNC_OFFSET_QCONF (i : Int) : Int := QDMA_FUNC_OFFSET + (0x1000 * i) + 0x0
def QDMA_FUNC_OFFSET_INDIR_TABLE (i k : Int) : Int :=
  QDMA_FUNC_OFFSET + (0x1000 * i) + 0x400 + (k * 4)

/-- Enables RS-FEC: two stores, stopping at the first failure. -/
def configure_cmac_rsfec (pcie_base : Nat) (port_id : Int) (_verbose : Int) (t : Trace) :
    Int × Trace :=
  match safe_write32_data pcie_base (CMAC_OFFSET_RSFEC_CONF_ENABLE port_id) 0x3 t with
  | (ret, t1) =>
    if ret ≠ 0 then (ret, t1)
    else
      match safe_write32_data pcie_base (CMAC_OFFSET_RSFEC_CONF_IND_CORRECTION port_id) 0x7 t1 with
      | (ret2, t2) => if ret2 ≠ 0 then (ret2, t2) else (0, t2)

/-- The stores of `configure_cmac_flow_control`, in program order, as
(offset, value). -/
def flow_control_stores (port_id : Int) : List (Int × Nat) :=
  [(CMAC_OFFSET_CONF_RX_FC_CTRL_1 port_id, 0x00003DFF),
   (CMAC_OFFSET_CONF_RX_FC_CTRL_2 port_id, 0x0001C631),
   (CMAC_OFFSET_CONF_TX_FC_QNTA_1 port_id, 0xFFFFFFFF),
   (CMAC_OFFSET_CONF_TX_FC_QNTA_2 port_id, 0xFFFFFFFF),
   (CMAC_OFFSET_CONF_TX_FC_QNTA_3 port_id, 0xFFFFFFFF),
   (CMAC_OFFSET_CONF_TX_FC_QNTA_4 port_id, 0xFFFFFFFF),
   (CMAC_OFFSET_CONF_TX_FC_QNTA_5 port_id, 0x0000FFFF),
   (CMAC_OFFSET_CONF_TX_FC_RFRH_1 port_id, 0xFFFFFFFF),
   (CMAC_OFFSET_CONF_TX_FC_RFRH_2 port_id, 0xFFFFFFFF),
   (CMAC_OFFSET_CONF_TX_FC_RFRH_3 port_id, 0xFFFFFFFF),
   (CMAC_OFFSET_CONF_TX_FC_RFRH_4 port_id, 0xFFFFFFFF),
   (CMAC_OFFSET_CONF_TX_FC_RFRH_5 port_id, 0x0000FFFF),
   (CMAC_OFFSET_CONF_TX_FC_CTRL_1 port_id, 0x000001FF),
   (CMAC_OFFSET_CONF_TX_1 port_id, 0x1)]

/-- A run of stores that stops at the first failing one and returns its code:
the `ret = safe_write32_data(...); if (ret != 0) return ret;` chain. -/
def store_chain (pcie_base : Nat) : List (Int × Nat) → Trace → Int × Trace
  | [], t => (0, t)
  | (off, val) :: rest, t =>
    match safe_write32_data pcie_base off val t with
    | (ret, t1) => if ret ≠ 0 then (ret, t1) else store_chain pcie_base rest t1

/-- Programs the RX and TX flow-control registers and enables TX last. -/
def configure_cmac_flow_control (pcie_base : Nat) (port_id : Int) (_verbose : Int)
    (t : Trace) : Int × Trace :=
  store_chain pcie_base (flow_control_stores port_id) t

/-- The `for (i = 0; i < 128; i++)` loop of `initialize_reta_table`: the
remaining number of entries, the index `i` and the trace.  A failing store is
only reported in verbose mode; the loop goes on. -/
def initialize_reta_table_loop (pcie_base : Nat) (port_id : Int) : Nat → Int → Trace → Trace
  | 0, _, t => t
  | n + 1, i, t =>
    let val : Nat := toU32 (Int.tmod i 64) &&& 0x0000FFFF
    let offset : Nat := toU32 (QDMA_FUNC_OFFSET_INDIR_TABLE port_id i)
    let t1 := (safe_write32_data pcie_base (offset : Int) val t).2
    initialize_reta_table_loop pcie_base port_id n (i + 1) t1

/-- Writes QCONF, then the 128 entries of the indirection table. -/
def initialize_reta_table (pcie_base : Nat) (port_id : Int) (_verbose : Int) (t : Trace) :
    Int × Trace :=
  let qconf_val : Nat := (0 <<< 16) ||| 64
  match safe_write32_data pcie_base (QDMA_FUNC_OFFSET_QCONF port_id) qconf_val t with
  | (ret, t1) =>
    if ret ≠ 0 then (ret, t1)
    else (0, initialize_reta_table_loop pcie_base port_id 128 0 t1)

/-- Full CMAC port reset and re-initialisation. -/
def perform_cmac_reset_with_reinit (hw : Hw) (pcie_base : Nat) (port_id : Int)
    (enable_rsfec : Int) (verbose : Int) (t : Trace) : Option (Int × Trace) :=
  if port_id ≠ 0 ∧ port_id ≠ 1 then some (-EINVAL, t)
  else
    -- step 1: reset
    match perform_cmac_reset hw pcie_base port_id verbose t with
    | none => none
    | some (ret1, t1) =>
      if ret1 ≠ 0 then some (ret1, t1)
      else
        -- step 2: RS-FEC, if enabled
        match (if enable_rsfec ≠ 0 then configure_cmac_rsfec pcie_base port_id verbose t1
               else (0, t1)) with
        | (ret2, t2) =>
          if ret2 ≠ 0 then some (ret2, t2)
          else
            -- step 3: RX/TX
            match configure_cmac_rxtx pcie_base port_id verbose t2 with
            | (ret3, t3) =>
              if ret3 ≠ 0 then some (ret3, t3)
              else
                -- step 4: lane alignment
                match wait_rx_lane_alignment hw pcie_base port_id verbose t3 with
                | none => none
                | some (ret4, t4) =>
                  if ret4 ≠ 0 then some (ret4, t4)
                  else
                    -- step 5: flow control
                    match configure_cmac_flow_control pcie_base port_id verbose t4 with
                    | (ret5, t5) =>
                      if ret5 ≠ 0 then some (ret5, t5)
                      else
                        -- step 6: RETA; a failure is only reported
                        some (0, (initialize_reta_table pcie_base port_id verbose t5).2)

/-! #### The RETA step with its callee as a parameter

The source passes every store of `initialize_reta_table` through
`safe_write32_data`, whose only failures are a null window and an invalid
offset.  To state what the function does when stores fail, the two definitions
below are the same code with the store routine taken as a parameter, and
`perform_cmac_reset_with_reinit_via` is the bring-up with the RETA step taken
as a parameter. -/

/-- The entry loop of `initialize_reta_table`, as `initialize_reta_table_loop`,
where `write offset value` stands for
`safe_write32_data(pcie_base, offset, value)`. -/
def initialize_reta_table_loop_via {σ : Type} (write : Int → Nat → σ → Int × σ)
    (port_id : Int) : Nat → Int → σ → σ
  | 0, _, s => s
  | n + 1, i, s =>
    let val : Nat := toU32 (Int.tmod i 64) &&& 0x0000FFFF
    let offset : Nat := toU32 (QDMA_FUNC_OFFSET_INDIR_TABLE port_id i)
    let s1 := (write (offset : Int) val s).2
    initialize_reta_table_loop_via write port_id n (i + 1) s1

/-- The body of `initialize_reta_table`, as `initialize_reta_table`, where
`write offset value` stands for `safe_write32_data(pcie_base, offset, value)`. -/
def initialize_reta_table_via {σ : Type} (write : Int → Nat → σ → Int × σ)
    (port_id : Int) (_verbose : Int) (s : σ) : Int × σ :=
  let qconf_val : Nat := (0 <<< 16) ||| 64
  match write (QDMA_FUNC_OFFSET_QCONF port_id) qconf_val s with
  | (ret, s1) =>
    if ret ≠ 0 then (ret, s1)
    else (0, initialize_reta_table_loop_via write port_id 128 0 s1)

/-- The body of `perform_cmac_reset_with_reinit`, as
`perform_cmac_reset_with_reinit`, where `reta port_id verbose` stands for
`initialize_reta_table(pcie_base, port_id, verbose)`. -/
def perform_cmac_reset_with_reinit_via (reta : Int → Int → Trace → Int × Trace) (hw : Hw)
    (pcie_base : Nat) (port_id : Int) (enable_rsfec : Int) (verbose : Int) (t : Trace) :
    Option (Int × Trace) :=
  if port_id ≠ 0 ∧ port_id ≠ 1 then some (-EINVAL, t)
  else
    match perform_cmac_reset hw pcie_base port_id verbose t with
    | none => none
    | some (ret1, t1) =>
      if ret1 ≠ 0 then some (ret1, t1)
      else
        match (if enable_rsfec ≠ 0 then configure_cmac_rsfec pcie_base port_id verbose t1
               else (0, t1)) with
        | (ret2, t2) =>
          if ret2 ≠ 0 then some (ret2, t2)
          else
            match configure_cmac_rxtx pcie_base port_id verbose t2 with
            | (ret3, t3) =>
              if ret3 ≠ 0 then some (ret3, t3)
              else
                match wait_rx_lane_alignment hw pcie_base port_id verbose t3 with
                | none => none
                | some (ret4, t4) =>
                  if ret4 ≠ 0 then some (ret4, t4)
                  else
                    match configure_cmac_flow_control pcie_base port_id verbose t4 with
                    | (ret5, t5) =>
                      if ret5 ≠ 0 then some (ret5, t5)
                      else
                        -- step 6: `ret = initialize_reta_table(...)`; a non-zero
                        -- `ret` is only reported, then `return 0`
                        some (0, (reta port_id verbose t5).2)

/-- A store routine that keeps a record of its calls: every call is recorded
as (offset, value, code), and the calls at the offsets of `bad` are refused
with the code `-EINVAL`. -/
def recording_store (bad : Int → Bool) (off : Int) (val : Nat)
    (log : List (Int × Nat × Int)) : Int × List (Int × Nat × Int) :=
  ((if bad off = true then -EINVAL else 0),
    log ++ [(off, val, (if bad off = true then -EINVAL else 0))])

/-- CMAC port reset with RS-FEC enabled. -/
def perform_cmac_reset_fixed (hw : Hw) (pcie_base : Nat) (port_id : Int) (verbose : Int)
    (t : Trace) : Option (Int × Trace) :=
  perform_cmac_reset_with_reinit hw pcie_base port_id 1 verbose t

/-- Shell reset followed by the re-initialisation of both ports; a failing
re-initialisation is only reported. -/
def perform_shell_reset_fixed (hw : Hw) (pcie_base : Nat) (verbose : Int) (t : Trace) :
    Option (Int × Trace) :=
  match perform_shell_reset hw pcie_base verbose t with
  | none => none
  | some (ret, t1) =>
    if ret ≠ 0 then some (ret, t1)
    else
      match perform_cmac_reset_with_reinit hw pcie_base 0 1 verbose t1 with
      | none => none
      | some (_, t2) =>
        match perform_cmac_reset_with_reinit hw pcie_base 1 1 verbose t2 with
        | none => none
        | some (_, t3) => some (0, t3)

/-! ### Reset strategy (`reset_utils_final.c`) -/

/-- The `if (include_reinit)` part of `smart_reset_strategy` and its final
`return 0`.  For `port_id = -1` a failing re-initialisation is only reported. -/
def smart_reset_strategy_reinit (hw : Hw) (pcie_base : Nat) (port_id : Int)
    (include_reinit : Int) (verbose : Int) (t : Trace) : Option (Int × Trace) :=
  if include_reinit ≠ 0 then
    if port_id = -1 then
      match perform_cmac_reset_with_reinit hw pcie_base 0 1 verbose t with
      | none => none
      | some (_, t1) =>
        match perform_cmac_reset_with_reinit hw pcie_base 1 1 verbose t1 with
        | none => none
        | some (_, t2) => some (0, t2)
    else
      match perform_cmac_reset_with_reinit hw pcie_base port_id 1 verbose t with
      | none => none
      | some (ret, t1) => if ret ≠ 0 then some (ret, t1) else some (0, t1)
  else some (0, t)

/-- Reset of one port, or of both for `port_id = -1`, optionally followed by
the re-initialisation.  For `port_id = -1` a failing port reset is only
reported. -/
def smart_reset_strategy (hw : Hw) (pcie_base : Nat) (port_id : Int) (include_reinit : Int)
    (verbose : Int) (t : Trace) : Option (Int × Trace) :=
  if port_id = -1 then
    match perform_cmac_reset_hardware_correct hw pcie_base 0 verbose t with
    | none => none
    | some (_, t1) =>
      match perform_cmac_reset_hardware_correct hw pcie_base 1 verbose t1 with
      | none => none
      | some (_, t2) =>
        smart_reset_strategy_reinit hw pcie_base port_id include_reinit verbose t2
  else
    match perform_cmac_reset_hardware_correct hw pcie_base port_id verbose t with
    | none => none
    | some (ret, t1) =>
      if ret ≠ 0 then some (ret, t1)
      else smart_reset_strategy_reinit hw pcie_base port_id include_reinit verbose t1

/-! ### Single-operation mode of `reset_test.c` -/

/-- The fields of `reset_config_t` that `perform_reset_operation` looks at. -/
structure reset_config_t where
  reset_type : reset_type_t
  force_reset : Int
  verbose_mode : Int
  interactive_mode : Int
  status_only : Int

/-- Confirmation prompt of `reset_utils.c`.  `reply` is the line that `fgets`
read from the standard input, `none` when it returned `NULL`; the answer is 1
when the first character is `y` or `Y`, otherwise 0. -/
def confirm_reset_operation (_reset_type : reset_type_t) (reply : Option String) : Int :=
  match reply with
  | none => 0
  | some input =>
    match input.data with
    | [] => 0
    | c :: _ => if c = 'y' ∨ c = 'Y' then 1 else 0

/-- The `switch (config->reset_type)` of `perform_reset_operation` and the
return of its result. -/
def perform_reset_switch (hw : Hw) (config : reset_config_t) (pcie_base : Nat) (t : Trace) :
    Option (Int × Trace) :=
  match config.reset_type with
  | .RESET_TYPE_SYSTEM => perform_system_reset hw pcie_base config.verbose_mode t
  | .RESET_TYPE_SHELL => perform_shell_reset hw pcie_base config.verbose_mode t
  | .RESET_TYPE_USER => perform_user_reset hw pcie_base config.verbose_mode t
  | .RESET_TYPE_CMAC_PORT0 => perform_cmac_reset hw pcie_base 0 config.verbose_mode t
  | .RESET_TYPE_CMAC_PORT1 => perform_cmac_reset hw pcie_base 1 config.verbose_mode t
  | .RESET_TYPE_CMAC_GT_PORT0 => some (perform_cmac_gt_reset pcie_base 0 config.verbose_mode t)
  | .RESET_TYPE_CMAC_GT_PORT1 => some (perform_cmac_gt_reset pcie_base 1 config.verbose_mode t)
  | .RESET_TYPE_MAX => some (-EINVAL, t)

/-- Single reset operation of `reset_test.c`: asks for confirmation unless the
reset is forced or the configuration is status-only, then runs the reset of
the configured type. -/
def perform_reset_operation (hw : Hw) (config : reset_config_t) (pcie_base : Nat)
    (reply : Option String) (t : Trace) : Option (Int × Trace) :=
  if config.force_reset = 0 ∧ config.status_only = 0 then
    if confirm_reset_operation config.reset_type reply = 0 then some (0, t)
    else perform_reset_switch hw config pcie_base t
  else perform_reset_switch hw config pcie_base t

/-- The operation block at the end of `main` of `reset_test.c` (window
mapped): the interactive menu, the status display, or the single reset
operation followed by the status display.  `interactive` stands for
`interactive_reset_mode`, whose menu loop is not modelled.  This is the only
call of `perform_reset_operation`. -/
def main_operation (hw : Hw) (config : reset_config_t) (pcie_base : Nat)
    (interactive : Trace → Option (Int × Trace)) (reply : Option String) (t : Trace) :
    Option (Int × Trace) :=
  if config.interactive_mode ≠ 0 then interactive t
  else if config.status_only ≠ 0 then some (display_all_reset_status hw pcie_base t)
  else
    match perform_reset_operation hw config pcie_base reply t with
    | none => none
    | some (ret, t1) =>
      if ret = 0 ∧ config.status_only = 0 then
        some (ret, (display_all_reset_status hw pcie_base t1).2)
      else some (ret, t1)

/-! ### Vocabulary for the bring-up properties -/

/-- The flow-control registers of a port: RX FC control 1 and 2, TX quanta
1 to 5, TX refresh 1 to 5 and TX FC control. -/
def is_flow_control_offset (port_id : Int) (off : Int) : Bool :=
  decide (off ∈ [CMAC_OFFSET_CONF_RX_FC_CTRL_1 port_id, CMAC_OFFSET_CONF_RX_FC_CTRL_2 port_id,
    CMAC_OFFSET_CONF_TX_FC_QNTA_1 port_id, CMAC_OFFSET_CONF_TX_FC_QNTA_2 port_id,
    CMAC_OFFSET_CONF_TX_FC_QNTA_3 port_id, CMAC_OFFSET_CONF_TX_FC_QNTA_4 port_id,
    CMAC_OFFSET_CONF_TX_FC_QNTA_5 port_id, CMAC_OFFSET_CONF_TX_FC_RFRH_1 port_id,
    CMAC_OFFSET_CONF_TX_FC_RFRH_2 port_id, CMAC_OFFSET_CONF_TX_FC_RFRH_3 port_id,
    CMAC_OFFSET_CONF_TX_FC_RFRH_4 port_id, CMAC_OFFSET_CONF_TX_FC_RFRH_5 port_id,
    CMAC_OFFSET_CONF_TX_FC_CTRL_1 port_id])

/-- The 128 entries of the indirection (RETA) table of a port. -/
def is_reta_offset (port_id : Int) (off : Int) : Bool :=
  (List.range 128).any fun k => decide (off = QDMA_FUNC_OFFSET_INDIR_TABLE port_id k)

/-- The stores of a trace that go to a flow-control register or to a RETA
entry of the port. -/
def fc_reta_writes (port_id : Int) (t : Trace) : List (Int × Nat) :=
  (writes t).filter fun w => is_flow_control_offset port_id w.1 || is_reta_offset port_id w.1

/-- The stores of `configure_cmac_flow_control` as events. -/
def flow_control_trace (port_id : Int) : Trace :=
  (flow_control_stores port_id).map fun w => Event.write w.1 w.2

/-- The stores of `initialize_reta_table` as events: QCONF with 64 queues, then
entry `k` of the indirection table with `k mod 64`, for `k` from 0 to 127. -/
def reta_trace (port_id : Int) : Trace :=
  Event.write (QDMA_FUNC_OFFSET_QCONF port_id) 64 ::
    (List.range 128).map fun (k : Nat) =>
      Event.write (QDMA_FUNC_OFFSET_INDIR_TABLE port_id (k : Int)) (k % 64)

/-- The events of the reset escalation inside the lane-alignment loop: the
store of the baseline CMAC reset, its status polling, and the RX and TX enable
stores. -/
def escalation_trace (port_id : Int) (vals : List Nat) (last : Option Nat) : Trace :=
  [Event.write 0xC (if port_id = 0 then 0x10 else 0x100)] ++ status_polls vals last
    ++ [Event.write (CMAC_OFFSET_CONF_RX_1 port_id) 0x1,
        Event.write (CMAC_OFFSET_CONF_TX_1 port_id) 0x10]

/-- The stores of the RS-FEC step of the bring-up as events: both stores of
`configure_cmac_rsfec` when RS-FEC is requested, nothing otherwise. -/
def rsfec_trace (port_id enable_rsfec : Int) : Trace :=
  if enable_rsfec ≠ 0 then
    [Event.write (CMAC_OFFSET_RSFEC_CONF_ENABLE port_id) 0x3,
     Event.write (CMAC_OFFSET_RSFEC_CONF_IND_CORRECTION port_id) 0x7]
  else []

/-- The stores of `configure_cmac_rxtx` as events: RX enable, then TX with the
remote-fault indication. -/
def rxtx_trace (port_id : Int) : Trace :=
  [Event.write (CMAC_OFFSET_CONF_RX_1 port_id) 0x1,
   Event.write (CMAC_OFFSET_CONF_TX_1 port_id) 0x10]

/-- The stores of a trace that go to one of the two RS-FEC registers of the
port. -/
def rsfec_writes (port_id : Int) (t : Trace) : List (Int × Nat) :=
  (writes t).filter fun w =>
    decide (w.1 = CMAC_OFFSET_RSFEC_CONF_ENABLE port_id) ||
    decide (w.1 = CMAC_OFFSET_RSFEC_CONF_IND_CORRECTION port_id)

/-- The register offsets named in the reset and bring-up functions for a port:
the System, Shell and User reset and status registers, the GT reset, RS-FEC,
RX/TX, RX-status registers of the port, the registers of
`configure_cmac_flow_control`, QCONF and the 128 entries of the indirection
table. -/
def bring_up_offsets (port_id : Int) : List Int :=
  [SYSCFG_OFFSET_SYSTEM_RESET, SYSCFG_OFFSET_SYSTEM_STATUS, SYSCFG_OFFSET_SHELL_RESET,
   SYSCFG_OFFSET_SHELL_STATUS, SYSCFG_OFFSET_USER_RESET, SYSCFG_OFFSET_USER_STATUS,
   CMAC_OFFSET_GT_RESET port_id, CMAC_OFFSET_RSFEC_CONF_ENABLE port_id,
   CMAC_OFFSET_RSFEC_CONF_IND_CORRECTION port_id, CMAC_OFFSET_CONF_RX_1 port_id,
   CMAC_OFFSET_CONF_TX_1 port_id, CMAC_OFFSET_STAT_RX_STATUS port_id]
  ++ (flow_control_stores port_id).map Prod.fst
  ++ [QDMA_FUNC_OFFSET_QCONF port_id]
  ++ (List.range 128).map fun (k : Nat) => QDMA_FUNC_OFFSET_INDIR_TABLE port_id (k : Int)

/-- The stores of a trace that go to QCONF or to an entry of the indirection
table of the port. -/
def reta_writes (port_id : Int) (t : Trace) : List (Int × Nat) :=
  (writes t).filter fun w =>
    decide (w.1 = QDMA_FUNC_OFFSET_QCONF port_id) || is_reta_offset port_id w.1

end Reconic.ResetTool

/-! ## Register test tool: `register_utils.h`, `register_utils.c` -/

namespace Reconic.RegisterTool

/-- Size of the mapped window of the register test tool (`register_utils.h`). -/
def REG_MAP_SIZE : Nat := 0x00400000

/-- Offset validation of `register_utils.c`; the parameter is a `uint32_t`. -/
def is_valid_register_offset (offset : Nat) : Int :=
  if offset ≥ REG_MAP_SIZE then 0
  else if offset &&& 0x3 ≠ 0 then 0
  else 1

/-- Store of `register_utils.c`.  The `off_t` offset is converted to the
`uint32_t` parameter of `is_valid_register_offset`; the address is computed
from the `off_t` value. -/
def safe_write32_data (pcie_axil_base : Nat) (offset : Int) (value : Nat) (t : Trace) :
    Int × Trace :=
  if pcie_axil_base = 0 then (-EINVAL, t)
  else if is_valid_register_offset (toU32 offset) = 0 then (-EINVAL, t)
  else (0, t ++ [Event.write offset (value % 2 ^ 32)])

/-- Load of `register_utils.c`. -/
def safe_read32_data (hw : Hw) (pcie_axil_base : Nat) (offset : Int) (value : Nat)
    (t : Trace) : Int × Option Nat × Trace :=
  if pcie_axil_base = 0 ∨ value = 0 then (-EINVAL, none, t)
  else if is_valid_register_offset (toU32 offset) = 0 then (-EINVAL, none, t)
  else
    let v := hw t offset % 2 ^ 32
    (0, some v, t ++ [Event.read offset v])

/-! ### Command line of `register_test.c` -/

/-- Value of `EPERM` on Linux. -/
def EPERM : Int := 1

/-- Value of `EIO` on Linux. -/
def EIO : Int := 5

/-- One result of `getopt_long` in `main`, with the option argument as read:
for `-r`, `-w` and `-v` the `uint64_t` that `getopt_integer` returned for it. -/
inductive cmd_opt_t
  | d (optarg : String)
  | p (optarg : String)
  | r (value : Nat)
  | w (value : Nat)
  | v (value : Nat)
  | i
  | V
  | h
  | other
deriving DecidableEq, Repr

/-- The fields of `register_access_t` that `main` sets from the options. -/
structure register_access_t where
  register_offset : Nat
  register_value : Nat
  is_write_operation : Int
  verbose_mode : Int
  interactive_mode : Int
deriving DecidableEq, Repr

/-- The option loop of `main`: the configuration and `operation_specified`
after the options, or the value of `ret` at the jump to `cleanup` (`-h` and
unknown options). -/
def parse_options : List cmd_opt_t → register_access_t → Int →
    Except Int (register_access_t × Int)
  | [], config, operation_specified => .ok (config, operation_specified)
  | .d _ :: rest, config, operation_specified => parse_options rest config operation_specified
  | .p _ :: rest, config, operation_specified => parse_options rest config operation_specified
  | .r value :: rest, config, _ =>
    parse_options rest
      { config with register_offset := value % 2 ^ 32, is_write_operation := 0 } 1
  | .w value :: rest, config, _ =>
    parse_options rest
      { config with register_offset := value % 2 ^ 32, is_write_operation := 1 } 1
  | .v value :: rest, config, operation_specified =>
    parse_options rest { config with register_value := value % 2 ^ 32 } operation_specified
  | .i :: rest, config, _ => parse_options rest { config with interactive_mode := 1 } 1
  | .V :: rest, config, operation_specified =>
    parse_options rest { config with verbose_mode := 1 } operation_specified
  | .h :: _, _, _ => .error 0
  | .other :: _, _, _ => .error (-EINVAL)

/-- Single register read of `register_test.c`. -/
def perform_register_read (hw : Hw) (config : register_access_t) (pcie_axil_base : Nat)
    (t : Trace) : Int × Trace :=
  match safe_read32_data hw pcie_axil_base (config.register_offset : Int) 1 t with
  | (ret, _, t1) => if ret ≠ 0 then (ret, t1) else (0, t1)

/-- Single register write of `register_test.c`: load of the current value,
the store, and the load of the value for the comparison that is printed. -/
def perform_register_write (hw : Hw) (config : register_access_t) (pcie_axil_base : Nat)
    (t : Trace) : Int × Trace :=
  let t1 := (safe_read32_data hw pcie_axil_base (config.register_offset : Int) 1 t).2.2
  match safe_write32_data pcie_axil_base (config.register_offset : Int)
      config.register_value t1 with
  | (ret, t2) =>
    if ret ≠ 0 then (ret, t2)
    else (0, (safe_read32_data hw pcie_axil_base (config.register_offset : Int) 1 t2).2.2)

/-- The `main` of `register_test.c` after `getopt_long` has split the command
line: `opts` are the options in order, `optind` and `argc` the index of the
first operand and the number of arguments; `euid` is the effective user id,
`pcie_mapped_addr` the result of the mapping (0 for `NULL`), and
`interactive` the behaviour of the interactive mode. -/
def main (hw : Hw) (opts : List cmd_opt_t) (optind argc : Int) (euid : Nat)
    (pcie_mapped_addr : Nat) (interactive : Trace → Int × Trace) (t : Trace) : Int × Trace :=
  match parse_options opts ⟨0, 0, 0, 0, 0⟩ 0 with
  | .error ret => (ret, t)
  | .ok (config, operation_specified) =>
    if operation_specified = 0 then (-EINVAL, t)
    else if config.is_write_operation ≠ 0 ∧ config.register_value = 0 ∧ optind = argc then
      (-EINVAL, t)
    else if euid ≠ 0 then (-EPERM, t)
    else if pcie_mapped_addr = 0 then (- EIO, t)
    else if config.interactive_mode ≠ 0 then interactive t
    else if config.is_write_operation ≠ 0 then
      perform_register_write hw config pcie_mapped_addr t
    else perform_register_read hw config pcie_mapped_addr t

end Reconic.RegisterTool

/-! ## DMA test tool: `dma_test.c` -/

namespace Reconic.DmaTest

/-- Value of `ENOMEM` on Linux. -/
def ENOMEM : Int := 12

/-- The two transfer functions of `dma_utils.h` that `dma_test.c` calls, over a
device state `σ`.  A host buffer is a function from byte index to byte value.
`write_from_buffer state buffer size addr` returns the `ssize_t` result and the
new device state; `read_to_buffer state buffer size addr` also returns the
buffer as the transfer left it. -/
structure Transport (σ : Type) where
  write_from_buffer : σ → (Nat → Nat) → Nat → Nat → Int × σ
  read_to_buffer : σ → (Nat → Nat) → Nat → Nat → Int × (Nat → Nat) × σ

/-- One line of the comparison dump: offset, expected byte, received byte and
whether the line carries the `MISMATCH` mark. -/
structure DumpRow where
  offset : Nat
  golden : Nat
  received : Nat
  mismatch : Bool
deriving DecidableEq, Repr

/-- What a run of the test did, cycle by cycle (cycles are numbered from 0). -/
inductive Step
  | wrote (cycle : Nat) (data : List Nat)
  | read_back (cycle : Nat) (data : List Nat)
  | verified (cycle : Nat)
  | mismatch (cycle : Nat) (rows : List DumpRow) (truncated : Bool)
  | write_failed (cycle : Nat)
  | read_failed (cycle : Nat)
deriving DecidableEq, Repr

/-- The first `size` bytes of a buffer, as unsigned chars. -/
def bytes_of (buffer : Nat → Nat) (size : Nat) : List Nat :=
  (List.range size).map fun j => buffer j % 256

/-- Byte `j` of the golden data of cycle `i`: `(char)((i + j) & 0xFF)`, the sum
taken in `uint64_t`. -/
def golden_pattern (i j : Nat) : Nat := ((i + j) % 2 ^ 64) &&& 0xFF

/-- The read buffer after `memset(read_buffer, 0, size)`. -/
def zero_buffer : Nat → Nat := fun _ => 0

/-- Comparison of `n` bytes from index `j` on: 0 when they are all equal,
otherwise the sign of the first difference (the caller tests for 0 only). -/
def memcmp_at (s1 s2 : Nat → Nat) : Nat → Nat → Int
  | _, 0 => 0
  | j, n + 1 =>
    if s1 j % 256 = s2 j % 256 then memcmp_at s1 s2 (j + 1) n
    else if s1 j % 256 < s2 j % 256 then -1 else 1

/-- The `memcmp` of the C library on two buffers. -/
def memcmp (s1 s2 : Nat → Nat) (n : Nat) : Int := memcmp_at s1 s2 0 n

def MAX_DUMP_SIZE : Nat := 256

/-- The comparison dump: one row per byte of the first `min size 256` bytes,
and whether the "dump truncated" line is printed. -/
def dump_buffers (golden_buffer received_buffer : Nat → Nat) (size : Nat) :
    List DumpRow × Bool :=
  let dump_size := if size > MAX_DUMP_SIZE then MAX_DUMP_SIZE else size
  ((List.range dump_size).map fun i =>
      let golden_char := golden_buffer i % 256
      let received_char := received_buffer i % 256
      DumpRow.mk i golden_char received_char (decide (golden_char ≠ received_char)),
   decide (size > dump_size))

/-- Offsets of the rows of a dump that carry the `MISMATCH` mark. -/
def flagged_offsets (rows : List DumpRow) : List Nat :=
  (rows.filter fun r => r.mismatch).map fun r => r.offset

/-- The verification loop `for (i = 0; i < count; i++)`, with the number of
cycles left, the cycle index `i`, the device state and the log so far.  The
result is the value of `rc` at the label `out`. -/
def verification_cycles {σ : Type} (T : Transport σ) (addr size : Nat) :
    Nat → Nat → σ → List Step → Int × List Step × σ
  | 0, _, s, log => (0, log, s)
  | n + 1, i, s, log =>
    -- 1. golden data
    let write_buffer : Nat → Nat := golden_pattern i
    -- 2. host to device
    match T.write_from_buffer s write_buffer size addr with
    | (rc, s1) =>
      if rc < 0 then (rc, log ++ [Step.write_failed i], s1)
      else
        -- 3. device to host
        match T.read_to_buffer s1 zero_buffer size addr with
        | (rc2, read_buffer, s2) =>
          if rc2 < 0 then
            (rc2, log ++ [Step.wrote i (bytes_of write_buffer size), Step.read_failed i], s2)
          else if memcmp write_buffer read_buffer size = 0 then
            -- 4. verified
            verification_cycles T addr size n (i + 1) s2
              (log ++ [Step.wrote i (bytes_of write_buffer size),
                       Step.read_back i (bytes_of read_buffer size), Step.verified i])
          else
            (-1, log ++ [Step.wrote i (bytes_of write_buffer size),
                         Step.read_back i (bytes_of read_buffer size),
                         Step.mismatch i (dump_buffers write_buffer read_buffer size).1
                           (dump_buffers write_buffer read_buffer size).2], s2)

/-- Write-then-read verification of `dma_test.c`.  Whether `open` and the two
`posix_memalign` calls succeed is an input; the `ssize_t` result is returned as
an `int`. -/
def test_dma_with_verification {σ : Type} (T : Transport σ)
    (open_ok alloc_write_ok alloc_read_ok : Bool) (addr size _offset count : Nat) (s : σ) :
    Int × List Step × σ :=
  if open_ok = false then (-EINVAL, [], s)
  else if alloc_write_ok = false then (wrap32 (-ENOMEM), [], s)
  else if alloc_read_ok = false then (wrap32 (-ENOMEM), [], s)
  else
    match verification_cycles T addr size count 0 s [] with
    | (rc, log, s1) => (wrap32 rc, log, s1)

/-- Loopback transport: the device is a byte memory; a write copies `size`
bytes of the buffer to `addr`, a read copies them back; both return `size`. -/
def loopback : Transport (Nat → Nat) where
  write_from_buffer := fun mem buffer size addr =>
    ((size : Int), fun a => if addr ≤ a ∧ a < addr + size then buffer (a - addr) else mem a)
  read_to_buffer := fun mem buffer size addr =>
    ((size : Int), (fun j => if j < size then mem (addr + j) else buffer j), mem)

/-- Loopback transport that corrupts the byte at index `o` of every read. -/
def corrupting_loopback (o : Nat) : Transport (Nat → Nat) where
  write_from_buffer := loopback.write_from_buffer
  read_to_buffer := fun mem buffer size addr =>
    ((size : Int),
     (fun j => if j < size then (if j = o then (mem (addr + j) + 1) % 256 else mem (addr + j))
       else buffer j),
     mem)

end Reconic.DmaTest

/-! ## RDMA read test: `rdma_test/read.c` -/

namespace Reconic.RdmaTest

/-- Constants that `read.c` takes from `reconic.h`, `rdma_api.h` and
`rdma_test.h`. -/
structure header_t where
  HOST_MEM : String
  DEVICE_MEM : String
  QP_LOCATION_DEFAULT : String
  HUGE_PAGE_SHIFT : Nat
  P_KEY : Nat
  R_KEY : Nat
  RNIC_OP_READ : Nat

/-- The `strcmp` of the C library: 0 for equal strings, otherwise the sign of
the first difference. -/
def strcmp (s1 s2 : String) : Int :=
  if s1 = s2 then 0 else if s1 < s2 then -1 else 1

/-- One result of `getopt_long` in `main`, with its option argument. -/
inductive cmd_opt_t
  | d (optarg : String)
  | p (optarg : String)
  | r (optarg : String)
  | i (optarg : String)
  | u (optarg : String)
  | t (optarg : String)
  | q (optarg : String)
  | z (optarg : String)
  | l (optarg : String)
  | s
  | c
  | g
  | h
  | other
deriving DecidableEq, Repr

/-- What the `arp -a` lookup of option `-i` found. -/
inductive arp_result_t
  | popen_failed
  | no_match_found
  | entry (mac : Nat)
  | nothing
deriving DecidableEq, Repr

/-- The variables that the option loop of `main` sets. -/
structure options_t where
  device : String
  pcie_resource : Option String
  src_ip : Nat
  src_ip_str : String
  dst_ip : Nat
  dst_ip_str : String
  dst_mac : Nat
  udp_sport : Nat
  tcp_sport : Nat
  dst_qpid : Nat
  payload_size : Nat
  qp_location : String
  server : Nat
  client : Nat
  debug : Nat
deriving DecidableEq, Repr

/-- Values of the variables before the option loop. -/
def initial_options (hdr : header_t) : options_t :=
  { device := "/dev/reconic-mm", pcie_resource := none, src_ip := 0, src_ip_str := "",
    dst_ip := 0, dst_ip_str := "", dst_mac := 0, udp_sport := 0, tcp_sport := 0,
    dst_qpid := 2, payload_size := 4, qp_location := hdr.QP_LOCATION_DEFAULT,
    server := 0, client := 0, debug := 0 }

/-- How the option loop ended: all options read, or `exit` with a status,
after `usage` or not. -/
inductive parse_result_t
  | proceed (o : options_t)
  | exit (status : Int) (usage_printed : Bool)
deriving DecidableEq, Repr

/-- The option loop of `main`.  `convert_ip_addr_to_uint`, `atoi` and the
`arp -a` lookup are given as functions of the option argument. -/
def parse_options (hdr : header_t) (convert_ip_addr_to_uint : String → Nat)
    (atoi : String → Int) (arp : String → arp_result_t) :
    List cmd_opt_t → options_t → parse_result_t
  | [], o => .proceed o
  | .d optarg :: rest, o =>
    parse_options hdr convert_ip_addr_to_uint atoi arp rest { o with device := optarg }
  | .p optarg :: rest, o =>
    parse_options hdr convert_ip_addr_to_uint atoi arp rest
      { o with pcie_resource := some optarg }
  | .r optarg :: rest, o =>
    parse_options hdr convert_ip_addr_to_uint atoi arp rest
      { o with src_ip := convert_ip_addr_to_uint optarg, src_ip_str := optarg }
  | .i optarg :: rest, o =>
    match arp optarg with
    | .popen_failed => .exit 1 false
    | .no_match_found => .exit 0 false
    | .entry mac =>
      parse_options hdr convert_ip_addr_to_uint atoi arp rest
        { o with dst_ip := convert_ip_addr_to_uint optarg, dst_ip_str := optarg,
                 dst_mac := mac }
    | .nothing =>
      parse_options hdr convert_ip_addr_to_uint atoi arp rest
        { o with dst_ip := convert_ip_addr_to_uint optarg, dst_ip_str := optarg }
  | .u optarg :: rest, o =>
    parse_options hdr convert_ip_addr_to_uint atoi arp rest
      { o with udp_sport := (atoi optarg % 2 ^ 16).toNat }
  | .t optarg :: rest, o =>
    parse_options hdr convert_ip_addr_to_uint atoi arp rest
      { o with tcp_sport := (atoi optarg % 2 ^ 16).toNat }
  | .q optarg :: rest, o =>
    parse_options hdr convert_ip_addr_to_uint atoi arp rest
      { o with dst_qpid := toU32 (atoi optarg) }
  | .z optarg :: rest, o =>
    parse_options hdr convert_ip_addr_to_uint atoi arp rest
      { o with payload_size := toU32 (atoi optarg) }
  | .l optarg :: rest, o =>
    -- qp_location = optarg;
    -- if (!(strcmp(qp_location, HOST_MEM) || strcmp(qp_location, DEVICE_MEM)))
    if ¬ (strcmp optarg hdr.HOST_MEM ≠ 0 ∨ strcmp optarg hdr.DEVICE_MEM ≠ 0) then
      .exit 0 true
    else
      parse_options hdr convert_ip_addr_to_uint atoi arp rest { o with qp_location := optarg }
  | .s :: rest, o =>
    parse_options hdr convert_ip_addr_to_uint atoi arp rest { o with server := 1, client := 0 }
  | .c :: rest, o =>
    parse_options hdr convert_ip_addr_to_uint atoi arp rest { o with server := 0, client := 1 }
  | .g :: rest, o =>
    parse_options hdr convert_ip_addr_to_uint atoi arp rest { o with debug := 1 }
  | .h :: _, _ => .exit 0 true
  | .other :: _, _ => .exit 0 true

/-- A call of the RecoNIC, RDMA or DMA library made by `main`, with the
arguments that matter here. -/
inductive api_call_t
  | create_rn_dev (num_qp : Nat)
  | create_rdma_dev
  | allocate_rdma_buffer (size : Nat) (location : String)
  | open_rdma_dev
  | allocate_rdma_pd
  | allocate_rdma_qp (qpid dst_qpid cq_cidb_addr rq_cidb_addr qdepth : Nat)
      (qp_location : String)
  | config_last_rq_psn (qpid psn : Nat)
  | config_sq_psn (qpid psn : Nat)
  | create_a_wqe (qpid wrid wqe_idx laddr length remote_offset : Nat)
  | rdma_post_send (qpid : Nat)
  | dump_registers (qpid : Nat)
  | read_to_buffer (size addr : Nat)
  | rdma_register_memory_region
  | write_from_buffer (size addr : Nat)
  | destroy_rn_dev
deriving DecidableEq, Repr

/-- What `main` gets from the system and the libraries during a run. -/
structure env_t where
  cidb_dma_addr : Nat
  fpga_fd : Int
  socket_read_rc : Int
  read_A_offset : Nat
  device_buffer_dma_addr : Nat
  is_device_address : Nat → Bool
  read_to_buffer_rc : Int
  received : Nat → Nat
  tmp_buffer_dma_addr : Nat
  write_from_buffer_rc : Int

/-- The `cq_cidb_addr` of `main`: the DMA address of the doorbell buffer. -/
def cq_cidb_addr (env : env_t) : Nat := env.cidb_dma_addr % 2 ^ 64

/-- The `rq_cidb_addr` of `main`: `cidb_buffer->dma_addr + (num_qp<<2)`, with
the 8-bit `num_qp` and the sum in `uint64_t`. -/
def rq_cidb_addr (env : env_t) (num_qp : Nat) : Nat :=
  (env.cidb_dma_addr % 2 ^ 64 + ((num_qp % 256) <<< 2)) % 2 ^ 64

/-- Steps 1 to 5 of `main`: devices, the doorbell buffer, the four system
buffers, the RDMA engine and the protection domain. -/
def setup_calls (hdr : header_t) (num_qp : Nat) : List api_call_t :=
  [.create_rn_dev (num_qp % 256),
   .create_rdma_dev,
   .allocate_rdma_buffer ((1 <<< hdr.HUGE_PAGE_SHIFT) % 2 ^ 32) "host_mem",
   .allocate_rdma_buffer (4096 * 4096) "host_mem",
   .allocate_rdma_buffer 8192 "host_mem",
   .allocate_rdma_buffer (256 * 256) "host_mem",
   .allocate_rdma_buffer 65536 "host_mem",
   .open_rdma_dev,
   .allocate_rdma_pd]

/-- Steps 6 and 7 of `main`: the queue pair `qpid = 2` with `qdepth = 64`, then
its two packet sequence numbers. -/
def qp_calls (o : options_t) (env : env_t) (num_qp : Nat) : List api_call_t :=
  [.allocate_rdma_qp 2 o.dst_qpid (cq_cidb_addr env) (rq_cidb_addr env num_qp) 64
      o.qp_location,
   .config_last_rq_psn 2 0xabc,
   .config_sq_psn 2 (0xabc + 1)]

/-- How a part of `main` is left. -/
inductive flow_t
  | next
  | goto_out
  | returned (ret : Int)
deriving DecidableEq, Repr

/-- The `if (client)` part of `main`. -/
def client_part (o : options_t) (env : env_t) : flow_t × List api_call_t :=
  if o.client ≠ 0 then
    if env.socket_read_rc > 0 then
      let calls1 : List api_call_t :=
        [.allocate_rdma_buffer o.payload_size "dev_mem",
         .create_a_wqe 2 0 0 env.device_buffer_dma_addr o.payload_size env.read_A_offset,
         .rdma_post_send 2,
         .dump_registers 2]
      if env.is_device_address env.device_buffer_dma_addr = true ∧ env.read_to_buffer_rc < 0 then
        (.goto_out, calls1 ++ [.read_to_buffer o.payload_size env.device_buffer_dma_addr])
      else
        let calls2 :=
          if env.is_device_address env.device_buffer_dma_addr = true then
            calls1 ++ [.read_to_buffer o.payload_size env.device_buffer_dma_addr]
          else calls1
        if (List.range (o.payload_size >>> 2)).all
            (fun i => decide (env.received i % 2 ^ 32 = i % 10)) = true then
          (.next, calls2 ++ [.dump_registers 2])
        else (.goto_out, calls2)
    else (.returned (-1), [])
  else (.next, [])

/-- The `if (server)` part of `main`. -/
def server_part (o : options_t) (env : env_t) : flow_t × List api_call_t :=
  if o.server ≠ 0 then
    let calls1 : List api_call_t :=
      [.allocate_rdma_buffer o.payload_size "dev_mem", .rdma_register_memory_region]
    if env.is_device_address env.tmp_buffer_dma_addr = true then
      if env.write_from_buffer_rc < 0 then
        (.goto_out, calls1 ++ [.write_from_buffer o.payload_size env.tmp_buffer_dma_addr])
      else
        (.next, calls1 ++ [.write_from_buffer o.payload_size env.tmp_buffer_dma_addr,
          .dump_registers 2])
    else (.next, calls1 ++ [.dump_registers 2])
  else (.next, [])

/-- The `main` of `read.c` after the option loop: its return value and the
library calls it made, in order.  `num_qp` is the global of that name. -/
def main (hdr : header_t) (o : options_t) (env : env_t) (num_qp : Nat) :
    Int × List api_call_t :=
  if env.fpga_fd < 0 then (-EINVAL, setup_calls hdr num_qp)
  else
    match client_part o env with
    | (.returned ret, calls) => (ret, setup_calls hdr num_qp ++ qp_calls o env num_qp ++ calls)
    | (.goto_out, calls) =>
      (0, setup_calls hdr num_qp ++ qp_calls o env num_qp ++ calls ++ [.destroy_rn_dev])
    | (.next, calls) =>
      match server_part o env with
      | (_, calls2) =>
        (0, setup_calls hdr num_qp ++ qp_calls o env num_qp ++ calls ++ calls2
          ++ [.destroy_rn_dev])

/-- The queue pair on which a call posts work: the `qpid` of `create_a_wqe`
and of `rdma_post_send`. -/
def posts_on : api_call_t → Option Nat
  | .create_a_wqe qpid _ _ _ _ _ => some qpid
  | .rdma_post_send qpid => some qpid
  | _ => none

end Reconic.RdmaTest

/-! ## Theorems -/

namespace Reconic

theorem land64_three (o : Int) : land64 o 0x3 = (o % 4).toNat := by
  unfold land64 bits64
  have h3 : ((0x3 : Int) % 2 ^ 64).toNat = 2 ^ 2 - 1 := by decide
  rw [h3, Nat.and_pow_two_sub_one_eq_mod]
  omega

theorem land64_three_ne_zero (o : Int) : land64 o 0x3 ≠ 0 ↔ o % 4 ≠ 0 := by
  rw [land64_three]
  omega

/-! ## Register access: basic facts -/

theorem wrap32_of_range (x : Int) (h1 : -2147483648 ≤ x) (h2 : x ≤ 2147483647) :
    wrap32 x = x := by
  unfold wrap32
  omega

theorem writes_append (a b : Trace) : writes (a ++ b) = writes a ++ writes b := by
  simp [writes, List.filterMap_append]

theorem reads_at_append (off : Int) (a b : Trace) :
    reads_at off (a ++ b) = reads_at off a + reads_at off b := by
  simp [reads_at, List.countP_append]

namespace ResetTool

/-- An offset the reset tool accepts: inside the 64 KB window and aligned. -/
theorem offset_check_passes (o : Int) (h1 : o < 0x10000) (h2 : o % 4 = 0) :
    ¬ (o ≥ REG_MAP_SIZE ∨ land64 o 0x3 ≠ 0) := by
  rw [land64_three_ne_zero]
  unfold REG_MAP_SIZE
  omega

theorem safe_write32_data_ok (pcie_base : Nat) (o : Int) (v : Nat) (t : Trace)
    (hb : pcie_base ≠ 0) (h1 : o < 0x10000) (h2 : o % 4 = 0) :
    safe_write32_data pcie_base o v t = (0, t ++ [Event.write o (v % 2 ^ 32)]) := by
  unfold safe_write32_data
  rw [if_neg hb, if_neg (offset_check_passes o h1 h2)]

theorem safe_read32_data_ok (hw : Hw) (pcie_base : Nat) (o : Int) (value : Nat) (t : Trace)
    (hb : pcie_base ≠ 0) (hv : value ≠ 0) (h1 : o < 0x10000) (h2 : o % 4 = 0) :
    safe_read32_data hw pcie_base o value t
      = (0, some (hw t o % 2 ^ 32), t ++ [Event.read o (hw t o % 2 ^ 32)]) := by
  unfold safe_read32_data
  rw [if_neg (by simp [hb, hv]), if_neg (offset_check_passes o h1 h2)]

end ResetTool

/-- C1: in the reset tool (window size 0x10000), with a non-null base (and a
non-null output pointer for the load), `safe_write32_data` and
`safe_read32_data` return `-EINVAL` exactly when the offset `o` satisfies
`o >= 0x10000` or `o % 4 != 0`, and return 0 otherwise.  The alignment test is
the same for the C remainder (`Int.tmod`) and the Euclidean one. -/
theorem reset_safe_access_einval_iff (hw : Hw) (pcie_base value : Nat) (o : Int) (v : Nat)
    (t : Trace) (hb : pcie_base ≠ 0) (hv : value ≠ 0) :
    ((ResetTool.safe_write32_data pcie_base o v t).1 = -EINVAL ↔ (o ≥ 0x10000 ∨ o % 4 ≠ 0)) ∧
    ((ResetTool.safe_read32_data hw pcie_base o value t).1 = -EINVAL
      ↔ (o ≥ 0x10000 ∨ o % 4 ≠ 0)) ∧
    (¬ (o ≥ 0x10000 ∨ o % 4 ≠ 0) →
      (ResetTool.safe_write32_data pcie_base o v t).1 = 0 ∧
      (ResetTool.safe_read32_data hw pcie_base o value t).1 = 0) ∧
    (o % 4 ≠ 0 ↔ Int.tmod o 4 ≠ 0) := by
  have hcond : (o ≥ ResetTool.REG_MAP_SIZE ∨ land64 o 0x3 ≠ 0) ↔ (o ≥ 0x10000 ∨ o % 4 ≠ 0) := by
    rw [land64_three_ne_zero]; rfl
  have hbv : ¬ (pcie_base = 0 ∨ value = 0) := by simp [hb, hv]
  refine ⟨?_, ?_, ?_, ?_⟩
  · unfold ResetTool.safe_write32_data
    rw [if_neg hb]
    by_cases hc : o ≥ ResetTool.REG_MAP_SIZE ∨ land64 o 0x3 ≠ 0
    · rw [if_pos hc]; simpa using hcond.mp hc
    · rw [if_neg hc]
      have : ¬ (o ≥ 0x10000 ∨ o % 4 ≠ 0) := fun h => hc (hcond.mpr h)
      simp only [this, iff_false]
      decide
  · unfold ResetTool.safe_read32_data
    rw [if_neg hbv]
    by_cases hc : o ≥ ResetTool.REG_MAP_SIZE ∨ land64 o 0x3 ≠ 0
    · rw [if_pos hc]; simpa using hcond.mp hc
    · rw [if_neg hc]
      have : ¬ (o ≥ 0x10000 ∨ o % 4 ≠ 0) := fun h => hc (hcond.mpr h)
      simp only [this, iff_false]
      decide
  · intro h
    have hc : ¬ (o ≥ ResetTool.REG_MAP_SIZE ∨ land64 o 0x3 ≠ 0) := fun h2 => h (hcond.mp h2)
    unfold ResetTool.safe_write32_data ResetTool.safe_read32_data
    rw [if_neg hb, if_neg hbv, if_neg hc, if_neg hc]
    exact ⟨rfl, rfl⟩
  · rw [not_iff_not, ← Int.dvd_iff_emod_eq_zero, ← Int.dvd_iff_tmod_eq_zero]

/-- Witness for C1: the accepted offset 0x0C and the rejected offsets 0x10000
and 0x0E. -/
theorem reset_safe_access_einval_iff_witness :
    ((ResetTool.safe_write32_data 1 0x0C 5 []).1 = -EINVAL ↔ ((0x0C : Int) ≥ 0x10000 ∨ (0x0C : Int) % 4 ≠ 0)) ∧
    ((ResetTool.safe_write32_data 1 0x10000 5 []).1 = -EINVAL
      ↔ ((0x10000 : Int) ≥ 0x10000 ∨ (0x10000 : Int) % 4 ≠ 0)) ∧
    ((ResetTool.safe_read32_data (fun _ _ => 7) 1 0x0E 1 []).1 = -EINVAL
      ↔ ((0x0E : Int) ≥ 0x10000 ∨ (0x0E : Int) % 4 ≠ 0)) :=
  ⟨(reset_safe_access_einval_iff (fun _ _ => 7) 1 1 0x0C 5 [] (by decide) (by decide)).1,
   (reset_safe_access_einval_iff (fun _ _ => 7) 1 1 0x10000 5 [] (by decide) (by decide)).1,
   (reset_safe_access_einval_iff (fun _ _ => 7) 1 1 0x0E 5 [] (by decide) (by decide)).2.1⟩

/-- C2: the register test tool hands the 64-bit `off_t` offset to
`is_valid_register_offset`, whose parameter is a `uint32_t`.  At the offset
`2^32` the converted value is 0, the check passes, and both functions return 0
after accessing the word `2^32` bytes past the base, outside the 4 MB window. -/
theorem register_tool_offset_truncated :
    RegisterTool.safe_write32_data 1 4294967296 0xDEADBEEF []
      = (0, [Event.write 4294967296 0xDEADBEEF]) ∧
    RegisterTool.safe_read32_data (fun _ _ => 7) 1 4294967296 1 []
      = (0, some 7, [Event.read 4294967296 7]) ∧
    ¬ ((0 : Int) ≤ 4294967296 ∧ (4294967296 : Int) < 0x400000 ∧ (4294967296 : Int) % 4 = 0) := by
  refine ⟨by decide, by decide, by decide⟩

/-- C3: the reset tool tests only `offset >= REG_MAP_SIZE` and the two low
bits of the signed `off_t` offset.  At the offset `-4` both tests pass, and both
functions return 0 after accessing the word 4 bytes below the base. -/
theorem reset_tool_negative_offset_accepted :
    ResetTool.safe_write32_data 1 (-4) 0xDEADBEEF [] = (0, [Event.write (-4) 0xDEADBEEF]) ∧
    ResetTool.safe_read32_data (fun _ _ => 7) 1 (-4) 1 [] = (0, some 7, [Event.read (-4) 7]) ∧
    touched (ResetTool.safe_write32_data 1 (-4) 0xDEADBEEF []).2 = [-4] := by
  refine ⟨by decide, by decide, by decide⟩

/-! ## Self-clear polling (`wait_reset_register_autoclear`) -/

theorem slept_append (a b : Trace) : slept (a ++ b) = slept a + slept b := by
  simp [slept, List.map_append, List.sum_append]

theorem poll_trace_cons (off us : Int) (v : Nat) (vals : List Nat) :
    poll_trace off us (v :: vals)
      = Event.read off v :: Event.usleep us :: poll_trace off us vals := by
  simp [poll_trace, List.flatMap_cons]

theorem poll_trace_nil (off us : Int) : poll_trace off us [] = [] := rfl

theorem writes_poll_trace (off us : Int) (vals : List Nat) :
    writes (poll_trace off us vals) = [] := by
  induction vals with
  | nil => rfl
  | cons v vs ih =>
    rw [poll_trace_cons]
    simpa [writes] using ih

theorem reads_at_poll_trace (off us : Int) (vals : List Nat) :
    reads_at off (poll_trace off us vals) = vals.length := by
  induction vals with
  | nil => rfl
  | cons v vs ih =>
    rw [poll_trace_cons]
    simp only [reads_at] at ih ⊢
    simp [List.countP_cons, ih]

theorem slept_poll_trace (off us : Int) (vals : List Nat) :
    slept (poll_trace off us vals) = vals.length * us := by
  induction vals with
  | nil => simp [poll_trace_nil, slept]
  | cons v vs ih =>
    rw [poll_trace_cons]
    simp only [slept] at ih ⊢
    simp [ih]
    ring

namespace ResetTool

/-- Loop exit: the budget is used up. -/
theorem autoclear_loop_exit (hw : Hw) (pcie_base off mask : Nat) (timeout_ms : Int)
    (fuel : Nat) (elapsed_us : Int) (t : Trace)
    (h : ¬ elapsed_us < wrap32 (timeout_ms * 1000)) :
    wait_reset_register_autoclear_loop hw pcie_base off mask timeout_ms (fuel + 1) elapsed_us t
      = some (-ETIMEDOUT, t) := by
  rw [wait_reset_register_autoclear_loop, if_neg h]

/-- One poll that finds the mask bits clear. -/
theorem autoclear_loop_clear (hw : Hw) (pcie_base off mask : Nat) (timeout_ms : Int)
    (fuel : Nat) (elapsed_us : Int) (t : Trace)
    (hb : pcie_base ≠ 0) (h1 : (off : Int) < 0x10000) (h2 : (off : Int) % 4 = 0)
    (h : elapsed_us < wrap32 (timeout_ms * 1000))
    (hclear : hw t off % 2 ^ 32 &&& mask = 0) :
    wait_reset_register_autoclear_loop hw pcie_base off mask timeout_ms (fuel + 1) elapsed_us t
      = some (0, t ++ [Event.read off (hw t off % 2 ^ 32)]) := by
  rw [wait_reset_register_autoclear_loop, if_pos h,
    safe_read32_data_ok hw pcie_base off LOCAL t hb (by decide) h1 h2]
  simp only [Option.getD_some, hclear, ne_eq, not_true_eq_false, if_false, if_true,
    reduceIte]

/-- One poll that finds a mask bit still set. -/
theorem autoclear_loop_busy (hw : Hw) (pcie_base off mask : Nat) (timeout_ms : Int)
    (fuel : Nat) (elapsed_us : Int) (t : Trace)
    (hb : pcie_base ≠ 0) (h1 : (off : Int) < 0x10000) (h2 : (off : Int) % 4 = 0)
    (h : elapsed_us < wrap32 (timeout_ms * 1000))
    (hbusy : hw t off % 2 ^ 32 &&& mask ≠ 0) :
    wait_reset_register_autoclear_loop hw pcie_base off mask timeout_ms (fuel + 1) elapsed_us t
      = wait_reset_register_autoclear_loop hw pcie_base off mask timeout_ms fuel
          (wrap32 (elapsed_us + 1000))
          (t ++ [Event.read off (hw t off % 2 ^ 32), Event.usleep 1000]) := by
  rw [wait_reset_register_autoclear_loop, if_pos h,
    safe_read32_data_ok hw pcie_base off LOCAL t hb (by decide) h1 h2]
  simp only [Option.getD_some, hbusy, ne_eq, not_true_eq_false, if_false, reduceIte,
    RESET_REGISTER_POLL_INTERVAL_US, List.append_assoc, List.singleton_append]

/-- The register clears on poll `N + 1`: the loop returns 0 after `N` busy
polls and one clear poll. -/
theorem autoclear_loop_succeeds (hw : Hw) (pcie_base off mask : Nat) (timeout_ms : Int)
    (hb : pcie_base ≠ 0) (h1 : (off : Int) < 0x10000) (h2 : (off : Int) % 4 = 0)
    (hT : timeout_ms ≤ 2147483) :
    ∀ (N fuel : Nat) (elapsed_us : Int) (t : Trace), N < fuel → 0 ≤ elapsed_us →
      elapsed_us + N * 1000 < timeout_ms * 1000 →
      (∀ (i : Nat) (t1 : Trace), i < N → reads_at off t1 = reads_at off t + i →
        hw t1 off % 2 ^ 32 &&& mask ≠ 0) →
      (∀ t1 : Trace, reads_at off t1 = reads_at off t + N → hw t1 off % 2 ^ 32 &&& mask = 0) →
      ∃ (vals : List Nat) (v : Nat), vals.length = N ∧ (∀ x ∈ vals, x &&& mask ≠ 0) ∧
        v &&& mask = 0 ∧
        wait_reset_register_autoclear_loop hw pcie_base off mask timeout_ms fuel elapsed_us t
          = some (0, t ++ poll_trace off 1000 vals ++ [Event.read off v]) := by
  intro N
  induction N with
  | zero =>
    intro fuel elapsed_us t hf he hlt _ hclear
    obtain ⟨f, rfl⟩ : ∃ f, fuel = f + 1 := ⟨fuel - 1, by omega⟩
    have hw32 : wrap32 (timeout_ms * 1000) = timeout_ms * 1000 :=
      wrap32_of_range _ (by omega) (by omega)
    have hc := hclear t (by simp)
    refine ⟨[], hw t off % 2 ^ 32, rfl, by simp, hc, ?_⟩
    rw [autoclear_loop_clear hw pcie_base off mask timeout_ms f elapsed_us t hb h1 h2
      (by rw [hw32]; omega) hc]
    simp [poll_trace_nil]
  | succ n ih =>
    intro fuel elapsed_us t hf he hlt hbusy hclear
    obtain ⟨f, rfl⟩ : ∃ f, fuel = f + 1 := ⟨fuel - 1, by omega⟩
    have hw32 : wrap32 (timeout_ms * 1000) = timeout_ms * 1000 :=
      wrap32_of_range _ (by omega) (by omega)
    have hbz := hbusy 0 t (by omega) (by simp)
    have hstep : wrap32 (elapsed_us + 1000) = elapsed_us + 1000 :=
      wrap32_of_range _ (by omega) (by omega)
    have hr : reads_at off (t ++ [Event.read off (hw t off % 2 ^ 32), Event.usleep 1000])
        = reads_at off t + 1 := by
      rw [reads_at_append]; simp [reads_at]
    obtain ⟨vals, v, hlen, hall, hv, heq⟩ := ih f (elapsed_us + 1000)
      (t ++ [Event.read off (hw t off % 2 ^ 32), Event.usleep 1000]) (by omega) (by omega)
      (by push_cast at hlt ⊢; omega)
      (fun i t1 hi hr1 => hbusy (i + 1) t1 (by omega) (by rw [hr1, hr]; omega))
      (fun t1 hr1 => hclear t1 (by rw [hr1, hr]; omega))
    refine ⟨(hw t off % 2 ^ 32) :: vals, v, by simp [hlen], ?_, hv, ?_⟩
    · intro x hx
      rcases List.mem_cons.mp hx with rfl | hx
      · exact hbz
      · exact hall x hx
    · rw [autoclear_loop_busy hw pcie_base off mask timeout_ms f elapsed_us t hb h1 h2
        (by rw [hw32]; omega) hbz, hstep, heq, poll_trace_cons]
      simp

/-- The register never clears: the loop returns `-ETIMEDOUT` after one poll
per millisecond of budget. -/
theorem autoclear_loop_times_out (hw : Hw) (pcie_base off mask : Nat) (timeout_ms : Int)
    (hb : pcie_base ≠ 0) (h1 : (off : Int) < 0x10000) (h2 : (off : Int) % 4 = 0)
    (hT : timeout_ms ≤ 2147483)
    (hnever : ∀ t1 : Trace, hw t1 off % 2 ^ 32 &&& mask ≠ 0) :
    ∀ (n fuel : Nat) (elapsed_us : Int) (t : Trace), n < fuel → 0 ≤ elapsed_us →
      elapsed_us + n * 1000 = timeout_ms * 1000 →
      ∃ vals : List Nat, vals.length = n ∧ (∀ x ∈ vals, x &&& mask ≠ 0) ∧
        wait_reset_register_autoclear_loop hw pcie_base off mask timeout_ms fuel elapsed_us t
          = some (-ETIMEDOUT, t ++ poll_trace off 1000 vals) := by
  intro n
  induction n with
  | zero =>
    intro fuel elapsed_us t hf he heq
    obtain ⟨f, rfl⟩ : ∃ f, fuel = f + 1 := ⟨fuel - 1, by omega⟩
    have hw32 : wrap32 (timeout_ms * 1000) = timeout_ms * 1000 :=
      wrap32_of_range _ (by omega) (by omega)
    refine ⟨[], rfl, by simp, ?_⟩
    rw [autoclear_loop_exit hw pcie_base off mask timeout_ms f elapsed_us t
      (by rw [hw32]; omega)]
    simp [poll_trace_nil]
  | succ k ih =>
    intro fuel elapsed_us t hf he heq
    obtain ⟨f, rfl⟩ : ∃ f, fuel = f + 1 := ⟨fuel - 1, by omega⟩
    have hw32 : wrap32 (timeout_ms * 1000) = timeout_ms * 1000 :=
      wrap32_of_range _ (by omega) (by omega)
    have hstep : wrap32 (elapsed_us + 1000) = elapsed_us + 1000 :=
      wrap32_of_range _ (by omega) (by omega)
    obtain ⟨vals, hlen, hall, hres⟩ := ih f (elapsed_us + 1000)
      (t ++ [Event.read off (hw t off % 2 ^ 32), Event.usleep 1000]) (by omega) (by omega)
      (by push_cast at heq ⊢; omega)
    refine ⟨(hw t off % 2 ^ 32) :: vals, by simp [hlen], ?_, ?_⟩
    · intro x hx
      rcases List.mem_cons.mp hx with rfl | hx
      · exact hnever t
      · exact hall x hx
    · rw [autoclear_loop_busy hw pcie_base off mask timeout_ms f elapsed_us t hb h1 h2
        (by rw [hw32]; push_cast at heq; omega) (hnever t), hstep, hres, poll_trace_cons]
      simp

/-- Where the product `timeout_ms * 1000` fits an `int`, the function is its
polling loop started with no time elapsed. -/
theorem wait_reset_register_autoclear_eq_loop (hw : Hw) (pcie_base off mask : Nat)
    (timeout_ms : Int) (t : Trace) (h1 : -2147483 ≤ timeout_ms) (h2 : timeout_ms ≤ 2147483) :
    wait_reset_register_autoclear hw pcie_base off mask timeout_ms t
      = wait_reset_register_autoclear_loop hw pcie_base off mask timeout_ms LOOP_FUEL 0 t := by
  unfold wait_reset_register_autoclear
  rw [if_neg (by omega)]

end ResetTool

/-- C4: for every mask, every budget `timeout_ms` whose product
`timeout_ms * 1000` (the bound of the loop) fits an `int`, and every `N` with
`0 <= N < timeout_ms`, if the register reads with `(value & mask) != 0` on
its first `N` polls and `(value & mask) == 0` on poll `N + 1`,
`wait_reset_register_autoclear` returns 0 after exactly `N + 1` loads of the
register, each of the first `N` followed by one sleep of 1000 us (time slept
`N * 1000` us), and stores nothing.  Polls are counted by the number of loads
of the register in the history.  The function is `static` and its three
callers pass the budget 10000. -/
theorem autoclear_succeeds_after_N_polls (hw : Hw)
    (pcie_base reset_reg_offset reset_mask : Nat) (timeout_ms : Int) (N : Nat) (t : Trace)
    (hb : pcie_base ≠ 0) (h1 : (reset_reg_offset : Int) < 0x10000)
    (h2 : (reset_reg_offset : Int) % 4 = 0)
    (hN : (N : Int) < timeout_ms) (hT : timeout_ms * 1000 ≤ 2147483647)
    (hbusy : ∀ (i : Nat) (t1 : Trace), i < N →
      reads_at reset_reg_offset t1 = reads_at reset_reg_offset t + i →
      hw t1 reset_reg_offset % 2 ^ 32 &&& reset_mask ≠ 0)
    (hclear : ∀ t1 : Trace, reads_at reset_reg_offset t1 = reads_at reset_reg_offset t + N →
      hw t1 reset_reg_offset % 2 ^ 32 &&& reset_mask = 0) :
    ∃ (vals : List Nat) (v : Nat) (t2 : Trace),
      ResetTool.wait_reset_register_autoclear hw pcie_base reset_reg_offset reset_mask
        timeout_ms t = some (0, t2) ∧
      t2 = t ++ poll_trace reset_reg_offset 1000 vals ++ [Event.read reset_reg_offset v] ∧
      vals.length = N ∧
      reads_at reset_reg_offset t2 = reads_at reset_reg_offset t + (N + 1) ∧
      slept t2 = slept t + N * 1000 ∧
      writes t2 = writes t := by
  have hT2 : timeout_ms ≤ 2147483 := by omega
  obtain ⟨vals, v, hlen, _, _, hres⟩ :=
    ResetTool.autoclear_loop_succeeds hw pcie_base reset_reg_offset reset_mask timeout_ms
      hb h1 h2 hT2 N LOOP_FUEL 0 t (by unfold LOOP_FUEL; omega) (le_refl 0) (by omega)
      hbusy hclear
  rw [ResetTool.wait_reset_register_autoclear_eq_loop _ _ _ _ _ _ (by omega) hT2]
  refine ⟨vals, v, _, hres, rfl, hlen, ?_, ?_, ?_⟩
  · rw [reads_at_append, reads_at_append, reads_at_poll_trace, hlen]
    simp [reads_at]
    omega
  · rw [slept_append, slept_append, slept_poll_trace, hlen]
    simp [slept]
  · rw [writes_append, writes_append, writes_poll_trace]
    simp [writes]

/-- Witness for C4: a register at 0x0C that holds 0x30 for two polls and then
reads 0, polled with the default budget of 10000 ms. -/
theorem autoclear_succeeds_after_N_polls_witness :
    ∃ (vals : List Nat) (v : Nat) (t2 : Trace),
      ResetTool.wait_reset_register_autoclear
        (fun t _ => if reads_at 0xC t < 2 then 0x30 else 0) 1 0xC 0x30 10000 [] = some (0, t2) ∧
      t2 = [] ++ poll_trace ((0xC : Nat) : Int) 1000 vals ++ [Event.read ((0xC : Nat) : Int) v] ∧
      vals.length = 2 ∧
      reads_at ((0xC : Nat) : Int) t2 = reads_at ((0xC : Nat) : Int) [] + (2 + 1) ∧
      slept t2 = slept [] + (2 : Nat) * 1000 ∧
      writes t2 = writes [] :=
  autoclear_succeeds_after_N_polls (fun t _ => if reads_at 0xC t < 2 then 0x30 else 0)
    1 0xC 0x30 10000 2 [] (by decide) (by decide) (by decide) (by decide) (by decide)
    (fun i t1 hi hr => by
      have h0 : reads_at ((0xC : Nat) : Int) ([] : Trace) = 0 := rfl
      have hlt : reads_at 0xC t1 < 2 := by
        have : reads_at ((0xC : Nat) : Int) t1 < 2 := by rw [hr, h0]; omega
        simpa using this
      simp only [hlt, if_true]
      decide)
    (fun t1 hr => by
      have h0 : reads_at ((0xC : Nat) : Int) ([] : Trace) = 0 := rfl
      have hge : ¬ reads_at 0xC t1 < 2 := by
        have : ¬ reads_at ((0xC : Nat) : Int) t1 < 2 := by rw [hr, h0]; omega
        simpa using this
      simp only [hge, if_false]
      decide)

namespace ResetTool

/-- Top-level form of `autoclear_loop_times_out`. -/
theorem autoclear_times_out (hw : Hw) (pcie_base off mask : Nat) (timeout_ms : Int) (t : Trace)
    (hb : pcie_base ≠ 0) (h1 : (off : Int) < 0x10000) (h2 : (off : Int) % 4 = 0)
    (h0 : 0 ≤ timeout_ms) (hT : timeout_ms ≤ 2147483)
    (hnever : ∀ t1 : Trace, hw t1 off % 2 ^ 32 &&& mask ≠ 0) :
    ∃ vals : List Nat, (vals.length : Int) = timeout_ms ∧
      wait_reset_register_autoclear hw pcie_base off mask timeout_ms t
        = some (-ETIMEDOUT, t ++ poll_trace off 1000 vals) := by
  obtain ⟨vals, hlen, _, hres⟩ :=
    autoclear_loop_times_out hw pcie_base off mask timeout_ms hb h1 h2 hT hnever
      timeout_ms.toNat LOOP_FUEL 0 t (by unfold LOOP_FUEL; omega) (le_refl 0) (by omega)
  rw [wait_reset_register_autoclear_eq_loop _ _ _ _ _ _ (by omega) hT]
  exact ⟨vals, by omega, hres⟩

/-- The pre-reset status load done in verbose mode adds loads only. -/
theorem verbose_status_read (hw : Hw) (pcie_base : Nat) (off : Int) (verbose : Int) (t : Trace) :
    ∃ pre : Trace, writes pre = [] ∧ slept pre = 0 ∧
      (if verbose ≠ 0 then (safe_read32_data hw pcie_base off LOCAL t).2.2 else t) = t ++ pre := by
  by_cases hv : verbose ≠ 0
  · rw [if_pos hv]
    unfold safe_read32_data
    split_ifs
    · exact ⟨[], rfl, rfl, by simp⟩
    · exact ⟨[], rfl, rfl, by simp⟩
    · exact ⟨[Event.read off (hw t off % 2 ^ 32)], rfl, rfl, rfl⟩
  · rw [if_neg hv]
    exact ⟨[], rfl, rfl, by simp⟩

/-- The three status loads of `display_all_reset_status` add loads only. -/
theorem display_all_reset_status_reads (hw : Hw) (pcie_base : Nat) (t : Trace) :
    ∃ pre : Trace, writes pre = [] ∧ slept pre = 0 ∧
      (display_all_reset_status hw pcie_base t).2 = t ++ pre := by
  unfold display_all_reset_status
  obtain ⟨p1, hw1, hs1, e1⟩ := verbose_status_read hw pcie_base SYSCFG_OFFSET_SYSTEM_STATUS 1 t
  rw [if_pos (by decide)] at e1
  obtain ⟨p2, hw2, hs2, e2⟩ :=
    verbose_status_read hw pcie_base SYSCFG_OFFSET_SHELL_STATUS 1 (t ++ p1)
  rw [if_pos (by decide)] at e2
  obtain ⟨p3, hw3, hs3, e3⟩ :=
    verbose_status_read hw pcie_base SYSCFG_OFFSET_USER_STATUS 1 (t ++ p1 ++ p2)
  rw [if_pos (by decide)] at e3
  refine ⟨p1 ++ p2 ++ p3, ?_, ?_, ?_⟩
  · simp [writes_append, hw1, hw2, hw3]
  · simp [slept_append, hs1, hs2, hs3]
  · show (safe_read32_data hw pcie_base SYSCFG_OFFSET_USER_STATUS LOCAL
        (safe_read32_data hw pcie_base SYSCFG_OFFSET_SHELL_STATUS LOCAL
          (safe_read32_data hw pcie_base SYSCFG_OFFSET_SYSTEM_STATUS LOCAL t).2.2).2.2).2.2
      = t ++ (p1 ++ p2 ++ p3)
    rw [e1, e2, e3]
    simp only [List.append_assoc]

end ResetTool

/-- C5: if the reset register never reads with `(value & mask) == 0`,
`wait_reset_register_autoclear` with a budget `0 <= timeout_ms <= 2147483`
returns `-ETIMEDOUT` after exactly `timeout_ms` polls (a load followed by a
1000 us sleep each).  With the default budget of 10000 ms the three
hardware-correct resets then return `-ETIMEDOUT` after 10000 polls; the last
poll is the last thing in their trace, so neither the stabilisation sleep nor
the status verification load is reached.  `pre` is what precedes the reset
store: the status loads printed in verbose mode. -/
theorem autoclear_never_clear_times_out (hw : Hw) (pcie_base : Nat) (hb : pcie_base ≠ 0) :
    (∀ (reset_reg_offset reset_mask : Nat) (timeout_ms : Int) (t : Trace),
      (reset_reg_offset : Int) < 0x10000 → (reset_reg_offset : Int) % 4 = 0 →
      0 ≤ timeout_ms → timeout_ms ≤ 2147483 →
      (∀ t1 : Trace, hw t1 reset_reg_offset % 2 ^ 32 &&& reset_mask ≠ 0) →
      ∃ vals : List Nat, (vals.length : Int) = timeout_ms ∧
        ResetTool.wait_reset_register_autoclear hw pcie_base reset_reg_offset reset_mask
          timeout_ms t = some (-ETIMEDOUT, t ++ poll_trace reset_reg_offset 1000 vals)) ∧
    (∀ (port_id verbose : Int) (t : Trace), port_id = 0 ∨ port_id = 1 →
      (∀ t1 : Trace, hw t1 0xC % 2 ^ 32 &&& (if port_id = 0 then 0x30 else 0x300) ≠ 0) →
      ∃ (pre : Trace) (vals : List Nat), writes pre = [] ∧ slept pre = 0 ∧
        vals.length = 10000 ∧
        ResetTool.perform_cmac_reset_hardware_correct hw pcie_base port_id verbose t
          = some (-ETIMEDOUT, t ++ pre
              ++ [Event.write 0xC (if port_id = 0 then 0x30 else 0x300)]
              ++ poll_trace 0xC 1000 vals)) ∧
    (∀ (verbose : Int) (t : Trace),
      (∀ t1 : Trace, hw t1 0xC % 2 ^ 32 &&& 0x333 ≠ 0) →
      ∃ (pre : Trace) (vals : List Nat), writes pre = [] ∧ slept pre = 0 ∧
        vals.length = 10000 ∧
        ResetTool.perform_shell_reset_hardware_correct hw pcie_base verbose t
          = some (-ETIMEDOUT, t ++ pre ++ [Event.write 0xC 0x333] ++ poll_trace 0xC 1000 vals)) ∧
    (∀ (verbose : Int) (t : Trace),
      (∀ t1 : Trace, hw t1 0x4 % 2 ^ 32 &&& 0x1 ≠ 0) →
      ∃ (pre : Trace) (vals : List Nat), writes pre = [] ∧ slept pre = 0 ∧
        vals.length = 10000 ∧
        ResetTool.perform_system_reset_hardware_correct hw pcie_base verbose t
          = some (-ETIMEDOUT, t ++ pre ++ [Event.write 0x4 0x1] ++ poll_trace 0x4 1000 vals)) := by
  refine ⟨?_, ?_, ?_, ?_⟩
  · intro off mask timeout_ms t h1 h2 h0 hT hnever
    exact ResetTool.autoclear_times_out hw pcie_base off mask timeout_ms t hb h1 h2 h0 hT hnever
  · intro port_id verbose t hport hnever
    obtain ⟨pre, hpw, hps, hpre⟩ :=
      ResetTool.verbose_status_read hw pcie_base ResetTool.SYSCFG_OFFSET_SHELL_STATUS verbose t
    have hmask : (if port_id = 0 then ResetTool.SHELL_RESET_CMAC0_COMPLETE
        else ResetTool.SHELL_RESET_CMAC1_COMPLETE) = (if port_id = 0 then 0x30 else 0x300) := by
      split <;> rfl
    have hm32 : (if port_id = 0 then (0x30 : Nat) else 0x300) % 2 ^ 32
        = (if port_id = 0 then 0x30 else 0x300) := by split <;> rfl
    obtain ⟨vals, hlen, hres⟩ := ResetTool.autoclear_times_out hw pcie_base 0xC
      (if port_id = 0 then 0x30 else 0x300) 10000
      (t ++ pre ++ [Event.write 0xC (if port_id = 0 then 0x30 else 0x300)])
      hb (by decide) (by decide) (by decide) (by decide) hnever
    refine ⟨pre, vals, hpw, hps, by omega, ?_⟩
    unfold ResetTool.perform_cmac_reset_hardware_correct
    rw [if_neg (by omega)]
    simp only [hmask, hpre]
    rw [ResetTool.safe_write32_data_ok pcie_base ResetTool.SYSCFG_OFFSET_SHELL_RESET _ _ hb
      (by decide) (by decide), hm32]
    have e1 : toU32 ResetTool.SYSCFG_OFFSET_SHELL_RESET = 0xC := by decide
    have e1b : toU32 (0xC : Int) = 0xC := by decide
    have e2 : ResetTool.SYSCFG_OFFSET_SHELL_RESET = 0xC := by decide
    have e3 : ResetTool.RESET_REGISTER_TIMEOUT_MS = 10000 := rfl
    simp only [e1, e1b, e2, e3]
    have hres2 := hres
    simp only [Nat.cast_ofNat] at hres2
    rw [hres2]
    simp [ETIMEDOUT]
  · intro verbose t hnever
    obtain ⟨pre, hpw, hps, hpre⟩ :=
      ResetTool.verbose_status_read hw pcie_base ResetTool.SYSCFG_OFFSET_SHELL_STATUS verbose t
    obtain ⟨vals, hlen, hres⟩ := ResetTool.autoclear_times_out hw pcie_base 0xC 0x333 10000
      (t ++ pre ++ [Event.write 0xC 0x333])
      hb (by decide) (by decide) (by decide) (by decide) hnever
    refine ⟨pre, vals, hpw, hps, by omega, ?_⟩
    unfold ResetTool.perform_shell_reset_hardware_correct
    have hmask : ResetTool.SHELL_RESET_QDMA_SUBSYSTEM ||| ResetTool.SHELL_RESET_RDMA_SUBSYSTEM |||
        ResetTool.SHELL_RESET_CMAC0_COMPLETE ||| ResetTool.SHELL_RESET_CMAC1_COMPLETE = 0x333 := by
      decide
    simp only [hmask, hpre]
    rw [ResetTool.safe_write32_data_ok pcie_base ResetTool.SYSCFG_OFFSET_SHELL_RESET _ _ hb
      (by decide) (by decide)]
    have e1 : toU32 ResetTool.SYSCFG_OFFSET_SHELL_RESET = 0xC := by decide
    have e1b : toU32 (0xC : Int) = 0xC := by decide
    have e2 : ResetTool.SYSCFG_OFFSET_SHELL_RESET = 0xC := by decide
    have e3 : ResetTool.RESET_REGISTER_TIMEOUT_MS = 10000 := rfl
    have e4 : (0x333 : Nat) % 2 ^ 32 = 0x333 := by decide
    simp only [e1, e1b, e2, e3, e4]
    have hres2 := hres
    simp only [Nat.cast_ofNat] at hres2
    rw [hres2]
    simp [ETIMEDOUT]
  · intro verbose t hnever
    obtain ⟨pre, hpw, hps, hpre⟩ : ∃ pre : Trace, writes pre = [] ∧ slept pre = 0 ∧
        (if verbose ≠ 0 then (ResetTool.display_all_reset_status hw pcie_base t).2 else t)
          = t ++ pre := by
      by_cases hv : verbose ≠ 0
      · rw [if_pos hv]; exact ResetTool.display_all_reset_status_reads hw pcie_base t
      · rw [if_neg hv]; exact ⟨[], rfl, rfl, by simp⟩
    obtain ⟨vals, hlen, hres⟩ := ResetTool.autoclear_times_out hw pcie_base 0x4 0x1 10000
      (t ++ pre ++ [Event.write 0x4 0x1])
      hb (by decide) (by decide) (by decide) (by decide) hnever
    refine ⟨pre, vals, hpw, hps, by omega, ?_⟩
    unfold ResetTool.perform_system_reset_hardware_correct
    simp only [hpre]
    rw [ResetTool.safe_write32_data_ok pcie_base ResetTool.SYSCFG_OFFSET_SYSTEM_RESET _ _ hb
      (by decide) (by decide)]
    have e1 : toU32 ResetTool.SYSCFG_OFFSET_SYSTEM_RESET = 0x4 := by decide
    have e1b : toU32 (0x4 : Int) = 0x4 := by decide
    have e2 : ResetTool.SYSCFG_OFFSET_SYSTEM_RESET = 0x4 := by decide
    have e3 : ResetTool.RESET_REGISTER_TIMEOUT_MS = 10000 := rfl
    have e4 : (0x1 : Nat) % 2 ^ 32 = 0x1 := by decide
    simp only [e1, e1b, e2, e3, e4]
    have hres2 := hres
    simp only [Nat.cast_ofNat] at hres2
    rw [hres2]
    simp [ETIMEDOUT]

/-- Witness for C5: a device on which every load returns 0xFFFFFFFF. -/
theorem autoclear_never_clear_times_out_witness :
    (∃ vals : List Nat, (vals.length : Int) = 10000 ∧
      ResetTool.wait_reset_register_autoclear (fun _ _ => 0xFFFFFFFF) 1 0xC 0x30 10000 []
        = some (-ETIMEDOUT, [] ++ poll_trace ((0xC : Nat) : Int) 1000 vals)) ∧
    (∃ (pre : Trace) (vals : List Nat), writes pre = [] ∧ slept pre = 0 ∧
      vals.length = 10000 ∧
      ResetTool.perform_cmac_reset_hardware_correct (fun _ _ => 0xFFFFFFFF) 1 0 1 []
        = some (-ETIMEDOUT, [] ++ pre
            ++ [Event.write 0xC (if (0 : Int) = 0 then 0x30 else 0x300)]
            ++ poll_trace 0xC 1000 vals)) ∧
    (∃ (pre : Trace) (vals : List Nat), writes pre = [] ∧ slept pre = 0 ∧
      vals.length = 10000 ∧
      ResetTool.perform_shell_reset_hardware_correct (fun _ _ => 0xFFFFFFFF) 1 1 []
        = some (-ETIMEDOUT, [] ++ pre ++ [Event.write 0xC 0x333] ++ poll_trace 0xC 1000 vals)) ∧
    (∃ (pre : Trace) (vals : List Nat), writes pre = [] ∧ slept pre = 0 ∧
      vals.length = 10000 ∧
      ResetTool.perform_system_reset_hardware_correct (fun _ _ => 0xFFFFFFFF) 1 1 []
        = some (-ETIMEDOUT, [] ++ pre ++ [Event.write 0x4 0x1] ++ poll_trace 0x4 1000 vals)) :=
  have h := autoclear_never_clear_times_out (fun _ _ => 0xFFFFFFFF) 1 (by decide)
  ⟨h.1 0xC 0x30 10000 [] (by decide) (by decide) (by decide) (by decide)
     (fun _ => by beta_reduce; decide),
   h.2.1 0 1 [] (Or.inl rfl) (fun _ => by beta_reduce; decide),
   h.2.2.1 1 [] (fun _ => by beta_reduce; decide),
   h.2.2.2 1 [] (fun _ => by beta_reduce; decide)⟩

namespace ResetTool

/-- Every run of the polling loop within its budget ends in one of two ways:
0 after a poll that found the mask bits clear, or `-ETIMEDOUT` after the
budget of polls, all of which found a mask bit set. -/
theorem autoclear_loop_outcome (hw : Hw) (pcie_base off mask : Nat) (timeout_ms : Int)
    (hb : pcie_base ≠ 0) (h1 : (off : Int) < 0x10000) (h2 : (off : Int) % 4 = 0)
    (hT : timeout_ms ≤ 2147483) :
    ∀ (n fuel : Nat) (elapsed_us : Int) (t : Trace), n < fuel → 0 ≤ elapsed_us →
      elapsed_us + n * 1000 = timeout_ms * 1000 →
      (∃ (vals : List Nat) (v : Nat), vals.length < n ∧ (∀ x ∈ vals, x &&& mask ≠ 0) ∧
        v &&& mask = 0 ∧
        wait_reset_register_autoclear_loop hw pcie_base off mask timeout_ms fuel elapsed_us t
          = some (0, t ++ poll_trace off 1000 vals ++ [Event.read off v])) ∨
      (∃ vals : List Nat, vals.length = n ∧ (∀ x ∈ vals, x &&& mask ≠ 0) ∧
        wait_reset_register_autoclear_loop hw pcie_base off mask timeout_ms fuel elapsed_us t
          = some (-ETIMEDOUT, t ++ poll_trace off 1000 vals)) := by
  intro n
  induction n with
  | zero =>
    intro fuel elapsed_us t hf he heq
    obtain ⟨f, rfl⟩ : ∃ f, fuel = f + 1 := ⟨fuel - 1, by omega⟩
    have hw32 : wrap32 (timeout_ms * 1000) = timeout_ms * 1000 :=
      wrap32_of_range _ (by omega) (by omega)
    right
    refine ⟨[], rfl, by simp, ?_⟩
    rw [autoclear_loop_exit hw pcie_base off mask timeout_ms f elapsed_us t
      (by rw [hw32]; omega)]
    simp [poll_trace_nil]
  | succ k ih =>
    intro fuel elapsed_us t hf he heq
    obtain ⟨f, rfl⟩ : ∃ f, fuel = f + 1 := ⟨fuel - 1, by omega⟩
    have hw32 : wrap32 (timeout_ms * 1000) = timeout_ms * 1000 :=
      wrap32_of_range _ (by omega) (by omega)
    have hstep : wrap32 (elapsed_us + 1000) = elapsed_us + 1000 :=
      wrap32_of_range _ (by omega) (by omega)
    have hlt : elapsed_us < wrap32 (timeout_ms * 1000) := by
      rw [hw32]; push_cast at heq; omega
    by_cases hc : hw t off % 2 ^ 32 &&& mask = 0
    · left
      refine ⟨[], hw t off % 2 ^ 32, by simp, by simp, hc, ?_⟩
      rw [autoclear_loop_clear hw pcie_base off mask timeout_ms f elapsed_us t hb h1 h2 hlt hc]
      simp [poll_trace_nil]
    · have hrw := autoclear_loop_busy hw pcie_base off mask timeout_ms f elapsed_us t hb h1 h2
        hlt hc
      rw [hstep] at hrw
      rcases ih f (elapsed_us + 1000)
        (t ++ [Event.read off (hw t off % 2 ^ 32), Event.usleep 1000]) (by omega) (by omega)
        (by push_cast at heq ⊢; omega) with ⟨vals, v, hlen, hall, hv, hres⟩ | ⟨vals, hlen, hall, hres⟩
      · left
        refine ⟨(hw t off % 2 ^ 32) :: vals, v, by simp; omega, ?_, hv, ?_⟩
        · intro x hx
          rcases List.mem_cons.mp hx with rfl | hx
          · exact hc
          · exact hall x hx
        · rw [hrw, hres, poll_trace_cons]
          simp
      · right
        refine ⟨(hw t off % 2 ^ 32) :: vals, by simp [hlen], ?_, ?_⟩
        · intro x hx
          rcases List.mem_cons.mp hx with rfl | hx
          · exact hc
          · exact hall x hx
        · rw [hrw, hres, poll_trace_cons]
          simp

end ResetTool

/-- C6: for `port_id` 0 or 1, `perform_cmac_reset_hardware_correct` uses the
composite mask `subsystem | adapter` (0x30 for port 0, 0x300 for port 1): it
stores that mask to the Shell reset register 0x0C (its only store), then polls
0x0C until a load has no bit of that same mask set (return 0 after the
stabilisation sleep, the status load from 0x10 and the initialisation sleep) or
until 10000 polls have all found a bit of it set (return `-ETIMEDOUT`).  The
two status bits tested afterwards, `1 << (4 + 4*port)` and `1 << (5 + 4*port)`,
are the port's subsystem and adapter bits and OR together to exactly that
mask. -/
theorem cmac_hardware_correct_composite_mask (hw : Hw) (pcie_base : Nat)
    (port_id verbose : Int) (t : Trace) (hb : pcie_base ≠ 0)
    (hport : port_id = 0 ∨ port_id = 1) :
    ∃ mask : Nat,
      mask = (if port_id = 0 then ResetTool.SHELL_RESET_CMAC0_COMPLETE
        else ResetTool.SHELL_RESET_CMAC1_COMPLETE) ∧
      mask = (if port_id = 0
        then ResetTool.SHELL_RESET_CMAC0_SUBSYSTEM ||| ResetTool.SHELL_RESET_CMAC0_ADAPTER
        else ResetTool.SHELL_RESET_CMAC1_SUBSYSTEM ||| ResetTool.SHELL_RESET_CMAC1_ADAPTER) ∧
      mask = (if port_id = 0 then 0x30 else 0x300) ∧
      (1 <<< (4 + port_id * 4).toNat) ||| (1 <<< (5 + port_id * 4).toNat) = mask ∧
      (∀ status_value : Nat, ResetTool.cmac_status_done port_id status_value
        = ((if status_value &&& (if port_id = 0 then ResetTool.SHELL_RESET_CMAC0_SUBSYSTEM
              else ResetTool.SHELL_RESET_CMAC1_SUBSYSTEM) ≠ 0 then 1 else 0),
           (if status_value &&& (if port_id = 0 then ResetTool.SHELL_RESET_CMAC0_ADAPTER
              else ResetTool.SHELL_RESET_CMAC1_ADAPTER) ≠ 0 then 1 else 0))) ∧
      ∃ (pre : Trace) (ret : Int) (t2 : Trace),
        ResetTool.perform_cmac_reset_hardware_correct hw pcie_base port_id verbose t
          = some (ret, t2) ∧
        writes pre = [] ∧ writes t2 = writes t ++ [(0xC, mask)] ∧
        ((ret = -ETIMEDOUT ∧ ∃ vals : List Nat, vals.length = 10000 ∧
            (∀ x ∈ vals, x &&& mask ≠ 0) ∧
            t2 = t ++ pre ++ [Event.write 0xC mask] ++ poll_trace 0xC 1000 vals) ∨
         (ret = 0 ∧ ∃ (vals : List Nat) (v s : Nat), vals.length < 10000 ∧
            (∀ x ∈ vals, x &&& mask ≠ 0) ∧ v &&& mask = 0 ∧
            t2 = t ++ pre ++ [Event.write 0xC mask] ++ poll_trace 0xC 1000 vals
              ++ [Event.read 0xC v]
              ++ [Event.usleep 50000, Event.read 0x10 s, Event.usleep 100000])) := by
  refine ⟨if port_id = 0 then 0x30 else 0x300, ?_, ?_, rfl, ?_, ?_, ?_⟩
  · split <;> rfl
  · split <;> rfl
  · rcases hport with rfl | rfl <;> decide
  · rcases hport with rfl | rfl <;> intro status_value <;> rfl
  obtain ⟨pre, hpw, _, hpre⟩ :=
    ResetTool.verbose_status_read hw pcie_base ResetTool.SYSCFG_OFFSET_SHELL_STATUS verbose t
  have hmask : (if port_id = 0 then ResetTool.SHELL_RESET_CMAC0_COMPLETE
      else ResetTool.SHELL_RESET_CMAC1_COMPLETE) = (if port_id = 0 then 0x30 else 0x300) := by
    split <;> rfl
  have hm32 : (if port_id = 0 then (0x30 : Nat) else 0x300) % 2 ^ 32
      = (if port_id = 0 then 0x30 else 0x300) := by split <;> rfl
  have e1 : toU32 ResetTool.SYSCFG_OFFSET_SHELL_RESET = 0xC := by decide
  have e1b : toU32 (0xC : Int) = 0xC := by decide
  have e2 : ResetTool.SYSCFG_OFFSET_SHELL_RESET = 0xC := by decide
  have e3 : ResetTool.RESET_REGISTER_TIMEOUT_MS = 10000 := rfl
  have e5 : ResetTool.SYSCFG_OFFSET_SHELL_STATUS = 0x10 := by decide
  have hunf : ResetTool.perform_cmac_reset_hardware_correct hw pcie_base port_id verbose t
      = match ResetTool.wait_reset_register_autoclear hw pcie_base 0xC
            (if port_id = 0 then 0x30 else 0x300) 10000
            (t ++ pre ++ [Event.write 0xC (if port_id = 0 then 0x30 else 0x300)]) with
        | none => none
        | some (ret3, t3) =>
          if ret3 ≠ 0 then some (ret3, t3)
          else some (0, (ResetTool.safe_read32_data hw pcie_base 0x10 ResetTool.LOCAL
              (t3 ++ [Event.usleep 50000])).2.2 ++ [Event.usleep 100000]) := by
    unfold ResetTool.perform_cmac_reset_hardware_correct
    rw [if_neg (by omega)]
    simp only [hmask, hpre]
    rw [ResetTool.safe_write32_data_ok pcie_base ResetTool.SYSCFG_OFFSET_SHELL_RESET _ _ hb
      (by decide) (by decide), hm32]
    simp only [e1, e1b, e2, e3, e5, ResetTool.RESET_STABILIZATION_DELAY_US,
      ResetTool.CMAC_INIT_DELAY_US]
    rfl
  rcases ResetTool.autoclear_loop_outcome hw pcie_base 0xC
      (if port_id = 0 then 0x30 else 0x300) 10000 hb (by decide) (by decide) (by decide)
      10000 LOOP_FUEL 0 (t ++ pre ++ [Event.write 0xC (if port_id = 0 then 0x30 else 0x300)])
      (by decide) (le_refl 0) (by decide)
    with ⟨vals, v, hlen, hall, hv, hres⟩ | ⟨vals, hlen, hall, hres⟩
  · have hres2 : ResetTool.wait_reset_register_autoclear hw pcie_base 0xC
        (if port_id = 0 then 0x30 else 0x300) 10000
        (t ++ pre ++ [Event.write 0xC (if port_id = 0 then 0x30 else 0x300)]) = _ := hres
    simp only [Nat.cast_ofNat] at hres2
    rw [hres2] at hunf
    simp only [ne_eq, not_true_eq_false, if_false, reduceIte] at hunf
    rw [ResetTool.safe_read32_data_ok hw pcie_base 0x10 ResetTool.LOCAL _ hb (by decide)
      (by decide) (by decide)] at hunf
    dsimp only at hunf
    refine ⟨pre, 0, _, hunf, hpw, ?_, Or.inr ⟨rfl, vals, v,
      hw (t ++ pre ++ [Event.write 0xC (if port_id = 0 then 0x30 else 0x300)]
        ++ poll_trace 0xC 1000 vals ++ [Event.read 0xC v] ++ [Event.usleep 50000]) 0x10 % 2 ^ 32,
      hlen, hall, hv, ?_⟩⟩
    · simp only [writes_append, hpw, writes_poll_trace]
      simp [writes]
    · simp
  · have hres2 : ResetTool.wait_reset_register_autoclear hw pcie_base 0xC
        (if port_id = 0 then 0x30 else 0x300) 10000
        (t ++ pre ++ [Event.write 0xC (if port_id = 0 then 0x30 else 0x300)]) = _ := hres
    simp only [Nat.cast_ofNat] at hres2
    rw [hres2] at hunf
    have hne : (-ETIMEDOUT : Int) ≠ 0 := by decide
    simp only [ne_eq, hne, not_false_eq_true, if_true] at hunf
    refine ⟨pre, -ETIMEDOUT, _, hunf, hpw, ?_, Or.inl ⟨rfl, vals, hlen, hall, rfl⟩⟩
    simp only [writes_append, hpw, writes_poll_trace]
    simp [writes]

/-- Witness for C6: port 1 in verbose mode on a device whose registers all
read 0. -/
theorem cmac_hardware_correct_composite_mask_witness :
    ∃ mask : Nat,
      mask = (if (1 : Int) = 0 then ResetTool.SHELL_RESET_CMAC0_COMPLETE
        else ResetTool.SHELL_RESET_CMAC1_COMPLETE) ∧
      mask = (if (1 : Int) = 0
        then ResetTool.SHELL_RESET_CMAC0_SUBSYSTEM ||| ResetTool.SHELL_RESET_CMAC0_ADAPTER
        else ResetTool.SHELL_RESET_CMAC1_SUBSYSTEM ||| ResetTool.SHELL_RESET_CMAC1_ADAPTER) ∧
      mask = (if (1 : Int) = 0 then 0x30 else 0x300) ∧
      (1 <<< (4 + (1 : Int) * 4).toNat) ||| (1 <<< (5 + (1 : Int) * 4).toNat) = mask ∧
      (∀ status_value : Nat, ResetTool.cmac_status_done 1 status_value
        = ((if status_value &&& (if (1 : Int) = 0 then ResetTool.SHELL_RESET_CMAC0_SUBSYSTEM
              else ResetTool.SHELL_RESET_CMAC1_SUBSYSTEM) ≠ 0 then 1 else 0),
           (if status_value &&& (if (1 : Int) = 0 then ResetTool.SHELL_RESET_CMAC0_ADAPTER
              else ResetTool.SHELL_RESET_CMAC1_ADAPTER) ≠ 0 then 1 else 0))) ∧
      ∃ (pre : Trace) (ret : Int) (t2 : Trace),
        ResetTool.perform_cmac_reset_hardware_correct (fun _ _ => 0) 1 1 1 []
          = some (ret, t2) ∧
        writes pre = [] ∧ writes t2 = writes [] ++ [(0xC, mask)] ∧
        ((ret = -ETIMEDOUT ∧ ∃ vals : List Nat, vals.length = 10000 ∧
            (∀ x ∈ vals, x &&& mask ≠ 0) ∧
            t2 = [] ++ pre ++ [Event.write 0xC mask] ++ poll_trace 0xC 1000 vals) ∨
         (ret = 0 ∧ ∃ (vals : List Nat) (v s : Nat), vals.length < 10000 ∧
            (∀ x ∈ vals, x &&& mask ≠ 0) ∧ v &&& mask = 0 ∧
            t2 = [] ++ pre ++ [Event.write 0xC mask] ++ poll_trace 0xC 1000 vals
              ++ [Event.read 0xC v]
              ++ [Event.usleep 50000, Event.read 0x10 s, Event.usleep 100000])) :=
  cmac_hardware_correct_composite_mask (fun _ _ => 0) 1 1 1 [] (by decide) (Or.inr rfl)

/-! ## Baseline resets (`reset_utils.c`) -/

/-- C7: the baseline resets store subsystem-only masks to the Shell reset
register 0x0C.  On a device whose loads all return 0xFFFFFFFF,
`perform_cmac_reset` stores 0x10 for port 0 (bit 4 without adapter bit 5) and
0x100 for port 1 (bit 8 without adapter bit 9), and `perform_shell_reset`
stores 0x110 (bits 4 and 8 without bits 5 and 9). -/
theorem baseline_resets_store_subsystem_only_masks :
    ResetTool.perform_cmac_reset (fun _ _ => 0xFFFFFFFF) 1 0 0 []
      = some (0, [Event.write 0xC 0x10, Event.read 0x10 0xFFFFFFFF]) ∧
    ResetTool.perform_cmac_reset (fun _ _ => 0xFFFFFFFF) 1 1 0 []
      = some (0, [Event.write 0xC 0x100, Event.read 0x10 0xFFFFFFFF]) ∧
    ResetTool.perform_shell_reset (fun _ _ => 0xFFFFFFFF) 1 0 []
      = some (0, [Event.write 0xC 0x110, Event.read 0x10 0xFFFFFFFF]) ∧
    ((0x10 : Nat) &&& ResetTool.SHELL_RESET_CMAC0_SUBSYSTEM ≠ 0 ∧
      (0x10 : Nat) &&& ResetTool.SHELL_RESET_CMAC0_ADAPTER = 0) ∧
    ((0x100 : Nat) &&& ResetTool.SHELL_RESET_CMAC1_SUBSYSTEM ≠ 0 ∧
      (0x100 : Nat) &&& ResetTool.SHELL_RESET_CMAC1_ADAPTER = 0) ∧
    ((0x110 : Nat) &&& ResetTool.SHELL_RESET_CMAC0_SUBSYSTEM ≠ 0 ∧
      (0x110 : Nat) &&& ResetTool.SHELL_RESET_CMAC0_ADAPTER = 0 ∧
      (0x110 : Nat) &&& ResetTool.SHELL_RESET_CMAC1_SUBSYSTEM ≠ 0 ∧
      (0x110 : Nat) &&& ResetTool.SHELL_RESET_CMAC1_ADAPTER = 0) := by
  refine ⟨by decide, by decide, by decide, by decide, by decide, by decide⟩

/-- C8: the baseline resets decide completion from the status register and
never load their reset register.  On a device whose loads all return 1 (so the
reset register 0x04, 0x14 or 0x0C would still show the written bit),
`perform_system_reset`, `perform_user_reset`, `perform_shell_reset` (status
0x10 has a bit of 0x110) and `perform_cmac_reset` return 0 after the store and
a single status load; the reset register is not loaded once. -/
theorem baseline_resets_succeed_on_status_alone :
    ResetTool.perform_system_reset (fun _ _ => 1) 1 0 []
      = some (0, [Event.write 0x4 0x1, Event.read 0x8 1]) ∧
    ResetTool.perform_user_reset (fun _ _ => 1) 1 0 []
      = some (0, [Event.write 0x14 0x1, Event.read 0x18 1]) ∧
    ResetTool.perform_shell_reset (fun _ _ => 0x10) 1 0 []
      = some (0, [Event.write 0xC 0x110, Event.read 0x10 0x10]) ∧
    ResetTool.perform_cmac_reset (fun _ _ => 0x10) 1 0 0 []
      = some (0, [Event.write 0xC 0x10, Event.read 0x10 0x10]) ∧
    reads_at 0x4 [Event.write 0x4 0x1, Event.read 0x8 1] = 0 ∧
    reads_at 0x14 [Event.write 0x14 0x1, Event.read 0x18 1] = 0 ∧
    reads_at 0xC [Event.write 0xC 0x110, Event.read 0x10 0x10] = 0 ∧
    reads_at 0xC [Event.write 0xC 0x10, Event.read 0x10 0x10] = 0 ∧
    ((fun _ _ => 1 : Hw) [Event.write 0x4 0x1, Event.read 0x8 1] 0x4 % 2 ^ 32 &&& 0x1 ≠ 0) := by
  refine ⟨by decide, by decide, by decide, by decide, by decide, by decide, by decide,
    by decide, by decide⟩

/-! ## Status polling of the baseline resets (`wait_reset_completion`) -/

namespace ResetTool

/-- A load adds at most one load event to the trace, whatever it returns. -/
theorem safe_read32_data_trace (hw : Hw) (pcie_base : Nat) (off : Int) (value : Nat)
    (t : Trace) :
    ∃ ext : Trace, (safe_read32_data hw pcie_base off value t).2.2 = t ++ ext ∧
      writes ext = [] := by
  unfold safe_read32_data
  split_ifs
  · exact ⟨[], by simp, rfl⟩
  · exact ⟨[], by simp, rfl⟩
  · exact ⟨[Event.read off (hw t off % 2 ^ 32)], rfl, rfl⟩

theorem check_system_reset_status_trace (hw : Hw) (pcie_base : Nat) (rc : Int) (t : Trace) :
    ∃ ext : Trace, (check_system_reset_status hw pcie_base rc t).2.2 = t ++ ext ∧
      writes ext = [] := by
  obtain ⟨ext, he, hw0⟩ := safe_read32_data_trace hw pcie_base SYSCFG_OFFSET_SYSTEM_STATUS LOCAL t
  refine ⟨ext, ?_, hw0⟩
  rw [← he]
  unfold check_system_reset_status
  generalize safe_read32_data hw pcie_base SYSCFG_OFFSET_SYSTEM_STATUS LOCAL t = p
  obtain ⟨a, b, c⟩ := p
  dsimp only
  split_ifs <;> rfl

theorem check_shell_reset_status_trace (hw : Hw) (pcie_base : Nat) (rc : Int) (t : Trace) :
    ∃ ext : Trace, (check_shell_reset_status hw pcie_base rc t).2.2 = t ++ ext ∧
      writes ext = [] := by
  obtain ⟨ext, he, hw0⟩ := safe_read32_data_trace hw pcie_base SYSCFG_OFFSET_SHELL_STATUS LOCAL t
  refine ⟨ext, ?_, hw0⟩
  rw [← he]
  unfold check_shell_reset_status
  generalize safe_read32_data hw pcie_base SYSCFG_OFFSET_SHELL_STATUS LOCAL t = p
  obtain ⟨a, b, c⟩ := p
  dsimp only
  split_ifs <;> rfl

theorem check_user_reset_status_trace (hw : Hw) (pcie_base : Nat) (rc : Int) (t : Trace) :
    ∃ ext : Trace, (check_user_reset_status hw pcie_base rc t).2.2 = t ++ ext ∧
      writes ext = [] := by
  obtain ⟨ext, he, hw0⟩ := safe_read32_data_trace hw pcie_base SYSCFG_OFFSET_USER_STATUS LOCAL t
  refine ⟨ext, ?_, hw0⟩
  rw [← he]
  unfold check_user_reset_status
  generalize safe_read32_data hw pcie_base SYSCFG_OFFSET_USER_STATUS LOCAL t = p
  obtain ⟨a, b, c⟩ := p
  dsimp only
  split_ifs <;> rfl

theorem check_cmac_reset_status_trace (hw : Hw) (pcie_base : Nat) (port_id rc : Int)
    (t : Trace) :
    ∃ ext : Trace, (check_cmac_reset_status hw pcie_base port_id rc t).2.2 = t ++ ext ∧
      writes ext = [] := by
  unfold check_cmac_reset_status
  by_cases hp : port_id ≠ 0 ∧ port_id ≠ 1
  · rw [if_pos hp]
    exact ⟨[], by simp, rfl⟩
  · rw [if_neg hp]
    obtain ⟨ext, he, hw0⟩ :=
      safe_read32_data_trace hw pcie_base SYSCFG_OFFSET_SHELL_STATUS LOCAL t
    refine ⟨ext, ?_, hw0⟩
    rw [← he]
    generalize safe_read32_data hw pcie_base SYSCFG_OFFSET_SHELL_STATUS LOCAL t = p
    obtain ⟨a, b, c⟩ := p
    dsimp only
    split_ifs <;> rfl

/-- The `switch` either returns at once or carries on with a trace extended
by loads only. -/
theorem wait_reset_completion_switch_trace (hw : Hw) (pcie_base : Nat)
    (reset_type : reset_type_t) (rc : Int) (t : Trace) :
    (∃ code, wait_reset_completion_switch hw pcie_base reset_type rc t = .error code) ∨
    (∃ (ret rc1 : Int) (ext : Trace),
      wait_reset_completion_switch hw pcie_base reset_type rc t = .ok (ret, rc1, t ++ ext) ∧
      writes ext = []) := by
  cases reset_type
  · right
    obtain ⟨ext, he, hw0⟩ := check_system_reset_status_trace hw pcie_base rc t
    exact ⟨_, _, ext, by unfold wait_reset_completion_switch; rw [← he], hw0⟩
  · right
    obtain ⟨ext, he, hw0⟩ := check_shell_reset_status_trace hw pcie_base rc t
    exact ⟨_, _, ext, by unfold wait_reset_completion_switch; rw [← he], hw0⟩
  · right
    obtain ⟨ext, he, hw0⟩ := check_user_reset_status_trace hw pcie_base rc t
    exact ⟨_, _, ext, by unfold wait_reset_completion_switch; rw [← he], hw0⟩
  · right
    obtain ⟨ext, he, hw0⟩ := check_cmac_reset_status_trace hw pcie_base 0 rc t
    exact ⟨_, _, ext, by unfold wait_reset_completion_switch; rw [← he], hw0⟩
  · right
    obtain ⟨ext, he, hw0⟩ := check_cmac_reset_status_trace hw pcie_base 1 rc t
    exact ⟨_, _, ext, by unfold wait_reset_completion_switch; rw [← he], hw0⟩
  · left; exact ⟨0, rfl⟩
  · left; exact ⟨0, rfl⟩
  · left; exact ⟨-EINVAL, rfl⟩

/-- The status-polling loop returns within `n` iterations when the budget
leaves at most `n`, and stores nothing. -/
theorem wait_reset_completion_loop_returns (hw : Hw) (pcie_base : Nat)
    (reset_type : reset_type_t) (timeout_ms : Int) (hT : timeout_ms ≤ 2147483637) :
    ∀ (n fuel : Nat) (elapsed_ms rc : Int) (t : Trace), n < fuel → 0 ≤ elapsed_ms →
      timeout_ms ≤ elapsed_ms + n * 10 →
      ∃ (ret : Int) (ext : Trace),
        wait_reset_completion_loop hw pcie_base reset_type timeout_ms fuel elapsed_ms rc t
          = some (ret, t ++ ext) ∧ writes ext = [] := by
  intro n
  induction n with
  | zero =>
    intro fuel elapsed_ms rc t hf he hle
    obtain ⟨f, rfl⟩ : ∃ f, fuel = f + 1 := ⟨fuel - 1, by omega⟩
    rw [wait_reset_completion_loop, if_neg (by omega)]
    exact ⟨-ETIMEDOUT, [], by simp, rfl⟩
  | succ k ih =>
    intro fuel elapsed_ms rc t hf he hle
    obtain ⟨f, rfl⟩ : ∃ f, fuel = f + 1 := ⟨fuel - 1, by omega⟩
    rw [wait_reset_completion_loop]
    by_cases hlt : elapsed_ms < timeout_ms
    · rw [if_pos hlt]
      rcases wait_reset_completion_switch_trace hw pcie_base reset_type rc t with
        ⟨code, hsw⟩ | ⟨ret, rc1, ext, hsw, hext⟩
      · rw [hsw]
        exact ⟨code, [], by simp, rfl⟩
      · rw [hsw]
        dsimp only
        by_cases hret : ret ≠ 0
        · rw [if_pos hret]
          exact ⟨ret, ext, rfl, hext⟩
        · rw [if_neg hret]
          by_cases hrc : rc1 ≠ 0
          · rw [if_pos hrc]
            exact ⟨0, ext, rfl, hext⟩
          · rw [if_neg hrc]
            have hstep : wrap32 (elapsed_ms + RESET_POLL_INTERVAL_MS) = elapsed_ms + 10 :=
              wrap32_of_range _ (by unfold RESET_POLL_INTERVAL_MS; omega)
                (by unfold RESET_POLL_INTERVAL_MS; omega)
            rw [hstep]
            obtain ⟨ret2, ext2, hres, hext2⟩ := ih f (elapsed_ms + 10) rc1
              (t ++ ext ++ [Event.usleep (RESET_POLL_INTERVAL_MS * 1000)]) (by omega) (by omega)
              (by push_cast at hle ⊢; omega)
            refine ⟨ret2, ext ++ [Event.usleep (RESET_POLL_INTERVAL_MS * 1000)] ++ ext2, ?_, ?_⟩
            · rw [hres]; simp
            · simp only [writes_append, hext, hext2]; rfl
    · rw [if_neg hlt]
      exact ⟨-ETIMEDOUT, [], by simp, rfl⟩

/-- With the budget of 5000 ms the status poll always returns, and stores
nothing. -/
theorem wait_reset_completion_returns (hw : Hw) (pcie_base : Nat) (reset_type : reset_type_t)
    (t : Trace) :
    ∃ (ret : Int) (ext : Trace),
      wait_reset_completion hw pcie_base reset_type RESET_TIMEOUT_MS t = some (ret, t ++ ext) ∧
      writes ext = [] :=
  wait_reset_completion_loop_returns hw pcie_base reset_type RESET_TIMEOUT_MS (by decide)
    500 LOOP_FUEL 0 0 t (by decide) (le_refl 0) (by decide)

/-- The baseline CMAC port reset on a valid port: one store of the port's
subsystem bit to the Shell reset register, then status polling only. -/
theorem perform_cmac_reset_trace (hw : Hw) (pcie_base : Nat) (port_id verbose : Int)
    (t : Trace) (hb : pcie_base ≠ 0) (hport : port_id = 0 ∨ port_id = 1) :
    ∃ (ret : Int) (ext : Trace),
      perform_cmac_reset hw pcie_base port_id verbose t
        = some (ret, t ++ [Event.write 0xC (if port_id = 0 then 0x10 else 0x100)] ++ ext) ∧
      writes ext = [] := by
  unfold perform_cmac_reset
  rw [if_neg (by omega)]
  have hmask : (if port_id = 0 then SHELL_RESET_CMAC_PORT0 else SHELL_RESET_CMAC_PORT1)
      = (if port_id = 0 then 0x10 else 0x100) := by split <;> rfl
  have hm32 : (if port_id = 0 then (0x10 : Nat) else 0x100) % 2 ^ 32
      = (if port_id = 0 then 0x10 else 0x100) := by split <;> rfl
  have e2 : SYSCFG_OFFSET_SHELL_RESET = 0xC := by decide
  simp only [hmask]
  rw [safe_write32_data_ok pcie_base SYSCFG_OFFSET_SHELL_RESET _ _ hb (by decide) (by decide),
    hm32, e2]
  dsimp only
  rw [if_neg (by decide)]
  obtain ⟨ret, ext, hres, hext⟩ := wait_reset_completion_returns hw pcie_base
    (if port_id = 0 then .RESET_TYPE_CMAC_PORT0 else .RESET_TYPE_CMAC_PORT1)
    (t ++ [Event.write 0xC (if port_id = 0 then 0x10 else 0x100)])
  rw [hres]
  dsimp only
  by_cases hret : ret ≠ 0
  · rw [if_pos hret]; exact ⟨ret, ext, rfl, hext⟩
  · rw [if_neg hret]; exact ⟨0, ext, rfl, hext⟩

end ResetTool

/-! ## Lane alignment (`wait_rx_lane_alignment`) -/

theorem lane_check_trace_cons (off : Int) (p : Nat × Nat) (checks : List (Nat × Nat)) :
    lane_check_trace off (p :: checks)
      = Event.read off p.1 :: Event.read off p.2 :: Event.usleep 50000
          :: lane_check_trace off checks := by
  simp [lane_check_trace, List.flatMap_cons]

theorem lane_check_trace_nil (off : Int) : lane_check_trace off [] = [] := rfl

theorem writes_lane_check_trace (off : Int) (checks : List (Nat × Nat)) :
    writes (lane_check_trace off checks) = [] := by
  induction checks with
  | nil => rfl
  | cons p ps ih =>
    rw [lane_check_trace_cons]
    simpa [writes] using ih

theorem reads_at_lane_check_trace (off : Int) (checks : List (Nat × Nat)) :
    reads_at off (lane_check_trace off checks) = 2 * checks.length := by
  induction checks with
  | nil => rfl
  | cons p ps ih =>
    rw [lane_check_trace_cons]
    simp only [reads_at] at ih ⊢
    simp [List.countP_cons, ih]
    omega

namespace ResetTool

theorem rx_status_offset (port_id : Int) :
    ((toU32 (CMAC_OFFSET_STAT_RX_STATUS port_id) : Nat) : Int)
      = CMAC_OFFSET_STAT_RX_STATUS port_id ∧
    CMAC_OFFSET_STAT_RX_STATUS port_id < 0x10000 ∧
    CMAC_OFFSET_STAT_RX_STATUS port_id % 4 = 0 := by
  unfold CMAC_OFFSET_STAT_RX_STATUS CMAC_OFFSET CMAC_SUBSYSTEM_OFFSET
  split <;> decide

/-- A lane check with a mapped window: two loads of the RX status register,
aligned exactly when the second one returned 0x3. -/
theorem check_rx_lane_aligned_eq (hw : Hw) (pcie_base : Nat) (port_id : Int) (t : Trace)
    (hb : pcie_base ≠ 0) :
    check_rx_lane_aligned hw pcie_base port_id t
      = ((if lane_check_second hw port_id t = 0x3 then 1 else 0),
         t ++ [Event.read (CMAC_OFFSET_STAT_RX_STATUS port_id) (lane_check_first hw port_id t),
               Event.read (CMAC_OFFSET_STAT_RX_STATUS port_id)
                 (lane_check_second hw port_id t)]) := by
  obtain ⟨e, h1, h2⟩ := rx_status_offset port_id
  unfold check_rx_lane_aligned
  simp only [e]
  rw [safe_read32_data_ok hw pcie_base _ LOCAL t hb (by decide) h1 h2]
  dsimp only
  rw [if_neg (by decide),
    safe_read32_data_ok hw pcie_base _ LOCAL _ hb (by decide) h1 h2]
  dsimp only
  rw [if_neg (by decide)]
  simp [lane_check_first, lane_check_second]

theorem configure_cmac_rxtx_eq (pcie_base : Nat) (port_id verbose : Int) (t : Trace)
    (hb : pcie_base ≠ 0) :
    configure_cmac_rxtx pcie_base port_id verbose t
      = (0, t ++ [Event.write (CMAC_OFFSET_CONF_RX_1 port_id) 0x1,
                  Event.write (CMAC_OFFSET_CONF_TX_1 port_id) 0x10]) := by
  have hrx : CMAC_OFFSET_CONF_RX_1 port_id < 0x10000 ∧ CMAC_OFFSET_CONF_RX_1 port_id % 4 = 0 := by
    unfold CMAC_OFFSET_CONF_RX_1 CMAC_OFFSET CMAC_SUBSYSTEM_OFFSET
    split <;> decide
  have htx : CMAC_OFFSET_CONF_TX_1 port_id < 0x10000 ∧ CMAC_OFFSET_CONF_TX_1 port_id % 4 = 0 := by
    unfold CMAC_OFFSET_CONF_TX_1 CMAC_OFFSET CMAC_SUBSYSTEM_OFFSET
    split <;> decide
  unfold configure_cmac_rxtx
  rw [safe_write32_data_ok pcie_base _ _ t hb hrx.1 hrx.2]
  dsimp only
  rw [if_neg (by decide), safe_write32_data_ok pcie_base _ _ _ hb htx.1 htx.2]
  dsimp only
  rw [if_neg (by decide)]
  simp

/-- A lane check that finds the lanes aligned ends the loop with 0. -/
theorem lane_loop_aligned (hw : Hw) (pcie_base : Nat) (port_id : Int) (fuel : Nat)
    (tc rc : Int) (t : Trace) (hb : pcie_base ≠ 0)
    (h : lane_check_second hw port_id t = 0x3) :
    wait_rx_lane_alignment_loop hw pcie_base port_id (fuel + 1) tc rc t
      = some (0, t ++ [Event.read (CMAC_OFFSET_STAT_RX_STATUS port_id)
                         (lane_check_first hw port_id t),
                       Event.read (CMAC_OFFSET_STAT_RX_STATUS port_id) 0x3]) := by
  rw [wait_rx_lane_alignment_loop, check_rx_lane_aligned_eq hw pcie_base port_id t hb]
  dsimp only
  rw [if_pos h, if_pos (by decide), h]

/-- A failed check with no escalation due and the ceiling not reached. -/
theorem lane_loop_retry (hw : Hw) (pcie_base : Nat) (port_id : Int) (fuel : Nat)
    (tc rc : Int) (t : Trace) (hb : pcie_base ≠ 0)
    (h : lane_check_second hw port_id t ≠ 0x3) (h0 : 0 ≤ tc) (h31 : tc ≤ 31)
    (hesc : ¬ (tc + 1 = 8 ∧ rc = 0)) :
    wait_rx_lane_alignment_loop hw pcie_base port_id (fuel + 1) tc rc t
      = wait_rx_lane_alignment_loop hw pcie_base port_id fuel (tc + 1) rc
          (t ++ [Event.read (CMAC_OFFSET_STAT_RX_STATUS port_id) (lane_check_first hw port_id t),
                 Event.read (CMAC_OFFSET_STAT_RX_STATUS port_id) (lane_check_second hw port_id t),
                 Event.usleep 50000]) := by
  have hw1 : wrap32 (tc + 1) = tc + 1 := wrap32_of_range _ (by omega) (by omega)
  rw [wait_rx_lane_alignment_loop, check_rx_lane_aligned_eq hw pcie_base port_id t hb]
  dsimp only
  rw [if_neg h, if_neg (by decide), hw1]
  unfold lane_alignment_escalation
  rw [if_neg (by unfold LANE_ALIGNMENT_RESET_CNT; exact hesc)]
  dsimp only
  rw [if_neg (by unfold LANE_ALIGNMENT_TIMEOUT_CNT; omega)]
  simp [LANE_ALIGNMENT_CHECK_INTERVAL_MS]

/-- The failed check that takes the attempt counter past the ceiling. -/
theorem lane_loop_give_up (hw : Hw) (pcie_base : Nat) (port_id : Int) (fuel : Nat)
    (rc : Int) (t : Trace) (hb : pcie_base ≠ 0)
    (h : lane_check_second hw port_id t ≠ 0x3) :
    wait_rx_lane_alignment_loop hw pcie_base port_id (fuel + 1) 32 rc t
      = some (-ETIMEDOUT,
          t ++ [Event.read (CMAC_OFFSET_STAT_RX_STATUS port_id) (lane_check_first hw port_id t),
                Event.read (CMAC_OFFSET_STAT_RX_STATUS port_id) (lane_check_second hw port_id t),
                Event.usleep 50000]) := by
  have hw1 : wrap32 (32 + 1) = 33 := by decide
  rw [wait_rx_lane_alignment_loop, check_rx_lane_aligned_eq hw pcie_base port_id t hb]
  dsimp only
  rw [if_neg h, if_neg (by decide), hw1]
  unfold lane_alignment_escalation
  rw [if_neg (fun hc => absurd hc.1 (by decide))]
  dsimp only
  rw [if_pos (by decide)]
  simp [LANE_ALIGNMENT_CHECK_INTERVAL_MS]

/-- The eighth failed check with no escalation done before: one baseline CMAC
reset (one store to the Shell reset register, then status polling) followed by
the RX and TX enable stores; the loop goes on with `reset_cnt = 1`. -/
theorem lane_loop_escalate (hw : Hw) (pcie_base : Nat) (port_id : Int) (fuel : Nat)
    (t : Trace) (hb : pcie_base ≠ 0) (hport : port_id = 0 ∨ port_id = 1)
    (h : lane_check_second hw port_id t ≠ 0x3) :
    ∃ ext : Trace, writes ext = [] ∧
      wait_rx_lane_alignment_loop hw pcie_base port_id (fuel + 1) 7 0 t
        = wait_rx_lane_alignment_loop hw pcie_base port_id fuel 8 1
            (t ++ [Event.read (CMAC_OFFSET_STAT_RX_STATUS port_id)
                     (lane_check_first hw port_id t),
                   Event.read (CMAC_OFFSET_STAT_RX_STATUS port_id)
                     (lane_check_second hw port_id t),
                   Event.usleep 50000]
               ++ [Event.write 0xC (if port_id = 0 then 0x10 else 0x100)] ++ ext
               ++ [Event.write (CMAC_OFFSET_CONF_RX_1 port_id) 0x1,
                   Event.write (CMAC_OFFSET_CONF_TX_1 port_id) 0x10]) := by
  have hw1 : wrap32 (7 + 1) = 8 := by decide
  have hw2 : wrap32 (0 + 1) = 1 := by decide
  obtain ⟨ret, ext, hres, hext⟩ := perform_cmac_reset_trace hw pcie_base port_id 0
    (t ++ [Event.read (CMAC_OFFSET_STAT_RX_STATUS port_id) (lane_check_first hw port_id t),
           Event.read (CMAC_OFFSET_STAT_RX_STATUS port_id) (lane_check_second hw port_id t),
           Event.usleep 50000]) hb hport
  refine ⟨ext, hext, ?_⟩
  rw [wait_rx_lane_alignment_loop, check_rx_lane_aligned_eq hw pcie_base port_id t hb]
  dsimp only
  rw [if_neg h, if_neg (by decide), hw1]
  unfold lane_alignment_escalation
  rw [if_pos (by decide)]
  have e50 : LANE_ALIGNMENT_CHECK_INTERVAL_MS * 1000 = 50000 := by decide
  simp only [e50, List.append_assoc, List.cons_append, List.nil_append] at hres ⊢
  rw [hres]
  dsimp only
  rw [configure_cmac_rxtx_eq pcie_base port_id 0 _ hb, hw2]
  dsimp only
  rw [if_neg (by decide)]
  simp

/-- The link aligns on check `k + 1`, early enough for no escalation. -/
theorem lane_loop_aligns (hw : Hw) (pcie_base : Nat) (port_id : Int) (hb : pcie_base ≠ 0) :
    ∀ (k fuel : Nat) (tc rc : Int) (t : Trace), k < fuel → 0 ≤ tc → tc + k ≤ 7 →
      (∀ (i : Nat) (t1 : Trace), i < k →
        reads_at (CMAC_OFFSET_STAT_RX_STATUS port_id) t1
          = reads_at (CMAC_OFFSET_STAT_RX_STATUS port_id) t + (2 * i + 1) →
        hw t1 (CMAC_OFFSET_STAT_RX_STATUS port_id) % 2 ^ 32 ≠ 0x3) →
      (∀ t1 : Trace,
        reads_at (CMAC_OFFSET_STAT_RX_STATUS port_id) t1
          = reads_at (CMAC_OFFSET_STAT_RX_STATUS port_id) t + (2 * k + 1) →
        hw t1 (CMAC_OFFSET_STAT_RX_STATUS port_id) % 2 ^ 32 = 0x3) →
      ∃ (checks : List (Nat × Nat)) (v1 : Nat), checks.length = k ∧
        (∀ p ∈ checks, p.2 ≠ 0x3) ∧
        wait_rx_lane_alignment_loop hw pcie_base port_id fuel tc rc t
          = some (0, t ++ lane_check_trace (CMAC_OFFSET_STAT_RX_STATUS port_id) checks
              ++ [Event.read (CMAC_OFFSET_STAT_RX_STATUS port_id) v1,
                  Event.read (CMAC_OFFSET_STAT_RX_STATUS port_id) 0x3]) := by
  intro k
  induction k with
  | zero =>
    intro fuel tc rc t hf h0 _ _ hok
    obtain ⟨f, rfl⟩ : ∃ f, fuel = f + 1 := ⟨fuel - 1, by omega⟩
    have h2 : lane_check_second hw port_id t = 0x3 := by
      unfold lane_check_second
      apply hok
      rw [reads_at_append]
      simp [reads_at]
    refine ⟨[], lane_check_first hw port_id t, rfl, by simp, ?_⟩
    rw [lane_loop_aligned hw pcie_base port_id f tc rc t hb h2]
    simp [lane_check_trace_nil]
  | succ n ih =>
    intro fuel tc rc t hf h0 hle hfail hok
    obtain ⟨f, rfl⟩ : ∃ f, fuel = f + 1 := ⟨fuel - 1, by omega⟩
    have h2 : lane_check_second hw port_id t ≠ 0x3 := by
      unfold lane_check_second
      apply hfail 0 _ (by omega)
      rw [reads_at_append]
      simp [reads_at]
    have hr : reads_at (CMAC_OFFSET_STAT_RX_STATUS port_id)
        (t ++ [Event.read (CMAC_OFFSET_STAT_RX_STATUS port_id) (lane_check_first hw port_id t),
               Event.read (CMAC_OFFSET_STAT_RX_STATUS port_id) (lane_check_second hw port_id t),
               Event.usleep 50000])
        = reads_at (CMAC_OFFSET_STAT_RX_STATUS port_id) t + 2 := by
      rw [reads_at_append]; simp [reads_at]
    obtain ⟨checks, v1, hlen, hall, hres⟩ := ih f (tc + 1) rc _ (by omega) (by omega)
      (by push_cast at hle; omega)
      (fun i t1 hi hr1 => hfail (i + 1) t1 (by omega) (by rw [hr1, hr]; omega))
      (fun t1 hr1 => hok t1 (by rw [hr1, hr]; omega))
    refine ⟨(lane_check_first hw port_id t, lane_check_second hw port_id t) :: checks, v1,
      by simp [hlen], ?_, ?_⟩
    · intro p hp
      rcases List.mem_cons.mp hp with rfl | hp
      · exact h2
      · exact hall p hp
    · rw [lane_loop_retry hw pcie_base port_id f tc rc t hb h2 h0 (by push_cast at hle; omega)
        (by push_cast at hle; omega), hres, lane_check_trace_cons]
      simp

/-- After the escalation the loop only checks and sleeps until the attempt
counter passes 32. -/
theorem lane_loop_after_escalation (hw : Hw) (pcie_base : Nat) (port_id : Int)
    (hb : pcie_base ≠ 0)
    (hnever : ∀ t1 : Trace, hw t1 (CMAC_OFFSET_STAT_RX_STATUS port_id) % 2 ^ 32 ≠ 0x3) :
    ∀ (n fuel : Nat) (tc rc : Int) (t : Trace), n < fuel → 8 ≤ tc → tc + n = 32 →
      ∃ checks : List (Nat × Nat), checks.length = n + 1 ∧
        wait_rx_lane_alignment_loop hw pcie_base port_id fuel tc rc t
          = some (-ETIMEDOUT,
              t ++ lane_check_trace (CMAC_OFFSET_STAT_RX_STATUS port_id) checks) := by
  intro n
  induction n with
  | zero =>
    intro fuel tc rc t hf h8 heq
    obtain ⟨f, rfl⟩ : ∃ f, fuel = f + 1 := ⟨fuel - 1, by omega⟩
    obtain rfl : tc = 32 := by push_cast at heq; omega
    have h2 : lane_check_second hw port_id t ≠ 0x3 := hnever _
    refine ⟨[(lane_check_first hw port_id t, lane_check_second hw port_id t)], rfl, ?_⟩
    rw [lane_loop_give_up hw pcie_base port_id f rc t hb h2, lane_check_trace_cons,
      lane_check_trace_nil]
  | succ k ih =>
    intro fuel tc rc t hf h8 heq
    obtain ⟨f, rfl⟩ : ∃ f, fuel = f + 1 := ⟨fuel - 1, by omega⟩
    have h2 : lane_check_second hw port_id t ≠ 0x3 := hnever _
    obtain ⟨checks, hlen, hres⟩ := ih f (tc + 1) rc
      (t ++ [Event.read (CMAC_OFFSET_STAT_RX_STATUS port_id) (lane_check_first hw port_id t),
             Event.read (CMAC_OFFSET_STAT_RX_STATUS port_id) (lane_check_second hw port_id t),
             Event.usleep 50000]) (by omega) (by omega) (by push_cast at heq ⊢; omega)
    refine ⟨(lane_check_first hw port_id t, lane_check_second hw port_id t) :: checks,
      by simp [hlen], ?_⟩
    rw [lane_loop_retry hw pcie_base port_id f tc rc t hb h2 (by omega)
      (by push_cast at heq; omega) (by omega), hres, lane_check_trace_cons]
    simp

/-- Never aligned, before the escalation: the remaining checks up to the
eighth, the escalation, and then the checks up to the ceiling. -/
theorem lane_loop_before_escalation (hw : Hw) (pcie_base : Nat) (port_id : Int)
    (hb : pcie_base ≠ 0) (hport : port_id = 0 ∨ port_id = 1)
    (hnever : ∀ t1 : Trace, hw t1 (CMAC_OFFSET_STAT_RX_STATUS port_id) % 2 ^ 32 ≠ 0x3) :
    ∀ (m fuel : Nat) (tc : Int) (t : Trace), m + 26 ≤ fuel → 0 ≤ tc → tc + m = 7 →
      ∃ (checks : List (Nat × Nat)) (polls : Trace) (checks2 : List (Nat × Nat)),
        checks.length = m + 1 ∧ writes polls = [] ∧ checks2.length = 25 ∧
        wait_rx_lane_alignment_loop hw pcie_base port_id fuel tc 0 t
          = some (-ETIMEDOUT,
              t ++ lane_check_trace (CMAC_OFFSET_STAT_RX_STATUS port_id) checks
                ++ [Event.write 0xC (if port_id = 0 then 0x10 else 0x100)] ++ polls
                ++ [Event.write (CMAC_OFFSET_CONF_RX_1 port_id) 0x1,
                    Event.write (CMAC_OFFSET_CONF_TX_1 port_id) 0x10]
                ++ lane_check_trace (CMAC_OFFSET_STAT_RX_STATUS port_id) checks2) := by
  intro m
  induction m with
  | zero =>
    intro fuel tc t hf h0 heq
    obtain ⟨f, rfl⟩ : ∃ f, fuel = f + 1 := ⟨fuel - 1, by omega⟩
    obtain rfl : tc = 7 := by push_cast at heq; omega
    have h2 : lane_check_second hw port_id t ≠ 0x3 := hnever _
    obtain ⟨polls, hpolls, hesc⟩ := lane_loop_escalate hw pcie_base port_id f t hb hport h2
    obtain ⟨checks2, hlen2, hres⟩ := lane_loop_after_escalation hw pcie_base port_id hb hnever
      24 f 8 1
      (t ++ [Event.read (CMAC_OFFSET_STAT_RX_STATUS port_id) (lane_check_first hw port_id t),
             Event.read (CMAC_OFFSET_STAT_RX_STATUS port_id) (lane_check_second hw port_id t),
             Event.usleep 50000]
         ++ [Event.write 0xC (if port_id = 0 then 0x10 else 0x100)] ++ polls
         ++ [Event.write (CMAC_OFFSET_CONF_RX_1 port_id) 0x1,
             Event.write (CMAC_OFFSET_CONF_TX_1 port_id) 0x10])
      (by omega) (by decide) (by decide)
    refine ⟨[(lane_check_first hw port_id t, lane_check_second hw port_id t)], polls, checks2,
      rfl, hpolls, hlen2, ?_⟩
    rw [hesc, hres, lane_check_trace_cons, lane_check_trace_nil]
  | succ k ih =>
    intro fuel tc t hf h0 heq
    obtain ⟨f, rfl⟩ : ∃ f, fuel = f + 1 := ⟨fuel - 1, by omega⟩
    have h2 : lane_check_second hw port_id t ≠ 0x3 := hnever _
    obtain ⟨checks, polls, checks2, hlen, hpolls, hlen2, hres⟩ := ih f (tc + 1)
      (t ++ [Event.read (CMAC_OFFSET_STAT_RX_STATUS port_id) (lane_check_first hw port_id t),
             Event.read (CMAC_OFFSET_STAT_RX_STATUS port_id) (lane_check_second hw port_id t),
             Event.usleep 50000]) (by omega) (by omega) (by push_cast at heq ⊢; omega)
    refine ⟨(lane_check_first hw port_id t, lane_check_second hw port_id t) :: checks, polls,
      checks2, by simp [hlen], hpolls, hlen2, ?_⟩
    rw [lane_loop_retry hw pcie_base port_id f tc 0 t hb h2 h0 (by push_cast at heq; omega)
      (by push_cast at heq; omega), hres, lane_check_trace_cons]
    simp

end ResetTool

/-- C9: for every `k < 8`, if the lane check reports not-aligned on the first
`k` checks and aligned on check `k + 1` (a check reports what its second load
of the RX status register returns; loads are counted in the history),
`wait_rx_lane_alignment` returns 0 after exactly `k + 1` lane checks, that is
`2 * (k + 1)` loads of the RX status register, with a 50000 us sleep after each
of the `k` failed ones, and stores nothing: there is no reset escalation and no
store to the Shell reset register. -/
theorem lane_alignment_without_escalation (hw : Hw) (pcie_base : Nat)
    (port_id verbose : Int) (k : Nat) (t : Trace) (hb : pcie_base ≠ 0) (hk : k < 8)
    (hfail : ∀ (i : Nat) (t1 : Trace), i < k →
      reads_at (ResetTool.CMAC_OFFSET_STAT_RX_STATUS port_id) t1
        = reads_at (ResetTool.CMAC_OFFSET_STAT_RX_STATUS port_id) t + (2 * i + 1) →
      hw t1 (ResetTool.CMAC_OFFSET_STAT_RX_STATUS port_id) % 2 ^ 32 ≠ 0x3)
    (hok : ∀ t1 : Trace,
      reads_at (ResetTool.CMAC_OFFSET_STAT_RX_STATUS port_id) t1
        = reads_at (ResetTool.CMAC_OFFSET_STAT_RX_STATUS port_id) t + (2 * k + 1) →
      hw t1 (ResetTool.CMAC_OFFSET_STAT_RX_STATUS port_id) % 2 ^ 32 = 0x3) :
    ∃ (checks : List (Nat × Nat)) (v1 : Nat) (t2 : Trace),
      ResetTool.wait_rx_lane_alignment hw pcie_base port_id verbose t = some (0, t2) ∧
      t2 = t ++ lane_check_trace (ResetTool.CMAC_OFFSET_STAT_RX_STATUS port_id) checks
        ++ [Event.read (ResetTool.CMAC_OFFSET_STAT_RX_STATUS port_id) v1,
            Event.read (ResetTool.CMAC_OFFSET_STAT_RX_STATUS port_id) 0x3] ∧
      checks.length = k ∧ (∀ p ∈ checks, p.2 ≠ 0x3) ∧
      reads_at (ResetTool.CMAC_OFFSET_STAT_RX_STATUS port_id) t2
        = reads_at (ResetTool.CMAC_OFFSET_STAT_RX_STATUS port_id) t + 2 * (k + 1) ∧
      writes t2 = writes t := by
  obtain ⟨checks, v1, hlen, hall, hres⟩ :=
    ResetTool.lane_loop_aligns hw pcie_base port_id hb k LOOP_FUEL 0 0 t
      (by unfold LOOP_FUEL; omega) (le_refl 0) (by omega) hfail hok
  refine ⟨checks, v1, _, hres, rfl, hlen, hall, ?_, ?_⟩
  · rw [reads_at_append, reads_at_append, reads_at_lane_check_trace, hlen]
    simp [reads_at]
    omega
  · rw [writes_append, writes_append, writes_lane_check_trace]
    simp [writes]

/-- Witness for C9: port 0 on a device whose RX status register returns 0x3
on its sixth load (the second load of the third check) and 0 otherwise, so
`k = 2`. -/
theorem lane_alignment_without_escalation_witness :
    ∃ (checks : List (Nat × Nat)) (v1 : Nat) (t2 : Trace),
      ResetTool.wait_rx_lane_alignment
        (fun t _ => if reads_at (ResetTool.CMAC_OFFSET_STAT_RX_STATUS 0) t = 5 then 3 else 0)
        1 0 0 [] = some (0, t2) ∧
      t2 = [] ++ lane_check_trace (ResetTool.CMAC_OFFSET_STAT_RX_STATUS 0) checks
        ++ [Event.read (ResetTool.CMAC_OFFSET_STAT_RX_STATUS 0) v1,
            Event.read (ResetTool.CMAC_OFFSET_STAT_RX_STATUS 0) 0x3] ∧
      checks.length = 2 ∧ (∀ p ∈ checks, p.2 ≠ 0x3) ∧
      reads_at (ResetTool.CMAC_OFFSET_STAT_RX_STATUS 0) t2
        = reads_at (ResetTool.CMAC_OFFSET_STAT_RX_STATUS 0) [] + 2 * (2 + 1) ∧
      writes t2 = writes [] :=
  lane_alignment_without_escalation
    (fun t _ => if reads_at (ResetTool.CMAC_OFFSET_STAT_RX_STATUS 0) t = 5 then 3 else 0)
    1 0 0 2 [] (by decide) (by decide)
    (fun i t1 hi hr => by
      have h0 : reads_at (ResetTool.CMAC_OFFSET_STAT_RX_STATUS 0) ([] : Trace) = 0 := rfl
      have hne : ¬ reads_at (ResetTool.CMAC_OFFSET_STAT_RX_STATUS 0) t1 = 5 := by
        rw [hr, h0]; omega
      simp only [hne, if_false]
      decide)
    (fun t1 hr => by
      have h0 : reads_at (ResetTool.CMAC_OFFSET_STAT_RX_STATUS 0) ([] : Trace) = 0 := rfl
      have he : reads_at (ResetTool.CMAC_OFFSET_STAT_RX_STATUS 0) t1 = 5 := by
        rw [hr, h0]
      simp only [he, if_true]
      decide)

/-- C10: for port 0 or 1, if the RX status register never reads 0x3,
`wait_rx_lane_alignment` returns `-ETIMEDOUT` and its stores are exactly three:
after the 8th failed lane check one store of the port's mask to the Shell reset
register 0x0C (the single call of `perform_cmac_reset`, followed by its status
polling `polls`), then the RX enable and TX enable stores of
`configure_cmac_rxtx`; what follows is lane checks only, so the escalation is
not repeated and the Shell reset register is stored to exactly once. -/
theorem lane_alignment_escalates_once (hw : Hw) (pcie_base : Nat) (port_id verbose : Int)
    (t : Trace) (hb : pcie_base ≠ 0) (hport : port_id = 0 ∨ port_id = 1)
    (hnever : ∀ t1 : Trace,
      hw t1 (ResetTool.CMAC_OFFSET_STAT_RX_STATUS port_id) % 2 ^ 32 ≠ 0x3) :
    ∃ (checks : List (Nat × Nat)) (polls : Trace) (checks2 : List (Nat × Nat)) (t2 : Trace),
      ResetTool.wait_rx_lane_alignment hw pcie_base port_id verbose t
        = some (-ETIMEDOUT, t2) ∧
      t2 = t ++ lane_check_trace (ResetTool.CMAC_OFFSET_STAT_RX_STATUS port_id) checks
        ++ [Event.write 0xC (if port_id = 0 then 0x10 else 0x100)] ++ polls
        ++ [Event.write (ResetTool.CMAC_OFFSET_CONF_RX_1 port_id) 0x1,
            Event.write (ResetTool.CMAC_OFFSET_CONF_TX_1 port_id) 0x10]
        ++ lane_check_trace (ResetTool.CMAC_OFFSET_STAT_RX_STATUS port_id) checks2 ∧
      checks.length = 8 ∧ writes polls = [] ∧
      writes t2 = writes t ++
        [(0xC, if port_id = 0 then 0x10 else 0x100),
         (ResetTool.CMAC_OFFSET_CONF_RX_1 port_id, 0x1),
         (ResetTool.CMAC_OFFSET_CONF_TX_1 port_id, 0x10)] ∧
      (writes t2).countP (fun w => w.1 = 0xC) = (writes t).countP (fun w => w.1 = 0xC) + 1 := by
  obtain ⟨checks, polls, checks2, hlen, hpolls, _, hres⟩ :=
    ResetTool.lane_loop_before_escalation hw pcie_base port_id hb hport hnever
      7 LOOP_FUEL 0 t (by decide) (le_refl 0) (by decide)
  have hwr : writes (t ++ lane_check_trace (ResetTool.CMAC_OFFSET_STAT_RX_STATUS port_id) checks
        ++ [Event.write 0xC (if port_id = 0 then 0x10 else 0x100)] ++ polls
        ++ [Event.write (ResetTool.CMAC_OFFSET_CONF_RX_1 port_id) 0x1,
            Event.write (ResetTool.CMAC_OFFSET_CONF_TX_1 port_id) 0x10]
        ++ lane_check_trace (ResetTool.CMAC_OFFSET_STAT_RX_STATUS port_id) checks2)
      = writes t ++
        [(0xC, if port_id = 0 then 0x10 else 0x100),
         (ResetTool.CMAC_OFFSET_CONF_RX_1 port_id, 0x1),
         (ResetTool.CMAC_OFFSET_CONF_TX_1 port_id, 0x10)] := by
    simp only [writes_append, writes_lane_check_trace, hpolls]
    simp [writes]
  refine ⟨checks, polls, checks2, _, hres, rfl, hlen, hpolls, hwr, ?_⟩
  rw [hwr, List.countP_append]
  have hrx : ResetTool.CMAC_OFFSET_CONF_RX_1 port_id ≠ 0xC := by
    unfold ResetTool.CMAC_OFFSET_CONF_RX_1 ResetTool.CMAC_OFFSET ResetTool.CMAC_SUBSYSTEM_OFFSET
    split <;> decide
  have htx : ResetTool.CMAC_OFFSET_CONF_TX_1 port_id ≠ 0xC := by
    unfold ResetTool.CMAC_OFFSET_CONF_TX_1 ResetTool.CMAC_OFFSET ResetTool.CMAC_SUBSYSTEM_OFFSET
    split <;> decide
  simp [List.countP_cons, hrx, htx]

/-- Witness for C10: port 0 on a device whose registers all read 0. -/
theorem lane_alignment_escalates_once_witness :
    ∃ (checks : List (Nat × Nat)) (polls : Trace) (checks2 : List (Nat × Nat)) (t2 : Trace),
      ResetTool.wait_rx_lane_alignment (fun _ _ => 0) 1 0 0 [] = some (-ETIMEDOUT, t2) ∧
      t2 = [] ++ lane_check_trace (ResetTool.CMAC_OFFSET_STAT_RX_STATUS 0) checks
        ++ [Event.write 0xC (if (0 : Int) = 0 then 0x10 else 0x100)] ++ polls
        ++ [Event.write (ResetTool.CMAC_OFFSET_CONF_RX_1 0) 0x1,
            Event.write (ResetTool.CMAC_OFFSET_CONF_TX_1 0) 0x10]
        ++ lane_check_trace (ResetTool.CMAC_OFFSET_STAT_RX_STATUS 0) checks2 ∧
      checks.length = 8 ∧ writes polls = [] ∧
      writes t2 = writes [] ++
        [(0xC, if (0 : Int) = 0 then 0x10 else 0x100),
         (ResetTool.CMAC_OFFSET_CONF_RX_1 0, 0x1),
         (ResetTool.CMAC_OFFSET_CONF_TX_1 0, 0x10)] ∧
      (writes t2).countP (fun w => w.1 = 0xC) = (writes []).countP (fun w => w.1 = 0xC) + 1 :=
  lane_alignment_escalates_once (fun _ _ => 0) 1 0 0 [] (by decide) (Or.inl rfl)
    (fun _ => by beta_reduce; decide)

/-! ## Status polling of a baseline CMAC reset, in detail -/

theorem writes_status_polls (vals : List Nat) (last : Option Nat) :
    writes (status_polls vals last) = [] := by
  unfold status_polls
  rw [writes_append, writes_poll_trace]
  cases last <;> rfl

theorem reads_at_poll_trace_other (off off2 us : Int) (vals : List Nat) (h : off2 ≠ off) :
    reads_at off (poll_trace off2 us vals) = 0 := by
  induction vals with
  | nil => rfl
  | cons v vs ih =>
    rw [poll_trace_cons]
    simp only [reads_at] at ih ⊢
    simp [List.countP_cons, ih, h]

theorem reads_at_status_polls (off : Int) (vals : List Nat) (last : Option Nat)
    (h : (0x10 : Int) ≠ off) : reads_at off (status_polls vals last) = 0 := by
  unfold status_polls
  rw [reads_at_append, reads_at_poll_trace_other off 0x10 10000 vals h]
  cases last <;> simp [reads_at, h]

namespace ResetTool

theorem check_cmac_reset_status_eq (hw : Hw) (pcie_base : Nat) (port_id rc : Int) (t : Trace)
    (hb : pcie_base ≠ 0) (hport : port_id = 0 ∨ port_id = 1) :
    check_cmac_reset_status hw pcie_base port_id rc t
      = (0, (if hw t 0x10 % 2 ^ 32 &&& (if port_id = 0 then 0x10 else 0x100) ≠ 0 then 1 else 0),
         t ++ [Event.read 0x10 (hw t 0x10 % 2 ^ 32)]) := by
  unfold check_cmac_reset_status
  rw [if_neg (by omega)]
  have e : SYSCFG_OFFSET_SHELL_STATUS = 0x10 := by decide
  rw [e, safe_read32_data_ok hw pcie_base 0x10 LOCAL t hb (by decide) (by decide) (by decide)]
  dsimp only
  rw [if_neg (by decide)]
  have hmask : (if port_id = 0 then SHELL_RESET_CMAC_PORT0 else SHELL_RESET_CMAC_PORT1)
      = (if port_id = 0 then 0x10 else 0x100) := by split <;> rfl
  simp only [Option.getD_some, hmask]

/-- The `switch` for the reset type of a valid CMAC port is its status check. -/
theorem wait_reset_completion_switch_cmac (hw : Hw) (pcie_base : Nat) (port_id rc : Int)
    (t : Trace) (hb : pcie_base ≠ 0) (hport : port_id = 0 ∨ port_id = 1) :
    wait_reset_completion_switch hw pcie_base
        (if port_id = 0 then .RESET_TYPE_CMAC_PORT0 else .RESET_TYPE_CMAC_PORT1) rc t
      = .ok (0, (if hw t 0x10 % 2 ^ 32 &&& (if port_id = 0 then 0x10 else 0x100) ≠ 0
                 then 1 else 0),
             t ++ [Event.read 0x10 (hw t 0x10 % 2 ^ 32)]) := by
  rcases hport with rfl | rfl
  · have h := check_cmac_reset_status_eq hw pcie_base 0 rc t hb (Or.inl rfl)
    simp only [if_true] at h ⊢
    unfold wait_reset_completion_switch
    rw [h]
  · have h := check_cmac_reset_status_eq hw pcie_base 1 rc t hb (Or.inr rfl)
    have h10 : ¬ ((1 : Int) = 0) := by decide
    simp only [h10, if_false] at h ⊢
    unfold wait_reset_completion_switch
    rw [h]

/-- Status polling of a baseline CMAC reset: 0 after a load that shows the
port's bit, or `-ETIMEDOUT` after the remaining budget of polls. -/
theorem cmac_poll_loop_outcome (hw : Hw) (pcie_base : Nat) (port_id : Int)
    (hb : pcie_base ≠ 0) (hport : port_id = 0 ∨ port_id = 1) :
    ∀ (n fuel : Nat) (elapsed_ms rc : Int) (t : Trace), n < fuel → 0 ≤ elapsed_ms →
      elapsed_ms + n * 10 = 5000 →
      (∃ (vals : List Nat) (v : Nat), vals.length < n ∧
        wait_reset_completion_loop hw pcie_base
            (if port_id = 0 then .RESET_TYPE_CMAC_PORT0 else .RESET_TYPE_CMAC_PORT1)
            RESET_TIMEOUT_MS fuel elapsed_ms rc t
          = some (0, t ++ status_polls vals (some v))) ∨
      (∃ vals : List Nat, vals.length = n ∧
        wait_reset_completion_loop hw pcie_base
            (if port_id = 0 then .RESET_TYPE_CMAC_PORT0 else .RESET_TYPE_CMAC_PORT1)
            RESET_TIMEOUT_MS fuel elapsed_ms rc t
          = some (-ETIMEDOUT, t ++ status_polls vals none)) := by
  intro n
  induction n with
  | zero =>
    intro fuel elapsed_ms rc t hf he heq
    obtain ⟨f, rfl⟩ : ∃ f, fuel = f + 1 := ⟨fuel - 1, by omega⟩
    right
    refine ⟨[], rfl, ?_⟩
    rw [wait_reset_completion_loop, if_neg (by unfold RESET_TIMEOUT_MS; omega)]
    simp [status_polls, poll_trace_nil]
  | succ k ih =>
    intro fuel elapsed_ms rc t hf he heq
    obtain ⟨f, rfl⟩ : ∃ f, fuel = f + 1 := ⟨fuel - 1, by omega⟩
    rw [wait_reset_completion_loop,
      if_pos (by unfold RESET_TIMEOUT_MS; push_cast at heq; omega),
      wait_reset_completion_switch_cmac hw pcie_base port_id rc t hb hport]
    dsimp only
    rw [if_neg (by decide)]
    by_cases hbit : hw t 0x10 % 2 ^ 32 &&& (if port_id = 0 then 0x10 else 0x100) ≠ 0
    · left
      refine ⟨[], hw t 0x10 % 2 ^ 32, by simp, ?_⟩
      rw [if_pos hbit, if_pos (by decide)]
      simp [status_polls, poll_trace_nil]
    · rw [if_neg hbit, if_neg (by decide)]
      have hstep : wrap32 (elapsed_ms + RESET_POLL_INTERVAL_MS) = elapsed_ms + 10 :=
        wrap32_of_range _ (by unfold RESET_POLL_INTERVAL_MS; omega)
          (by unfold RESET_POLL_INTERVAL_MS; omega)
      have e10 : RESET_POLL_INTERVAL_MS * 1000 = 10000 := by decide
      rw [hstep, e10]
      rcases ih f (elapsed_ms + 10) 0
        (t ++ [Event.read 0x10 (hw t 0x10 % 2 ^ 32)] ++ [Event.usleep 10000]) (by omega)
        (by omega) (by push_cast at heq ⊢; omega) with ⟨vals, v, hlen, hres⟩ | ⟨vals, hlen, hres⟩
      · left
        refine ⟨(hw t 0x10 % 2 ^ 32) :: vals, v, by simp; omega, ?_⟩
        rw [hres]
        simp [status_polls, poll_trace_cons]
      · right
        refine ⟨(hw t 0x10 % 2 ^ 32) :: vals, by simp [hlen], ?_⟩
        rw [hres]
        simp [status_polls, poll_trace_cons]

/-- The baseline CMAC port reset on a valid port, in detail: the store of the
port's subsystem bit, then status polling that ends with 0 or `-ETIMEDOUT`. -/
theorem perform_cmac_reset_outcome (hw : Hw) (pcie_base : Nat) (port_id verbose : Int)
    (t : Trace) (hb : pcie_base ≠ 0) (hport : port_id = 0 ∨ port_id = 1) :
    ∃ (ret : Int) (vals : List Nat) (last : Option Nat),
      perform_cmac_reset hw pcie_base port_id verbose t
        = some (ret, t ++ [Event.write 0xC (if port_id = 0 then 0x10 else 0x100)]
            ++ status_polls vals last) ∧
      ((ret = 0 ∧ last ≠ none) ∨ (ret = -ETIMEDOUT ∧ last = none)) := by
  unfold perform_cmac_reset
  rw [if_neg (by omega)]
  have hmask : (if port_id = 0 then SHELL_RESET_CMAC_PORT0 else SHELL_RESET_CMAC_PORT1)
      = (if port_id = 0 then 0x10 else 0x100) := by split <;> rfl
  have hm32 : (if port_id = 0 then (0x10 : Nat) else 0x100) % 2 ^ 32
      = (if port_id = 0 then 0x10 else 0x100) := by split <;> rfl
  have e2 : SYSCFG_OFFSET_SHELL_RESET = 0xC := by decide
  simp only [hmask]
  rw [safe_write32_data_ok pcie_base SYSCFG_OFFSET_SHELL_RESET _ _ hb (by decide) (by decide),
    hm32, e2]
  dsimp only
  rw [if_neg (by decide)]
  unfold wait_reset_completion
  rcases cmac_poll_loop_outcome hw pcie_base port_id hb hport 500 LOOP_FUEL 0 0
    (t ++ [Event.write 0xC (if port_id = 0 then 0x10 else 0x100)]) (by decide) (le_refl 0)
    (by decide) with ⟨vals, v, _, hres⟩ | ⟨vals, _, hres⟩
  · rw [hres]
    dsimp only
    rw [if_neg (by decide)]
    exact ⟨0, vals, some v, rfl, Or.inl ⟨rfl, by simp⟩⟩
  · rw [hres]
    dsimp only
    rw [if_pos (by decide)]
    exact ⟨-ETIMEDOUT, vals, none, rfl, Or.inr ⟨rfl, rfl⟩⟩

/-- The escalation step of the lane loop, with the trace it adds in detail. -/
theorem lane_loop_escalate_detail (hw : Hw) (pcie_base : Nat) (port_id : Int) (fuel : Nat)
    (t : Trace) (hb : pcie_base ≠ 0) (hport : port_id = 0 ∨ port_id = 1)
    (h : lane_check_second hw port_id t ≠ 0x3) :
    ∃ (vals : List Nat) (last : Option Nat),
      wait_rx_lane_alignment_loop hw pcie_base port_id (fuel + 1) 7 0 t
        = wait_rx_lane_alignment_loop hw pcie_base port_id fuel 8 1
            (t ++ [Event.read (CMAC_OFFSET_STAT_RX_STATUS port_id)
                     (lane_check_first hw port_id t),
                   Event.read (CMAC_OFFSET_STAT_RX_STATUS port_id)
                     (lane_check_second hw port_id t),
                   Event.usleep 50000]
               ++ escalation_trace port_id vals last) := by
  have hw1 : wrap32 (7 + 1) = 8 := by decide
  have hw2 : wrap32 (0 + 1) = 1 := by decide
  obtain ⟨ret, vals, last, hres, _⟩ := perform_cmac_reset_outcome hw pcie_base port_id 0
    (t ++ [Event.read (CMAC_OFFSET_STAT_RX_STATUS port_id) (lane_check_first hw port_id t),
           Event.read (CMAC_OFFSET_STAT_RX_STATUS port_id) (lane_check_second hw port_id t),
           Event.usleep 50000]) hb hport
  refine ⟨vals, last, ?_⟩
  rw [wait_rx_lane_alignment_loop, check_rx_lane_aligned_eq hw pcie_base port_id t hb]
  dsimp only
  rw [if_neg h, if_neg (by decide), hw1]
  unfold lane_alignment_escalation
  rw [if_pos (by decide)]
  have e50 : LANE_ALIGNMENT_CHECK_INTERVAL_MS * 1000 = 50000 := by decide
  simp only [e50, List.append_assoc, List.cons_append, List.nil_append] at hres ⊢
  rw [hres]
  dsimp only
  rw [configure_cmac_rxtx_eq pcie_base port_id 0 _ hb, hw2]
  dsimp only
  rw [if_neg (by decide)]
  simp [escalation_trace]

end ResetTool

/-! ## Lane alignment on an arbitrary device -/

namespace ResetTool

/-- Once no escalation can happen any more (attempt counter at 8 or above), the
loop either finds the lanes aligned or gives up when the counter passes 32. -/
theorem lane_loop_outcome_after (hw : Hw) (pcie_base : Nat) (port_id : Int)
    (hb : pcie_base ≠ 0) :
    ∀ (n fuel : Nat) (tc rc : Int) (t : Trace), n < fuel → 8 ≤ tc → tc + n = 32 →
      (∃ (checks : List (Nat × Nat)) (v1 : Nat), checks.length ≤ n ∧
        wait_rx_lane_alignment_loop hw pcie_base port_id fuel tc rc t
          = some (0, t ++ lane_check_trace (CMAC_OFFSET_STAT_RX_STATUS port_id) checks
              ++ [Event.read (CMAC_OFFSET_STAT_RX_STATUS port_id) v1,
                  Event.read (CMAC_OFFSET_STAT_RX_STATUS port_id) 0x3])) ∨
      (∃ checks : List (Nat × Nat), checks.length = n + 1 ∧
        wait_rx_lane_alignment_loop hw pcie_base port_id fuel tc rc t
          = some (-ETIMEDOUT,
              t ++ lane_check_trace (CMAC_OFFSET_STAT_RX_STATUS port_id) checks)) := by
  intro n
  induction n with
  | zero =>
    intro fuel tc rc t hf h8 heq
    obtain ⟨f, rfl⟩ : ∃ f, fuel = f + 1 := ⟨fuel - 1, by omega⟩
    obtain rfl : tc = 32 := by push_cast at heq; omega
    by_cases h2 : lane_check_second hw port_id t = 0x3
    · left
      refine ⟨[], lane_check_first hw port_id t, by simp, ?_⟩
      rw [lane_loop_aligned hw pcie_base port_id f 32 rc t hb h2]
      simp [lane_check_trace_nil]
    · right
      refine ⟨[(lane_check_first hw port_id t, lane_check_second hw port_id t)], rfl, ?_⟩
      rw [lane_loop_give_up hw pcie_base port_id f rc t hb h2, lane_check_trace_cons,
        lane_check_trace_nil]
  | succ k ih =>
    intro fuel tc rc t hf h8 heq
    obtain ⟨f, rfl⟩ : ∃ f, fuel = f + 1 := ⟨fuel - 1, by omega⟩
    by_cases h2 : lane_check_second hw port_id t = 0x3
    · left
      refine ⟨[], lane_check_first hw port_id t, by simp, ?_⟩
      rw [lane_loop_aligned hw pcie_base port_id f tc rc t hb h2]
      simp [lane_check_trace_nil]
    · have hrw := lane_loop_retry hw pcie_base port_id f tc rc t hb h2 (by omega)
        (by push_cast at heq; omega) (by omega)
      rcases ih f (tc + 1) rc
        (t ++ [Event.read (CMAC_OFFSET_STAT_RX_STATUS port_id) (lane_check_first hw port_id t),
               Event.read (CMAC_OFFSET_STAT_RX_STATUS port_id) (lane_check_second hw port_id t),
               Event.usleep 50000]) (by omega) (by omega) (by push_cast at heq ⊢; omega)
        with ⟨checks, v1, hlen, hres⟩ | ⟨checks, hlen, hres⟩
      · left
        refine ⟨(lane_check_first hw port_id t, lane_check_second hw port_id t) :: checks, v1,
          by simp; omega, ?_⟩
        rw [hrw, hres, lane_check_trace_cons]
        simp
      · right
        refine ⟨(lane_check_first hw port_id t, lane_check_second hw port_id t) :: checks,
          by simp [hlen], ?_⟩
        rw [hrw, hres, lane_check_trace_cons]
        simp

/-- Before the escalation (attempt counter below 8, no reset done yet): the
loop finds the lanes aligned within the checks left before the eighth failure,
or escalates after the eighth failed check and goes on as in
`lane_loop_outcome_after`. -/
theorem lane_loop_outcome_before (hw : Hw) (pcie_base : Nat) (port_id : Int)
    (hb : pcie_base ≠ 0) (hport : port_id = 0 ∨ port_id = 1) :
    ∀ (m fuel : Nat) (tc : Int) (t : Trace), m + 26 ≤ fuel → 0 ≤ tc → tc + m = 7 →
      (∃ (checks : List (Nat × Nat)) (v1 : Nat), checks.length ≤ m ∧
        wait_rx_lane_alignment_loop hw pcie_base port_id fuel tc 0 t
          = some (0, t ++ lane_check_trace (CMAC_OFFSET_STAT_RX_STATUS port_id) checks
              ++ [Event.read (CMAC_OFFSET_STAT_RX_STATUS port_id) v1,
                  Event.read (CMAC_OFFSET_STAT_RX_STATUS port_id) 0x3])) ∨
      (∃ (checks : List (Nat × Nat)) (vals : List Nat) (last : Option Nat)
          (checks2 : List (Nat × Nat)), checks.length = m + 1 ∧
        ((∃ v1 : Nat, checks2.length ≤ 24 ∧
          wait_rx_lane_alignment_loop hw pcie_base port_id fuel tc 0 t
            = some (0, t ++ lane_check_trace (CMAC_OFFSET_STAT_RX_STATUS port_id) checks
                ++ escalation_trace port_id vals last
                ++ lane_check_trace (CMAC_OFFSET_STAT_RX_STATUS port_id) checks2
                ++ [Event.read (CMAC_OFFSET_STAT_RX_STATUS port_id) v1,
                    Event.read (CMAC_OFFSET_STAT_RX_STATUS port_id) 0x3])) ∨
         (checks2.length = 25 ∧
          wait_rx_lane_alignment_loop hw pcie_base port_id fuel tc 0 t
            = some (-ETIMEDOUT,
                t ++ lane_check_trace (CMAC_OFFSET_STAT_RX_STATUS port_id) checks
                  ++ escalation_trace port_id vals last
                  ++ lane_check_trace (CMAC_OFFSET_STAT_RX_STATUS port_id) checks2)))) := by
  intro m
  induction m with
  | zero =>
    intro fuel tc t hf h0 heq
    obtain ⟨f, rfl⟩ : ∃ f, fuel = f + 1 := ⟨fuel - 1, by omega⟩
    obtain rfl : tc = 7 := by push_cast at heq; omega
    by_cases h2 : lane_check_second hw port_id t = 0x3
    · left
      refine ⟨[], lane_check_first hw port_id t, by simp, ?_⟩
      rw [lane_loop_aligned hw pcie_base port_id f 7 0 t hb h2]
      simp [lane_check_trace_nil]
    · right
      obtain ⟨vals, last, hesc⟩ :=
        lane_loop_escalate_detail hw pcie_base port_id f t hb hport h2
      rcases lane_loop_outcome_after hw pcie_base port_id hb 24 f 8 1
        (t ++ [Event.read (CMAC_OFFSET_STAT_RX_STATUS port_id) (lane_check_first hw port_id t),
               Event.read (CMAC_OFFSET_STAT_RX_STATUS port_id) (lane_check_second hw port_id t),
               Event.usleep 50000]
           ++ escalation_trace port_id vals last) (by omega) (by decide) (by decide)
        with ⟨checks2, v1, hlen2, hres⟩ | ⟨checks2, hlen2, hres⟩
      · refine ⟨[(lane_check_first hw port_id t, lane_check_second hw port_id t)], vals, last,
          checks2, rfl, Or.inl ⟨v1, hlen2, ?_⟩⟩
        rw [hesc, hres, lane_check_trace_cons, lane_check_trace_nil]
      · refine ⟨[(lane_check_first hw port_id t, lane_check_second hw port_id t)], vals, last,
          checks2, rfl, Or.inr ⟨hlen2, ?_⟩⟩
        rw [hesc, hres, lane_check_trace_cons, lane_check_trace_nil]
  | succ k ih =>
    intro fuel tc t hf h0 heq
    obtain ⟨f, rfl⟩ : ∃ f, fuel = f + 1 := ⟨fuel - 1, by omega⟩
    by_cases h2 : lane_check_second hw port_id t = 0x3
    · left
      refine ⟨[], lane_check_first hw port_id t, by simp, ?_⟩
      rw [lane_loop_aligned hw pcie_base port_id f tc 0 t hb h2]
      simp [lane_check_trace_nil]
    · have hrw := lane_loop_retry hw pcie_base port_id f tc 0 t hb h2 h0
        (by push_cast at heq; omega) (by push_cast at heq; omega)
      rcases ih f (tc + 1)
        (t ++ [Event.read (CMAC_OFFSET_STAT_RX_STATUS port_id) (lane_check_first hw port_id t),
               Event.read (CMAC_OFFSET_STAT_RX_STATUS port_id) (lane_check_second hw port_id t),
               Event.usleep 50000]) (by omega) (by omega) (by push_cast at heq ⊢; omega)
        with ⟨checks, v1, hlen, hres⟩ | ⟨checks, vals, last, checks2, hlen, hcase⟩
      · left
        refine ⟨(lane_check_first hw port_id t, lane_check_second hw port_id t) :: checks, v1,
          by simp; omega, ?_⟩
        rw [hrw, hres, lane_check_trace_cons]
        simp
      · right
        refine ⟨(lane_check_first hw port_id t, lane_check_second hw port_id t) :: checks,
          vals, last, checks2, by simp [hlen], ?_⟩
        rcases hcase with ⟨v1, hlen2, hres⟩ | ⟨hlen2, hres⟩
        · refine Or.inl ⟨v1, hlen2, ?_⟩
          rw [hrw, hres, lane_check_trace_cons]
          simp
        · refine Or.inr ⟨hlen2, ?_⟩
          rw [hrw, hres, lane_check_trace_cons]
          simp

/-- Every run of `wait_rx_lane_alignment` on a mapped window and a valid port:
failed lane checks, at most one escalation (after exactly eight of them), more
failed lane checks, and either the aligned check (return 0) or nothing
(`-ETIMEDOUT`, after 8 + 25 failed checks). -/
theorem wait_rx_lane_alignment_outcome (hw : Hw) (pcie_base : Nat) (port_id verbose : Int)
    (t : Trace) (hb : pcie_base ≠ 0) (hport : port_id = 0 ∨ port_id = 1) :
    ∃ (ret : Int) (checks : List (Nat × Nat)) (esc : Trace) (checks2 : List (Nat × Nat))
        (fin : Trace),
      wait_rx_lane_alignment hw pcie_base port_id verbose t
        = some (ret, t ++ lane_check_trace (CMAC_OFFSET_STAT_RX_STATUS port_id) checks ++ esc
            ++ lane_check_trace (CMAC_OFFSET_STAT_RX_STATUS port_id) checks2 ++ fin) ∧
      ((esc = [] ∧ checks2 = [] ∧ checks.length ≤ 7) ∨
       (∃ (vals : List Nat) (last : Option Nat),
          esc = escalation_trace port_id vals last ∧ checks.length = 8)) ∧
      ((ret = 0 ∧ checks2.length ≤ 24 ∧
          ∃ v1 : Nat, fin = [Event.read (CMAC_OFFSET_STAT_RX_STATUS port_id) v1,
                             Event.read (CMAC_OFFSET_STAT_RX_STATUS port_id) 0x3]) ∨
       (ret = -ETIMEDOUT ∧ fin = [] ∧ checks.length = 8 ∧ checks2.length = 25)) := by
  unfold wait_rx_lane_alignment
  rcases lane_loop_outcome_before hw pcie_base port_id hb hport 7 LOOP_FUEL 0 t (by decide)
    (le_refl 0) (by decide) with ⟨checks, v1, hlen, hres⟩ | ⟨checks, vals, last, checks2, hlen, hcase⟩
  · refine ⟨0, checks, [], [], _, ?_, Or.inl ⟨rfl, rfl, hlen⟩, Or.inl ⟨rfl, by simp, v1, rfl⟩⟩
    rw [hres]
    simp [lane_check_trace_nil]
  · rcases hcase with ⟨v1, hlen2, hres⟩ | ⟨hlen2, hres⟩
    · exact ⟨0, checks, _, checks2, _, hres, Or.inr ⟨vals, last, rfl, hlen⟩,
        Or.inl ⟨rfl, hlen2, v1, rfl⟩⟩
    · refine ⟨-ETIMEDOUT, checks, _, checks2, [], ?_, Or.inr ⟨vals, last, rfl, hlen⟩,
        Or.inr ⟨rfl, rfl, hlen, hlen2⟩⟩
      rw [hres]
      simp

end ResetTool

theorem rx_status_offset_ne (port_id : Int) :
    (0x10 : Int) ≠ ResetTool.CMAC_OFFSET_STAT_RX_STATUS port_id ∧
    (0xC : Int) ≠ ResetTool.CMAC_OFFSET_STAT_RX_STATUS port_id := by
  unfold ResetTool.CMAC_OFFSET_STAT_RX_STATUS ResetTool.CMAC_OFFSET
    ResetTool.CMAC_SUBSYSTEM_OFFSET
  split <;> decide

theorem reads_at_escalation_trace (port_id : Int) (vals : List Nat) (last : Option Nat) :
    reads_at (ResetTool.CMAC_OFFSET_STAT_RX_STATUS port_id)
      (ResetTool.escalation_trace port_id vals last) = 0 := by
  unfold ResetTool.escalation_trace
  rw [reads_at_append, reads_at_append,
    reads_at_status_polls _ vals last (rx_status_offset_ne port_id).1]
  simp [reads_at]

/-- C11 as stated fails: the loop increments the attempt counter and only
then tests `timeout_cnt > 32`, so the 33rd lane check is still made.  On port 0
of a device whose RX status always reads 0 the function returns `-ETIMEDOUT`
after 66 loads of the RX status register (33 checks); on a device whose RX
status reads 0x3 on exactly its 66th load it returns 0, the 33rd check having
found the lanes aligned. -/
theorem lane_alignment_33_checks_counterexample :
    (ResetTool.wait_rx_lane_alignment (fun _ off => if off = 0x10 then 0x110 else 0) 1 0 0 []).map
        (fun r => (r.1, reads_at 0x8204 r.2)) = some (-ETIMEDOUT, 66) ∧
    (ResetTool.wait_rx_lane_alignment
        (fun t off => if off = 0x10 then 0x110 else if reads_at 0x8204 t = 65 then 3 else 0)
        1 0 0 []).map (fun r => (r.1, reads_at 0x8204 r.2)) = some (0, 66) ∧
    ResetTool.CMAC_OFFSET_STAT_RX_STATUS 0 = 0x8204 ∧
    ¬ (66 ≤ 2 * 32) := by
  refine ⟨by decide, by decide, by decide, by decide⟩

/-- C11 (amended, 33 in place of 32): on a mapped window and port 0 or 1,
`wait_rx_lane_alignment` always returns, with 0 or `-ETIMEDOUT`, after at most
33 lane checks (at most 66 loads of the RX status register, two per check);
when the RX status register never reads 0x3 it returns `-ETIMEDOUT` after
exactly 33 failed checks, the one that takes the counter of failed attempts
past the ceiling of 32. -/
theorem lane_alignment_attempt_ceiling (hw : Hw) (pcie_base : Nat) (port_id verbose : Int)
    (t : Trace) (hb : pcie_base ≠ 0) (hport : port_id = 0 ∨ port_id = 1) :
    (∃ (ret : Int) (t2 : Trace),
      ResetTool.wait_rx_lane_alignment hw pcie_base port_id verbose t = some (ret, t2) ∧
      (ret = 0 ∨ ret = -ETIMEDOUT) ∧
      reads_at (ResetTool.CMAC_OFFSET_STAT_RX_STATUS port_id) t2
        ≤ reads_at (ResetTool.CMAC_OFFSET_STAT_RX_STATUS port_id) t + 2 * 33) ∧
    ((∀ t1 : Trace, hw t1 (ResetTool.CMAC_OFFSET_STAT_RX_STATUS port_id) % 2 ^ 32 ≠ 0x3) →
      ∃ t2 : Trace,
        ResetTool.wait_rx_lane_alignment hw pcie_base port_id verbose t
          = some (-ETIMEDOUT, t2) ∧
        reads_at (ResetTool.CMAC_OFFSET_STAT_RX_STATUS port_id) t2
          = reads_at (ResetTool.CMAC_OFFSET_STAT_RX_STATUS port_id) t + 2 * 33) := by
  constructor
  · obtain ⟨ret, checks, esc, checks2, fin, hres, hesc, hfin⟩ :=
      ResetTool.wait_rx_lane_alignment_outcome hw pcie_base port_id verbose t hb hport
    have hre : reads_at (ResetTool.CMAC_OFFSET_STAT_RX_STATUS port_id) esc = 0 := by
      rcases hesc with ⟨rfl, _, _⟩ | ⟨vals, last, rfl, _⟩
      · rfl
      · exact reads_at_escalation_trace port_id vals last
    have hc1 : checks.length ≤ 8 := by
      rcases hesc with ⟨_, _, h⟩ | ⟨_, _, _, h⟩ <;> omega
    refine ⟨ret, _, hres, ?_, ?_⟩
    · rcases hfin with ⟨h, _⟩ | ⟨h, _⟩
      · exact Or.inl h
      · exact Or.inr h
    · rw [reads_at_append, reads_at_append, reads_at_append, reads_at_append,
        reads_at_lane_check_trace, reads_at_lane_check_trace, hre]
      rcases hfin with ⟨_, h2, v1, rfl⟩ | ⟨_, rfl, _, h2⟩
      · simp [reads_at]
        omega
      · simp [reads_at]
        omega
  · intro hnever
    obtain ⟨checks, polls, checks2, hlen, hpolls, hlen2, hres⟩ :=
      ResetTool.lane_loop_before_escalation hw pcie_base port_id hb hport hnever
        7 LOOP_FUEL 0 t (by decide) (le_refl 0) (by decide)
    obtain ⟨checksA, vals, last, checksB, hlenA, hcase⟩ :
        ∃ (checksA : List (Nat × Nat)) (vals : List Nat) (last : Option Nat)
          (checksB : List (Nat × Nat)), checksA.length = 8 ∧
          (checksB.length = 25 ∧
            ResetTool.wait_rx_lane_alignment_loop hw pcie_base port_id LOOP_FUEL 0 0 t
              = some (-ETIMEDOUT,
                  t ++ lane_check_trace (ResetTool.CMAC_OFFSET_STAT_RX_STATUS port_id) checksA
                    ++ ResetTool.escalation_trace port_id vals last
                    ++ lane_check_trace (ResetTool.CMAC_OFFSET_STAT_RX_STATUS port_id)
                        checksB)) := by
      rcases ResetTool.lane_loop_outcome_before hw pcie_base port_id hb hport 7 LOOP_FUEL 0 t
        (by decide) (le_refl 0) (by decide)
        with ⟨c, v1, _, h0⟩ | ⟨c, vals, last, c2, hl, ⟨v1, _, h0⟩ | ⟨hl2, h0⟩⟩
      · rw [hres] at h0
        exact absurd (Prod.mk.inj (Option.some.inj h0)).1 (by decide)
      · rw [hres] at h0
        exact absurd (Prod.mk.inj (Option.some.inj h0)).1 (by decide)
      · exact ⟨c, vals, last, c2, hl, hl2, h0⟩
    refine ⟨_, hcase.2, ?_⟩
    rw [reads_at_append, reads_at_append, reads_at_append, reads_at_lane_check_trace,
      reads_at_lane_check_trace, reads_at_escalation_trace, hlenA, hcase.1]

/-- Witness for C11: port 0 on a device whose registers all read 0. -/
theorem lane_alignment_attempt_ceiling_witness :
    (∃ (ret : Int) (t2 : Trace),
      ResetTool.wait_rx_lane_alignment (fun _ _ => 0) 1 0 0 [] = some (ret, t2) ∧
      (ret = 0 ∨ ret = -ETIMEDOUT) ∧
      reads_at (ResetTool.CMAC_OFFSET_STAT_RX_STATUS 0) t2
        ≤ reads_at (ResetTool.CMAC_OFFSET_STAT_RX_STATUS 0) [] + 2 * 33) ∧
    ((∀ t1 : Trace, (fun _ _ => 0 : Hw) t1 (ResetTool.CMAC_OFFSET_STAT_RX_STATUS 0) % 2 ^ 32
        ≠ 0x3) →
      ∃ t2 : Trace,
        ResetTool.wait_rx_lane_alignment (fun _ _ => 0) 1 0 0 [] = some (-ETIMEDOUT, t2) ∧
        reads_at (ResetTool.CMAC_OFFSET_STAT_RX_STATUS 0) t2
          = reads_at (ResetTool.CMAC_OFFSET_STAT_RX_STATUS 0) [] + 2 * 33) :=
  lane_alignment_attempt_ceiling (fun _ _ => 0) 1 0 0 [] (by decide) (Or.inl rfl)

/-- C12: with a mapped window, `check_rx_lane_aligned` loads the port's RX
status register (subsystem base + 0x204) exactly twice and, whatever values
`v1` and `v2` the first and the second load return, reports aligned (1) iff
`v2 = 0x3`, and not aligned (0) otherwise; `v1` plays no part. -/
theorem lane_check_double_read (hw : Hw) (pcie_base : Nat) (port_id : Int) (t : Trace)
    (v1 v2 : Nat) (hb : pcie_base ≠ 0)
    (h1 : hw t (ResetTool.CMAC_SUBSYSTEM_OFFSET port_id + 0x204) % 2 ^ 32 = v1)
    (h2 : hw (t ++ [Event.read (ResetTool.CMAC_SUBSYSTEM_OFFSET port_id + 0x204) v1])
            (ResetTool.CMAC_SUBSYSTEM_OFFSET port_id + 0x204) % 2 ^ 32 = v2) :
    (ResetTool.check_rx_lane_aligned hw pcie_base port_id t).2
      = t ++ [Event.read (ResetTool.CMAC_SUBSYSTEM_OFFSET port_id + 0x204) v1,
              Event.read (ResetTool.CMAC_SUBSYSTEM_OFFSET port_id + 0x204) v2] ∧
    ((ResetTool.check_rx_lane_aligned hw pcie_base port_id t).1 = 1 ↔ v2 = 0x3) ∧
    ((ResetTool.check_rx_lane_aligned hw pcie_base port_id t).1 = 0 ↔ v2 ≠ 0x3) := by
  have eoff : ResetTool.CMAC_OFFSET_STAT_RX_STATUS port_id
      = ResetTool.CMAC_SUBSYSTEM_OFFSET port_id + 0x204 := by
    unfold ResetTool.CMAC_OFFSET_STAT_RX_STATUS ResetTool.CMAC_OFFSET
    omega
  have e1 : ResetTool.lane_check_first hw port_id t = v1 := by
    unfold ResetTool.lane_check_first
    rw [eoff, h1]
  have e2 : ResetTool.lane_check_second hw port_id t = v2 := by
    unfold ResetTool.lane_check_second
    rw [e1, eoff, h2]
  rw [ResetTool.check_rx_lane_aligned_eq hw pcie_base port_id t hb, e1, e2, eoff]
  refine ⟨rfl, ?_, ?_⟩
  · by_cases h : v2 = 0x3
    · simp [h]
    · simp [h]
  · by_cases h : v2 = 0x3
    · simp [h]
    · simp [h]

/-- Witness for C12: port 0, first load 0x3, second load 0x7: two loads of
0x8204 and not aligned. -/
theorem lane_check_double_read_witness :
    (ResetTool.check_rx_lane_aligned
        (fun t _ => if t = [] then 3 else 7) 1 0 []).2
      = [] ++ [Event.read (ResetTool.CMAC_SUBSYSTEM_OFFSET 0 + 0x204) 3,
               Event.read (ResetTool.CMAC_SUBSYSTEM_OFFSET 0 + 0x204) 7] ∧
    ((ResetTool.check_rx_lane_aligned
        (fun t _ => if t = [] then 3 else 7) 1 0 []).1 = 1 ↔ (7 : Nat) = 0x3) ∧
    ((ResetTool.check_rx_lane_aligned
        (fun t _ => if t = [] then 3 else 7) 1 0 []).1 = 0 ↔ (7 : Nat) ≠ 0x3) :=
  lane_check_double_read (fun t _ => if t = [] then 3 else 7) 1 0 [] 3 7 (by decide)
    (by decide) (by decide)

/-! ## RS-FEC, flow control and RETA on a mapped window -/

namespace ResetTool

theorem configure_cmac_rsfec_eq (pcie_base : Nat) (port_id verbose : Int) (t : Trace)
    (hb : pcie_base ≠ 0) :
    configure_cmac_rsfec pcie_base port_id verbose t
      = (0, t ++ [Event.write (CMAC_OFFSET_RSFEC_CONF_ENABLE port_id) 0x3,
                  Event.write (CMAC_OFFSET_RSFEC_CONF_IND_CORRECTION port_id) 0x7]) := by
  have h1 : CMAC_OFFSET_RSFEC_CONF_ENABLE port_id < 0x10000 ∧
      CMAC_OFFSET_RSFEC_CONF_ENABLE port_id % 4 = 0 := by
    unfold CMAC_OFFSET_RSFEC_CONF_ENABLE CMAC_OFFSET CMAC_SUBSYSTEM_OFFSET
    split <;> decide
  have h2 : CMAC_OFFSET_RSFEC_CONF_IND_CORRECTION port_id < 0x10000 ∧
      CMAC_OFFSET_RSFEC_CONF_IND_CORRECTION port_id % 4 = 0 := by
    unfold CMAC_OFFSET_RSFEC_CONF_IND_CORRECTION CMAC_OFFSET CMAC_SUBSYSTEM_OFFSET
    split <;> decide
  unfold configure_cmac_rsfec
  rw [safe_write32_data_ok pcie_base _ _ t hb h1.1 h1.2]
  dsimp only
  rw [if_neg (by decide), safe_write32_data_ok pcie_base _ _ _ hb h2.1 h2.2]
  dsimp only
  rw [if_neg (by decide)]
  simp

/-- A chain of stores to valid offsets on a mapped window performs them all. -/
theorem store_chain_ok (pcie_base : Nat) (hb : pcie_base ≠ 0) :
    ∀ (l : List (Int × Nat)) (t : Trace),
      (∀ w ∈ l, w.1 < 0x10000 ∧ w.1 % 4 = 0 ∧ w.2 < 2 ^ 32) →
      store_chain pcie_base l t = (0, t ++ l.map fun w => Event.write w.1 w.2) := by
  intro l
  induction l with
  | nil => intro t _; simp [store_chain]
  | cons w ws ih =>
    intro t h
    obtain ⟨off, val⟩ := w
    have hw := h (off, val) (List.mem_cons_self _ _)
    rw [store_chain, safe_write32_data_ok pcie_base off val t hb hw.1 hw.2.1]
    dsimp only
    rw [if_neg (by decide), ih _ (fun w hw2 => h w (List.mem_cons_of_mem _ hw2)),
      Nat.mod_eq_of_lt hw.2.2]
    simp

theorem flow_control_stores_valid (port_id : Int) :
    ∀ w ∈ flow_control_stores port_id, w.1 < 0x10000 ∧ w.1 % 4 = 0 ∧ w.2 < 2 ^ 32 := by
  unfold flow_control_stores CMAC_OFFSET_CONF_RX_FC_CTRL_1 CMAC_OFFSET_CONF_RX_FC_CTRL_2
    CMAC_OFFSET_CONF_TX_FC_QNTA_1 CMAC_OFFSET_CONF_TX_FC_QNTA_2 CMAC_OFFSET_CONF_TX_FC_QNTA_3
    CMAC_OFFSET_CONF_TX_FC_QNTA_4 CMAC_OFFSET_CONF_TX_FC_QNTA_5 CMAC_OFFSET_CONF_TX_FC_RFRH_1
    CMAC_OFFSET_CONF_TX_FC_RFRH_2 CMAC_OFFSET_CONF_TX_FC_RFRH_3 CMAC_OFFSET_CONF_TX_FC_RFRH_4
    CMAC_OFFSET_CONF_TX_FC_RFRH_5 CMAC_OFFSET_CONF_TX_FC_CTRL_1 CMAC_OFFSET_CONF_TX_1
    CMAC_OFFSET CMAC_SUBSYSTEM_OFFSET
  split <;> decide

theorem configure_cmac_flow_control_eq (pcie_base : Nat) (port_id verbose : Int) (t : Trace)
    (hb : pcie_base ≠ 0) :
    configure_cmac_flow_control pcie_base port_id verbose t
      = (0, t ++ flow_control_trace port_id) := by
  unfold configure_cmac_flow_control flow_control_trace
  exact store_chain_ok pcie_base hb _ t (flow_control_stores_valid port_id)

theorem reta_entry_facts (port_id : Int) (hport : port_id = 0 ∨ port_id = 1) (i : Nat)
    (hi : i < 128) :
    ((toU32 (QDMA_FUNC_OFFSET_INDIR_TABLE port_id (i : Int)) : Nat) : Int)
      = QDMA_FUNC_OFFSET_INDIR_TABLE port_id (i : Int) ∧
    QDMA_FUNC_OFFSET_INDIR_TABLE port_id (i : Int) < 0x10000 ∧
    QDMA_FUNC_OFFSET_INDIR_TABLE port_id (i : Int) % 4 = 0 ∧
    (toU32 (Int.tmod (i : Int) 64) &&& 0x0000FFFF) % 2 ^ 32 = i % 64 := by
  refine ⟨?_, ?_, ?_, ?_⟩
  · unfold toU32 QDMA_FUNC_OFFSET_INDIR_TABLE QDMA_FUNC_OFFSET
    rcases hport with rfl | rfl <;> omega
  · unfold QDMA_FUNC_OFFSET_INDIR_TABLE QDMA_FUNC_OFFSET
    rcases hport with rfl | rfl <;> omega
  · unfold QDMA_FUNC_OFFSET_INDIR_TABLE QDMA_FUNC_OFFSET
    rcases hport with rfl | rfl <;> omega
  · have h64 : i % 64 < 64 := Nat.mod_lt _ (by decide)
    have e1 : toU32 (Int.tmod (i : Int) 64) = i % 64 := by
      rw [show Int.tmod (i : Int) 64 = ((i % 64 : Nat) : Int) from (Int.ofNat_tmod i 64).symm]
      unfold toU32
      omega
    have e2 : (i % 64) &&& 0x0000FFFF = i % 64 :=
      Nat.and_pow_two_sub_one_of_lt_two_pow (n := 16) (by omega)
    rw [e1, e2]
    omega

theorem initialize_reta_table_loop_eq (pcie_base : Nat) (port_id : Int) (hb : pcie_base ≠ 0)
    (hport : port_id = 0 ∨ port_id = 1) :
    ∀ (n i : Nat) (t : Trace), i + n ≤ 128 →
      initialize_reta_table_loop pcie_base port_id n (i : Int) t
        = t ++ (List.range n).map fun k =>
            Event.write (QDMA_FUNC_OFFSET_INDIR_TABLE port_id ((i + k : Nat) : Int))
              ((i + k) % 64) := by
  intro n
  induction n with
  | zero => intro i t _; simp [initialize_reta_table_loop]
  | succ m ih =>
    intro i t h
    obtain ⟨e1, e2, e3, e4⟩ := reta_entry_facts port_id hport i (by omega)
    rw [initialize_reta_table_loop]
    rw [e1, safe_write32_data_ok pcie_base _ _ t hb e2 e3, e4]
    dsimp only
    have hi : ((i : Int) + 1) = ((i + 1 : Nat) : Int) := by push_cast; rfl
    rw [hi, ih (i + 1) _ (by omega), List.range_succ_eq_map]
    simp only [List.map_cons, List.map_map, List.append_assoc, List.singleton_append,
      Nat.add_zero]
    congr 2
    apply List.map_congr_left
    intro k _
    simp only [Function.comp, Nat.succ_eq_add_one]
    rw [show i + 1 + k = i + (k + 1) by omega]

theorem initialize_reta_table_eq (pcie_base : Nat) (port_id verbose : Int) (t : Trace)
    (hb : pcie_base ≠ 0) (hport : port_id = 0 ∨ port_id = 1) :
    initialize_reta_table pcie_base port_id verbose t = (0, t ++ reta_trace port_id) := by
  have hq : QDMA_FUNC_OFFSET_QCONF port_id < 0x10000 ∧ QDMA_FUNC_OFFSET_QCONF port_id % 4 = 0 := by
    unfold QDMA_FUNC_OFFSET_QCONF QDMA_FUNC_OFFSET
    rcases hport with rfl | rfl <;> decide
  unfold initialize_reta_table
  dsimp only
  rw [safe_write32_data_ok pcie_base _ _ t hb hq.1 hq.2]
  dsimp only
  rw [if_neg (by decide)]
  have h := initialize_reta_table_loop_eq pcie_base port_id hb hport 128 0
    (t ++ [Event.write (QDMA_FUNC_OFFSET_QCONF port_id) ((0 <<< 16 ||| 64) % 2 ^ 32)])
    (by decide)
  simp only [Nat.cast_zero, Nat.zero_add] at h
  rw [h]
  simp [reta_trace]

end ResetTool

/-! ## Order of the bring-up stores (`perform_cmac_reset_with_reinit`) -/

namespace ResetTool

theorem fc_reta_writes_append (port_id : Int) (a b : Trace) :
    fc_reta_writes port_id (a ++ b) = fc_reta_writes port_id a ++ fc_reta_writes port_id b := by
  simp [fc_reta_writes, writes_append, List.filter_append]

theorem fc_reta_writes_of_writes_nil (port_id : Int) (a : Trace) (h : writes a = []) :
    fc_reta_writes port_id a = [] := by
  simp [fc_reta_writes, h]

/-- The registers stored to before and during lane alignment are neither
flow-control registers nor RETA entries. -/
theorem early_offsets_not_fc_reta (port_id : Int) (hport : port_id = 0 ∨ port_id = 1) :
    ∀ off ∈ [(0xC : Int), CMAC_OFFSET_RSFEC_CONF_ENABLE port_id,
        CMAC_OFFSET_RSFEC_CONF_IND_CORRECTION port_id, CMAC_OFFSET_CONF_RX_1 port_id,
        CMAC_OFFSET_CONF_TX_1 port_id],
      (is_flow_control_offset port_id off || is_reta_offset port_id off) = false := by
  rcases hport with rfl | rfl <;> decide

theorem fc_reta_writes_early_store (port_id : Int) (hport : port_id = 0 ∨ port_id = 1)
    (off : Int) (v : Nat)
    (hoff : off ∈ [(0xC : Int), CMAC_OFFSET_RSFEC_CONF_ENABLE port_id,
        CMAC_OFFSET_RSFEC_CONF_IND_CORRECTION port_id, CMAC_OFFSET_CONF_RX_1 port_id,
        CMAC_OFFSET_CONF_TX_1 port_id]) :
    fc_reta_writes port_id [Event.write off v] = [] := by
  have h := early_offsets_not_fc_reta port_id hport off hoff
  simp only [fc_reta_writes, writes, List.filterMap_cons, List.filterMap_nil]
  simp [h]

theorem fc_reta_writes_escalation_trace (port_id : Int) (hport : port_id = 0 ∨ port_id = 1)
    (vals : List Nat) (last : Option Nat) :
    fc_reta_writes port_id (escalation_trace port_id vals last) = [] := by
  unfold escalation_trace
  rw [fc_reta_writes_append, fc_reta_writes_append,
    fc_reta_writes_early_store port_id hport 0xC _ (by simp),
    fc_reta_writes_of_writes_nil _ _ (writes_status_polls vals last)]
  have h2 : [Event.write (CMAC_OFFSET_CONF_RX_1 port_id) 0x1,
      Event.write (CMAC_OFFSET_CONF_TX_1 port_id) 0x10]
      = [Event.write (CMAC_OFFSET_CONF_RX_1 port_id) 0x1]
        ++ [Event.write (CMAC_OFFSET_CONF_TX_1 port_id) 0x10] := rfl
  rw [h2, fc_reta_writes_append,
    fc_reta_writes_early_store port_id hport _ _ (by simp),
    fc_reta_writes_early_store port_id hport _ _ (by simp)]
  rfl

end ResetTool

/-- C13: `perform_cmac_reset_with_reinit` on a mapped window and port 0 or 1
ends in one of three ways, where `pre` is everything done up to the end of lane
alignment and contains no store to a flow-control register or a RETA entry of
the port: (1) the port reset failed and nothing more was done; (2) lane
alignment failed: the function returns `-ETIMEDOUT` and its trace is exactly
the trace of `wait_rx_lane_alignment`, so nothing is accessed after the failure;
(3) lane alignment succeeded: `pre` ends with the lane check that
reported aligned, and only then come the flow-control stores and the RETA
stores. -/
theorem flow_control_only_after_alignment (hw : Hw) (pcie_base : Nat)
    (port_id enable_rsfec verbose : Int) (t : Trace) (hb : pcie_base ≠ 0)
    (hport : port_id = 0 ∨ port_id = 1) :
    ∃ (ret : Int) (pre post : Trace),
      ResetTool.perform_cmac_reset_with_reinit hw pcie_base port_id enable_rsfec verbose t
        = some (ret, t ++ pre ++ post) ∧
      ResetTool.fc_reta_writes port_id pre = [] ∧
      ((ret = -ETIMEDOUT ∧ post = [] ∧
          ResetTool.perform_cmac_reset hw pcie_base port_id verbose t
            = some (-ETIMEDOUT, t ++ pre)) ∨
       (ret = -ETIMEDOUT ∧ post = [] ∧
          ∃ t3 : Trace, ResetTool.wait_rx_lane_alignment hw pcie_base port_id verbose t3
            = some (-ETIMEDOUT, t ++ pre)) ∨
       (ret = 0 ∧
          post = ResetTool.flow_control_trace port_id ++ ResetTool.reta_trace port_id ∧
          ∃ (t3 pre0 : Trace) (v1 : Nat),
            ResetTool.wait_rx_lane_alignment hw pcie_base port_id verbose t3
              = some (0, t ++ pre) ∧
            pre = pre0 ++ [Event.read (ResetTool.CMAC_OFFSET_STAT_RX_STATUS port_id) v1,
                           Event.read (ResetTool.CMAC_OFFSET_STAT_RX_STATUS port_id) 0x3])) := by
  obtain ⟨ret1, vals, last, h1, hcase1⟩ :=
    ResetTool.perform_cmac_reset_outcome hw pcie_base port_id verbose t hb hport
  have hfc1 : ResetTool.fc_reta_writes port_id
      ([Event.write 0xC (if port_id = 0 then 0x10 else 0x100)] ++ status_polls vals last)
      = [] := by
    rw [ResetTool.fc_reta_writes_append,
      ResetTool.fc_reta_writes_early_store port_id hport 0xC _ (by simp),
      ResetTool.fc_reta_writes_of_writes_nil _ _ (writes_status_polls vals last)]
    rfl
  unfold ResetTool.perform_cmac_reset_with_reinit
  rw [if_neg (by omega), h1]
  dsimp only
  rcases hcase1 with ⟨rfl, _⟩ | ⟨rfl, rfl⟩
  swap
  · -- the port reset failed
    rw [if_pos (by decide)]
    refine ⟨-ETIMEDOUT,
      [Event.write 0xC (if port_id = 0 then 0x10 else 0x100)] ++ status_polls vals none, [],
      by simp, hfc1, Or.inl ⟨rfl, rfl, ?_⟩⟩
    simp
  rw [if_neg (by decide)]
  -- step 2
  obtain ⟨rs, hrs, hstep2⟩ : ∃ rs : Trace, ResetTool.fc_reta_writes port_id rs = [] ∧
      (if enable_rsfec ≠ 0 then ResetTool.configure_cmac_rsfec pcie_base port_id verbose
          (t ++ [Event.write 0xC (if port_id = 0 then 0x10 else 0x100)] ++ status_polls vals last)
        else (0, t ++ [Event.write 0xC (if port_id = 0 then 0x10 else 0x100)]
          ++ status_polls vals last))
      = (0, t ++ [Event.write 0xC (if port_id = 0 then 0x10 else 0x100)]
          ++ status_polls vals last ++ rs) := by
    by_cases he : enable_rsfec ≠ 0
    · rw [if_pos he, ResetTool.configure_cmac_rsfec_eq pcie_base port_id verbose _ hb]
      refine ⟨_, ?_, rfl⟩
      have h2 : [Event.write (ResetTool.CMAC_OFFSET_RSFEC_CONF_ENABLE port_id) 0x3,
          Event.write (ResetTool.CMAC_OFFSET_RSFEC_CONF_IND_CORRECTION port_id) 0x7]
          = [Event.write (ResetTool.CMAC_OFFSET_RSFEC_CONF_ENABLE port_id) 0x3]
            ++ [Event.write (ResetTool.CMAC_OFFSET_RSFEC_CONF_IND_CORRECTION port_id) 0x7] := rfl
      rw [h2, ResetTool.fc_reta_writes_append,
        ResetTool.fc_reta_writes_early_store port_id hport _ _ (by simp),
        ResetTool.fc_reta_writes_early_store port_id hport _ _ (by simp)]
      rfl
    · rw [if_neg he]
      exact ⟨[], rfl, by simp⟩
  rw [hstep2]
  dsimp only
  rw [if_neg (by decide), ResetTool.configure_cmac_rxtx_eq pcie_base port_id verbose _ hb]
  dsimp only
  rw [if_neg (by decide)]
  have hfc3 : ResetTool.fc_reta_writes port_id
      [Event.write (ResetTool.CMAC_OFFSET_CONF_RX_1 port_id) 0x1,
       Event.write (ResetTool.CMAC_OFFSET_CONF_TX_1 port_id) 0x10] = [] := by
    have h2 : [Event.write (ResetTool.CMAC_OFFSET_CONF_RX_1 port_id) 0x1,
        Event.write (ResetTool.CMAC_OFFSET_CONF_TX_1 port_id) 0x10]
        = [Event.write (ResetTool.CMAC_OFFSET_CONF_RX_1 port_id) 0x1]
          ++ [Event.write (ResetTool.CMAC_OFFSET_CONF_TX_1 port_id) 0x10] := rfl
    rw [h2, ResetTool.fc_reta_writes_append,
      ResetTool.fc_reta_writes_early_store port_id hport _ _ (by simp),
      ResetTool.fc_reta_writes_early_store port_id hport _ _ (by simp)]
    rfl
  -- step 4
  obtain ⟨ret4, checks, esc, checks2, fin, h4, hesc, hfin⟩ :=
    ResetTool.wait_rx_lane_alignment_outcome hw pcie_base port_id verbose
      (t ++ [Event.write 0xC (if port_id = 0 then 0x10 else 0x100)] ++ status_polls vals last
        ++ rs ++ [Event.write (ResetTool.CMAC_OFFSET_CONF_RX_1 port_id) 0x1,
                  Event.write (ResetTool.CMAC_OFFSET_CONF_TX_1 port_id) 0x10]) hb hport
  have hfce : ResetTool.fc_reta_writes port_id esc = [] := by
    rcases hesc with ⟨rfl, _, _⟩ | ⟨v, l, rfl, _⟩
    · rfl
    · exact ResetTool.fc_reta_writes_escalation_trace port_id hport v l
  have hfcf : ResetTool.fc_reta_writes port_id fin = [] := by
    rcases hfin with ⟨_, _, v1, rfl⟩ | ⟨_, rfl, _, _⟩ <;> rfl
  have hpre : ResetTool.fc_reta_writes port_id
      ([Event.write 0xC (if port_id = 0 then 0x10 else 0x100)] ++ status_polls vals last
        ++ rs ++ [Event.write (ResetTool.CMAC_OFFSET_CONF_RX_1 port_id) 0x1,
                  Event.write (ResetTool.CMAC_OFFSET_CONF_TX_1 port_id) 0x10]
        ++ lane_check_trace (ResetTool.CMAC_OFFSET_STAT_RX_STATUS port_id) checks ++ esc
        ++ lane_check_trace (ResetTool.CMAC_OFFSET_STAT_RX_STATUS port_id) checks2 ++ fin)
      = [] := by
    simp only [ResetTool.fc_reta_writes_append, hfc1, hrs, hfc3, hfce, hfcf,
      ResetTool.fc_reta_writes_of_writes_nil _ _ (writes_lane_check_trace _ _),
      List.append_nil]
  have h4b : ResetTool.wait_rx_lane_alignment hw pcie_base port_id verbose
      (t ++ [Event.write 0xC (if port_id = 0 then 0x10 else 0x100)] ++ status_polls vals last
        ++ rs ++ [Event.write (ResetTool.CMAC_OFFSET_CONF_RX_1 port_id) 0x1,
                  Event.write (ResetTool.CMAC_OFFSET_CONF_TX_1 port_id) 0x10])
      = some (ret4, t ++ ([Event.write 0xC (if port_id = 0 then 0x10 else 0x100)]
        ++ status_polls vals last
        ++ rs ++ [Event.write (ResetTool.CMAC_OFFSET_CONF_RX_1 port_id) 0x1,
                  Event.write (ResetTool.CMAC_OFFSET_CONF_TX_1 port_id) 0x10]
        ++ lane_check_trace (ResetTool.CMAC_OFFSET_STAT_RX_STATUS port_id) checks ++ esc
        ++ lane_check_trace (ResetTool.CMAC_OFFSET_STAT_RX_STATUS port_id) checks2 ++ fin)) := by
    rw [h4]
    simp only [List.append_assoc]
  rw [h4b]
  dsimp only
  rcases hfin with ⟨rfl, _, v1, rfl⟩ | ⟨rfl, rfl, _, _⟩
  · -- aligned
    rw [if_neg (by decide),
      ResetTool.configure_cmac_flow_control_eq pcie_base port_id verbose _ hb]
    dsimp only
    rw [if_neg (by decide),
      ResetTool.initialize_reta_table_eq pcie_base port_id verbose _ hb hport]
    dsimp only
    refine ⟨0, _, ResetTool.flow_control_trace port_id ++ ResetTool.reta_trace port_id, ?_,
      hpre, Or.inr (Or.inr ⟨rfl, rfl, _, _, v1, h4b, rfl⟩)⟩
    simp only [List.append_assoc]
  · -- lane alignment failed
    rw [if_pos (by decide)]
    refine ⟨-ETIMEDOUT, _, [], ?_, hpre, Or.inr (Or.inl ⟨rfl, rfl, _, h4b⟩)⟩
    simp only [List.append_assoc, List.append_nil]

/-- Witness for C13: port 0 with RS-FEC on the simulated device whose ports
come up.  The port reset completes at the first status load, the first lane
check reports aligned, and the run returns 0 after the flow-control stores
and the RETA stores, which come last. -/
theorem flow_control_only_after_alignment_witness :
    (∃ (ret : Int) (pre post : Trace),
      ResetTool.perform_cmac_reset_with_reinit aligned_device 1 0 1 0 []
        = some (ret, [] ++ pre ++ post) ∧
      ResetTool.fc_reta_writes 0 pre = [] ∧
      ((ret = -ETIMEDOUT ∧ post = [] ∧
          ResetTool.perform_cmac_reset aligned_device 1 0 0 []
            = some (-ETIMEDOUT, [] ++ pre)) ∨
       (ret = -ETIMEDOUT ∧ post = [] ∧
          ∃ t3 : Trace, ResetTool.wait_rx_lane_alignment aligned_device 1 0 0 t3
            = some (-ETIMEDOUT, [] ++ pre)) ∨
       (ret = 0 ∧
          post = ResetTool.flow_control_trace 0 ++ ResetTool.reta_trace 0 ∧
          ∃ (t3 pre0 : Trace) (v1 : Nat),
            ResetTool.wait_rx_lane_alignment aligned_device 1 0 0 t3
              = some (0, [] ++ pre) ∧
            pre = pre0 ++ [Event.read (ResetTool.CMAC_OFFSET_STAT_RX_STATUS 0) v1,
                           Event.read (ResetTool.CMAC_OFFSET_STAT_RX_STATUS 0) 0x3]))) ∧
    ResetTool.perform_cmac_reset_with_reinit aligned_device 1 0 1 0 []
      = some (0, [Event.write 0xC 0x10, Event.read 0x10 0x110,
          Event.write 0x907C 0x3, Event.write 0x9000 0x7, Event.write 0x8014 0x1,
          Event.write 0x800C 0x10, Event.read 0x8204 0x3, Event.read 0x8204 0x3]
          ++ ResetTool.flow_control_trace 0 ++ ResetTool.reta_trace 0) :=
  ⟨flow_control_only_after_alignment aligned_device 1 0 1 0 [] (by decide) (Or.inl rfl),
    by set_option maxRecDepth 100000 in decide⟩

/-! ## The composite CMAC reset (`perform_cmac_reset_hardware_correct`), step by step -/

namespace ResetTool

/-- On a mapped window and a valid port the composite reset is: the optional
status load, the store of the composite mask, the self-clear poll, and after a
successful poll the stabilisation sleep, the status load and the
initialisation sleep. -/
theorem perform_cmac_reset_hardware_correct_unfold (hw : Hw) (pcie_base : Nat)
    (port_id verbose : Int) (t : Trace) (hb : pcie_base ≠ 0)
    (hport : port_id = 0 ∨ port_id = 1) :
    perform_cmac_reset_hardware_correct hw pcie_base port_id verbose t
      = match wait_reset_register_autoclear hw pcie_base 0xC
            (if port_id = 0 then 0x30 else 0x300) 10000
            (t ++ (if verbose ≠ 0 then [Event.read 0x10 (hw t 0x10 % 2 ^ 32)] else [])
              ++ [Event.write 0xC (if port_id = 0 then 0x30 else 0x300)]) with
        | none => none
        | some (ret3, t3) =>
          if ret3 ≠ 0 then some (ret3, t3)
          else some (0, t3 ++ [Event.usleep 50000,
              Event.read 0x10 (hw (t3 ++ [Event.usleep 50000]) 0x10 % 2 ^ 32),
              Event.usleep 100000]) := by
  have hmask : (if port_id = 0 then SHELL_RESET_CMAC0_COMPLETE else SHELL_RESET_CMAC1_COMPLETE)
      = (if port_id = 0 then 0x30 else 0x300) := by split <;> rfl
  have hm32 : (if port_id = 0 then (0x30 : Nat) else 0x300) % 2 ^ 32
      = (if port_id = 0 then 0x30 else 0x300) := by split <;> rfl
  have e1 : toU32 SYSCFG_OFFSET_SHELL_RESET = 0xC := by decide
  have e2 : SYSCFG_OFFSET_SHELL_RESET = 0xC := by decide
  have e3 : RESET_REGISTER_TIMEOUT_MS = 10000 := rfl
  have e5 : SYSCFG_OFFSET_SHELL_STATUS = 0x10 := by decide
  have hpre : (if verbose ≠ 0 then (safe_read32_data hw pcie_base 0x10 LOCAL t).2.2 else t)
      = t ++ (if verbose ≠ 0 then [Event.read 0x10 (hw t 0x10 % 2 ^ 32)] else []) := by
    by_cases hv : verbose ≠ 0
    · rw [if_pos hv, if_pos hv,
        safe_read32_data_ok hw pcie_base 0x10 LOCAL t hb (by decide) (by decide) (by decide)]
    · rw [if_neg hv, if_neg hv]; simp
  unfold perform_cmac_reset_hardware_correct
  rw [if_neg (by omega)]
  simp only [hmask, e5, hpre]
  rw [safe_write32_data_ok pcie_base SYSCFG_OFFSET_SHELL_RESET _ _ hb (by decide) (by decide),
    hm32, e1, e2, e3]
  dsimp only
  rw [if_neg (by decide)]
  cases hres : wait_reset_register_autoclear hw pcie_base 0xC
      (if port_id = 0 then 0x30 else 0x300) 10000
      (t ++ (if verbose ≠ 0 then [Event.read 0x10 (hw t 0x10 % 2 ^ 32)] else [])
        ++ [Event.write 0xC (if port_id = 0 then 0x30 else 0x300)]) with
  | none => rfl
  | some r =>
    obtain ⟨ret3, t3⟩ := r
    dsimp only
    by_cases hr : ret3 ≠ 0
    · rw [if_pos hr, if_pos hr]
    · rw [if_neg hr, if_neg hr,
        safe_read32_data_ok hw pcie_base 0x10 LOCAL _ hb (by decide) (by decide) (by decide)]
      simp [RESET_STABILIZATION_DELAY_US, CMAC_INIT_DELAY_US]

end ResetTool

/-- C14: for port 0 or 1 on a mapped window, whenever the Shell reset register
self-clears within the budget (it shows a bit of the port's composite mask on
the first `N < 10000` polls and none on poll `N + 1`),
`perform_cmac_reset_hardware_correct` returns 0 for every value
`status_value` that the Shell status register 0x10 returns: the value is
loaded after the stabilisation sleep and does not influence the result, also
when the port's subsystem or adapter completion bit is clear in it. -/
theorem reset_incomplete_is_non_fatal (hw : Hw) (pcie_base : Nat) (port_id verbose : Int)
    (N : Nat) (t : Trace) (status_value : Nat) (hb : pcie_base ≠ 0)
    (hport : port_id = 0 ∨ port_id = 1) (hN : N < 10000)
    (hbusy : ∀ (i : Nat) (t1 : Trace), i < N → reads_at 0xC t1 = reads_at 0xC t + i →
      hw t1 0xC % 2 ^ 32 &&& (if port_id = 0 then 0x30 else 0x300) ≠ 0)
    (hclear : ∀ t1 : Trace, reads_at 0xC t1 = reads_at 0xC t + N →
      hw t1 0xC % 2 ^ 32 &&& (if port_id = 0 then 0x30 else 0x300) = 0) :
    ∃ t3 : Trace,
      ResetTool.perform_cmac_reset_hardware_correct
          (fun t1 off => if off = 0x10 then status_value else hw t1 off)
          pcie_base port_id verbose t
        = some (0, t3 ++ [Event.usleep 50000, Event.read 0x10 (status_value % 2 ^ 32),
            Event.usleep 100000]) ∧
      reads_at 0xC t3 = reads_at 0xC t + (N + 1) := by
  have hpre : reads_at 0xC
      (t ++ (if verbose ≠ 0 then [Event.read 0x10 (status_value % 2 ^ 32)] else [])
        ++ [Event.write 0xC (if port_id = 0 then 0x30 else 0x300)]) = reads_at 0xC t := by
    rw [reads_at_append, reads_at_append]
    by_cases hv : verbose ≠ 0
    · rw [if_pos hv]; simp [reads_at]
    · rw [if_neg hv]; simp [reads_at]
  obtain ⟨vals, v, hlen, _, _, hres⟩ :=
    ResetTool.autoclear_loop_succeeds
      (fun t1 off => if off = 0x10 then status_value else hw t1 off) pcie_base 0xC
      (if port_id = 0 then 0x30 else 0x300) 10000 hb (by decide) (by decide) (by decide)
      N LOOP_FUEL 0
      (t ++ (if verbose ≠ 0 then [Event.read 0x10 (status_value % 2 ^ 32)] else [])
        ++ [Event.write 0xC (if port_id = 0 then 0x30 else 0x300)])
      (by unfold LOOP_FUEL; omega) (le_refl 0) (by omega)
      (fun i t1 hi hr => by
        have hr' := hr
        simp only [Nat.cast_ofNat] at hr'
        have h := hbusy i t1 hi (by rw [hr', hpre])
        simpa using h)
      (fun t1 hr => by
        have hr' := hr
        simp only [Nat.cast_ofNat] at hr'
        have h := hclear t1 (by rw [hr', hpre])
        simpa using h)
  have hunf := ResetTool.perform_cmac_reset_hardware_correct_unfold
    (fun t1 off => if off = 0x10 then status_value else hw t1 off) pcie_base port_id verbose t
    hb hport
  have hres2 : ResetTool.wait_reset_register_autoclear
      (fun t1 off => if off = 0x10 then status_value else hw t1 off) pcie_base 0xC
      (if port_id = 0 then 0x30 else 0x300) 10000
      (t ++ (if verbose ≠ 0 then [Event.read 0x10 (status_value % 2 ^ 32)] else [])
        ++ [Event.write 0xC (if port_id = 0 then 0x30 else 0x300)]) = _ := hres
  simp only [if_true] at hunf
  rw [hres2] at hunf
  dsimp only at hunf
  rw [if_neg (by decide)] at hunf
  refine ⟨_, hunf, ?_⟩
  have hp := hpre
  simp only [Nat.cast_ofNat] at hp ⊢
  rw [reads_at_append, reads_at_append, hp, reads_at_poll_trace, hlen]
  simp [reads_at]
  omega

/-- Witness for C14: port 0, a reset register that reads 0x30 on two polls and
0 afterwards, and a status register that reads 0 (neither completion bit
set). -/
theorem reset_incomplete_is_non_fatal_witness :
    ∃ t3 : Trace,
      ResetTool.perform_cmac_reset_hardware_correct
          (fun t1 off => if off = 0x10 then 0
            else (fun (t : Trace) (_ : Int) => if reads_at 0xC t < 2 then 0x30 else 0) t1 off)
          1 0 0 []
        = some (0, t3 ++ [Event.usleep 50000, Event.read 0x10 (0 % 2 ^ 32),
            Event.usleep 100000]) ∧
      reads_at 0xC t3 = reads_at 0xC [] + (2 + 1) :=
  reset_incomplete_is_non_fatal (fun t _ => if reads_at 0xC t < 2 then 0x30 else 0) 1 0 0 2 [] 0
    (by decide) (Or.inl rfl) (by decide)
    (fun i t1 hi hr => by
      have h0 : reads_at 0xC ([] : Trace) = 0 := rfl
      have hlt : reads_at 0xC t1 < 2 := by rw [hr, h0]; omega
      simp only [hlt, if_true]
      decide)
    (fun t1 hr => by
      have h0 : reads_at 0xC ([] : Trace) = 0 := rfl
      have hge : ¬ reads_at 0xC t1 < 2 := by rw [hr, h0]; omega
      simp only [hge, if_false]
      decide)

/-! ## System, Shell and GT resets: the register stored to -/

namespace ResetTool

/-- Within the default budget the self-clear poll always returns, with 0 or
`-ETIMEDOUT`, and adds only loads of the polled register and sleeps. -/
theorem autoclear_outcome (hw : Hw) (pcie_base off mask : Nat) (t : Trace)
    (hb : pcie_base ≠ 0) (h1 : (off : Int) < 0x10000) (h2 : (off : Int) % 4 = 0) :
    ∃ (ret : Int) (tail : Trace),
      wait_reset_register_autoclear hw pcie_base off mask 10000 t = some (ret, t ++ tail) ∧
      writes tail = [] ∧
      ((ret = 0 ∧ ∃ (vals : List Nat) (v : Nat), v &&& mask = 0 ∧
          tail = poll_trace off 1000 vals ++ [Event.read off v]) ∨
       (ret = -ETIMEDOUT ∧ ∃ vals : List Nat, tail = poll_trace off 1000 vals)) := by
  rcases autoclear_loop_outcome hw pcie_base off mask 10000 hb h1 h2 (by decide)
      10000 LOOP_FUEL 0 t (by decide) (le_refl 0) (by decide)
    with ⟨vals, v, _, _, hv, hres⟩ | ⟨vals, _, _, hres⟩
  · refine ⟨0, poll_trace off 1000 vals ++ [Event.read off v], ?_, ?_,
      Or.inl ⟨rfl, vals, v, hv, rfl⟩⟩
    · rw [wait_reset_register_autoclear_eq_loop _ _ _ _ _ _ (by decide) (by decide), hres,
        List.append_assoc]
    · rw [writes_append, writes_poll_trace]
      rfl
  · refine ⟨-ETIMEDOUT, poll_trace off 1000 vals, ?_, writes_poll_trace _ _ _,
      Or.inr ⟨rfl, vals, rfl⟩⟩
    rw [wait_reset_register_autoclear_eq_loop _ _ _ _ _ _ (by decide) (by decide), hres]

/-- On a mapped window the composite Shell reset is: the optional status load,
the store of 0x333 to 0x0C, the self-clear poll, and after a successful poll a
sleep and the status load from 0x10. -/
theorem perform_shell_reset_hardware_correct_unfold (hw : Hw) (pcie_base : Nat)
    (verbose : Int) (t : Trace) (hb : pcie_base ≠ 0) :
    perform_shell_reset_hardware_correct hw pcie_base verbose t
      = match wait_reset_register_autoclear hw pcie_base 0xC 0x333 10000
            (t ++ (if verbose ≠ 0 then [Event.read 0x10 (hw t 0x10 % 2 ^ 32)] else [])
              ++ [Event.write 0xC 0x333]) with
        | none => none
        | some (ret3, t3) =>
          if ret3 ≠ 0 then some (ret3, t3)
          else some (0, t3 ++ [Event.usleep 100000,
              Event.read 0x10 (hw (t3 ++ [Event.usleep 100000]) 0x10 % 2 ^ 32)]) := by
  have hmask : SHELL_RESET_QDMA_SUBSYSTEM ||| SHELL_RESET_RDMA_SUBSYSTEM |||
      SHELL_RESET_CMAC0_COMPLETE ||| SHELL_RESET_CMAC1_COMPLETE = 0x333 := by decide
  have hm32 : (0x333 : Nat) % 2 ^ 32 = 0x333 := by decide
  have e1 : toU32 SYSCFG_OFFSET_SHELL_RESET = 0xC := by decide
  have e2 : SYSCFG_OFFSET_SHELL_RESET = 0xC := by decide
  have e3 : RESET_REGISTER_TIMEOUT_MS = 10000 := rfl
  have e5 : SYSCFG_OFFSET_SHELL_STATUS = 0x10 := by decide
  have hpre : (if verbose ≠ 0 then (safe_read32_data hw pcie_base 0x10 LOCAL t).2.2 else t)
      = t ++ (if verbose ≠ 0 then [Event.read 0x10 (hw t 0x10 % 2 ^ 32)] else []) := by
    by_cases hv : verbose ≠ 0
    · rw [if_pos hv, if_pos hv,
        safe_read32_data_ok hw pcie_base 0x10 LOCAL t hb (by decide) (by decide) (by decide)]
    · rw [if_neg hv, if_neg hv]; simp
  unfold perform_shell_reset_hardware_correct
  simp only [hmask, e5, hpre]
  rw [safe_write32_data_ok pcie_base SYSCFG_OFFSET_SHELL_RESET _ _ hb (by decide) (by decide),
    hm32, e1, e2, e3]
  dsimp only
  rw [if_neg (by decide)]
  cases hres : wait_reset_register_autoclear hw pcie_base 0xC 0x333 10000
      (t ++ (if verbose ≠ 0 then [Event.read 0x10 (hw t 0x10 % 2 ^ 32)] else [])
        ++ [Event.write 0xC 0x333]) with
  | none => rfl
  | some r =>
    obtain ⟨ret3, t3⟩ := r
    dsimp only
    by_cases hr : ret3 ≠ 0
    · rw [if_pos hr, if_pos hr]
    · rw [if_neg hr, if_neg hr,
        safe_read32_data_ok hw pcie_base 0x10 LOCAL _ hb (by decide) (by decide) (by decide)]
      simp [RESET_STABILIZATION_DELAY_US]

/-- On a mapped window the system reset is: the optional status display, the
store of 0x1 to 0x04, the self-clear poll, and after a successful poll a sleep
and the status load from 0x08. -/
theorem perform_system_reset_hardware_correct_unfold (hw : Hw) (pcie_base : Nat)
    (verbose : Int) (t : Trace) (hb : pcie_base ≠ 0) :
    perform_system_reset_hardware_correct hw pcie_base verbose t
      = match wait_reset_register_autoclear hw pcie_base 0x4 0x1 10000
            ((if verbose ≠ 0 then (display_all_reset_status hw pcie_base t).2 else t)
              ++ [Event.write 0x4 0x1]) with
        | none => none
        | some (ret3, t3) =>
          if ret3 ≠ 0 then some (ret3, t3)
          else some (0, t3 ++ [Event.usleep 200000,
              Event.read 0x8 (hw (t3 ++ [Event.usleep 200000]) 0x8 % 2 ^ 32)]) := by
  have hm32 : (0x1 : Nat) % 2 ^ 32 = 0x1 := by decide
  have e1 : toU32 SYSCFG_OFFSET_SYSTEM_RESET = 0x4 := by decide
  have e2 : SYSCFG_OFFSET_SYSTEM_RESET = 0x4 := by decide
  have e3 : RESET_REGISTER_TIMEOUT_MS = 10000 := rfl
  have e5 : SYSCFG_OFFSET_SYSTEM_STATUS = 0x8 := by decide
  unfold perform_system_reset_hardware_correct
  simp only [e5]
  rw [safe_write32_data_ok pcie_base SYSCFG_OFFSET_SYSTEM_RESET _ _ hb (by decide) (by decide),
    hm32, e1, e2, e3]
  dsimp only
  rw [if_neg (by decide)]
  cases hres : wait_reset_register_autoclear hw pcie_base 0x4 0x1 10000
      ((if verbose ≠ 0 then (display_all_reset_status hw pcie_base t).2 else t)
        ++ [Event.write 0x4 0x1]) with
  | none => rfl
  | some r =>
    obtain ⟨ret3, t3⟩ := r
    dsimp only
    by_cases hr : ret3 ≠ 0
    · rw [if_pos hr, if_pos hr]
    · rw [if_neg hr, if_neg hr,
        safe_read32_data_ok hw pcie_base 0x8 LOCAL _ hb (by decide) (by decide) (by decide)]
      simp [RESET_STABILIZATION_DELAY_US]

end ResetTool

/-- C16: on a mapped window, `perform_system_reset_hardware_correct` stores
0x1 to the system reset register 0x04 and nothing else;
`perform_shell_reset_hardware_correct` stores 0x333 (bits 0, 1, 4, 5, 8, 9) to
the Shell reset register 0x0C and nothing else, and a successful run ends with
the load of the Shell status register 0x10; `perform_cmac_gt_reset` for port
`i` stores 0x1 to 0x8000 (port 0) or 0xC000 (port 1), sleeps 100 ms and
returns 0, that store being its only register access.  Both composite resets
return on every device. -/
theorem final_resets_single_store (hw : Hw) (pcie_base : Nat) (verbose : Int) (t : Trace)
    (hb : pcie_base ≠ 0) :
    (∃ (ret : Int) (t2 : Trace),
      ResetTool.perform_system_reset_hardware_correct hw pcie_base verbose t = some (ret, t2) ∧
      writes t2 = writes t ++ [(0x4, 0x1)]) ∧
    (∃ (ret : Int) (t2 : Trace),
      ResetTool.perform_shell_reset_hardware_correct hw pcie_base verbose t = some (ret, t2) ∧
      writes t2 = writes t ++ [(0xC, 0x333)] ∧
      (ret = 0 → ∃ (a : Trace) (s : Nat), t2 = a ++ [Event.read 0x10 s])) ∧
    (0x333 : Nat) = 1 <<< 0 ||| 1 <<< 1 ||| 1 <<< 4 ||| 1 <<< 5 ||| 1 <<< 8 ||| 1 <<< 9 ∧
    (∀ i : Int, i = 0 ∨ i = 1 →
      ResetTool.perform_cmac_gt_reset pcie_base i verbose t
        = (0, t ++ [Event.write (if i = 0 then 0x8000 else 0xC000) 0x1,
            Event.usleep 100000])) := by
  refine ⟨?_, ?_, by decide, ?_⟩
  · have hpre : ∃ pre : Trace, writes pre = [] ∧
        (if verbose ≠ 0 then (ResetTool.display_all_reset_status hw pcie_base t).2 else t)
          = t ++ pre := by
      by_cases hv : verbose ≠ 0
      · obtain ⟨pre, hpw, _, he⟩ := ResetTool.display_all_reset_status_reads hw pcie_base t
        exact ⟨pre, hpw, by rw [if_pos hv, he]⟩
      · exact ⟨[], rfl, by rw [if_neg hv]; simp⟩
    obtain ⟨pre, hpw, hpe⟩ := hpre
    obtain ⟨ret, tail, hres, hwt, hcase⟩ := ResetTool.autoclear_outcome hw pcie_base 0x4 0x1
      ((if verbose ≠ 0 then (ResetTool.display_all_reset_status hw pcie_base t).2 else t)
        ++ [Event.write 0x4 0x1]) hb (by decide) (by decide)
    rw [ResetTool.perform_system_reset_hardware_correct_unfold hw pcie_base verbose t hb, hres]
    dsimp only
    by_cases hr : ret ≠ 0
    · rw [if_pos hr]
      refine ⟨ret, _, rfl, ?_⟩
      rw [hpe]
      simp only [writes_append, hpw, hwt]
      simp [writes]
    · rw [if_neg hr]
      refine ⟨0, _, rfl, ?_⟩
      rw [hpe]
      simp only [writes_append, hpw, hwt]
      simp [writes]
  · have hpw : writes (if verbose ≠ 0 then [Event.read 0x10 (hw t 0x10 % 2 ^ 32)] else [])
        = [] := by
      by_cases hv : verbose ≠ 0
      · rw [if_pos hv]; rfl
      · rw [if_neg hv]; rfl
    obtain ⟨ret, tail, hres, hwt, hcase⟩ := ResetTool.autoclear_outcome hw pcie_base 0xC 0x333
      (t ++ (if verbose ≠ 0 then [Event.read 0x10 (hw t 0x10 % 2 ^ 32)] else [])
        ++ [Event.write 0xC 0x333]) hb (by decide) (by decide)
    rw [ResetTool.perform_shell_reset_hardware_correct_unfold hw pcie_base verbose t hb, hres]
    dsimp only
    by_cases hr : ret ≠ 0
    · rw [if_pos hr]
      refine ⟨ret, _, rfl, ?_, fun h0 => absurd h0 hr⟩
      simp only [writes_append, hpw, hwt]
      simp [writes]
    · rw [if_neg hr]
      refine ⟨0, _, rfl, ?_, fun _ => ⟨_, _, (List.append_assoc _ [Event.usleep 100000]
        [Event.read 0x10 _]).symm⟩⟩
      simp only [writes_append, hpw, hwt]
      simp [writes]
  · intro i hi
    have hoff : ResetTool.CMAC_OFFSET_GT_RESET i = (if i = 0 then 0x8000 else 0xC000) := by
      rcases hi with rfl | rfl <;> decide
    unfold ResetTool.perform_cmac_gt_reset
    rw [if_neg (by omega), hoff,
      ResetTool.safe_write32_data_ok pcie_base _ _ _ hb (by split <;> decide)
        (by split <;> decide)]
    dsimp only
    rw [if_neg (by decide)]
    simp

/-- Witness for C16: a device whose registers all read 0, non-verbose. -/
theorem final_resets_single_store_witness :
    (∃ (ret : Int) (t2 : Trace),
      ResetTool.perform_system_reset_hardware_correct (fun _ _ => 0) 1 0 [] = some (ret, t2) ∧
      writes t2 = writes [] ++ [(0x4, 0x1)]) ∧
    (∃ (ret : Int) (t2 : Trace),
      ResetTool.perform_shell_reset_hardware_correct (fun _ _ => 0) 1 0 [] = some (ret, t2) ∧
      writes t2 = writes [] ++ [(0xC, 0x333)] ∧
      (ret = 0 → ∃ (a : Trace) (s : Nat), t2 = a ++ [Event.read 0x10 s])) ∧
    (0x333 : Nat) = 1 <<< 0 ||| 1 <<< 1 ||| 1 <<< 4 ||| 1 <<< 5 ||| 1 <<< 8 ||| 1 <<< 9 ∧
    (∀ i : Int, i = 0 ∨ i = 1 →
      ResetTool.perform_cmac_gt_reset 1 i 0 []
        = (0, [] ++ [Event.write (if i = 0 then 0x8000 else 0xC000) 0x1,
            Event.usleep 100000])) :=
  final_resets_single_store (fun _ _ => 0) 1 0 [] (by decide)

/-! ## The composite CMAC reset on the simulated device -/

namespace ResetTool

/-- Form of `autoclear_loop_succeeds` for a device described along the run:
the register shows a mask bit after every run of fewer than `N` unsuccessful
polls and none after every run of `N`. -/
theorem autoclear_loop_run (hw : Hw) (pcie_base off mask : Nat) (timeout_ms : Int)
    (hb : pcie_base ≠ 0) (h1 : (off : Int) < 0x10000) (h2 : (off : Int) % 4 = 0)
    (hT : timeout_ms ≤ 2147483) :
    ∀ (N fuel : Nat) (elapsed_us : Int) (t : Trace), N < fuel → 0 ≤ elapsed_us →
      elapsed_us + N * 1000 < timeout_ms * 1000 →
      (∀ vals : List Nat, vals.length < N →
        hw (t ++ poll_trace off 1000 vals) off % 2 ^ 32 &&& mask ≠ 0) →
      (∀ vals : List Nat, vals.length = N →
        hw (t ++ poll_trace off 1000 vals) off % 2 ^ 32 &&& mask = 0) →
      ∃ (vals : List Nat) (v : Nat), vals.length = N ∧
        wait_reset_register_autoclear_loop hw pcie_base off mask timeout_ms fuel elapsed_us t
          = some (0, t ++ poll_trace off 1000 vals ++ [Event.read off v]) := by
  intro N
  induction N with
  | zero =>
    intro fuel elapsed_us t hf he hlt _ hclear
    obtain ⟨f, rfl⟩ : ∃ f, fuel = f + 1 := ⟨fuel - 1, by omega⟩
    have hw32 : wrap32 (timeout_ms * 1000) = timeout_ms * 1000 :=
      wrap32_of_range _ (by omega) (by omega)
    have hc := hclear [] rfl
    rw [poll_trace_nil, List.append_nil] at hc
    refine ⟨[], hw t off % 2 ^ 32, rfl, ?_⟩
    rw [autoclear_loop_clear hw pcie_base off mask timeout_ms f elapsed_us t hb h1 h2
      (by rw [hw32]; omega) hc]
    simp [poll_trace_nil]
  | succ n ih =>
    intro fuel elapsed_us t hf he hlt hbusy hclear
    obtain ⟨f, rfl⟩ : ∃ f, fuel = f + 1 := ⟨fuel - 1, by omega⟩
    have hw32 : wrap32 (timeout_ms * 1000) = timeout_ms * 1000 :=
      wrap32_of_range _ (by omega) (by omega)
    have hbz := hbusy [] (by simp)
    rw [poll_trace_nil, List.append_nil] at hbz
    have hstep : wrap32 (elapsed_us + 1000) = elapsed_us + 1000 :=
      wrap32_of_range _ (by omega) (by omega)
    have hcat : ∀ vals : List Nat,
        t ++ [Event.read off (hw t off % 2 ^ 32), Event.usleep 1000] ++ poll_trace off 1000 vals
          = t ++ poll_trace off 1000 ((hw t off % 2 ^ 32) :: vals) := by
      intro vals
      rw [poll_trace_cons]
      simp
    obtain ⟨vals, v, hlen, heq⟩ := ih f (elapsed_us + 1000)
      (t ++ [Event.read off (hw t off % 2 ^ 32), Event.usleep 1000]) (by omega) (by omega)
      (by push_cast at hlt ⊢; omega)
      (fun vals hl => by rw [hcat]; exact hbusy _ (by simp; omega))
      (fun vals hl => by rw [hcat]; exact hclear _ (by simp; omega))
    refine ⟨(hw t off % 2 ^ 32) :: vals, v, by simp [hlen], ?_⟩
    rw [autoclear_loop_busy hw pcie_base off mask timeout_ms f elapsed_us t hb h1 h2
      (by rw [hw32]; omega) hbz, hstep, heq, poll_trace_cons]
    simp

end ResetTool

theorem shell_reset_state_append (a b : Trace) :
    shell_reset_state (a ++ b) = b.foldl shell_reset_step (shell_reset_state a) := by
  simp [shell_reset_state, List.foldl_append]

theorem shell_reset_state_polls (t : Trace) (vals : List Nat) :
    shell_reset_state (t ++ poll_trace 0xC 1000 vals)
      = ((shell_reset_state t).1, (shell_reset_state t).2 + vals.length) := by
  induction vals generalizing t with
  | nil => simp [poll_trace_nil]
  | cons v vs ih =>
    have hcat : t ++ poll_trace 0xC 1000 (v :: vs)
        = (t ++ [Event.read 0xC v, Event.usleep 1000]) ++ poll_trace 0xC 1000 vs := by
      rw [poll_trace_cons]; simp
    rw [hcat, ih, shell_reset_state_append]
    simp [shell_reset_step]
    omega

/-- Loads from the simulated device, given the state of its reset register. -/
theorem sim_shell_device_of_state (N : Nat) (t : Trace) (off : Int) (a b : Nat)
    (h : shell_reset_state t = (a, b)) :
    sim_shell_device N t off
      = if off = 0xC then (if b < N then a else 0)
        else if off = 0x10 then 0x333 ^^^ ((if b < N then a else 0) &&& 0x333)
        else 0 := by
  unfold sim_shell_device
  rw [h]

/-- One composite reset of port 0 on the simulated device: it returns 0, its
status load yields 0x333, and it leaves the reset register cleared. -/
theorem sim_cmac_reset_call (N pcie_base : Nat) (verbose : Int) (t : Trace)
    (hb : pcie_base ≠ 0) (hN : N < 10000) :
    ∃ t3 : Trace,
      ResetTool.perform_cmac_reset_hardware_correct (sim_shell_device N) pcie_base 0 verbose t
        = some (0, t3 ++ [Event.usleep 50000, Event.read 0x10 0x333, Event.usleep 100000]) ∧
      shell_reset_state t3 = (0x30, N + 1) := by
  have hst0 : shell_reset_state
      (t ++ (if verbose ≠ 0 then [Event.read 0x10 (sim_shell_device N t 0x10 % 2 ^ 32)] else [])
        ++ [Event.write 0xC 0x30]) = (0x30, 0) := by
    rw [shell_reset_state_append]
    simp [shell_reset_step]
  have hval : ∀ vals : List Nat, sim_shell_device N
      (t ++ (if verbose ≠ 0 then [Event.read 0x10 (sim_shell_device N t 0x10 % 2 ^ 32)] else [])
        ++ [Event.write 0xC 0x30] ++ poll_trace 0xC 1000 vals) 0xC
      = if vals.length < N then 0x30 else 0 := by
    intro vals
    rw [sim_shell_device_of_state N _ 0xC 0x30 vals.length
      (by rw [shell_reset_state_polls, hst0]; simp)]
    simp
  obtain ⟨vals, v, hlen, hres⟩ :=
    ResetTool.autoclear_loop_run (sim_shell_device N) pcie_base 0xC 0x30 10000 hb
      (by decide) (by decide) (by decide) N LOOP_FUEL 0
      (t ++ (if verbose ≠ 0 then [Event.read 0x10 (sim_shell_device N t 0x10 % 2 ^ 32)] else [])
        ++ [Event.write 0xC 0x30])
      (by unfold LOOP_FUEL; omega) (le_refl 0) (by omega)
      (fun vals hl => by
        simp only [Nat.cast_ofNat]
        rw [hval vals, if_pos hl]
        decide)
      (fun vals hl => by
        simp only [Nat.cast_ofNat]
        rw [hval vals, if_neg (by omega)]
        decide)
  have hunf := ResetTool.perform_cmac_reset_hardware_correct_unfold (sim_shell_device N)
    pcie_base 0 verbose t hb (Or.inl rfl)
  have hres2 : ResetTool.wait_reset_register_autoclear (sim_shell_device N) pcie_base 0xC
      0x30 10000
      (t ++ (if verbose ≠ 0 then [Event.read 0x10 (sim_shell_device N t 0x10 % 2 ^ 32)] else [])
        ++ [Event.write 0xC 0x30]) = _ := hres
  simp only [Nat.cast_ofNat] at hres2
  simp only [reduceIte] at hunf
  rw [hres2] at hunf
  dsimp only at hunf
  rw [if_neg (by decide)] at hunf
  have hst3 : shell_reset_state
      (t ++ (if verbose ≠ 0 then [Event.read 0x10 (sim_shell_device N t 0x10 % 2 ^ 32)] else [])
        ++ [Event.write 0xC 0x30] ++ poll_trace 0xC 1000 vals ++ [Event.read 0xC v])
      = (0x30, N + 1) := by
    rw [shell_reset_state_append, shell_reset_state_polls, hst0, hlen]
    simp [shell_reset_step]
  have hstatus : sim_shell_device N
      (t ++ (if verbose ≠ 0 then [Event.read 0x10 (sim_shell_device N t 0x10 % 2 ^ 32)] else [])
        ++ [Event.write 0xC 0x30] ++ poll_trace 0xC 1000 vals ++ [Event.read 0xC v]
        ++ [Event.usleep 50000]) 0x10 % 2 ^ 32 = 0x333 := by
    rw [sim_shell_device_of_state N _ 0x10 0x30 (N + 1)
      (by rw [shell_reset_state_append, hst3]; rfl)]
    simp
  rw [hstatus] at hunf
  exact ⟨_, hunf, hst3⟩

/-- C15: on the simulated device (the Shell reset register shows the stored
bits for `N < 10000` loads and then reads 0; the status register then reads
0x333, all completion bits set), two calls of
`perform_cmac_reset_hardware_correct` for port 0 in sequence, the second on the
history left by the first, both return 0; each ends with a status load that
yields 0x333, and the Shell status register holds the same value after the
second call as after the first, with both completion bits of port 0 set. -/
theorem composite_cmac_reset_idempotent (N pcie_base : Nat) (verbose : Int) (t : Trace)
    (hb : pcie_base ≠ 0) (hN : N < 10000) :
    ∃ t1 t2 : Trace,
      ResetTool.perform_cmac_reset_hardware_correct (sim_shell_device N) pcie_base 0 verbose t
        = some (0, t1) ∧
      ResetTool.perform_cmac_reset_hardware_correct (sim_shell_device N) pcie_base 0 verbose t1
        = some (0, t2) ∧
      sim_shell_device N t2 0x10 = sim_shell_device N t1 0x10 ∧
      sim_shell_device N t1 0x10 &&& 0x30 = 0x30 ∧
      (∃ a : Trace,
        t1 = a ++ [Event.usleep 50000, Event.read 0x10 0x333, Event.usleep 100000]) ∧
      (∃ b : Trace,
        t2 = b ++ [Event.usleep 50000, Event.read 0x10 0x333, Event.usleep 100000]) := by
  have hidle : ∀ t3 : Trace, shell_reset_state t3 = (0x30, N + 1) →
      sim_shell_device N
        (t3 ++ [Event.usleep 50000, Event.read 0x10 0x333, Event.usleep 100000]) 0x10
        = 0x333 := by
    intro t3 h3
    rw [sim_shell_device_of_state N _ 0x10 0x30 (N + 1)
      (by rw [shell_reset_state_append, h3]; rfl)]
    simp
  obtain ⟨a, h1, hs1⟩ := sim_cmac_reset_call N pcie_base verbose t hb hN
  obtain ⟨b, h2, hs2⟩ := sim_cmac_reset_call N pcie_base verbose
    (a ++ [Event.usleep 50000, Event.read 0x10 0x333, Event.usleep 100000]) hb hN
  refine ⟨_, _, h1, h2, ?_, ?_, ⟨a, rfl⟩, ⟨b, rfl⟩⟩
  · rw [hidle a hs1, hidle b hs2]
  · rw [hidle a hs1]
    decide

/-- Witness for C15: a reset register that clears after three polls. -/
theorem composite_cmac_reset_idempotent_witness :
    ∃ t1 t2 : Trace,
      ResetTool.perform_cmac_reset_hardware_correct (sim_shell_device 3) 1 0 0 []
        = some (0, t1) ∧
      ResetTool.perform_cmac_reset_hardware_correct (sim_shell_device 3) 1 0 0 t1
        = some (0, t2) ∧
      sim_shell_device 3 t2 0x10 = sim_shell_device 3 t1 0x10 ∧
      sim_shell_device 3 t1 0x10 &&& 0x30 = 0x30 ∧
      (∃ a : Trace,
        t1 = a ++ [Event.usleep 50000, Event.read 0x10 0x333, Event.usleep 100000]) ∧
      (∃ b : Trace,
        t2 = b ++ [Event.usleep 50000, Event.read 0x10 0x333, Event.usleep 100000]) :=
  composite_cmac_reset_idempotent 3 1 0 [] (by decide) (by decide)

/-! ## Failure propagation in the composite operations -/

/-- A result whose return code is known has that code with some history. -/
theorem result_of_code (x : Option (Int × Trace)) (r : Int)
    (h : x.map Prod.fst = some r) : ∃ t : Trace, x = some (r, t) := by
  cases x with
  | none => simp at h
  | some p =>
    obtain ⟨r0, t0⟩ := p
    simp only [Option.map_some', Option.some.injEq] at h
    exact ⟨t0, by rw [← h]⟩

namespace ResetTool

/-- The composite CMAC reset on a device whose reset register never clears:
`-ETIMEDOUT` after 10000 polls. -/
theorem hardware_correct_times_out (hw : Hw) (pcie_base : Nat) (port_id verbose : Int)
    (t : Trace) (hb : pcie_base ≠ 0) (hport : port_id = 0 ∨ port_id = 1)
    (hnever : ∀ t1 : Trace, hw t1 0xC % 2 ^ 32 &&& (if port_id = 0 then 0x30 else 0x300) ≠ 0) :
    ∃ t1 : Trace,
      perform_cmac_reset_hardware_correct hw pcie_base port_id verbose t
        = some (-ETIMEDOUT, t1) := by
  obtain ⟨vals, _, hres⟩ := autoclear_times_out hw pcie_base 0xC
    (if port_id = 0 then 0x30 else 0x300) 10000
    (t ++ (if verbose ≠ 0 then [Event.read 0x10 (hw t 0x10 % 2 ^ 32)] else [])
      ++ [Event.write 0xC (if port_id = 0 then 0x30 else 0x300)])
    hb (by decide) (by decide) (by decide) (by decide)
    (fun t1 => by simpa using hnever t1)
  rw [perform_cmac_reset_hardware_correct_unfold hw pcie_base port_id verbose t hb hport, hres]
  dsimp only
  rw [if_pos (by decide)]
  exact ⟨_, rfl⟩

/-- The full bring-up of a port whose lanes never align returns `-ETIMEDOUT`:
from the port reset if that times out, from the lane alignment otherwise. -/
theorem reinit_never_aligned (hw : Hw) (pcie_base : Nat) (port_id enable_rsfec verbose : Int)
    (t : Trace) (hb : pcie_base ≠ 0) (hport : port_id = 0 ∨ port_id = 1)
    (hnever : ∀ t1 : Trace, hw t1 (CMAC_OFFSET_STAT_RX_STATUS port_id) % 2 ^ 32 ≠ 0x3) :
    ∃ t1 : Trace,
      perform_cmac_reset_with_reinit hw pcie_base port_id enable_rsfec verbose t
        = some (-ETIMEDOUT, t1) := by
  obtain ⟨ret1, vals, last, h1, hcase1⟩ :=
    perform_cmac_reset_outcome hw pcie_base port_id verbose t hb hport
  unfold perform_cmac_reset_with_reinit
  rw [if_neg (by omega), h1]
  dsimp only
  rcases hcase1 with ⟨rfl, _⟩ | ⟨rfl, rfl⟩
  swap
  · rw [if_pos (by decide)]
    exact ⟨_, rfl⟩
  rw [if_neg (by decide)]
  obtain ⟨t2, hstep2⟩ : ∃ t2 : Trace,
      (if enable_rsfec ≠ 0 then configure_cmac_rsfec pcie_base port_id verbose
          (t ++ [Event.write 0xC (if port_id = 0 then 0x10 else 0x100)] ++ status_polls vals last)
        else (0, t ++ [Event.write 0xC (if port_id = 0 then 0x10 else 0x100)]
          ++ status_polls vals last))
      = (0, t2) := by
    by_cases he : enable_rsfec ≠ 0
    · rw [if_pos he, configure_cmac_rsfec_eq pcie_base port_id verbose _ hb]
      exact ⟨_, rfl⟩
    · rw [if_neg he]
      exact ⟨_, rfl⟩
  rw [hstep2]
  dsimp only
  rw [if_neg (by decide), configure_cmac_rxtx_eq pcie_base port_id verbose _ hb]
  dsimp only
  rw [if_neg (by decide)]
  obtain ⟨checks, polls, checks2, _, _, _, hres⟩ :=
    lane_loop_before_escalation hw pcie_base port_id hb hport hnever
      7 LOOP_FUEL 0
      (t2 ++ [Event.write (CMAC_OFFSET_CONF_RX_1 port_id) 0x1,
              Event.write (CMAC_OFFSET_CONF_TX_1 port_id) 0x10])
      (by decide) (le_refl 0) (by decide)
  have h4 : wait_rx_lane_alignment hw pcie_base port_id verbose
      (t2 ++ [Event.write (CMAC_OFFSET_CONF_RX_1 port_id) 0x1,
              Event.write (CMAC_OFFSET_CONF_TX_1 port_id) 0x10]) = _ := hres
  rw [h4]
  dsimp only
  rw [if_pos (by decide)]
  exact ⟨_, rfl⟩

end ResetTool

namespace ResetTool

/-- The all-ports path of `smart_reset_strategy` without re-initialisation:
the two port resets run one after the other, their codes are only reported,
and the result is 0. -/
theorem smart_reset_strategy_all_ports (hw : Hw) (pcie_base : Nat) (verbose : Int)
    (t t1 t2 : Trace) (r0 r1 : Int)
    (h1 : perform_cmac_reset_hardware_correct hw pcie_base 0 verbose t = some (r0, t1))
    (h2 : perform_cmac_reset_hardware_correct hw pcie_base 1 verbose t1 = some (r1, t2)) :
    smart_reset_strategy hw pcie_base (-1) 0 verbose t = some (0, t2) := by
  unfold smart_reset_strategy
  rw [if_pos rfl, h1]
  dsimp only
  rw [h2]
  dsimp only
  unfold smart_reset_strategy_reinit
  rw [if_neg (by decide)]

/-- After a successful Shell reset `perform_shell_reset_fixed` runs the two
port re-initialisations; their codes are only reported and the result is 0. -/
theorem perform_shell_reset_fixed_reinit (hw : Hw) (pcie_base : Nat) (verbose : Int)
    (t t1 t2 t3 : Trace) (r0 r1 : Int)
    (h1 : perform_shell_reset hw pcie_base verbose t = some (0, t1))
    (h2 : perform_cmac_reset_with_reinit hw pcie_base 0 1 verbose t1 = some (r0, t2))
    (h3 : perform_cmac_reset_with_reinit hw pcie_base 1 1 verbose t2 = some (r1, t3)) :
    perform_shell_reset_fixed hw pcie_base verbose t = some (0, t3) := by
  unfold perform_shell_reset_fixed
  rw [h1]
  dsimp only
  rw [if_neg (by decide), h2]
  dsimp only
  rw [h3]

end ResetTool

/-- C17, counterexample: the paths that handle all ports report a failing
constituent and go on.  On a device whose Shell status reads 0x110 and whose
lanes never align, `perform_shell_reset_fixed` returns 0 although both port
re-initialisations it ran returned `-ETIMEDOUT`; on a device whose reset
register never clears, `smart_reset_strategy` for `port_id = -1` returns 0
although both port resets it ran returned `-ETIMEDOUT`. -/
theorem all_ports_paths_return_zero_on_failure :
    (∃ t1 t2 t3 : Trace,
      ResetTool.perform_shell_reset (fun _ off => if off = 0x10 then 0x110 else 0) 1 0 []
        = some (0, t1) ∧
      ResetTool.perform_cmac_reset_with_reinit (fun _ off => if off = 0x10 then 0x110 else 0)
        1 0 1 0 t1 = some (-ETIMEDOUT, t2) ∧
      ResetTool.perform_cmac_reset_with_reinit (fun _ off => if off = 0x10 then 0x110 else 0)
        1 1 1 0 t2 = some (-ETIMEDOUT, t3) ∧
      ResetTool.perform_shell_reset_fixed (fun _ off => if off = 0x10 then 0x110 else 0) 1 0 []
        = some (0, t3)) ∧
    (∃ t1 t2 : Trace,
      ResetTool.perform_cmac_reset_hardware_correct (fun _ _ => 0xFFFFFFFF) 1 0 0 []
        = some (-ETIMEDOUT, t1) ∧
      ResetTool.perform_cmac_reset_hardware_correct (fun _ _ => 0xFFFFFFFF) 1 1 0 t1
        = some (-ETIMEDOUT, t2) ∧
      ResetTool.smart_reset_strategy (fun _ _ => 0xFFFFFFFF) 1 (-1) 0 0 [] = some (0, t2)) := by
  constructor
  · have h1 : ResetTool.perform_shell_reset (fun _ off => if off = 0x10 then 0x110 else 0) 1 0 []
        = some (0, [Event.write 0xC 0x110, Event.read 0x10 0x110]) := by decide
    obtain ⟨t2, h2⟩ := ResetTool.reinit_never_aligned
      (fun _ off => if off = 0x10 then 0x110 else 0) 1 0 1 0
      [Event.write 0xC 0x110, Event.read 0x10 0x110] (by decide) (Or.inl rfl)
      (fun _ => by beta_reduce; decide)
    obtain ⟨t3, h3⟩ := ResetTool.reinit_never_aligned
      (fun _ off => if off = 0x10 then 0x110 else 0) 1 1 1 0 t2 (by decide) (Or.inr rfl)
      (fun _ => by beta_reduce; decide)
    exact ⟨_, t2, t3, h1, h2, h3,
      ResetTool.perform_shell_reset_fixed_reinit _ 1 0 [] _ t2 t3 _ _ h1 h2 h3⟩
  · obtain ⟨t1, h1⟩ := ResetTool.hardware_correct_times_out (fun _ _ => 0xFFFFFFFF) 1 0 0 []
      (by decide) (Or.inl rfl) (fun _ => by beta_reduce; decide)
    obtain ⟨t2, h2⟩ := ResetTool.hardware_correct_times_out (fun _ _ => 0xFFFFFFFF) 1 1 0 t1
      (by decide) (Or.inr rfl) (fun _ => by beta_reduce; decide)
    exact ⟨t1, t2, h1, h2,
      ResetTool.smart_reset_strategy_all_ports _ 1 0 [] t1 t2 _ _ h1 h2⟩

/-- C17, amended: for a single port (`port_id ≠ -1`) `smart_reset_strategy`
returns the non-zero code of a failing port reset, and with re-initialisation
requested the non-zero code of a failing port re-initialisation, with nothing
done after the failure; `perform_shell_reset_fixed` returns the non-zero code of
a failing Shell reset, and after a successful Shell reset it runs both port
re-initialisations, reports their failures as warnings only and returns 0. -/
theorem single_port_failures_propagate (hw : Hw) (pcie_base : Nat)
    (port_id include_reinit verbose : Int) (t : Trace) (hport : port_id ≠ -1) :
    (∀ (r : Int) (t1 : Trace),
      ResetTool.perform_cmac_reset_hardware_correct hw pcie_base port_id verbose t
        = some (r, t1) → r ≠ 0 →
      ResetTool.smart_reset_strategy hw pcie_base port_id include_reinit verbose t
        = some (r, t1)) ∧
    (∀ (t1 : Trace) (r : Int) (t2 : Trace),
      ResetTool.perform_cmac_reset_hardware_correct hw pcie_base port_id verbose t
        = some (0, t1) → include_reinit ≠ 0 →
      ResetTool.perform_cmac_reset_with_reinit hw pcie_base port_id 1 verbose t1
        = some (r, t2) → r ≠ 0 →
      ResetTool.smart_reset_strategy hw pcie_base port_id include_reinit verbose t
        = some (r, t2)) ∧
    (∀ (r : Int) (t1 : Trace),
      ResetTool.perform_shell_reset hw pcie_base verbose t = some (r, t1) → r ≠ 0 →
      ResetTool.perform_shell_reset_fixed hw pcie_base verbose t = some (r, t1)) ∧
    (∀ (t1 t2 t3 : Trace) (r0 r1 : Int),
      ResetTool.perform_shell_reset hw pcie_base verbose t = some (0, t1) →
      ResetTool.perform_cmac_reset_with_reinit hw pcie_base 0 1 verbose t1 = some (r0, t2) →
      ResetTool.perform_cmac_reset_with_reinit hw pcie_base 1 1 verbose t2 = some (r1, t3) →
      ResetTool.perform_shell_reset_fixed hw pcie_base verbose t = some (0, t3)) := by
  refine ⟨?_, ?_, ?_, ?_⟩
  · intro r t1 h1 hr
    unfold ResetTool.smart_reset_strategy
    rw [if_neg hport, h1]
    dsimp only
    rw [if_pos hr]
  · intro t1 r t2 h1 hinc h2 hr
    unfold ResetTool.smart_reset_strategy
    rw [if_neg hport, h1]
    dsimp only
    rw [if_neg (by decide)]
    unfold ResetTool.smart_reset_strategy_reinit
    rw [if_pos hinc, if_neg hport, h2]
    dsimp only
    rw [if_pos hr]
  · intro r t1 h1 hr
    unfold ResetTool.perform_shell_reset_fixed
    rw [h1]
    dsimp only
    rw [if_pos hr]
  · intro t1 t2 t3 r0 r1 h1 h2 h3
    exact ResetTool.perform_shell_reset_fixed_reinit hw pcie_base verbose t t1 t2 t3 r0 r1
      h1 h2 h3

/-- Witness for C17: port 0 with re-initialisation requested, on a device
whose reset register never clears (the port reset times out) and on a device
whose lanes never align (the re-initialisation times out). -/
theorem single_port_failures_propagate_witness :
    (0 : Int) ≠ -1 ∧
    (∃ t1 : Trace,
      ResetTool.perform_cmac_reset_hardware_correct (fun _ _ => 0xFFFFFFFF) 1 0 0 []
        = some (-ETIMEDOUT, t1) ∧
      ResetTool.smart_reset_strategy (fun _ _ => 0xFFFFFFFF) 1 0 1 0 []
        = some (-ETIMEDOUT, t1)) ∧
    (∃ t1 t2 : Trace,
      ResetTool.perform_cmac_reset_hardware_correct
        (fun _ off => if off = 0x10 then 0x110 else 0) 1 0 0 [] = some (0, t1) ∧
      ResetTool.perform_cmac_reset_with_reinit
        (fun _ off => if off = 0x10 then 0x110 else 0) 1 0 1 0 t1 = some (-ETIMEDOUT, t2) ∧
      ResetTool.smart_reset_strategy (fun _ off => if off = 0x10 then 0x110 else 0) 1 0 1 0 []
        = some (-ETIMEDOUT, t2)) := by
  refine ⟨by decide, ?_, ?_⟩
  · obtain ⟨t1, h1⟩ := ResetTool.hardware_correct_times_out (fun _ _ => 0xFFFFFFFF) 1 0 0 []
      (by decide) (Or.inl rfl) (fun _ => by beta_reduce; decide)
    exact ⟨t1, h1, (single_port_failures_propagate (fun _ _ => 0xFFFFFFFF) 1 0 1 0 []
      (by decide)).1 _ t1 h1 (by decide)⟩
  · have h1 : ResetTool.perform_cmac_reset_hardware_correct
        (fun _ off => if off = 0x10 then 0x110 else 0) 1 0 0 []
        = some (0, [Event.write 0xC 0x30, Event.read 0xC 0, Event.usleep 50000,
            Event.read 0x10 0x110, Event.usleep 100000]) := by decide
    obtain ⟨t2, h2⟩ := ResetTool.reinit_never_aligned
      (fun _ off => if off = 0x10 then 0x110 else 0) 1 0 1 0
      [Event.write 0xC 0x30, Event.read 0xC 0, Event.usleep 50000,
        Event.read 0x10 0x110, Event.usleep 100000] (by decide) (Or.inl rfl)
      (fun _ => by beta_reduce; decide)
    exact ⟨_, t2, h1, h2, (single_port_failures_propagate
      (fun _ off => if off = 0x10 then 0x110 else 0) 1 0 1 0 [] (by decide)).2.1 _ _ t2 h1
      (by decide) h2 (by decide)⟩

/-! ## Register tool: write then read over plain memory -/

theorem plain_memory_append (init : Int → Nat) (a b : Trace) (off : Int) :
    plain_memory init (a ++ b) off = (b.foldl store_word (a.foldl store_word init)) off := by
  simp [plain_memory, List.foldl_append]

/-- C18: over a window that behaves as plain memory, when the register tool's
`safe_write32_data(base, o, v)` returns 0 (`v` a 32-bit value), the following
`safe_read32_data(base, o, &value)` returns 0 and yields `v`; the offset is a
multiple of 4, and the word at every other offset is the same after the store,
and after the load, as before the store. -/
theorem register_write_read_round_trip (init : Int → Nat) (pcie_axil_base : Nat) (o : Int)
    (v value : Nat) (t : Trace) (hv : v < 2 ^ 32) (hvalue : value ≠ 0)
    (hret : (RegisterTool.safe_write32_data pcie_axil_base o v t).1 = 0) :
    (RegisterTool.safe_write32_data pcie_axil_base o v t).2 = t ++ [Event.write o v] ∧
    RegisterTool.safe_read32_data (plain_memory init) pcie_axil_base o value
        (t ++ [Event.write o v])
      = (0, some v, t ++ [Event.write o v] ++ [Event.read o v]) ∧
    o % 4 = 0 ∧
    (∀ o2 : Int, o2 ≠ o →
      plain_memory init (t ++ [Event.write o v]) o2 = plain_memory init t o2 ∧
      plain_memory init (t ++ [Event.write o v] ++ [Event.read o v]) o2
        = plain_memory init t o2) := by
  have hv32 : v % 2 ^ 32 = v := Nat.mod_eq_of_lt hv
  have hb : ¬ pcie_axil_base = 0 := by
    intro h0
    unfold RegisterTool.safe_write32_data at hret
    rw [if_pos h0] at hret
    have hne : (-EINVAL : Int) ≠ 0 := by decide
    exact absurd hret hne
  have hoff : ¬ RegisterTool.is_valid_register_offset (toU32 o) = 0 := by
    intro h0
    unfold RegisterTool.safe_write32_data at hret
    rw [if_neg hb, if_pos h0] at hret
    have hne : (-EINVAL : Int) ≠ 0 := by decide
    exact absurd hret hne
  have halign : o % 4 = 0 := by
    unfold RegisterTool.is_valid_register_offset at hoff
    by_cases h1 : toU32 o ≥ RegisterTool.REG_MAP_SIZE
    · rw [if_pos h1] at hoff; exact absurd rfl hoff
    · rw [if_neg h1] at hoff
      by_cases h2 : toU32 o &&& 0x3 ≠ 0
      · rw [if_pos h2] at hoff; exact absurd rfl hoff
      · have h3 : toU32 o &&& 0x3 = 0 := not_not.mp h2
        have h4 : toU32 o % 4 = 0 := by
          have := Nat.and_pow_two_sub_one_eq_mod (toU32 o) 2
          simpa [h3] using this.symm
        unfold toU32 at h4
        omega
  have hmem : plain_memory init (t ++ [Event.write o v]) o = v := by
    rw [plain_memory_append]
    simp [store_word]
  refine ⟨?_, ?_, halign, ?_⟩
  · unfold RegisterTool.safe_write32_data
    rw [if_neg hb, if_neg hoff, hv32]
  · unfold RegisterTool.safe_read32_data
    rw [if_neg (by tauto), if_neg hoff]
    simp only [hmem, hv32]
  · intro o2 h2
    constructor
    · rw [plain_memory_append]
      simp [store_word, h2, plain_memory]
    · rw [plain_memory_append]
      simp [store_word, h2, plain_memory, List.foldl_append]

/-- Witness for C18: the word 0xDEADBEEF stored at offset 0x1000 of a zeroed
window. -/
theorem register_write_read_round_trip_witness :
    (RegisterTool.safe_write32_data 1 0x1000 0xDEADBEEF []).2
      = [] ++ [Event.write 0x1000 0xDEADBEEF] ∧
    RegisterTool.safe_read32_data (plain_memory fun _ => 0) 1 0x1000 1
        ([] ++ [Event.write 0x1000 0xDEADBEEF])
      = (0, some 0xDEADBEEF,
          [] ++ [Event.write 0x1000 0xDEADBEEF] ++ [Event.read 0x1000 0xDEADBEEF]) ∧
    (0x1000 : Int) % 4 = 0 ∧
    (∀ o2 : Int, o2 ≠ 0x1000 →
      plain_memory (fun _ => 0) ([] ++ [Event.write 0x1000 0xDEADBEEF]) o2
        = plain_memory (fun _ => 0) [] o2 ∧
      plain_memory (fun _ => 0)
          ([] ++ [Event.write 0x1000 0xDEADBEEF] ++ [Event.read 0x1000 0xDEADBEEF]) o2
        = plain_memory (fun _ => 0) [] o2) :=
  register_write_read_round_trip (fun _ => 0) 1 0x1000 0xDEADBEEF 1 [] (by decide) (by decide)
    (by decide)

/-! ## DMA verification (`test_dma_with_verification`) -/

namespace DmaTest

theorem golden_pattern_eq (i j : Nat) : golden_pattern i j = (i + j) % 256 := by
  unfold golden_pattern
  have h := Nat.and_pow_two_sub_one_eq_mod ((i + j) % 2 ^ 64) 8
  have h2 : (2 : Nat) ^ 8 - 1 = 0xFF := by decide
  rw [h2] at h
  rw [h]
  omega

theorem golden_pattern_byte (i j : Nat) : golden_pattern i j % 256 = (i + j) &&& 0xFF := by
  have h := Nat.and_pow_two_sub_one_eq_mod (i + j) 8
  have h2 : (2 : Nat) ^ 8 - 1 = 0xFF := by decide
  rw [h2] at h
  rw [h, golden_pattern_eq]
  omega

theorem bytes_of_golden (i size : Nat) :
    bytes_of (golden_pattern i) size = (List.range size).map fun j => (i + j) &&& 0xFF := by
  unfold bytes_of
  exact List.map_congr_left fun j _ => golden_pattern_byte i j

theorem bytes_of_congr (a b : Nat → Nat) (size : Nat)
    (h : ∀ j, j < size → a j % 256 = b j % 256) : bytes_of a size = bytes_of b size := by
  unfold bytes_of
  exact List.map_congr_left fun j hj => h j (List.mem_range.mp hj)

/-- Buffers equal on the compared bytes compare as 0. -/
theorem memcmp_at_eq_zero (a b : Nat → Nat) :
    ∀ (n j : Nat), (∀ k, j ≤ k → k < j + n → a k % 256 = b k % 256) → memcmp_at a b j n = 0 := by
  intro n
  induction n with
  | zero => intro j _; rfl
  | succ n ih =>
    intro j h
    rw [memcmp_at, if_pos (h j (le_refl j) (by omega))]
    exact ih (j + 1) fun k hk1 hk2 => h k (by omega) (by omega)

/-- Buffers that differ in a compared byte do not compare as 0. -/
theorem memcmp_at_ne_zero (a b : Nat → Nat) :
    ∀ (n j k : Nat), j ≤ k → k < j + n → a k % 256 ≠ b k % 256 → memcmp_at a b j n ≠ 0 := by
  intro n
  induction n with
  | zero => intro j k h1 h2; omega
  | succ n ih =>
    intro j k h1 h2 hne
    rw [memcmp_at]
    by_cases he : a j % 256 = b j % 256
    · rw [if_pos he]
      have hjk : j ≠ k := fun hjk => hne (hjk ▸ he)
      exact ih (j + 1) k (by omega) (by omega) hne
    · rw [if_neg he]
      split <;> decide

/-- One cycle in which both transfers succeed and the bytes read back equal
the bytes written: the loop goes on to the next cycle. -/
theorem verification_cycle_ok {σ : Type} (T : Transport σ) (addr size n i : Nat) (s : σ)
    (log : List Step)
    (hw : 0 ≤ (T.write_from_buffer s (golden_pattern i) size addr).1)
    (hr : 0 ≤ (T.read_to_buffer (T.write_from_buffer s (golden_pattern i) size addr).2
      zero_buffer size addr).1)
    (hsame : ∀ j, j < size →
      (T.read_to_buffer (T.write_from_buffer s (golden_pattern i) size addr).2
        zero_buffer size addr).2.1 j % 256 = golden_pattern i j % 256) :
    verification_cycles T addr size (n + 1) i s log
      = verification_cycles T addr size n (i + 1)
          (T.read_to_buffer (T.write_from_buffer s (golden_pattern i) size addr).2
            zero_buffer size addr).2.2
          (log ++ [Step.wrote i ((List.range size).map fun j => (i + j) &&& 0xFF),
                   Step.read_back i ((List.range size).map fun j => (i + j) &&& 0xFF),
                   Step.verified i]) := by
  rcases hwe : T.write_from_buffer s (golden_pattern i) size addr with ⟨rc, s1⟩
  rw [hwe] at hw hr hsame
  rcases hre : T.read_to_buffer s1 zero_buffer size addr with ⟨rc2, read_buffer, s2⟩
  rw [hre] at hr hsame
  have hcmp : memcmp (golden_pattern i) read_buffer size = 0 :=
    memcmp_at_eq_zero _ _ size 0 fun k _ hk => (hsame k (by omega)).symm
  have hbytes : bytes_of read_buffer size = bytes_of (golden_pattern i) size :=
    bytes_of_congr _ _ size hsame
  have hw2 : ¬ rc < 0 := not_lt.mpr hw
  have hr2 : ¬ rc2 < 0 := not_lt.mpr hr
  simp only [verification_cycles, hwe, hre, hw2, hr2, if_false, hcmp, if_true, hbytes,
    bytes_of_golden]

/-- One cycle in which both transfers succeed and a byte read back differs
from the byte written: the loop ends with -1 after the comparison dump. -/
theorem verification_cycle_mismatch {σ : Type} (T : Transport σ) (addr size n i : Nat) (s : σ)
    (log : List Step) (k : Nat) (hk : k < size)
    (hw : 0 ≤ (T.write_from_buffer s (golden_pattern i) size addr).1)
    (hr : 0 ≤ (T.read_to_buffer (T.write_from_buffer s (golden_pattern i) size addr).2
      zero_buffer size addr).1)
    (hdiff : (T.read_to_buffer (T.write_from_buffer s (golden_pattern i) size addr).2
        zero_buffer size addr).2.1 k % 256 ≠ golden_pattern i k % 256) :
    verification_cycles T addr size (n + 1) i s log
      = (-1,
         log ++ [Step.wrote i ((List.range size).map fun j => (i + j) &&& 0xFF),
           Step.read_back i (bytes_of (T.read_to_buffer
             (T.write_from_buffer s (golden_pattern i) size addr).2 zero_buffer size addr).2.1
             size),
           Step.mismatch i
             (dump_buffers (golden_pattern i) (T.read_to_buffer
               (T.write_from_buffer s (golden_pattern i) size addr).2 zero_buffer size addr).2.1
               size).1
             (dump_buffers (golden_pattern i) (T.read_to_buffer
               (T.write_from_buffer s (golden_pattern i) size addr).2 zero_buffer size addr).2.1
               size).2],
         (T.read_to_buffer (T.write_from_buffer s (golden_pattern i) size addr).2
            zero_buffer size addr).2.2) := by
  rcases hwe : T.write_from_buffer s (golden_pattern i) size addr with ⟨rc, s1⟩
  rw [hwe] at hw hr hdiff
  rcases hre : T.read_to_buffer s1 zero_buffer size addr with ⟨rc2, read_buffer, s2⟩
  rw [hre] at hr hdiff
  have hcmp : memcmp (golden_pattern i) read_buffer size ≠ 0 :=
    memcmp_at_ne_zero _ _ size 0 k (Nat.zero_le k) (by omega) fun h => hdiff h.symm
  have hw2 : ¬ rc < 0 := not_lt.mpr hw
  have hr2 : ¬ rc2 < 0 := not_lt.mpr hr
  simp only [verification_cycles, hwe, hre, hw2, hr2, if_false, hcmp, bytes_of_golden]

/-- With a transport that loops back, every cycle is verified. -/
theorem verification_cycles_loopback {σ : Type} (T : Transport σ) (addr size : Nat)
    (hloop : ∀ (s1 : σ) (buffer buffer0 : Nat → Nat),
      0 ≤ (T.write_from_buffer s1 buffer size addr).1 ∧
      0 ≤ (T.read_to_buffer (T.write_from_buffer s1 buffer size addr).2 buffer0 size addr).1 ∧
      ∀ j, j < size →
        (T.read_to_buffer (T.write_from_buffer s1 buffer size addr).2 buffer0 size addr).2.1 j
          = buffer j) :
    ∀ (n i : Nat) (s : σ) (log : List Step), ∃ s2 : σ,
      verification_cycles T addr size n i s log
        = (0, log ++ (List.range' i n).flatMap (fun c =>
            [Step.wrote c ((List.range size).map fun j => (c + j) &&& 0xFF),
             Step.read_back c ((List.range size).map fun j => (c + j) &&& 0xFF),
             Step.verified c]), s2) := by
  intro n
  induction n with
  | zero =>
    intro i s log
    exact ⟨s, by simp [verification_cycles]⟩
  | succ n ih =>
    intro i s log
    obtain ⟨hw, hr, hsame⟩ := hloop s (golden_pattern i) zero_buffer
    rw [verification_cycle_ok T addr size n i s log hw hr
      (fun j hj => by rw [hsame j hj])]
    obtain ⟨s2, h2⟩ := ih (i + 1) _ (log ++
      [Step.wrote i ((List.range size).map fun j => (i + j) &&& 0xFF),
       Step.read_back i ((List.range size).map fun j => (i + j) &&& 0xFF),
       Step.verified i])
    refine ⟨s2, ?_⟩
    rw [h2, List.range'_succ, List.flatMap_cons]
    simp only [List.append_assoc]

end DmaTest

namespace DmaTest

/-- The loopback transport returns the bytes last written at the address. -/
theorem loopback_loops_back (addr size : Nat) (s1 buffer buffer0 : Nat → Nat) :
    0 ≤ (loopback.write_from_buffer s1 buffer size addr).1 ∧
    0 ≤ (loopback.read_to_buffer (loopback.write_from_buffer s1 buffer size addr).2
      buffer0 size addr).1 ∧
    ∀ j, j < size →
      (loopback.read_to_buffer (loopback.write_from_buffer s1 buffer size addr).2
        buffer0 size addr).2.1 j = buffer j := by
  refine ⟨?_, ?_, ?_⟩
  · simp [loopback]
  · simp [loopback]
  · intro j hj
    simp [loopback, hj]

end DmaTest

/-- C19: for every transfer size and every cycle count, with a transport that
loops back (both transfers succeed and `read_to_buffer` returns the bytes that
`write_from_buffer` was last given at that address),
`test_dma_with_verification` runs all `count` cycles and returns 0: in cycle
`i` it writes the bytes `(i + j) & 0xFF` for `j < size`, reads the same bytes
back, and finds the two buffers equal. -/
theorem dma_loopback_round_trip {σ : Type} (T : DmaTest.Transport σ)
    (addr size offset count : Nat) (s : σ)
    (hloop : ∀ (s1 : σ) (buffer buffer0 : Nat → Nat),
      0 ≤ (T.write_from_buffer s1 buffer size addr).1 ∧
      0 ≤ (T.read_to_buffer (T.write_from_buffer s1 buffer size addr).2 buffer0 size addr).1 ∧
      ∀ j, j < size →
        (T.read_to_buffer (T.write_from_buffer s1 buffer size addr).2 buffer0 size addr).2.1 j
          = buffer j) :
    ∃ s2 : σ,
      DmaTest.test_dma_with_verification T true true true addr size offset count s
        = (0, (List.range count).flatMap (fun i =>
            [DmaTest.Step.wrote i ((List.range size).map fun j => (i + j) &&& 0xFF),
             DmaTest.Step.read_back i ((List.range size).map fun j => (i + j) &&& 0xFF),
             DmaTest.Step.verified i]), s2) := by
  obtain ⟨s2, h⟩ := DmaTest.verification_cycles_loopback T addr size hloop count 0 s []
  refine ⟨s2, ?_⟩
  unfold DmaTest.test_dma_with_verification
  rw [if_neg (by decide), if_neg (by decide), if_neg (by decide), h]
  have h0 : wrap32 0 = 0 := by decide
  simp only [h0, List.nil_append, List.range_eq_range']

/-- Witness for C19: two cycles of four bytes through the loopback transport
over a zeroed device memory. -/
theorem dma_loopback_round_trip_witness :
    ∃ s2 : Nat → Nat,
      DmaTest.test_dma_with_verification DmaTest.loopback true true true 0x1000 4 0 2
          (fun _ => 0)
        = (0, (List.range 2).flatMap (fun i =>
            [DmaTest.Step.wrote i ((List.range 4).map fun j => (i + j) &&& 0xFF),
             DmaTest.Step.read_back i ((List.range 4).map fun j => (i + j) &&& 0xFF),
             DmaTest.Step.verified i]), s2) :=
  dma_loopback_round_trip DmaTest.loopback 0x1000 4 0 2 (fun _ => 0)
    (DmaTest.loopback_loops_back 0x1000 4)

/-! ## The comparison dump after a corrupted transfer -/

namespace DmaTest

theorem filter_range_eq (o : Nat) :
    ∀ d : Nat, (List.range d).filter (fun j => decide (j = o)) = if o < d then [o] else [] := by
  intro d
  induction d with
  | zero => simp
  | succ d ih =>
    rw [List.range_succ, List.filter_append, ih]
    by_cases h1 : o < d
    · have h2 : d ≠ o := by omega
      simp [h1, h2, Nat.lt_succ_of_lt h1]
    · by_cases h2 : d = o
      · subst h2
        simp
      · have h3 : ¬ o < d + 1 := by omega
        simp [h1, h2, h3]

/-- The marked rows of a dump are the offsets below the dump limit at which the
two buffers differ. -/
theorem flagged_offsets_dump (golden_buffer received_buffer : Nat → Nat) (size : Nat) :
    flagged_offsets (dump_buffers golden_buffer received_buffer size).1
      = (List.range (if size > MAX_DUMP_SIZE then MAX_DUMP_SIZE else size)).filter
          (fun j => decide (golden_buffer j % 256 ≠ received_buffer j % 256)) := by
  unfold flagged_offsets dump_buffers
  simp only [List.filter_map, List.map_map]
  have hid : ((fun r : DumpRow => r.offset) ∘ fun i =>
      DumpRow.mk i (golden_buffer i % 256) (received_buffer i % 256)
        (decide (golden_buffer i % 256 ≠ received_buffer i % 256))) = id := rfl
  have hp : ((fun r : DumpRow => r.mismatch) ∘ fun i =>
      DumpRow.mk i (golden_buffer i % 256) (received_buffer i % 256)
        (decide (golden_buffer i % 256 ≠ received_buffer i % 256)))
      = fun j => decide (golden_buffer j % 256 ≠ received_buffer j % 256) := rfl
  rw [hid, hp, List.map_id]

/-- Dump of two buffers that differ in the single byte at `o`: the row of `o`
is marked when `o` is below the dump limit, and no row is marked otherwise. -/
theorem flagged_offsets_single (golden_buffer received_buffer : Nat → Nat) (size o : Nat)
    (hsingle : ∀ j, j < size →
      (received_buffer j % 256 = golden_buffer j % 256 ↔ j ≠ o)) :
    flagged_offsets (dump_buffers golden_buffer received_buffer size).1
      = if o < (if size > MAX_DUMP_SIZE then MAX_DUMP_SIZE else size) then [o] else [] := by
  rw [flagged_offsets_dump, ← filter_range_eq]
  apply List.filter_congr
  intro j hj
  have hj2 : j < size := by
    have := List.mem_range.mp hj
    split at this <;> unfold MAX_DUMP_SIZE at * <;> omega
  have h := hsingle j hj2
  by_cases hjo : j = o
  · have hne : ¬ received_buffer j % 256 = golden_buffer j % 256 := fun he => (h.mp he) hjo
    have hne2 : golden_buffer j % 256 ≠ received_buffer j % 256 := fun he => hne he.symm
    simp [hjo] at hne2 ⊢
    exact hne2
  · have he : received_buffer j % 256 = golden_buffer j % 256 := h.mpr hjo
    simp [hjo, he]

/-- A 4096-byte cycle whose read-back differs from the golden data in the
single byte at `o`. -/
theorem corruption_report {σ : Type} (T : Transport σ) (addr offset n i : Nat) (s : σ)
    (log : List Step) (o : Nat) (ho : o < 4096)
    (hw : 0 ≤ (T.write_from_buffer s (golden_pattern i) 4096 addr).1)
    (hr : 0 ≤ (T.read_to_buffer (T.write_from_buffer s (golden_pattern i) 4096 addr).2
      zero_buffer 4096 addr).1)
    (hsingle : ∀ j, j < 4096 →
      ((T.read_to_buffer (T.write_from_buffer s (golden_pattern i) 4096 addr).2
        zero_buffer 4096 addr).2.1 j % 256 = golden_pattern i j % 256 ↔ j ≠ o)) :
    ∃ (rows : List DumpRow) (s2 : σ),
      verification_cycles T addr 4096 (n + 1) i s log
        = (-1, log ++ [Step.wrote i ((List.range 4096).map fun j => (i + j) &&& 0xFF),
            Step.read_back i (bytes_of (T.read_to_buffer
              (T.write_from_buffer s (golden_pattern i) 4096 addr).2 zero_buffer 4096 addr).2.1
              4096),
            Step.mismatch i rows true], s2) ∧
      rows.length = 256 ∧
      flagged_offsets rows = (if o < 256 then [o] else []) ∧
      (i = 0 → log = [] →
        test_dma_with_verification T true true true addr 4096 offset (n + 1) s
          = (-1, [Step.wrote 0 ((List.range 4096).map fun j => (0 + j) &&& 0xFF),
              Step.read_back 0 (bytes_of (T.read_to_buffer
                (T.write_from_buffer s (golden_pattern 0) 4096 addr).2 zero_buffer 4096
                addr).2.1 4096),
              Step.mismatch 0 rows true], s2)) := by
  have hdiff : (T.read_to_buffer (T.write_from_buffer s (golden_pattern i) 4096 addr).2
      zero_buffer 4096 addr).2.1 o % 256 ≠ golden_pattern i o % 256 :=
    fun he => ((hsingle o ho).mp he) rfl
  have hcyc := verification_cycle_mismatch T addr 4096 n i s log o ho hw hr hdiff
  have htrunc : (dump_buffers (golden_pattern i) (T.read_to_buffer
      (T.write_from_buffer s (golden_pattern i) 4096 addr).2 zero_buffer 4096 addr).2.1
      4096).2 = true := by
    unfold dump_buffers MAX_DUMP_SIZE
    simp
  have hlen : (dump_buffers (golden_pattern i) (T.read_to_buffer
      (T.write_from_buffer s (golden_pattern i) 4096 addr).2 zero_buffer 4096 addr).2.1
      4096).1.length = 256 := by
    unfold dump_buffers MAX_DUMP_SIZE
    simp
  have hflag := flagged_offsets_single (golden_pattern i) (T.read_to_buffer
      (T.write_from_buffer s (golden_pattern i) 4096 addr).2 zero_buffer 4096 addr).2.1
      4096 o hsingle
  have hlim : (if 4096 > MAX_DUMP_SIZE then MAX_DUMP_SIZE else 4096) = 256 := by decide
  rw [hlim] at hflag
  rw [htrunc] at hcyc
  refine ⟨_, _, hcyc, hlen, hflag, ?_⟩
  intro hi hlog
  subst hi
  subst hlog
  unfold test_dma_with_verification
  rw [if_neg (by decide), if_neg (by decide), if_neg (by decide), hcyc]
  have h1 : wrap32 (-1) = -1 := by decide
  simp only [h1, List.nil_append]

/-- The corrupting transport returns the bytes written, except that the byte
at `o` is replaced by its successor modulo 256. -/
theorem corrupting_loopback_single (o addr size i : Nat) (mem : Nat → Nat) :
    0 ≤ ((corrupting_loopback o).write_from_buffer mem (golden_pattern i) size addr).1 ∧
    0 ≤ ((corrupting_loopback o).read_to_buffer
      ((corrupting_loopback o).write_from_buffer mem (golden_pattern i) size addr).2
      zero_buffer size addr).1 ∧
    (∀ j, j < size →
      ((corrupting_loopback o).read_to_buffer
        ((corrupting_loopback o).write_from_buffer mem (golden_pattern i) size addr).2
        zero_buffer size addr).2.1 j
        = if j = o then (golden_pattern i j + 1) % 256 else golden_pattern i j) ∧
    (∀ j, j < size →
      (((corrupting_loopback o).read_to_buffer
        ((corrupting_loopback o).write_from_buffer mem (golden_pattern i) size addr).2
        zero_buffer size addr).2.1 j % 256 = golden_pattern i j % 256 ↔ j ≠ o)) := by
  have hval : ∀ j, j < size →
      ((corrupting_loopback o).read_to_buffer
        ((corrupting_loopback o).write_from_buffer mem (golden_pattern i) size addr).2
        zero_buffer size addr).2.1 j
        = if j = o then (golden_pattern i j + 1) % 256 else golden_pattern i j := by
    intro j hj
    simp [corrupting_loopback, loopback, hj]
  refine ⟨by simp [corrupting_loopback, loopback], by simp [corrupting_loopback], hval, ?_⟩
  intro j hj
  rw [hval j hj, golden_pattern_eq]
  by_cases hjo : j = o
  · rw [if_pos hjo]
    constructor
    · intro h; omega
    · intro h; exact absurd hjo h
  · rw [if_neg hjo]
    exact ⟨fun _ => hjo, fun _ => rfl⟩

end DmaTest

/-- C20, counterexample: one cycle of 4096 bytes through a transport that
corrupts the byte at offset 300 (44 is read back as 45).  The test fails with
-1 after that cycle, but its comparison dump has 256 rows, for the offsets 0 to
255, is marked as truncated, and flags no offset at all: the corrupted offset
300 is not in the report. -/
theorem dma_corruption_beyond_dump_not_flagged :
    ∃ (rows : List DmaTest.DumpRow) (s2 : Nat → Nat),
      DmaTest.test_dma_with_verification (DmaTest.corrupting_loopback 300) true true true
          0 4096 0 1 (fun _ => 0)
        = (-1, [DmaTest.Step.wrote 0 ((List.range 4096).map fun j => (0 + j) &&& 0xFF),
            DmaTest.Step.read_back 0
              ((List.range 4096).map fun j => if j = 300 then 45 else (0 + j) &&& 0xFF),
            DmaTest.Step.mismatch 0 rows true], s2) ∧
      rows.length = 256 ∧
      DmaTest.flagged_offsets rows = [] := by
  obtain ⟨hw, hr, hval, hsingle⟩ :=
    DmaTest.corrupting_loopback_single 300 0 4096 0 (fun _ => 0)
  obtain ⟨rows, s2, _, hlen, hflag, htop⟩ :=
    DmaTest.corruption_report (DmaTest.corrupting_loopback 300) 0 0 0 0 (fun _ => 0) [] 300
      (by decide) hw hr hsingle
  have hbytes : DmaTest.bytes_of ((DmaTest.corrupting_loopback 300).read_to_buffer
      ((DmaTest.corrupting_loopback 300).write_from_buffer (fun _ => 0)
        (DmaTest.golden_pattern 0) 4096 0).2 DmaTest.zero_buffer 4096 0).2.1 4096
      = (List.range 4096).map fun j => if j = 300 then 45 else (0 + j) &&& 0xFF := by
    unfold DmaTest.bytes_of
    apply List.map_congr_left
    intro j hj
    rw [hval j (List.mem_range.mp hj)]
    by_cases hjo : j = 300
    · rw [if_pos hjo, if_pos hjo, DmaTest.golden_pattern_eq, hjo]
    · rw [if_neg hjo, if_neg hjo, DmaTest.golden_pattern_byte]
  have h := htop rfl rfl
  rw [hbytes] at h
  rw [if_neg (by decide)] at hflag
  exact ⟨rows, s2, h, hlen, hflag⟩

/-- C20, amended: in a cycle of 4096 bytes whose two transfers succeed and
whose read-back buffer differs from the written one in the single byte at
offset `o < 4096`, the verification fails that cycle: the loop ends with -1
right after the comparison dump of cycle `i`, no later cycle runs, and (for
the first cycle) `test_dma_with_verification` returns -1.  The dump covers the
first 256 bytes only and is marked as truncated: it flags exactly offset `o`
when `o < 256` and flags nothing when `256 ≤ o`. -/
theorem dma_corruption_report {σ : Type} (T : DmaTest.Transport σ)
    (addr offset n i : Nat) (s : σ) (log : List DmaTest.Step) (o : Nat) (ho : o < 4096)
    (hw : 0 ≤ (T.write_from_buffer s (DmaTest.golden_pattern i) 4096 addr).1)
    (hr : 0 ≤ (T.read_to_buffer (T.write_from_buffer s (DmaTest.golden_pattern i) 4096 addr).2
      DmaTest.zero_buffer 4096 addr).1)
    (hsingle : ∀ j, j < 4096 →
      ((T.read_to_buffer (T.write_from_buffer s (DmaTest.golden_pattern i) 4096 addr).2
        DmaTest.zero_buffer 4096 addr).2.1 j % 256 = DmaTest.golden_pattern i j % 256
        ↔ j ≠ o)) :
    ∃ (rows : List DmaTest.DumpRow) (s2 : σ),
      DmaTest.verification_cycles T addr 4096 (n + 1) i s log
        = (-1, log ++ [DmaTest.Step.wrote i ((List.range 4096).map fun j => (i + j) &&& 0xFF),
            DmaTest.Step.read_back i (DmaTest.bytes_of (T.read_to_buffer
              (T.write_from_buffer s (DmaTest.golden_pattern i) 4096 addr).2
              DmaTest.zero_buffer 4096 addr).2.1 4096),
            DmaTest.Step.mismatch i rows true], s2) ∧
      rows.length = 256 ∧
      DmaTest.flagged_offsets rows = (if o < 256 then [o] else []) ∧
      (i = 0 → log = [] →
        DmaTest.test_dma_with_verification T true true true addr 4096 offset (n + 1) s
          = (-1, [DmaTest.Step.wrote 0 ((List.range 4096).map fun j => (0 + j) &&& 0xFF),
              DmaTest.Step.read_back 0 (DmaTest.bytes_of (T.read_to_buffer
                (T.write_from_buffer s (DmaTest.golden_pattern 0) 4096 addr).2
                DmaTest.zero_buffer 4096 addr).2.1 4096),
              DmaTest.Step.mismatch 0 rows true], s2)) :=
  DmaTest.corruption_report T addr offset n i s log o ho hw hr hsingle

/-- Witness for C20: the first of three cycles through a transport that
corrupts the byte at offset 7. -/
theorem dma_corruption_report_witness :
    ∃ (rows : List DmaTest.DumpRow) (s2 : Nat → Nat),
      DmaTest.verification_cycles (DmaTest.corrupting_loopback 7) 0x1000 4096 (2 + 1) 0
          (fun _ => 0) []
        = (-1, [] ++ [DmaTest.Step.wrote 0 ((List.range 4096).map fun j => (0 + j) &&& 0xFF),
            DmaTest.Step.read_back 0 (DmaTest.bytes_of
              ((DmaTest.corrupting_loopback 7).read_to_buffer
                ((DmaTest.corrupting_loopback 7).write_from_buffer (fun _ => 0)
                  (DmaTest.golden_pattern 0) 4096 0x1000).2
                DmaTest.zero_buffer 4096 0x1000).2.1 4096),
            DmaTest.Step.mismatch 0 rows true], s2) ∧
      rows.length = 256 ∧
      DmaTest.flagged_offsets rows = (if 7 < 256 then [7] else []) ∧
      ((0 : Nat) = 0 → ([] : List DmaTest.Step) = [] →
        DmaTest.test_dma_with_verification (DmaTest.corrupting_loopback 7) true true true
            0x1000 4096 0 (2 + 1) (fun _ => 0)
          = (-1, [DmaTest.Step.wrote 0 ((List.range 4096).map fun j => (0 + j) &&& 0xFF),
              DmaTest.Step.read_back 0 (DmaTest.bytes_of
                ((DmaTest.corrupting_loopback 7).read_to_buffer
                  ((DmaTest.corrupting_loopback 7).write_from_buffer (fun _ => 0)
                    (DmaTest.golden_pattern 0) 4096 0x1000).2
                  DmaTest.zero_buffer 4096 0x1000).2.1 4096),
              DmaTest.Step.mismatch 0 rows true], s2)) :=
  dma_corruption_report (DmaTest.corrupting_loopback 7) 0x1000 0 2 0 (fun _ => 0) [] 7
    (by decide)
    (DmaTest.corrupting_loopback_single 7 0x1000 4096 0 (fun _ => 0)).1
    (DmaTest.corrupting_loopback_single 7 0x1000 4096 0 (fun _ => 0)).2.1
    (DmaTest.corrupting_loopback_single 7 0x1000 4096 0 (fun _ => 0)).2.2.2

/-! ## Port validation of the CMAC operations -/

/-- C21: for every `port_id` other than 0 and 1, `perform_cmac_reset`,
`perform_cmac_gt_reset`, `perform_cmac_reset_hardware_correct` and
`perform_cmac_reset_with_reinit` return `-EINVAL` and leave the history as it
was: no register is loaded or stored, whatever the device and the window. -/
theorem invalid_port_rejected_without_access (hw : Hw) (pcie_base : Nat)
    (port_id enable_rsfec verbose : Int) (t : Trace) (h0 : port_id ≠ 0) (h1 : port_id ≠ 1) :
    ResetTool.perform_cmac_reset hw pcie_base port_id verbose t = some (-EINVAL, t) ∧
    ResetTool.perform_cmac_gt_reset pcie_base port_id verbose t = (-EINVAL, t) ∧
    ResetTool.perform_cmac_reset_hardware_correct hw pcie_base port_id verbose t
      = some (-EINVAL, t) ∧
    ResetTool.perform_cmac_reset_with_reinit hw pcie_base port_id enable_rsfec verbose t
      = some (-EINVAL, t) := by
  refine ⟨?_, ?_, ?_, ?_⟩
  · unfold ResetTool.perform_cmac_reset
    rw [if_pos ⟨h0, h1⟩]
  · unfold ResetTool.perform_cmac_gt_reset
    rw [if_pos ⟨h0, h1⟩]
  · unfold ResetTool.perform_cmac_reset_hardware_correct
    rw [if_pos ⟨h0, h1⟩]
  · unfold ResetTool.perform_cmac_reset_with_reinit
    rw [if_pos ⟨h0, h1⟩]

/-- Witness for C21: port 2 on a mapped window, after one earlier store. -/
theorem invalid_port_rejected_without_access_witness :
    ResetTool.perform_cmac_reset (fun _ _ => 0x110) 1 2 1 [Event.write 0xC 0x10]
      = some (-EINVAL, [Event.write 0xC 0x10]) ∧
    ResetTool.perform_cmac_gt_reset 1 2 1 [Event.write 0xC 0x10]
      = (-EINVAL, [Event.write 0xC 0x10]) ∧
    ResetTool.perform_cmac_reset_hardware_correct (fun _ _ => 0x110) 1 2 1
      [Event.write 0xC 0x10] = some (-EINVAL, [Event.write 0xC 0x10]) ∧
    ResetTool.perform_cmac_reset_with_reinit (fun _ _ => 0x110) 1 2 1 1
      [Event.write 0xC 0x10] = some (-EINVAL, [Event.write 0xC 0x10]) :=
  invalid_port_rejected_without_access (fun _ _ => 0x110) 1 2 1 1 [Event.write 0xC 0x10]
    (by decide) (by decide)

/-! ## Completion test of the baseline Shell status check -/

/-- C27: `check_shell_reset_status` tests `(status_value & 0x110) != 0`, so it
reports the Shell reset complete as soon as one of the two bits is set.  With a
status of 0x10 (port 0 only) and with a status of 0x100 (port 1 only) it sets
`reset_completed` to 1, as it does for 0x110; only a status with neither bit
reports 0.  For every status value the flag is 1 exactly when some bit of
0x110 is set. -/
theorem shell_status_complete_on_any_bit :
    ResetTool.check_shell_reset_status (fun _ _ => 0x10) 1 0 []
      = (0, 1, [Event.read 0x10 0x10]) ∧
    ResetTool.check_shell_reset_status (fun _ _ => 0x100) 1 0 []
      = (0, 1, [Event.read 0x10 0x100]) ∧
    ResetTool.check_shell_reset_status (fun _ _ => 0x110) 1 0 []
      = (0, 1, [Event.read 0x10 0x110]) ∧
    ResetTool.check_shell_reset_status (fun _ _ => 0x223) 1 0 []
      = (0, 0, [Event.read 0x10 0x223]) ∧
    ((0x10 : Nat) &&& 0x110 ≠ 0x110 ∧ (0x100 : Nat) &&& 0x110 ≠ 0x110) ∧
    (∀ (status_value : Nat) (rc : Int) (t : Trace),
      ResetTool.check_shell_reset_status (fun _ _ => status_value) 1 rc t
        = (0, (if status_value % 2 ^ 32 &&& 0x110 ≠ 0 then 1 else 0),
            t ++ [Event.read 0x10 (status_value % 2 ^ 32)])) := by
  refine ⟨by decide, by decide, by decide, by decide, by decide, ?_⟩
  intro status_value rc t
  unfold ResetTool.check_shell_reset_status
  rw [ResetTool.safe_read32_data_ok _ 1 ResetTool.SYSCFG_OFFSET_SHELL_STATUS ResetTool.LOCAL t
    (by decide) (by decide) (by decide) (by decide)]
  have e5 : ResetTool.SYSCFG_OFFSET_SHELL_STATUS = 0x10 := by decide
  simp [e5]

/-! ## The full bring-up (`perform_cmac_reset_with_reinit`), step by step -/

namespace ResetTool

/-- Every run of the full bring-up on a mapped window and a valid port.  After
the store and the status polling of the port reset: either the reset timed out
and nothing more is done, or the RS-FEC stores (if requested), the RX/TX
stores and the lane alignment follow; when the lanes align the flow-control
stores and the RETA stores follow and the result is 0, otherwise the result is
`-ETIMEDOUT` and nothing more is done. -/
theorem reinit_shape (hw : Hw) (pcie_base : Nat) (port_id enable_rsfec verbose : Int)
    (t : Trace) (hb : pcie_base ≠ 0) (hport : port_id = 0 ∨ port_id = 1) :
    ∃ (ret1 : Int) (vals : List Nat) (last : Option Nat),
      perform_cmac_reset hw pcie_base port_id verbose t
        = some (ret1, t ++ [Event.write 0xC (if port_id = 0 then 0x10 else 0x100)]
            ++ status_polls vals last) ∧
      ((ret1 = -ETIMEDOUT ∧
          perform_cmac_reset_with_reinit hw pcie_base port_id enable_rsfec verbose t
            = some (-ETIMEDOUT, t ++ [Event.write 0xC (if port_id = 0 then 0x10 else 0x100)]
                ++ status_polls vals last)) ∨
       (ret1 = 0 ∧
          ∃ (ret : Int) (checks : List (Nat × Nat)) (esc : Trace) (checks2 : List (Nat × Nat))
              (fin post : Trace),
            perform_cmac_reset_with_reinit hw pcie_base port_id enable_rsfec verbose t
              = some (ret, t ++ [Event.write 0xC (if port_id = 0 then 0x10 else 0x100)]
                  ++ status_polls vals last ++ rsfec_trace port_id enable_rsfec
                  ++ rxtx_trace port_id
                  ++ lane_check_trace (CMAC_OFFSET_STAT_RX_STATUS port_id) checks ++ esc
                  ++ lane_check_trace (CMAC_OFFSET_STAT_RX_STATUS port_id) checks2 ++ fin
                  ++ post) ∧
            (esc = [] ∨ ∃ (v : List Nat) (l : Option Nat), esc = escalation_trace port_id v l) ∧
            ((ret = 0 ∧
                (∃ v1 : Nat, fin = [Event.read (CMAC_OFFSET_STAT_RX_STATUS port_id) v1,
                                    Event.read (CMAC_OFFSET_STAT_RX_STATUS port_id) 0x3]) ∧
                post = flow_control_trace port_id ++ reta_trace port_id) ∨
             (ret = -ETIMEDOUT ∧ fin = [] ∧ post = [])))) := by
  obtain ⟨ret1, vals, last, h1, hcase1⟩ :=
    perform_cmac_reset_outcome hw pcie_base port_id verbose t hb hport
  refine ⟨ret1, vals, last, h1, ?_⟩
  unfold perform_cmac_reset_with_reinit
  rw [if_neg (by omega), h1]
  dsimp only
  rcases hcase1 with ⟨rfl, _⟩ | ⟨rfl, rfl⟩
  swap
  · rw [if_pos (by decide)]
    exact Or.inl ⟨rfl, rfl⟩
  rw [if_neg (by decide)]
  refine Or.inr ⟨rfl, ?_⟩
  have hstep2 :
      (if enable_rsfec ≠ 0 then configure_cmac_rsfec pcie_base port_id verbose
          (t ++ [Event.write 0xC (if port_id = 0 then 0x10 else 0x100)] ++ status_polls vals last)
        else (0, t ++ [Event.write 0xC (if port_id = 0 then 0x10 else 0x100)]
          ++ status_polls vals last))
      = (0, t ++ [Event.write 0xC (if port_id = 0 then 0x10 else 0x100)]
          ++ status_polls vals last ++ rsfec_trace port_id enable_rsfec) := by
    unfold rsfec_trace
    by_cases he : enable_rsfec ≠ 0
    · rw [if_pos he, if_pos he, configure_cmac_rsfec_eq pcie_base port_id verbose _ hb]
    · rw [if_neg he, if_neg he, List.append_nil]
  rw [hstep2]
  dsimp only
  rw [if_neg (by decide), configure_cmac_rxtx_eq pcie_base port_id verbose _ hb]
  dsimp only
  rw [if_neg (by decide)]
  obtain ⟨ret4, checks, esc, checks2, fin, h4, hesc, hfin⟩ :=
    wait_rx_lane_alignment_outcome hw pcie_base port_id verbose
      (t ++ [Event.write 0xC (if port_id = 0 then 0x10 else 0x100)] ++ status_polls vals last
        ++ rsfec_trace port_id enable_rsfec
        ++ [Event.write (CMAC_OFFSET_CONF_RX_1 port_id) 0x1,
            Event.write (CMAC_OFFSET_CONF_TX_1 port_id) 0x10]) hb hport
  have hesc2 : esc = [] ∨ ∃ (v : List Nat) (l : Option Nat), esc = escalation_trace port_id v l := by
    rcases hesc with ⟨he, _, _⟩ | ⟨v, l, he, _⟩
    · exact Or.inl he
    · exact Or.inr ⟨v, l, he⟩
  rw [h4]
  dsimp only
  rcases hfin with ⟨rfl, _, v1, rfl⟩ | ⟨rfl, rfl, _, _⟩
  · rw [if_neg (by decide),
      configure_cmac_flow_control_eq pcie_base port_id verbose _ hb]
    dsimp only
    rw [if_neg (by decide),
      initialize_reta_table_eq pcie_base port_id verbose _ hb hport]
    dsimp only
    refine ⟨0, checks, esc, checks2, _, flow_control_trace port_id ++ reta_trace port_id, ?_,
      hesc2, Or.inl ⟨rfl, ⟨v1, rfl⟩, rfl⟩⟩
    unfold rxtx_trace
    simp only [List.append_assoc]
  · rw [if_pos (by decide)]
    refine ⟨-ETIMEDOUT, checks, esc, checks2, [], [], ?_, hesc2, Or.inr ⟨rfl, rfl, rfl⟩⟩
    unfold rxtx_trace
    simp only [List.append_assoc, List.append_nil]

end ResetTool

/-! ## RS-FEC stores of the bring-up -/

namespace ResetTool

theorem rsfec_writes_append (port_id : Int) (a b : Trace) :
    rsfec_writes port_id (a ++ b) = rsfec_writes port_id a ++ rsfec_writes port_id b := by
  simp [rsfec_writes, writes_append, List.filter_append]

theorem rsfec_writes_of_writes_nil (port_id : Int) (a : Trace) (h : writes a = []) :
    rsfec_writes port_id a = [] := by
  simp [rsfec_writes, h]

/-- The registers of the port as offsets from the base of its CMAC block. -/
theorem cmac_offsets_from_base (port_id : Int) :
    CMAC_OFFSET_RSFEC_CONF_ENABLE port_id = (if port_id = 0 then 0x8000 else 0xC000) + 0x107C ∧
    CMAC_OFFSET_RSFEC_CONF_IND_CORRECTION port_id
      = (if port_id = 0 then 0x8000 else 0xC000) + 0x1000 ∧
    CMAC_OFFSET_CONF_RX_1 port_id = (if port_id = 0 then 0x8000 else 0xC000) + 0x14 ∧
    CMAC_OFFSET_CONF_TX_1 port_id = (if port_id = 0 then 0x8000 else 0xC000) + 0xC := by
  unfold CMAC_OFFSET_RSFEC_CONF_ENABLE CMAC_OFFSET_RSFEC_CONF_IND_CORRECTION
    CMAC_OFFSET_CONF_RX_1 CMAC_OFFSET_CONF_TX_1 CMAC_OFFSET CMAC_SUBSYSTEM_OFFSET
  by_cases h : port_id = 0
  · simp only [h, if_true]
    decide
  · simp only [h, if_false]
    decide

theorem rsfec_writes_rsfec_trace (port_id enable_rsfec : Int) :
    rsfec_writes port_id (rsfec_trace port_id enable_rsfec)
      = if enable_rsfec ≠ 0 then
          [(CMAC_OFFSET_RSFEC_CONF_ENABLE port_id, 0x3),
           (CMAC_OFFSET_RSFEC_CONF_IND_CORRECTION port_id, 0x7)]
        else [] := by
  unfold rsfec_trace
  by_cases he : enable_rsfec ≠ 0
  · rw [if_pos he, if_pos he]
    simp [rsfec_writes, writes]
  · rw [if_neg he, if_neg he]
    rfl

/-- The other registers stored to by the bring-up are not RS-FEC registers. -/
theorem rsfec_writes_other_store (port_id : Int) (hport : port_id = 0 ∨ port_id = 1)
    (off : Int) (v : Nat)
    (hoff : off ∈ [(0xC : Int), CMAC_OFFSET_CONF_RX_1 port_id, CMAC_OFFSET_CONF_TX_1 port_id]) :
    rsfec_writes port_id [Event.write off v] = [] := by
  have h : (decide (off = CMAC_OFFSET_RSFEC_CONF_ENABLE port_id) ||
      decide (off = CMAC_OFFSET_RSFEC_CONF_IND_CORRECTION port_id)) = false := by
    have hall : ∀ o ∈ [(0xC : Int), CMAC_OFFSET_CONF_RX_1 port_id,
        CMAC_OFFSET_CONF_TX_1 port_id],
        (decide (o = CMAC_OFFSET_RSFEC_CONF_ENABLE port_id) ||
          decide (o = CMAC_OFFSET_RSFEC_CONF_IND_CORRECTION port_id)) = false := by
      rcases hport with rfl | rfl <;> decide
    exact hall off hoff
  simp only [rsfec_writes, writes, List.filterMap_cons, List.filterMap_nil]
  simp only [List.filter_cons, h]
  rfl

theorem rsfec_writes_rxtx_trace (port_id : Int) (hport : port_id = 0 ∨ port_id = 1) :
    rsfec_writes port_id (rxtx_trace port_id) = [] := by
  have h2 : rxtx_trace port_id
      = [Event.write (CMAC_OFFSET_CONF_RX_1 port_id) 0x1]
        ++ [Event.write (CMAC_OFFSET_CONF_TX_1 port_id) 0x10] := rfl
  rw [h2, rsfec_writes_append,
    rsfec_writes_other_store port_id hport _ _ (by simp),
    rsfec_writes_other_store port_id hport _ _ (by simp)]
  rfl

theorem rsfec_writes_escalation_trace (port_id : Int) (hport : port_id = 0 ∨ port_id = 1)
    (vals : List Nat) (last : Option Nat) :
    rsfec_writes port_id (escalation_trace port_id vals last) = [] := by
  have h2 : escalation_trace port_id vals last
      = [Event.write 0xC (if port_id = 0 then 0x10 else 0x100)] ++ status_polls vals last
        ++ rxtx_trace port_id := rfl
  rw [h2, rsfec_writes_append, rsfec_writes_append,
    rsfec_writes_other_store port_id hport 0xC _ (by simp),
    rsfec_writes_of_writes_nil _ _ (writes_status_polls vals last),
    rsfec_writes_rxtx_trace port_id hport]
  rfl

theorem rsfec_writes_flow_control_trace (port_id : Int) (hport : port_id = 0 ∨ port_id = 1) :
    rsfec_writes port_id (flow_control_trace port_id) = [] := by
  rcases hport with rfl | rfl <;> decide

theorem rsfec_writes_reta_trace (port_id : Int) (hport : port_id = 0 ∨ port_id = 1) :
    rsfec_writes port_id (reta_trace port_id) = [] := by
  rcases hport with rfl | rfl <;> decide

end ResetTool

/-- On a mapped window and a valid port, in a run of
`perform_cmac_reset_with_reinit` whose port reset (step 1) returned 0 with
history `t1`, the next stores are the RS-FEC stores if and only if
`enable_rsfec != 0`: 0x3 to `base + 0x107C`, then 0x7 to `base + 0x1000`
(`base` = 0x8000 for port 0, 0xC000 for port 1), directly followed by the RX
enable store of 0x1 to `base + 0x14`; with `enable_rsfec = 0` the RX enable
store follows the reset directly.  Neither the port reset nor anything after
the RX enable store writes an RS-FEC register, so the RS-FEC stores of the run
are exactly these two when requested and none otherwise. -/
theorem rsfec_stores_after_reset (hw : Hw) (pcie_base : Nat)
    (port_id enable_rsfec verbose : Int) (t t1 : Trace) (hb : pcie_base ≠ 0)
    (hport : port_id = 0 ∨ port_id = 1)
    (hreset : ResetTool.perform_cmac_reset hw pcie_base port_id verbose t = some (0, t1)) :
    ∃ (ret : Int) (tail : Trace),
      ResetTool.perform_cmac_reset_with_reinit hw pcie_base port_id enable_rsfec verbose t
        = some (ret, t1
            ++ (if enable_rsfec ≠ 0 then
                  [Event.write ((if port_id = 0 then 0x8000 else 0xC000) + 0x107C) 0x3,
                   Event.write ((if port_id = 0 then 0x8000 else 0xC000) + 0x1000) 0x7]
                else [])
            ++ [Event.write ((if port_id = 0 then 0x8000 else 0xC000) + 0x14) 0x1] ++ tail) ∧
      ResetTool.rsfec_writes port_id t1 = ResetTool.rsfec_writes port_id t ∧
      ResetTool.rsfec_writes port_id tail = [] ∧
      ResetTool.rsfec_writes port_id (t1
            ++ (if enable_rsfec ≠ 0 then
                  [Event.write ((if port_id = 0 then 0x8000 else 0xC000) + 0x107C) 0x3,
                   Event.write ((if port_id = 0 then 0x8000 else 0xC000) + 0x1000) 0x7]
                else [])
            ++ [Event.write ((if port_id = 0 then 0x8000 else 0xC000) + 0x14) 0x1] ++ tail)
        = ResetTool.rsfec_writes port_id t
          ++ (if enable_rsfec ≠ 0 then
                [((if port_id = 0 then 0x8000 else 0xC000) + 0x107C, 0x3),
                 ((if port_id = 0 then 0x8000 else 0xC000) + 0x1000, 0x7)]
              else []) := by
  obtain ⟨e1, e2, e3, e4⟩ := ResetTool.cmac_offsets_from_base port_id
  obtain ⟨ret1, vals, last, h1, hcase⟩ :=
    ResetTool.reinit_shape hw pcie_base port_id enable_rsfec verbose t hb hport
  rw [hreset] at h1
  have hinj := Prod.mk.inj (Option.some.inj h1)
  have ht1 : t1 = t ++ [Event.write 0xC (if port_id = 0 then 0x10 else 0x100)]
      ++ status_polls vals last := hinj.2
  have hr1 : ret1 = 0 := hinj.1.symm
  rcases hcase with ⟨hto, _⟩ | ⟨_, ret, checks, esc, checks2, fin, post, hres, hesc, hfin⟩
  · rw [hr1] at hto
    exact absurd hto (by decide)
  have hrs : ResetTool.rsfec_trace port_id enable_rsfec
      = (if enable_rsfec ≠ 0 then
          [Event.write ((if port_id = 0 then 0x8000 else 0xC000) + 0x107C) 0x3,
           Event.write ((if port_id = 0 then 0x8000 else 0xC000) + 0x1000) 0x7]
        else []) := by
    unfold ResetTool.rsfec_trace
    rw [e1, e2]
  have hrx : ResetTool.rxtx_trace port_id
      = [Event.write ((if port_id = 0 then 0x8000 else 0xC000) + 0x14) 0x1]
        ++ [Event.write (ResetTool.CMAC_OFFSET_CONF_TX_1 port_id) 0x10] := by
    unfold ResetTool.rxtx_trace
    rw [e3]
    rfl
  have hw1 : ResetTool.rsfec_writes port_id t1 = ResetTool.rsfec_writes port_id t := by
    rw [ht1, ResetTool.rsfec_writes_append, ResetTool.rsfec_writes_append,
      ResetTool.rsfec_writes_other_store port_id hport 0xC _ (by simp),
      ResetTool.rsfec_writes_of_writes_nil _ _ (writes_status_polls vals last)]
    simp
  have hwesc : ResetTool.rsfec_writes port_id esc = [] := by
    rcases hesc with rfl | ⟨v, l, rfl⟩
    · rfl
    · exact ResetTool.rsfec_writes_escalation_trace port_id hport v l
  have hwfin : ResetTool.rsfec_writes port_id fin = [] ∧ ResetTool.rsfec_writes port_id post = [] := by
    rcases hfin with ⟨_, ⟨v1, rfl⟩, rfl⟩ | ⟨_, rfl, rfl⟩
    · refine ⟨rfl, ?_⟩
      rw [ResetTool.rsfec_writes_append, ResetTool.rsfec_writes_flow_control_trace port_id hport,
        ResetTool.rsfec_writes_reta_trace port_id hport]
      rfl
    · exact ⟨rfl, rfl⟩
  have hwtail : ResetTool.rsfec_writes port_id
      ([Event.write (ResetTool.CMAC_OFFSET_CONF_TX_1 port_id) 0x10]
        ++ lane_check_trace (ResetTool.CMAC_OFFSET_STAT_RX_STATUS port_id) checks ++ esc
        ++ lane_check_trace (ResetTool.CMAC_OFFSET_STAT_RX_STATUS port_id) checks2 ++ fin
        ++ post) = [] := by
    simp only [ResetTool.rsfec_writes_append, hwesc, hwfin.1, hwfin.2,
      ResetTool.rsfec_writes_other_store port_id hport _ 0x10
        (show ResetTool.CMAC_OFFSET_CONF_TX_1 port_id ∈ [(0xC : Int),
          ResetTool.CMAC_OFFSET_CONF_RX_1 port_id, ResetTool.CMAC_OFFSET_CONF_TX_1 port_id]
          by simp),
      ResetTool.rsfec_writes_of_writes_nil _ _ (writes_lane_check_trace _ _),
      List.append_nil]
  have hwrs := ResetTool.rsfec_writes_rsfec_trace port_id enable_rsfec
  rw [hrs, e1, e2] at hwrs
  have hwrx1 : ResetTool.rsfec_writes port_id
      [Event.write ((if port_id = 0 then 0x8000 else 0xC000) + 0x14) 0x1] = [] := by
    rw [← e3]
    exact ResetTool.rsfec_writes_other_store port_id hport _ _ (by simp)
  refine ⟨ret, _, ?_, hw1, hwtail, ?_⟩
  · rw [hres, ← ht1, hrs, hrx]
    simp only [List.append_assoc]
  · rw [ResetTool.rsfec_writes_append, ResetTool.rsfec_writes_append,
      ResetTool.rsfec_writes_append, hw1, hwrs, hwrx1, hwtail]
    simp

/-- C24, counterexample: with RS-FEC requested (`enable_rsfec = 1`) on a
mapped window whose registers all read 0, the port reset of step 1 times out
(the Shell status never reports completion), `perform_cmac_reset_with_reinit`
returns `-ETIMEDOUT` there, and the only store of the whole run is the reset
store of 0x10 to 0x0C: no RS-FEC register is written although RS-FEC was
requested. -/
theorem rsfec_requested_but_reset_failed :
    (1 : Int) ≠ 0 ∧
    (ResetTool.perform_cmac_reset (fun _ _ => 0) 1 0 0 []).map Prod.fst
      = some (-ETIMEDOUT) ∧
    (ResetTool.perform_cmac_reset_with_reinit (fun _ _ => 0) 1 0 1 0 []).map
        (fun r => (r.1, writes r.2, ResetTool.rsfec_writes 0 r.2))
      = some (-ETIMEDOUT, [(0xC, 0x10)], []) := by
  have hreset : (ResetTool.perform_cmac_reset (fun _ _ => 0) 1 0 0 []).map Prod.fst
      = some (-ETIMEDOUT) := by
    set_option maxRecDepth 100000 in decide
  refine ⟨by decide, hreset, ?_⟩
  obtain ⟨ret1, vals, last, h1, hcase⟩ :=
    ResetTool.reinit_shape (fun _ _ => 0) 1 0 1 0 [] (by decide) (Or.inl rfl)
  rw [h1] at hreset
  have hret1 : ret1 = -ETIMEDOUT := Option.some.inj hreset
  rcases hcase with ⟨_, hres⟩ | ⟨h0, _⟩
  · rw [hres]
    simp only [Option.map_some', List.nil_append, if_true]
    rw [writes_append, writes_status_polls, ResetTool.rsfec_writes_append,
      ResetTool.rsfec_writes_of_writes_nil _ _ (writes_status_polls vals last)]
    rfl
  · rw [h0] at hret1
    exact absurd hret1 (by decide)

/-- C24, amended: on a mapped window and a valid port, let the port reset of
step 1 return `ret1` with history `t1`; it writes no RS-FEC register.  The
rest of the run of `perform_cmac_reset_with_reinit` (`tail`) writes the RS-FEC
registers, 0x3 to `base + 0x107C` and then 0x7 to `base + 0x1000` (`base` =
0x8000 for port 0, 0xC000 for port 1), if and only if `enable_rsfec != 0` and
`ret1 = 0`; otherwise it writes no RS-FEC register.  After a failed port reset
the function returns its code and does nothing more.  After a port reset that
returned 0 the RS-FEC stores, when requested, are the first stores after the
reset and are directly followed by the RX enable store of 0x1 to
`base + 0x14`; nothing after that store writes an RS-FEC register. -/
theorem rsfec_configured_iff_requested (hw : Hw) (pcie_base : Nat)
    (port_id enable_rsfec verbose : Int) (t : Trace) (hb : pcie_base ≠ 0)
    (hport : port_id = 0 ∨ port_id = 1) :
    ∃ (ret1 ret : Int) (t1 tail : Trace),
      ResetTool.perform_cmac_reset hw pcie_base port_id verbose t = some (ret1, t1) ∧
      ResetTool.perform_cmac_reset_with_reinit hw pcie_base port_id enable_rsfec verbose t
        = some (ret, t1 ++ tail) ∧
      ResetTool.rsfec_writes port_id t1 = ResetTool.rsfec_writes port_id t ∧
      (ResetTool.rsfec_writes port_id tail
          = [((if port_id = 0 then 0x8000 else 0xC000) + 0x107C, 0x3),
             ((if port_id = 0 then 0x8000 else 0xC000) + 0x1000, 0x7)]
        ↔ enable_rsfec ≠ 0 ∧ ret1 = 0) ∧
      (¬ (enable_rsfec ≠ 0 ∧ ret1 = 0) → ResetTool.rsfec_writes port_id tail = []) ∧
      (ret1 ≠ 0 → ret = ret1 ∧ tail = []) ∧
      (ret1 = 0 → ∃ tail2 : Trace,
        tail = (if enable_rsfec ≠ 0 then
                  [Event.write ((if port_id = 0 then 0x8000 else 0xC000) + 0x107C) 0x3,
                   Event.write ((if port_id = 0 then 0x8000 else 0xC000) + 0x1000) 0x7]
                else [])
            ++ [Event.write ((if port_id = 0 then 0x8000 else 0xC000) + 0x14) 0x1] ++ tail2 ∧
        ResetTool.rsfec_writes port_id tail2 = []) := by
  obtain ⟨ret1, vals, last, h1, hcase⟩ :=
    ResetTool.reinit_shape hw pcie_base port_id enable_rsfec verbose t hb hport
  have hw1 : ResetTool.rsfec_writes port_id
      (t ++ [Event.write 0xC (if port_id = 0 then 0x10 else 0x100)] ++ status_polls vals last)
      = ResetTool.rsfec_writes port_id t := by
    rw [ResetTool.rsfec_writes_append, ResetTool.rsfec_writes_append,
      ResetTool.rsfec_writes_other_store port_id hport 0xC _ (by simp),
      ResetTool.rsfec_writes_of_writes_nil _ _ (writes_status_polls vals last)]
    simp
  rcases hcase with ⟨hto, hres⟩ | ⟨h0, _⟩
  · have hne : ret1 ≠ 0 := by rw [hto]; decide
    refine ⟨ret1, -ETIMEDOUT, _, [], h1, ?_, hw1, ?_, fun _ => rfl, fun _ => ⟨hto.symm, rfl⟩,
      fun h => absurd h hne⟩
    · rw [hres, List.append_nil]
    · constructor
      · intro h
        exact absurd h (by simp [ResetTool.rsfec_writes, writes])
      · rintro ⟨_, h⟩
        exact absurd h hne
  · rw [h0] at h1
    obtain ⟨T1, hT1⟩ : ∃ T1 : Trace, T1 = t
        ++ [Event.write 0xC (if port_id = 0 then 0x10 else 0x100)] ++ status_polls vals last :=
      ⟨_, rfl⟩
    rw [← hT1] at h1 hw1
    obtain ⟨ret, tail2, hres, _, htail2, hall⟩ :=
      rsfec_stores_after_reset hw pcie_base port_id enable_rsfec verbose t T1 hb hport h1
    have hX : ResetTool.rsfec_writes port_id
        ((if enable_rsfec ≠ 0 then
            [Event.write ((if port_id = 0 then 0x8000 else 0xC000) + 0x107C) 0x3,
             Event.write ((if port_id = 0 then 0x8000 else 0xC000) + 0x1000) 0x7]
          else [])
          ++ [Event.write ((if port_id = 0 then 0x8000 else 0xC000) + 0x14) 0x1] ++ tail2)
        = (if enable_rsfec ≠ 0 then
            [((if port_id = 0 then 0x8000 else 0xC000) + 0x107C, 0x3),
             ((if port_id = 0 then 0x8000 else 0xC000) + 0x1000, 0x7)]
          else []) := by
      have h := hall
      simp only [List.append_assoc] at h
      rw [ResetTool.rsfec_writes_append, hw1] at h
      simp only [List.append_assoc]
      exact List.append_cancel_left h
    refine ⟨ret1, ret, T1, _, by rw [h0]; exact h1, ?_, hw1, ?_, ?_, ?_,
      fun _ => ⟨tail2, rfl, htail2⟩⟩
    · rw [hres]
      simp only [List.append_assoc]
    · rw [hX]
      constructor
      · intro h
        by_cases he : enable_rsfec ≠ 0
        · exact ⟨he, h0⟩
        · rw [if_neg he] at h
          exact absurd h (by simp)
      · rintro ⟨he, _⟩
        rw [if_pos he]
    · intro hn
      rw [hX, if_neg (fun he => hn ⟨he, h0⟩)]
    · intro hne
      exact absurd h0 hne

/-- Witness for C24: port 1 with RS-FEC requested, on the simulated device
whose ports come up: the port reset returns 0, the two RS-FEC stores follow
it, then the RX enable store, and the run returns 0. -/
theorem rsfec_configured_iff_requested_witness :
    (∃ (ret1 ret : Int) (t1 tail : Trace),
      ResetTool.perform_cmac_reset aligned_device 1 1 0 [] = some (ret1, t1) ∧
      ResetTool.perform_cmac_reset_with_reinit aligned_device 1 1 1 0 []
        = some (ret, t1 ++ tail) ∧
      ResetTool.rsfec_writes 1 t1 = ResetTool.rsfec_writes 1 [] ∧
      (ResetTool.rsfec_writes 1 tail
          = [((if (1 : Int) = 0 then 0x8000 else 0xC000) + 0x107C, 0x3),
             ((if (1 : Int) = 0 then 0x8000 else 0xC000) + 0x1000, 0x7)]
        ↔ (1 : Int) ≠ 0 ∧ ret1 = 0) ∧
      (¬ ((1 : Int) ≠ 0 ∧ ret1 = 0) → ResetTool.rsfec_writes 1 tail = []) ∧
      (ret1 ≠ 0 → ret = ret1 ∧ tail = []) ∧
      (ret1 = 0 → ∃ tail2 : Trace,
        tail = (if (1 : Int) ≠ 0 then
                  [Event.write ((if (1 : Int) = 0 then 0x8000 else 0xC000) + 0x107C) 0x3,
                   Event.write ((if (1 : Int) = 0 then 0x8000 else 0xC000) + 0x1000) 0x7]
                else [])
            ++ [Event.write ((if (1 : Int) = 0 then 0x8000 else 0xC000) + 0x14) 0x1] ++ tail2 ∧
        ResetTool.rsfec_writes 1 tail2 = [])) ∧
    ResetTool.perform_cmac_reset aligned_device 1 1 0 []
      = some (0, [Event.write 0xC 0x100, Event.read 0x10 0x110]) ∧
    ResetTool.perform_cmac_reset_with_reinit aligned_device 1 1 1 0 []
      = some (0, [Event.write 0xC 0x100, Event.read 0x10 0x110,
          Event.write 0xD07C 0x3, Event.write 0xD000 0x7, Event.write 0xC014 0x1,
          Event.write 0xC00C 0x10, Event.read 0xC204 0x3, Event.read 0xC204 0x3]
          ++ ResetTool.flow_control_trace 1 ++ ResetTool.reta_trace 1) :=
  ⟨rsfec_configured_iff_requested aligned_device 1 1 1 0 [] (by decide) (Or.inr rfl),
    by decide, by set_option maxRecDepth 100000 in decide⟩

/-! ## RETA initialisation (`initialize_reta_table`) -/

namespace ResetTool

theorem reta_value (i : Nat) : toU32 (Int.tmod (i : Int) 64) &&& 0x0000FFFF = i % 64 := by
  have h64 : i % 64 < 64 := Nat.mod_lt _ (by decide)
  have e1 : toU32 (Int.tmod (i : Int) 64) = i % 64 := by
    rw [show Int.tmod (i : Int) 64 = ((i % 64 : Nat) : Int) from (Int.ofNat_tmod i 64).symm]
    unfold toU32
    omega
  rw [e1]
  exact Nat.and_pow_two_sub_one_of_lt_two_pow (n := 16) (by omega)

/-- The entry loop runs every remaining store in turn, whatever the stores
return. -/
theorem initialize_reta_table_loop_fold (pcie_base : Nat) (port_id : Int) :
    ∀ (n i : Nat) (t : Trace),
      initialize_reta_table_loop pcie_base port_id n (i : Int) t
        = (List.range' i n).foldl (fun tr (k : Nat) =>
            (safe_write32_data pcie_base
              ((toU32 (QDMA_FUNC_OFFSET_INDIR_TABLE port_id (k : Int)) : Nat) : Int)
              (k % 64) tr).2) t := by
  intro n
  induction n with
  | zero => intro i t; rfl
  | succ m ih =>
    intro i t
    rw [initialize_reta_table_loop]
    have hi : ((i : Int) + 1) = ((i + 1 : Nat) : Int) := by push_cast; rfl
    rw [hi, ih (i + 1), reta_value, List.range'_succ, List.foldl_cons]

theorem reta_writes_append (port_id : Int) (a b : Trace) :
    reta_writes port_id (a ++ b) = reta_writes port_id a ++ reta_writes port_id b := by
  simp [reta_writes, writes_append, List.filter_append]

theorem reta_writes_of_writes_nil (port_id : Int) (a : Trace) (h : writes a = []) :
    reta_writes port_id a = [] := by
  simp [reta_writes, h]

/-- The registers stored to before the RETA step are neither QCONF nor an
entry of the indirection table. -/
theorem reta_writes_other_store (port_id : Int) (hport : port_id = 0 ∨ port_id = 1)
    (off : Int) (v : Nat)
    (hoff : off ∈ [(0xC : Int), CMAC_OFFSET_RSFEC_CONF_ENABLE port_id,
        CMAC_OFFSET_RSFEC_CONF_IND_CORRECTION port_id, CMAC_OFFSET_CONF_RX_1 port_id,
        CMAC_OFFSET_CONF_TX_1 port_id]) :
    reta_writes port_id [Event.write off v] = [] := by
  have h : (decide (off = QDMA_FUNC_OFFSET_QCONF port_id) || is_reta_offset port_id off)
      = false := by
    have hall : ∀ o ∈ [(0xC : Int), CMAC_OFFSET_RSFEC_CONF_ENABLE port_id,
        CMAC_OFFSET_RSFEC_CONF_IND_CORRECTION port_id, CMAC_OFFSET_CONF_RX_1 port_id,
        CMAC_OFFSET_CONF_TX_1 port_id],
        (decide (o = QDMA_FUNC_OFFSET_QCONF port_id) || is_reta_offset port_id o) = false := by
      rcases hport with rfl | rfl <;> decide
    exact hall off hoff
  simp only [reta_writes, writes, List.filterMap_cons, List.filterMap_nil]
  simp only [List.filter_cons, h]
  rfl

theorem reta_writes_rsfec_trace (port_id enable_rsfec : Int)
    (hport : port_id = 0 ∨ port_id = 1) :
    reta_writes port_id (rsfec_trace port_id enable_rsfec) = [] := by
  unfold rsfec_trace
  by_cases he : enable_rsfec ≠ 0
  · rw [if_pos he]
    have h2 : [Event.write (CMAC_OFFSET_RSFEC_CONF_ENABLE port_id) 0x3,
        Event.write (CMAC_OFFSET_RSFEC_CONF_IND_CORRECTION port_id) 0x7]
        = [Event.write (CMAC_OFFSET_RSFEC_CONF_ENABLE port_id) 0x3]
          ++ [Event.write (CMAC_OFFSET_RSFEC_CONF_IND_CORRECTION port_id) 0x7] := rfl
    rw [h2, reta_writes_append,
      reta_writes_other_store port_id hport _ _ (by simp),
      reta_writes_other_store port_id hport _ _ (by simp)]
    rfl
  · rw [if_neg he]
    rfl

theorem reta_writes_rxtx_trace (port_id : Int) (hport : port_id = 0 ∨ port_id = 1) :
    reta_writes port_id (rxtx_trace port_id) = [] := by
  have h2 : rxtx_trace port_id
      = [Event.write (CMAC_OFFSET_CONF_RX_1 port_id) 0x1]
        ++ [Event.write (CMAC_OFFSET_CONF_TX_1 port_id) 0x10] := rfl
  rw [h2, reta_writes_append,
    reta_writes_other_store port_id hport _ _ (by simp),
    reta_writes_other_store port_id hport _ _ (by simp)]
  rfl

theorem reta_writes_escalation_trace (port_id : Int) (hport : port_id = 0 ∨ port_id = 1)
    (vals : List Nat) (last : Option Nat) :
    reta_writes port_id (escalation_trace port_id vals last) = [] := by
  have h2 : escalation_trace port_id vals last
      = [Event.write 0xC (if port_id = 0 then 0x10 else 0x100)] ++ status_polls vals last
        ++ rxtx_trace port_id := rfl
  rw [h2, reta_writes_append, reta_writes_append,
    reta_writes_other_store port_id hport 0xC _ (by simp),
    reta_writes_of_writes_nil _ _ (writes_status_polls vals last),
    reta_writes_rxtx_trace port_id hport]
  rfl

theorem reta_writes_flow_control_trace (port_id : Int) (hport : port_id = 0 ∨ port_id = 1) :
    reta_writes port_id (flow_control_trace port_id) = [] := by
  rcases hport with rfl | rfl <;> decide

end ResetTool

namespace ResetTool

/-- A store that returned 0 appended its event. -/
theorem safe_write32_data_of_ret_zero (pcie_base : Nat) (o : Int) (v : Nat) (t : Trace)
    (h : (safe_write32_data pcie_base o v t).1 = 0) :
    safe_write32_data pcie_base o v t = (0, t ++ [Event.write o (v % 2 ^ 32)]) := by
  have hne : (-EINVAL : Int) ≠ 0 := by decide
  unfold safe_write32_data at h ⊢
  by_cases hb : pcie_base = 0
  · rw [if_pos hb] at h
    exact absurd h hne
  · rw [if_neg hb] at h ⊢
    by_cases ho : o ≥ REG_MAP_SIZE ∨ land64 o 0x3 ≠ 0
    · rw [if_pos ho] at h
      exact absurd h hne
    · rw [if_neg ho]

end ResetTool

namespace ResetTool

/-- The generic entry loop runs every remaining call in turn, whatever the
calls return. -/
theorem initialize_reta_table_loop_via_fold {σ : Type} (write : Int → Nat → σ → Int × σ)
    (port_id : Int) :
    ∀ (n i : Nat) (s : σ),
      initialize_reta_table_loop_via write port_id n (i : Int) s
        = (List.range' i n).foldl (fun a (k : Nat) =>
            (write ((toU32 (QDMA_FUNC_OFFSET_INDIR_TABLE port_id (k : Int)) : Nat) : Int)
              (k % 64) a).2) s := by
  intro n
  induction n with
  | zero => intro i s; rfl
  | succ m ih =>
    intro i s
    rw [initialize_reta_table_loop_via]
    have hi : ((i : Int) + 1) = ((i + 1 : Nat) : Int) := by push_cast; rfl
    rw [hi, ih (i + 1), reta_value, List.range'_succ, List.foldl_cons]

/-- The entry loop of the source is the generic loop run with
`safe_write32_data` on the window. -/
theorem initialize_reta_table_loop_eq_via (pcie_base : Nat) (port_id : Int) :
    ∀ (n : Nat) (i : Int) (t : Trace),
      initialize_reta_table_loop pcie_base port_id n i t
        = initialize_reta_table_loop_via (safe_write32_data pcie_base) port_id n i t := by
  intro n
  induction n with
  | zero => intro i t; rfl
  | succ m ih =>
    intro i t
    rw [initialize_reta_table_loop, initialize_reta_table_loop_via, ih]

/-- The RETA initialisation of the source is the generic one run with
`safe_write32_data` on the window. -/
theorem initialize_reta_table_eq_via (pcie_base : Nat) (port_id verbose : Int) (t : Trace) :
    initialize_reta_table pcie_base port_id verbose t
      = initialize_reta_table_via (safe_write32_data pcie_base) port_id verbose t := by
  unfold initialize_reta_table initialize_reta_table_via
  simp only [initialize_reta_table_loop_eq_via]

/-- The bring-up of the source is the generic one run with
`initialize_reta_table` on the window. -/
theorem perform_cmac_reset_with_reinit_eq_via (hw : Hw) (pcie_base : Nat)
    (port_id enable_rsfec verbose : Int) (t : Trace) :
    perform_cmac_reset_with_reinit hw pcie_base port_id enable_rsfec verbose t
      = perform_cmac_reset_with_reinit_via (initialize_reta_table pcie_base) hw pcie_base
          port_id enable_rsfec verbose t := by
  unfold perform_cmac_reset_with_reinit perform_cmac_reset_with_reinit_via
  rfl

/-- The record kept by `recording_store` over a run of calls: one entry per
call, in order. -/
theorem recording_store_foldl (bad : Int → Bool) (f : Nat → Int) (g : Nat → Nat) :
    ∀ (ks : List Nat) (log : List (Int × Nat × Int)),
      ks.foldl (fun a k => (recording_store bad (f k) (g k) a).2) log
        = log ++ ks.map fun k => (f k, g k, (if bad (f k) = true then -EINVAL else 0)) := by
  intro ks
  induction ks with
  | nil => intro log; simp
  | cons k ks ih =>
    intro log
    rw [List.foldl_cons, ih]
    simp [recording_store]

/-- The result of the RETA step is not used by the bring-up: with any RETA
step the bring-up does what it does with a RETA step that does nothing, except
that after a run that got to step 6 the history is the one the RETA step
left. -/
theorem reinit_via_reta_ignored (reta : Int → Int → Trace → Int × Trace) (hw : Hw)
    (pcie_base : Nat) (port_id enable_rsfec verbose : Int) (t : Trace) :
    perform_cmac_reset_with_reinit_via reta hw pcie_base port_id enable_rsfec verbose t
      = (perform_cmac_reset_with_reinit_via (fun _ _ tr => (0, tr)) hw pcie_base port_id
          enable_rsfec verbose t).map
          (fun r => if r.1 ≠ 0 then r else (0, (reta port_id verbose r.2).2)) := by
  have hne : (-EINVAL : Int) ≠ 0 := by decide
  unfold perform_cmac_reset_with_reinit_via
  by_cases hp : port_id ≠ 0 ∧ port_id ≠ 1
  · rw [if_pos hp, if_pos hp, Option.map_some', if_pos hne]
  rw [if_neg hp, if_neg hp]
  cases perform_cmac_reset hw pcie_base port_id verbose t with
  | none => rfl
  | some r1 =>
    obtain ⟨ret1, t1⟩ := r1
    dsimp only
    by_cases h1 : ret1 ≠ 0
    · rw [if_pos h1, if_pos h1, Option.map_some', if_pos h1]
    rw [if_neg h1, if_neg h1]
    generalize (if enable_rsfec ≠ 0 then configure_cmac_rsfec pcie_base port_id verbose t1
      else (0, t1)) = r2
    obtain ⟨ret2, t2⟩ := r2
    dsimp only
    by_cases h2 : ret2 ≠ 0
    · rw [if_pos h2, if_pos h2, Option.map_some', if_pos h2]
    rw [if_neg h2, if_neg h2]
    generalize configure_cmac_rxtx pcie_base port_id verbose t2 = r3
    obtain ⟨ret3, t3⟩ := r3
    dsimp only
    by_cases h3 : ret3 ≠ 0
    · rw [if_pos h3, if_pos h3, Option.map_some', if_pos h3]
    rw [if_neg h3, if_neg h3]
    cases wait_rx_lane_alignment hw pcie_base port_id verbose t3 with
    | none => rfl
    | some r4 =>
      obtain ⟨ret4, t4⟩ := r4
      dsimp only
      by_cases h4 : ret4 ≠ 0
      · rw [if_pos h4, if_pos h4, Option.map_some', if_pos h4]
      rw [if_neg h4, if_neg h4]
      generalize configure_cmac_flow_control pcie_base port_id verbose t4 = r5
      obtain ⟨ret5, t5⟩ := r5
      dsimp only
      by_cases h5 : ret5 ≠ 0
      · rw [if_pos h5, if_pos h5, Option.map_some', if_pos h5]
      rw [if_neg h5, if_neg h5, Option.map_some']
      simp

end ResetTool

/-- C25: `initialize_reta_table` goes on after a failing entry store, and the
bring-up does not use the result of the RETA step.  `initialize_reta_table_via`
and `perform_cmac_reset_with_reinit_via` are the two functions with their
callee as a parameter; the functions of the source are their instances (3),
(5).
(1) For every store routine, once its QCONF call has returned 0 the function
returns 0 and has made the 128 entry calls one after the other, entry `k`
with `k mod 64`, whatever each of them returned.
(2) With a store routine that records its calls and refuses those at the
offsets of `bad` (any set of offsets without QCONF), on port 0 or 1: the
function returns 0 and the record is the QCONF call followed by the 128 entry
calls, entry `k` at `0x1000 + 0x1000*port + 0x400 + 4*k` with `k mod 64`,
the refused ones among them.
(3) `initialize_reta_table` is the instance with `safe_write32_data`; on a
mapped window and port 0 or 1 it returns 0 after the QCONF store of 64 and the
128 entry stores.
(4) For every RETA step, whatever it returns, the bring-up returns what it
returns with a RETA step that does nothing; after a run that got to step 6 it
returns 0 with the history the RETA step left.
(5) `perform_cmac_reset_with_reinit` is the instance with
`initialize_reta_table`; it returns 0 whenever it ran the RETA step, and when
it returns an error the error is `-ETIMEDOUT` and no QCONF or RETA store was
made. -/
theorem reta_failures_are_skipped (hw : Hw) (pcie_base : Nat)
    (port_id enable_rsfec verbose : Int) (t : Trace) (bad : Int → Bool) (hb : pcie_base ≠ 0)
    (hport : port_id = 0 ∨ port_id = 1)
    (hq : bad (ResetTool.QDMA_FUNC_OFFSET_QCONF port_id) = false) :
    (∀ (σ : Type) (write : Int → Nat → σ → Int × σ) (pid vb : Int) (s : σ),
      (write (ResetTool.QDMA_FUNC_OFFSET_QCONF pid) 64 s).1 = 0 →
      ResetTool.initialize_reta_table_via write pid vb s
        = (0, (List.range 128).foldl (fun a (k : Nat) =>
            (write ((toU32 (ResetTool.QDMA_FUNC_OFFSET_INDIR_TABLE pid (k : Int)) : Nat) : Int)
              (k % 64) a).2)
            (write (ResetTool.QDMA_FUNC_OFFSET_QCONF pid) 64 s).2)) ∧
    ResetTool.initialize_reta_table_via (ResetTool.recording_store bad) port_id verbose []
      = (0, (0x1000 + 0x1000 * port_id, 64, 0) ::
          (List.range 128).map fun (k : Nat) =>
            (0x1000 + 0x1000 * port_id + 0x400 + 4 * (k : Int), k % 64,
              (if bad (0x1000 + 0x1000 * port_id + 0x400 + 4 * (k : Int)) = true then -EINVAL
               else 0))) ∧
    (∀ (pb : Nat) (pid vb : Int) (tr : Trace),
      ResetTool.initialize_reta_table pb pid vb tr
        = ResetTool.initialize_reta_table_via (ResetTool.safe_write32_data pb) pid vb tr) ∧
    ResetTool.initialize_reta_table pcie_base port_id verbose t
      = (0, t ++ Event.write (0x1000 + 0x1000 * port_id) 64 ::
          (List.range 128).map fun (k : Nat) =>
            Event.write (0x1000 + 0x1000 * port_id + 0x400 + 4 * (k : Int)) (k % 64)) ∧
    (∀ reta : Int → Int → Trace → Int × Trace,
      ResetTool.perform_cmac_reset_with_reinit_via reta hw pcie_base port_id enable_rsfec
          verbose t
        = (ResetTool.perform_cmac_reset_with_reinit_via (fun _ _ tr => (0, tr)) hw pcie_base
            port_id enable_rsfec verbose t).map
            (fun r => if r.1 ≠ 0 then r else (0, (reta port_id verbose r.2).2))) ∧
    ResetTool.perform_cmac_reset_with_reinit hw pcie_base port_id enable_rsfec verbose t
      = ResetTool.perform_cmac_reset_with_reinit_via (ResetTool.initialize_reta_table pcie_base)
          hw pcie_base port_id enable_rsfec verbose t ∧
    ∃ (ret : Int) (suffix : Trace),
      ResetTool.perform_cmac_reset_with_reinit hw pcie_base port_id enable_rsfec verbose t
        = some (ret, t ++ suffix) ∧
      ((ret = 0 ∧ ∃ pre : Trace, suffix = pre ++ ResetTool.reta_trace port_id ∧
          ResetTool.reta_writes port_id pre = []) ∨
       (ret = -ETIMEDOUT ∧ ResetTool.reta_writes port_id suffix = [])) := by
  have hgen : ∀ (σ : Type) (write : Int → Nat → σ → Int × σ) (pid vb : Int) (s : σ),
      (write (ResetTool.QDMA_FUNC_OFFSET_QCONF pid) 64 s).1 = 0 →
      ResetTool.initialize_reta_table_via write pid vb s
        = (0, (List.range 128).foldl (fun a (k : Nat) =>
            (write ((toU32 (ResetTool.QDMA_FUNC_OFFSET_INDIR_TABLE pid (k : Int)) : Nat) : Int)
              (k % 64) a).2)
            (write (ResetTool.QDMA_FUNC_OFFSET_QCONF pid) 64 s).2) := by
    intro σ write pid vb s h
    have hv : ((0 : Nat) <<< 16 ||| 64) = 64 := by decide
    unfold ResetTool.initialize_reta_table_via
    simp only [hv]
    rw [if_neg (by rw [h]; decide)]
    have hl := ResetTool.initialize_reta_table_loop_via_fold write pid 128 0
      (write (ResetTool.QDMA_FUNC_OFFSET_QCONF pid) 64 s).2
    simp only [Nat.cast_zero] at hl
    rw [hl, List.range_eq_range']
  have hqc : ResetTool.QDMA_FUNC_OFFSET_QCONF port_id = 0x1000 + 0x1000 * port_id := by
    unfold ResetTool.QDMA_FUNC_OFFSET_QCONF ResetTool.QDMA_FUNC_OFFSET
    omega
  have hent : ∀ k : Nat, ResetTool.QDMA_FUNC_OFFSET_INDIR_TABLE port_id (k : Int)
      = 0x1000 + 0x1000 * port_id + 0x400 + 4 * (k : Int) := by
    intro k
    unfold ResetTool.QDMA_FUNC_OFFSET_INDIR_TABLE ResetTool.QDMA_FUNC_OFFSET
    omega
  refine ⟨hgen, ?_, ResetTool.initialize_reta_table_eq_via, ?_,
    fun reta => ResetTool.reinit_via_reta_ignored reta hw pcie_base port_id enable_rsfec
      verbose t,
    ResetTool.perform_cmac_reset_with_reinit_eq_via hw pcie_base port_id enable_rsfec verbose t,
    ?_⟩
  · have h0 : (ResetTool.recording_store bad (ResetTool.QDMA_FUNC_OFFSET_QCONF port_id) 64
        []).1 = 0 := by
      simp [ResetTool.recording_store, hq]
    have h1 : (ResetTool.recording_store bad (ResetTool.QDMA_FUNC_OFFSET_QCONF port_id) 64
        []).2 = [(0x1000 + 0x1000 * port_id, 64, 0)] := by
      unfold ResetTool.recording_store
      rw [hq, ← hqc]
      rfl
    rw [hgen _ (ResetTool.recording_store bad) port_id verbose [] h0, h1,
      show (List.range 128).foldl (fun a (k : Nat) =>
          (ResetTool.recording_store bad
            ((toU32 (ResetTool.QDMA_FUNC_OFFSET_INDIR_TABLE port_id (k : Int)) : Nat) : Int)
            (k % 64) a).2) [(0x1000 + 0x1000 * port_id, 64, 0)] = _ from
        ResetTool.recording_store_foldl bad
          (fun k : Nat =>
            ((toU32 (ResetTool.QDMA_FUNC_OFFSET_INDIR_TABLE port_id (k : Int)) : Nat) : Int))
          (fun k : Nat => k % 64) (List.range 128) [(0x1000 + 0x1000 * port_id, 64, 0)]]
    have hmap : (List.range 128).map (fun k : Nat =>
          (((toU32 (ResetTool.QDMA_FUNC_OFFSET_INDIR_TABLE port_id (k : Int)) : Nat) : Int),
            k % 64,
            (if bad ((toU32 (ResetTool.QDMA_FUNC_OFFSET_INDIR_TABLE port_id (k : Int)) : Nat)
                : Int) = true then -EINVAL else 0)))
        = (List.range 128).map fun (k : Nat) =>
            (0x1000 + 0x1000 * port_id + 0x400 + 4 * (k : Int), k % 64,
              (if bad (0x1000 + 0x1000 * port_id + 0x400 + 4 * (k : Int)) = true then -EINVAL
               else 0)) := by
      apply List.map_congr_left
      intro k hk
      rw [(ResetTool.reta_entry_facts port_id hport k (List.mem_range.mp hk)).1, hent k]
    rw [hmap]
    rfl
  · rw [ResetTool.initialize_reta_table_eq pcie_base port_id verbose t hb hport]
    have hq2 : ResetTool.QDMA_FUNC_OFFSET_QCONF port_id = 0x1000 + 0x1000 * port_id := by
      unfold ResetTool.QDMA_FUNC_OFFSET_QCONF ResetTool.QDMA_FUNC_OFFSET
      omega
    have he : ∀ k : Nat, ResetTool.QDMA_FUNC_OFFSET_INDIR_TABLE port_id (k : Int)
        = 0x1000 + 0x1000 * port_id + 0x400 + 4 * (k : Int) := by
      intro k
      unfold ResetTool.QDMA_FUNC_OFFSET_INDIR_TABLE ResetTool.QDMA_FUNC_OFFSET
      omega
    unfold ResetTool.reta_trace
    rw [hq2]
    simp only [he]
  · obtain ⟨ret1, vals, last, _, hcase⟩ :=
      ResetTool.reinit_shape hw pcie_base port_id enable_rsfec verbose t hb hport
    have h0 : ResetTool.reta_writes port_id
        ([Event.write 0xC (if port_id = 0 then 0x10 else 0x100)] ++ status_polls vals last)
        = [] := by
      rw [ResetTool.reta_writes_append,
        ResetTool.reta_writes_other_store port_id hport 0xC _ (by simp),
        ResetTool.reta_writes_of_writes_nil _ _ (writes_status_polls vals last)]
      rfl
    rcases hcase with ⟨_, hres⟩ | ⟨_, ret, checks, esc, checks2, fin, post, hres, hesc, hfin⟩
    · refine ⟨-ETIMEDOUT, _, ?_, Or.inr ⟨rfl, h0⟩⟩
      rw [hres, List.append_assoc]
    have hwesc : ResetTool.reta_writes port_id esc = [] := by
      rcases hesc with rfl | ⟨v, l, rfl⟩
      · rfl
      · exact ResetTool.reta_writes_escalation_trace port_id hport v l
    have hmid : ResetTool.reta_writes port_id
        ([Event.write 0xC (if port_id = 0 then 0x10 else 0x100)] ++ status_polls vals last
          ++ ResetTool.rsfec_trace port_id enable_rsfec ++ ResetTool.rxtx_trace port_id
          ++ lane_check_trace (ResetTool.CMAC_OFFSET_STAT_RX_STATUS port_id) checks ++ esc
          ++ lane_check_trace (ResetTool.CMAC_OFFSET_STAT_RX_STATUS port_id) checks2) = [] := by
      simp only [ResetTool.reta_writes_append, h0, hwesc,
        ResetTool.reta_writes_rsfec_trace port_id enable_rsfec hport,
        ResetTool.reta_writes_rxtx_trace port_id hport,
        ResetTool.reta_writes_of_writes_nil _ _ (writes_lane_check_trace _ _),
        List.append_nil]
    rcases hfin with ⟨rfl, ⟨v1, rfl⟩, rfl⟩ | ⟨rfl, rfl, rfl⟩
    · refine ⟨0, _, ?_, Or.inl ⟨rfl,
        [Event.write 0xC (if port_id = 0 then 0x10 else 0x100)] ++ status_polls vals last
          ++ ResetTool.rsfec_trace port_id enable_rsfec ++ ResetTool.rxtx_trace port_id
          ++ lane_check_trace (ResetTool.CMAC_OFFSET_STAT_RX_STATUS port_id) checks ++ esc
          ++ lane_check_trace (ResetTool.CMAC_OFFSET_STAT_RX_STATUS port_id) checks2
          ++ [Event.read (ResetTool.CMAC_OFFSET_STAT_RX_STATUS port_id) v1,
              Event.read (ResetTool.CMAC_OFFSET_STAT_RX_STATUS port_id) 0x3]
          ++ ResetTool.flow_control_trace port_id, rfl, ?_⟩⟩
      · rw [hres]
        simp only [List.append_assoc]
      · rw [ResetTool.reta_writes_append, ResetTool.reta_writes_append, hmid,
          ResetTool.reta_writes_flow_control_trace port_id hport]
        rfl
    · refine ⟨-ETIMEDOUT,
        [Event.write 0xC (if port_id = 0 then 0x10 else 0x100)] ++ status_polls vals last
          ++ ResetTool.rsfec_trace port_id enable_rsfec ++ ResetTool.rxtx_trace port_id
          ++ lane_check_trace (ResetTool.CMAC_OFFSET_STAT_RX_STATUS port_id) checks ++ esc
          ++ lane_check_trace (ResetTool.CMAC_OFFSET_STAT_RX_STATUS port_id) checks2, ?_,
        Or.inr ⟨rfl, hmid⟩⟩
      rw [hres]
      simp only [List.append_assoc, List.append_nil]

/-- Witness for C25: port 0 on the simulated device whose ports come up, with
a store routine that refuses every second entry of the table (the offsets
that are 4 modulo 8).  The 128 entry calls are all made, 64 of them refused,
and the function returns 0; and with a RETA step that fails on the spot the
bring-up on that device returns 0. -/
theorem reta_failures_are_skipped_witness :
    ResetTool.initialize_reta_table_via
        (ResetTool.recording_store (fun off => decide (off % 8 = 4))) 0 0 []
      = (0, (0x1000 + 0x1000 * 0, 64, 0) ::
          (List.range 128).map fun (k : Nat) =>
            (0x1000 + 0x1000 * 0 + 0x400 + 4 * (k : Int), k % 64,
              (if (fun off : Int => decide (off % 8 = 4))
                  (0x1000 + 0x1000 * 0 + 0x400 + 4 * (k : Int)) = true then -EINVAL
               else 0))) ∧
    ((ResetTool.initialize_reta_table_via
        (ResetTool.recording_store (fun off => decide (off % 8 = 4))) 0 0 []).2.filter
        (fun e => decide (e.2.2 = -EINVAL))).length = 64 ∧
    (ResetTool.perform_cmac_reset_with_reinit_via (fun _ _ tr => (-EINVAL, tr))
        aligned_device 1 0 1 0 []).map Prod.fst = some 0 :=
  ⟨(reta_failures_are_skipped aligned_device 1 0 1 0 [] (fun off => decide (off % 8 = 4))
      (by decide) (Or.inl rfl) (by decide)).2.1,
    by set_option maxRecDepth 100000 in decide,
    by set_option maxRecDepth 100000 in decide⟩

/-! ## Offsets touched by the bring-up -/

theorem touched_append (a b : Trace) : touched (a ++ b) = touched a ++ touched b := by
  simp [touched, List.filterMap_append]

theorem touched_poll_trace (off us : Int) (vals : List Nat) :
    ∀ o ∈ touched (poll_trace off us vals), o = off := by
  induction vals with
  | nil => intro o ho; simp [poll_trace_nil, touched] at ho
  | cons v vs ih =>
    intro o ho
    rw [poll_trace_cons] at ho
    simp only [touched, List.filterMap_cons, List.mem_cons] at ho ih
    rcases ho with rfl | ho
    · rfl
    · exact ih o ho

theorem touched_status_polls (vals : List Nat) (last : Option Nat) :
    ∀ o ∈ touched (status_polls vals last), o = 0x10 := by
  intro o ho
  unfold status_polls at ho
  rw [touched_append, List.mem_append] at ho
  rcases ho with ho | ho
  · exact touched_poll_trace _ _ _ o ho
  · cases last with
    | none => simp [touched] at ho
    | some v => simpa [touched] using ho

theorem touched_lane_check_trace (off : Int) (checks : List (Nat × Nat)) :
    ∀ o ∈ touched (lane_check_trace off checks), o = off := by
  induction checks with
  | nil => intro o ho; simp [lane_check_trace_nil, touched] at ho
  | cons p ps ih =>
    intro o ho
    rw [lane_check_trace_cons] at ho
    simp only [touched, List.filterMap_cons, List.mem_cons] at ho ih
    rcases ho with rfl | rfl | ho
    · rfl
    · rfl
    · exact ih o ho

theorem touched_map_write {α : Type} (f : α → Int) (g : α → Nat) (l : List α) :
    touched (l.map fun x => Event.write (f x) (g x)) = l.map f := by
  induction l with
  | nil => rfl
  | cons x xs ih =>
    simp only [touched, List.map_cons, List.filterMap_cons] at ih ⊢
    rw [ih]

namespace ResetTool

/-- Every offset of `bring_up_offsets` lies in the window and is a multiple of
4. -/
theorem bring_up_offsets_in_window (port_id : Int) (hport : port_id = 0 ∨ port_id = 1) :
    ∀ o ∈ bring_up_offsets port_id, 0 ≤ o ∧ o < 0x10000 ∧ o % 4 = 0 := by
  rcases hport with rfl | rfl <;> (set_option maxRecDepth 100000 in decide)

theorem mem_bring_up_fixed (port_id : Int) (o : Int)
    (h : o ∈ [SYSCFG_OFFSET_SYSTEM_RESET, SYSCFG_OFFSET_SYSTEM_STATUS, SYSCFG_OFFSET_SHELL_RESET,
      SYSCFG_OFFSET_SHELL_STATUS, SYSCFG_OFFSET_USER_RESET, SYSCFG_OFFSET_USER_STATUS,
      CMAC_OFFSET_GT_RESET port_id, CMAC_OFFSET_RSFEC_CONF_ENABLE port_id,
      CMAC_OFFSET_RSFEC_CONF_IND_CORRECTION port_id, CMAC_OFFSET_CONF_RX_1 port_id,
      CMAC_OFFSET_CONF_TX_1 port_id, CMAC_OFFSET_STAT_RX_STATUS port_id]) :
    o ∈ bring_up_offsets port_id := by
  unfold bring_up_offsets
  exact List.mem_append_left _ (List.mem_append_left _ (List.mem_append_left _ h))

theorem shell_offsets_literal :
    SYSCFG_OFFSET_SHELL_RESET = 0xC ∧ SYSCFG_OFFSET_SHELL_STATUS = 0x10 := by
  constructor <;> decide

theorem touched_rxtx_in_bring_up (port_id : Int) :
    ∀ o ∈ touched (rxtx_trace port_id), o ∈ bring_up_offsets port_id := by
  intro o ho
  apply mem_bring_up_fixed
  simp only [rxtx_trace, touched, List.filterMap_cons, List.filterMap_nil, List.mem_cons,
    List.mem_singleton, List.not_mem_nil, or_false] at ho
  rcases ho with rfl | rfl <;> simp

theorem touched_rsfec_in_bring_up (port_id enable_rsfec : Int) :
    ∀ o ∈ touched (rsfec_trace port_id enable_rsfec), o ∈ bring_up_offsets port_id := by
  intro o ho
  apply mem_bring_up_fixed
  unfold rsfec_trace at ho
  by_cases he : enable_rsfec ≠ 0
  · rw [if_pos he] at ho
    simp only [touched, List.filterMap_cons, List.filterMap_nil, List.mem_cons,
      List.mem_singleton, List.not_mem_nil, or_false] at ho
    rcases ho with rfl | rfl <;> simp
  · rw [if_neg he] at ho
    simp [touched] at ho

theorem touched_reset_store_in_bring_up (port_id : Int) (v : Nat) :
    ∀ o ∈ touched [Event.write 0xC v], o ∈ bring_up_offsets port_id := by
  intro o ho
  apply mem_bring_up_fixed
  simp only [touched, List.filterMap_cons, List.filterMap_nil, List.mem_singleton] at ho
  rw [ho, ← shell_offsets_literal.1]
  simp

theorem touched_status_polls_in_bring_up (port_id : Int) (vals : List Nat) (last : Option Nat) :
    ∀ o ∈ touched (status_polls vals last), o ∈ bring_up_offsets port_id := by
  intro o ho
  apply mem_bring_up_fixed
  rw [touched_status_polls vals last o ho, ← shell_offsets_literal.2]
  simp

theorem touched_lane_checks_in_bring_up (port_id : Int) (checks : List (Nat × Nat)) :
    ∀ o ∈ touched (lane_check_trace (CMAC_OFFSET_STAT_RX_STATUS port_id) checks),
      o ∈ bring_up_offsets port_id := by
  intro o ho
  apply mem_bring_up_fixed
  rw [touched_lane_check_trace _ checks o ho]
  simp

theorem touched_escalation_in_bring_up (port_id : Int) (vals : List Nat) (last : Option Nat) :
    ∀ o ∈ touched (escalation_trace port_id vals last), o ∈ bring_up_offsets port_id := by
  intro o ho
  have h2 : escalation_trace port_id vals last
      = [Event.write 0xC (if port_id = 0 then 0x10 else 0x100)] ++ status_polls vals last
        ++ rxtx_trace port_id := rfl
  rw [h2, touched_append, touched_append, List.mem_append, List.mem_append] at ho
  rcases ho with (ho | ho) | ho
  · exact touched_reset_store_in_bring_up port_id _ o ho
  · exact touched_status_polls_in_bring_up port_id vals last o ho
  · exact touched_rxtx_in_bring_up port_id o ho

theorem touched_flow_control_in_bring_up (port_id : Int) :
    ∀ o ∈ touched (flow_control_trace port_id), o ∈ bring_up_offsets port_id := by
  intro o ho
  unfold flow_control_trace at ho
  rw [touched_map_write] at ho
  unfold bring_up_offsets
  exact List.mem_append_left _ (List.mem_append_left _ (List.mem_append_right _ ho))

theorem touched_reta_in_bring_up (port_id : Int) :
    ∀ o ∈ touched (reta_trace port_id), o ∈ bring_up_offsets port_id := by
  intro o ho
  have h2 : reta_trace port_id
      = [Event.write (QDMA_FUNC_OFFSET_QCONF port_id) 64]
        ++ (List.range 128).map fun (k : Nat) =>
            Event.write (QDMA_FUNC_OFFSET_INDIR_TABLE port_id (k : Int)) (k % 64) := rfl
  rw [h2, touched_append, touched_map_write, List.mem_append] at ho
  unfold bring_up_offsets
  rcases ho with ho | ho
  · refine List.mem_append_left _ (List.mem_append_right _ ?_)
    simpa [touched] using ho
  · exact List.mem_append_right _ ho

end ResetTool

/-- C26: for port 0 or 1 every register offset named in the reset and
bring-up functions (`bring_up_offsets`: the System, Shell and User reset and
status registers, the GT reset, RS-FEC, RX/TX and RX-status registers at base
0x8000 or 0xC000, the flow-control registers, QCONF and the 128 RETA entries)
is non-negative, below the window size 0x10000 and a multiple of 4, so on a
mapped window a store to it returns 0 and a load from it returns 0.  Every
offset touched by a run of `perform_cmac_reset_with_reinit` is one of them,
and the bring-up and the three composite resets return 0 or `-ETIMEDOUT`,
never `-EINVAL`; `perform_cmac_gt_reset` returns 0. -/
theorem bring_up_offsets_never_invalid (hw : Hw) (pcie_base : Nat)
    (port_id enable_rsfec verbose : Int) (t : Trace) (hb : pcie_base ≠ 0)
    (hport : port_id = 0 ∨ port_id = 1) :
    (∀ o ∈ ResetTool.bring_up_offsets port_id,
      0 ≤ o ∧ o < ResetTool.REG_MAP_SIZE ∧ o % 4 = 0 ∧
      (∀ (v : Nat) (tr : Trace),
        ResetTool.safe_write32_data pcie_base o v tr
          = (0, tr ++ [Event.write o (v % 2 ^ 32)])) ∧
      (∀ (value : Nat) (tr : Trace), value ≠ 0 →
        (ResetTool.safe_read32_data hw pcie_base o value tr).1 = 0)) ∧
    (∃ (ret : Int) (suffix : Trace),
      ResetTool.perform_cmac_reset_with_reinit hw pcie_base port_id enable_rsfec verbose t
        = some (ret, t ++ suffix) ∧
      (ret = 0 ∨ ret = -ETIMEDOUT) ∧
      ∀ o ∈ touched suffix, o ∈ ResetTool.bring_up_offsets port_id) ∧
    (∃ (ret : Int) (tr : Trace),
      ResetTool.perform_cmac_reset_hardware_correct hw pcie_base port_id verbose t
        = some (ret, tr) ∧ (ret = 0 ∨ ret = -ETIMEDOUT)) ∧
    (∃ (ret : Int) (tr : Trace),
      ResetTool.perform_shell_reset_hardware_correct hw pcie_base verbose t
        = some (ret, tr) ∧ (ret = 0 ∨ ret = -ETIMEDOUT)) ∧
    (∃ (ret : Int) (tr : Trace),
      ResetTool.perform_system_reset_hardware_correct hw pcie_base verbose t
        = some (ret, tr) ∧ (ret = 0 ∨ ret = -ETIMEDOUT)) ∧
    (ResetTool.perform_cmac_gt_reset pcie_base port_id verbose t).1 = 0 := by
  refine ⟨?_, ?_, ?_, ?_, ?_, ?_⟩
  · intro o ho
    obtain ⟨h0, h1, h2⟩ := ResetTool.bring_up_offsets_in_window port_id hport o ho
    refine ⟨h0, h1, h2, ?_, ?_⟩
    · intro v tr
      exact ResetTool.safe_write32_data_ok pcie_base o v tr hb h1 h2
    · intro value tr hv
      rw [ResetTool.safe_read32_data_ok hw pcie_base o value tr hb hv h1 h2]
  · obtain ⟨ret1, vals, last, _, hcase⟩ :=
      ResetTool.reinit_shape hw pcie_base port_id enable_rsfec verbose t hb hport
    have hsub : ∀ (a b : Trace),
        (∀ o ∈ touched a, o ∈ ResetTool.bring_up_offsets port_id) →
        (∀ o ∈ touched b, o ∈ ResetTool.bring_up_offsets port_id) →
        ∀ o ∈ touched (a ++ b), o ∈ ResetTool.bring_up_offsets port_id := by
      intro a b ha hb2 o ho
      rw [touched_append, List.mem_append] at ho
      rcases ho with ho | ho
      · exact ha o ho
      · exact hb2 o ho
    have hnil : ∀ o ∈ touched ([] : Trace), o ∈ ResetTool.bring_up_offsets port_id := by
      intro o ho
      simp [touched] at ho
    have h0 := hsub _ _ (ResetTool.touched_reset_store_in_bring_up port_id
      (if port_id = 0 then 0x10 else 0x100))
      (ResetTool.touched_status_polls_in_bring_up port_id vals last)
    rcases hcase with ⟨_, hres⟩ | ⟨_, ret, checks, esc, checks2, fin, post, hres, hesc, hfin⟩
    · refine ⟨-ETIMEDOUT, _, ?_, Or.inr rfl, h0⟩
      rw [hres, List.append_assoc]
    have hesc2 : ∀ o ∈ touched esc, o ∈ ResetTool.bring_up_offsets port_id := by
      rcases hesc with rfl | ⟨v, l, rfl⟩
      · exact hnil
      · exact ResetTool.touched_escalation_in_bring_up port_id v l
    have hfin2 : (ret = 0 ∨ ret = -ETIMEDOUT) ∧
        (∀ o ∈ touched fin, o ∈ ResetTool.bring_up_offsets port_id) ∧
        (∀ o ∈ touched post, o ∈ ResetTool.bring_up_offsets port_id) := by
      rcases hfin with ⟨rfl, ⟨v1, rfl⟩, rfl⟩ | ⟨rfl, rfl, rfl⟩
      · refine ⟨Or.inl rfl, ?_, hsub _ _ (ResetTool.touched_flow_control_in_bring_up port_id)
          (ResetTool.touched_reta_in_bring_up port_id)⟩
        exact ResetTool.touched_lane_checks_in_bring_up port_id [(v1, 0x3)]
      · exact ⟨Or.inr rfl, hnil, hnil⟩
    refine ⟨ret, [Event.write 0xC (if port_id = 0 then 0x10 else 0x100)]
        ++ status_polls vals last ++ ResetTool.rsfec_trace port_id enable_rsfec
        ++ ResetTool.rxtx_trace port_id
        ++ lane_check_trace (ResetTool.CMAC_OFFSET_STAT_RX_STATUS port_id) checks ++ esc
        ++ lane_check_trace (ResetTool.CMAC_OFFSET_STAT_RX_STATUS port_id) checks2 ++ fin
        ++ post, ?_, hfin2.1, ?_⟩
    · rw [hres]
      simp only [List.append_assoc]
    · exact hsub _ _ (hsub _ _ (hsub _ _ (hsub _ _ (hsub _ _ (hsub _ _ (hsub _ _ h0
        (ResetTool.touched_rsfec_in_bring_up port_id enable_rsfec))
        (ResetTool.touched_rxtx_in_bring_up port_id))
        (ResetTool.touched_lane_checks_in_bring_up port_id checks)) hesc2)
        (ResetTool.touched_lane_checks_in_bring_up port_id checks2)) hfin2.2.1) hfin2.2.2
  · obtain ⟨ret, tail, hres, _, hcase⟩ := ResetTool.autoclear_outcome hw pcie_base 0xC
      (if port_id = 0 then 0x30 else 0x300)
      (t ++ (if verbose ≠ 0 then [Event.read 0x10 (hw t 0x10 % 2 ^ 32)] else [])
        ++ [Event.write 0xC (if port_id = 0 then 0x30 else 0x300)]) hb (by decide) (by decide)
    rw [ResetTool.perform_cmac_reset_hardware_correct_unfold hw pcie_base port_id verbose t
      hb hport, hres]
    dsimp only
    rcases hcase with ⟨rfl, _⟩ | ⟨rfl, _⟩
    · rw [if_neg (by decide)]
      exact ⟨0, _, rfl, Or.inl rfl⟩
    · rw [if_pos (by decide)]
      exact ⟨-ETIMEDOUT, _, rfl, Or.inr rfl⟩
  · obtain ⟨ret, tail, hres, _, hcase⟩ := ResetTool.autoclear_outcome hw pcie_base 0xC 0x333
      (t ++ (if verbose ≠ 0 then [Event.read 0x10 (hw t 0x10 % 2 ^ 32)] else [])
        ++ [Event.write 0xC 0x333]) hb (by decide) (by decide)
    rw [ResetTool.perform_shell_reset_hardware_correct_unfold hw pcie_base verbose t hb, hres]
    dsimp only
    rcases hcase with ⟨rfl, _⟩ | ⟨rfl, _⟩
    · rw [if_neg (by decide)]
      exact ⟨0, _, rfl, Or.inl rfl⟩
    · rw [if_pos (by decide)]
      exact ⟨-ETIMEDOUT, _, rfl, Or.inr rfl⟩
  · obtain ⟨ret, tail, hres, _, hcase⟩ := ResetTool.autoclear_outcome hw pcie_base 0x4 0x1
      ((if verbose ≠ 0 then (ResetTool.display_all_reset_status hw pcie_base t).2 else t)
        ++ [Event.write 0x4 0x1]) hb (by decide) (by decide)
    rw [ResetTool.perform_system_reset_hardware_correct_unfold hw pcie_base verbose t hb, hres]
    dsimp only
    rcases hcase with ⟨rfl, _⟩ | ⟨rfl, _⟩
    · rw [if_neg (by decide)]
      exact ⟨0, _, rfl, Or.inl rfl⟩
    · rw [if_pos (by decide)]
      exact ⟨-ETIMEDOUT, _, rfl, Or.inr rfl⟩
  · have hg := ResetTool.bring_up_offsets_in_window port_id hport
      (ResetTool.CMAC_OFFSET_GT_RESET port_id)
      (ResetTool.mem_bring_up_fixed port_id _ (by simp))
    unfold ResetTool.perform_cmac_gt_reset
    rw [if_neg (by omega),
      ResetTool.safe_write32_data_ok pcie_base _ _ _ hb hg.2.1 hg.2.2]
    dsimp only
    rw [if_neg (by decide)]

/-- Witness for C26: port 1, RS-FEC requested, on the simulated device whose
ports come up.  The run goes through every step of the bring-up (port reset,
RS-FEC, RX/TX, lane check, flow control, QCONF and the 128 RETA entries) and
returns 0. -/
theorem bring_up_offsets_never_invalid_witness :
    (∃ (ret : Int) (suffix : Trace),
      ResetTool.perform_cmac_reset_with_reinit aligned_device 1 1 1 0 []
        = some (ret, [] ++ suffix) ∧
      (ret = 0 ∨ ret = -ETIMEDOUT) ∧
      ∀ o ∈ touched suffix, o ∈ ResetTool.bring_up_offsets 1) ∧
    ResetTool.perform_cmac_reset_with_reinit aligned_device 1 1 1 0 []
      = some (0, [Event.write 0xC 0x100, Event.read 0x10 0x110,
          Event.write 0xD07C 0x3, Event.write 0xD000 0x7, Event.write 0xC014 0x1,
          Event.write 0xC00C 0x10, Event.read 0xC204 0x3, Event.read 0xC204 0x3]
          ++ ResetTool.flow_control_trace 1 ++ ResetTool.reta_trace 1) :=
  ⟨(bring_up_offsets_never_invalid aligned_device 1 1 1 0 [] (by decide) (Or.inr rfl)).2.1,
    by set_option maxRecDepth 100000 in decide⟩

/-! ## Confirmation before a reset (`perform_reset_operation`) -/

namespace ResetTool

/-- The answer of the confirmation prompt is 0 or 1, and it is 1 exactly when
a line was read whose first character is `y` or `Y`. -/
theorem confirm_reset_operation_cases (reset_type : reset_type_t) (reply : Option String) :
    (confirm_reset_operation reset_type reply = 1 ∧
      ∃ (input : String) (c : Char) (rest : List Char),
        reply = some input ∧ input.data = c :: rest ∧ (c = 'y' ∨ c = 'Y')) ∨
    (confirm_reset_operation reset_type reply = 0 ∧
      ¬ ∃ (input : String) (c : Char) (rest : List Char),
        reply = some input ∧ input.data = c :: rest ∧ (c = 'y' ∨ c = 'Y')) := by
  unfold confirm_reset_operation
  cases reply with
  | none =>
    right
    refine ⟨rfl, ?_⟩
    rintro ⟨input, c, rest, h, _⟩
    exact absurd h (by simp)
  | some input =>
    cases hd : input.data with
    | nil =>
      right
      refine ⟨by simp only [hd], ?_⟩
      rintro ⟨input2, c, rest, h, h2, _⟩
      obtain rfl : input = input2 := Option.some.inj h
      rw [hd] at h2
      exact absurd h2 (by simp)
    | cons c rest =>
      by_cases hc : c = 'y' ∨ c = 'Y'
      · left
        refine ⟨by simp only [hd]; rw [if_pos hc], input, c, rest, rfl, hd, hc⟩
      · right
        refine ⟨by simp only [hd]; rw [if_neg hc], ?_⟩
        rintro ⟨input2, c2, rest2, h, h2, hc2⟩
        obtain rfl : input = input2 := Option.some.inj h
        rw [hd] at h2
        obtain ⟨rfl, _⟩ := List.cons.inj h2
        exact hc hc2

end ResetTool

/-- C28: `perform_reset_operation`, called as `main` calls it (with
`status_only` clear: `main` shows the status instead when it is set, without
calling the function), asks for confirmation unless `force_reset` is set.  The
answer is 1 exactly when a reply was read whose first character is `y` or `Y`.
With `force_reset` clear and no such answer it returns 0 and leaves the
history as it was (no register access); so a run that made any access had
`force_reset` set or the answer 1, and in those cases the function runs the
reset of the configured type.  In `main`, a configuration with `status_only`
set only loads the status registers, and one with `status_only` clear runs
`perform_reset_operation` and then shows the status after a result of 0. -/
theorem reset_requires_confirmation (hw : Hw) (config : ResetTool.reset_config_t)
    (pcie_base : Nat) (reply : Option String) (t : Trace)
    (hstatus : config.status_only = 0) :
    (ResetTool.confirm_reset_operation config.reset_type reply = 1 ↔
      ∃ (input : String) (c : Char) (rest : List Char),
        reply = some input ∧ input.data = c :: rest ∧ (c = 'y' ∨ c = 'Y')) ∧
    (config.force_reset = 0 →
      ResetTool.confirm_reset_operation config.reset_type reply ≠ 1 →
      ResetTool.perform_reset_operation hw config pcie_base reply t = some (0, t)) ∧
    (∀ (ret : Int) (t2 : Trace),
      ResetTool.perform_reset_operation hw config pcie_base reply t = some (ret, t2) →
      t2 ≠ t →
      config.force_reset ≠ 0 ∨ ResetTool.confirm_reset_operation config.reset_type reply = 1) ∧
    (config.force_reset ≠ 0 ∨ ResetTool.confirm_reset_operation config.reset_type reply = 1 →
      ResetTool.perform_reset_operation hw config pcie_base reply t
        = ResetTool.perform_reset_switch hw config pcie_base t) ∧
    (∀ (config2 : ResetTool.reset_config_t) (interactive : Trace → Option (Int × Trace)),
      config2.interactive_mode = 0 → config2.status_only ≠ 0 →
      ResetTool.main_operation hw config2 pcie_base interactive reply t
        = some (ResetTool.display_all_reset_status hw pcie_base t) ∧
      writes (ResetTool.display_all_reset_status hw pcie_base t).2 = writes t) ∧
    (∀ interactive : Trace → Option (Int × Trace), config.interactive_mode = 0 →
      ResetTool.main_operation hw config pcie_base interactive reply t
        = match ResetTool.perform_reset_operation hw config pcie_base reply t with
          | none => none
          | some (ret, t1) =>
            if ret = 0 then some (ret, (ResetTool.display_all_reset_status hw pcie_base t1).2)
            else some (ret, t1)) := by
  have hcases := ResetTool.confirm_reset_operation_cases config.reset_type reply
  have hcancel : config.force_reset = 0 →
      ResetTool.confirm_reset_operation config.reset_type reply ≠ 1 →
      ResetTool.perform_reset_operation hw config pcie_base reply t = some (0, t) := by
    intro hforce hne
    have h0 : ResetTool.confirm_reset_operation config.reset_type reply = 0 := by
      rcases hcases with ⟨h1, _⟩ | ⟨h0, _⟩
      · exact absurd h1 hne
      · exact h0
    unfold ResetTool.perform_reset_operation
    rw [if_pos ⟨hforce, hstatus⟩, if_pos h0]
  refine ⟨?_, hcancel, ?_, ?_, ?_, ?_⟩
  · rcases hcases with ⟨h1, hex⟩ | ⟨h0, hnex⟩
    · exact ⟨fun _ => hex, fun _ => h1⟩
    · constructor
      · intro h1
        rw [h0] at h1
        exact absurd h1 (by decide)
      · intro hex
        exact absurd hex hnex
  · intro ret t2 hres hne
    by_contra hcon
    rw [not_or, not_not] at hcon
    rw [hcancel hcon.1 hcon.2] at hres
    exact hne (Prod.mk.inj (Option.some.inj hres)).2.symm
  · intro h
    unfold ResetTool.perform_reset_operation
    by_cases hforce : config.force_reset = 0
    · rcases h with h | h
      · exact absurd hforce h
      · rw [if_pos ⟨hforce, hstatus⟩, if_neg (by rw [h]; decide)]
    · rw [if_neg (fun hc => hforce hc.1)]
  · intro config2 interactive hi hs
    constructor
    · unfold ResetTool.main_operation
      rw [if_neg (not_not.mpr hi), if_pos hs]
    · obtain ⟨pre, hw0, _, he⟩ := ResetTool.display_all_reset_status_reads hw pcie_base t
      rw [he, writes_append, hw0, List.append_nil]
  · intro interactive hi
    unfold ResetTool.main_operation
    rw [if_neg (not_not.mpr hi), if_neg (not_not.mpr hstatus)]
    cases ResetTool.perform_reset_operation hw config pcie_base reply t with
    | none => rfl
    | some r =>
      obtain ⟨ret, t1⟩ := r
      dsimp only
      by_cases hr : ret = 0
      · rw [if_pos ⟨hr, hstatus⟩, if_pos hr]
      · rw [if_neg (fun hc => hr hc.1), if_neg hr]

/-- Witness for C28: a system reset with neither flag set.  Answered `no`,
nothing is accessed; answered `yes`, the reset is run: the store of 0x1 to
the system reset register 0x04 and one load of the status register. -/
theorem reset_requires_confirmation_witness :
    ResetTool.confirm_reset_operation .RESET_TYPE_SYSTEM (some "no") ≠ 1 ∧
    ResetTool.perform_reset_operation (fun _ _ => 1) ⟨.RESET_TYPE_SYSTEM, 0, 0, 0, 0⟩ 1
        (some "no") [] = some (0, []) ∧
    ResetTool.confirm_reset_operation .RESET_TYPE_SYSTEM (some "yes") = 1 ∧
    ResetTool.perform_reset_operation (fun _ _ => 1) ⟨.RESET_TYPE_SYSTEM, 0, 0, 0, 0⟩ 1
        (some "yes") []
      = ResetTool.perform_reset_switch (fun _ _ => 1) ⟨.RESET_TYPE_SYSTEM, 0, 0, 0, 0⟩ 1 [] ∧
    ResetTool.perform_reset_switch (fun _ _ => 1) ⟨.RESET_TYPE_SYSTEM, 0, 0, 0, 0⟩ 1 []
      = some (0, [Event.write 0x4 0x1, Event.read 0x8 1]) :=
  ⟨by decide,
   (reset_requires_confirmation (fun _ _ => 1) ⟨.RESET_TYPE_SYSTEM, 0, 0, 0, 0⟩ 1 (some "no")
      [] rfl).2.1 rfl (by decide),
   by decide,
   (reset_requires_confirmation (fun _ _ => 1) ⟨.RESET_TYPE_SYSTEM, 0, 0, 0, 0⟩ 1 (some "yes")
      [] rfl).2.2.2.1 (Or.inr (by decide)),
   by decide⟩

/-! ## Argument check of the register test tool (`main` of `register_test.c`) -/

/-- C29: the argument check of `register_test.c` rejects a write when
`register_value == 0 && optind == argc`; it does not record whether `-v` was
given.  `-w 0x103000 -v 0` (run as root, window mapped) is rejected with
`-EINVAL` and nothing is stored, while `-w 0x103000 -v 0x12345678` is
performed; a `-w 0x103000` without `-v` but followed by an operand
(`optind = 3`, `argc = 4`) passes the check and stores 0.  For every offset
and every value that is 0 modulo 2^32, `-w offset -v value` without operands
is rejected. -/
theorem write_of_zero_rejected :
    RegisterTool.main (fun _ _ => 7) [.w 0x103000, .v 0] 5 5 0 1 (fun t => (0, t)) []
      = (-EINVAL, []) ∧
    RegisterTool.main (fun _ _ => 7) [.w 0x103000, .v 0x12345678] 5 5 0 1 (fun t => (0, t)) []
      = (0, [Event.read 0x103000 7, Event.write 0x103000 0x12345678,
          Event.read 0x103000 7]) ∧
    RegisterTool.main (fun _ _ => 7) [.w 0x103000] 3 4 0 1 (fun t => (0, t)) []
      = (0, [Event.read 0x103000 7, Event.write 0x103000 0, Event.read 0x103000 7]) ∧
    (∀ (hw : Hw) (offset value : Nat) (argc : Int) (euid pcie_mapped_addr : Nat)
        (interactive : Trace → Int × Trace) (t : Trace), value % 2 ^ 32 = 0 →
      RegisterTool.main hw [.w offset, .v value] argc argc euid pcie_mapped_addr interactive t
        = (-EINVAL, t)) := by
  refine ⟨by decide, by decide, by decide, ?_⟩
  intro hw offset value argc euid pcie_mapped_addr interactive t hv
  have hv2 : value % 4294967296 = 0 := hv
  simp [RegisterTool.main, RegisterTool.parse_options, hv2]

/-! ## RDMA read test (`main` of `read.c`) -/

namespace RdmaTest

/-- The calls of the client part post work on queue pair 2 only. -/
theorem client_part_posts_on (o : options_t) (env : env_t) :
    ∀ c ∈ (client_part o env).2, ∀ q : Nat, posts_on c = some q → q = 2 := by
  unfold client_part
  split_ifs <;> simp [posts_on]

/-- The server part posts no work. -/
theorem server_part_posts_on (o : options_t) (env : env_t) :
    ∀ c ∈ (server_part o env).2, posts_on c = none := by
  unfold server_part
  split_ifs <;> simp [posts_on]

end RdmaTest

namespace RdmaTest

theorem setup_calls_post_nothing (hdr : header_t) (num_qp : Nat) :
    ∀ c ∈ setup_calls hdr num_qp, posts_on c = none := by
  unfold setup_calls
  simp [posts_on]

/-- When the character device cannot be opened, `main` returns `-EINVAL`
after the set-up calls. -/
theorem main_without_device (hdr : header_t) (o : options_t) (env : env_t) (num_qp : Nat)
    (hfd : env.fpga_fd < 0) :
    main hdr o env num_qp = (-EINVAL, setup_calls hdr num_qp) := by
  unfold main
  rw [if_pos hfd]

/-- When the character device is open, the calls of `main` are the set-up
calls, the three queue-pair calls, and calls that post work on queue pair 2
only. -/
theorem main_log_shape (hdr : header_t) (o : options_t) (env : env_t) (num_qp : Nat)
    (hfd : ¬ env.fpga_fd < 0) :
    ∃ rest : List api_call_t,
      (main hdr o env num_qp).2 = setup_calls hdr num_qp ++ qp_calls o env num_qp ++ rest ∧
      ∀ c ∈ rest, ∀ q : Nat, posts_on c = some q → q = 2 := by
  have hcp := client_part_posts_on o env
  have hsp := server_part_posts_on o env
  unfold main
  rw [if_neg hfd]
  rcases hc : client_part o env with ⟨f, calls⟩
  rw [hc] at hcp
  cases f with
  | returned ret => exact ⟨calls, rfl, hcp⟩
  | goto_out =>
    refine ⟨calls ++ [.destroy_rn_dev], by simp, ?_⟩
    intro c hmem q hq
    rcases List.mem_append.mp hmem with h | h
    · exact hcp c h q hq
    · rw [List.mem_singleton.mp h] at hq
      simp [posts_on] at hq
  | next =>
    rcases hs : server_part o env with ⟨f2, calls2⟩
    rw [hs] at hsp
    refine ⟨calls ++ calls2 ++ [.destroy_rn_dev], by simp, ?_⟩
    intro c hmem q hq
    rcases List.mem_append.mp hmem with h | h
    · rcases List.mem_append.mp h with h | h
      · exact hcp c h q hq
      · rw [hsp c h] at hq
        exact absurd hq (by simp)
    · rw [List.mem_singleton.mp h] at hq
      simp [posts_on] at hq

/-- In a list that starts with calls that post nothing, followed by three
calls that post nothing, a call that posts work comes after the three. -/
theorem posting_call_position (P rest : List api_call_t) (A R S : api_call_t)
    (hP : ∀ c ∈ P, posts_on c = none) (hA : posts_on A = none) (hR : posts_on R = none)
    (hS : posts_on S = none) (k : Nat) (c : api_call_t) (q : Nat)
    (hk : (P ++ A :: R :: S :: rest)[k]? = some c) (hq : posts_on c = some q) :
    P.length + 2 < k ∧ c ∈ rest ∧
    (P ++ A :: R :: S :: rest)[P.length]? = some A ∧
    (P ++ A :: R :: S :: rest)[P.length + 1]? = some R ∧
    (P ++ A :: R :: S :: rest)[P.length + 2]? = some S := by
  have hne : ∀ x : api_call_t, posts_on x = none → x ≠ c := by
    intro x hx hxc
    rw [hxc, hq] at hx
    exact absurd hx (by simp)
  have e0 : (P ++ A :: R :: S :: rest)[P.length]? = some A := by
    rw [List.getElem?_append_right (le_refl _)]
    simp
  have e1 : (P ++ A :: R :: S :: rest)[P.length + 1]? = some R := by
    rw [List.getElem?_append_right (by omega)]
    simp
  have e2 : (P ++ A :: R :: S :: rest)[P.length + 2]? = some S := by
    rw [List.getElem?_append_right (by omega)]
    simp
  by_cases hlt : k < P.length
  · rw [List.getElem?_append_left hlt] at hk
    exact absurd rfl (hne c (hP c (List.getElem?_mem hk)))
  · rw [List.getElem?_append_right (by omega)] at hk
    obtain ⟨m, hm⟩ : ∃ m, k - P.length = m := ⟨_, rfl⟩
    rw [hm] at hk
    match m, hm, hk with
    | 0, _, hk =>
      simp only [List.getElem?_cons_zero, Option.some.injEq] at hk
      exact absurd hk (hne A hA)
    | 1, _, hk =>
      simp only [List.getElem?_cons_succ, List.getElem?_cons_zero, Option.some.injEq] at hk
      exact absurd hk (hne R hR)
    | 2, _, hk =>
      simp only [List.getElem?_cons_succ, List.getElem?_cons_zero, Option.some.injEq] at hk
      exact absurd hk (hne S hS)
    | m + 3, hm, hk =>
      simp only [List.getElem?_cons_succ] at hk
      exact ⟨by omega, List.getElem?_mem hk, e0, e1, e2⟩

end RdmaTest

/-- C22: for every 8-bit `num_qp` and every 64-bit DMA address `B` of the
doorbell buffer, in a run of `main` that gets past opening the character
device, `allocate_rdma_qp` is called with `cq_cidb_addr = B` and
`rq_cidb_addr = B + num_qp * 4` (the sum in `uint64_t`; it is the plain sum
whenever that is below 2^64).  The receive region thus begins at the address
at which the send region `[B, B + 4*num_qp)` ends, and no byte of the send
region is a byte of the receive region `[rq_cidb_addr, rq_cidb_addr +
4*num_qp)`. -/
theorem doorbell_regions_adjacent (hdr : RdmaTest.header_t) (o : RdmaTest.options_t)
    (env : RdmaTest.env_t) (num_qp : Nat) (hB : env.cidb_dma_addr < 2 ^ 64)
    (hq : num_qp < 256) (hfd : 0 ≤ env.fpga_fd) :
    (∃ pre post : List RdmaTest.api_call_t,
      (RdmaTest.main hdr o env num_qp).2
        = pre ++ [RdmaTest.api_call_t.allocate_rdma_qp 2 o.dst_qpid env.cidb_dma_addr
            ((env.cidb_dma_addr + num_qp * 4) % 2 ^ 64) 64 o.qp_location] ++ post) ∧
    RdmaTest.cq_cidb_addr env = env.cidb_dma_addr ∧
    RdmaTest.rq_cidb_addr env num_qp = (env.cidb_dma_addr + num_qp * 4) % 2 ^ 64 ∧
    (env.cidb_dma_addr + num_qp * 4 < 2 ^ 64 →
      RdmaTest.rq_cidb_addr env num_qp = env.cidb_dma_addr + num_qp * 4) ∧
    (∀ k1 k2 : Nat, k1 < 4 * num_qp → k2 < 4 * num_qp →
      (RdmaTest.cq_cidb_addr env + k1) % 2 ^ 64
        ≠ (RdmaTest.rq_cidb_addr env num_qp + k2) % 2 ^ 64) := by
  have hcq : RdmaTest.cq_cidb_addr env = env.cidb_dma_addr := by
    unfold RdmaTest.cq_cidb_addr
    exact Nat.mod_eq_of_lt hB
  have hrq : RdmaTest.rq_cidb_addr env num_qp = (env.cidb_dma_addr + num_qp * 4) % 2 ^ 64 := by
    unfold RdmaTest.rq_cidb_addr
    rw [Nat.shiftLeft_eq, Nat.mod_eq_of_lt hB, Nat.mod_eq_of_lt hq]
  refine ⟨?_, hcq, hrq, ?_, ?_⟩
  · obtain ⟨rest, hlog, _⟩ := RdmaTest.main_log_shape hdr o env num_qp (by omega)
    refine ⟨RdmaTest.setup_calls hdr num_qp,
      [RdmaTest.api_call_t.config_last_rq_psn 2 0xabc,
       RdmaTest.api_call_t.config_sq_psn 2 (0xabc + 1)] ++ rest, ?_⟩
    rw [hlog]
    unfold RdmaTest.qp_calls
    rw [hcq, hrq]
    simp
  · intro hlt
    rw [hrq]
    exact Nat.mod_eq_of_lt hlt
  · intro k1 k2 h1 h2
    rw [hcq, hrq]
    omega

/-- Witness for C22: eight queue pairs and a doorbell buffer at 0x10000000,
in a client run. -/
theorem doorbell_regions_adjacent_witness :
    RdmaTest.rq_cidb_addr
      ⟨0x10000000, 3, 8, 0x2000, 0xa350000000, fun _ => true, 4, fun i => i % 10, 0, 0⟩ 8
      = 0x10000000 + 8 * 4 :=
  (doorbell_regions_adjacent ⟨"host_mem", "dev_mem", "host_mem", 21, 0x1234, 0x8, 4⟩
    { RdmaTest.initial_options ⟨"host_mem", "dev_mem", "host_mem", 21, 0x1234, 0x8, 4⟩ with
      client := 1 }
    ⟨0x10000000, 3, 8, 0x2000, 0xa350000000, fun _ => true, 4, fun i => i % 10, 0, 0⟩ 8
    (by decide) (by decide) (by decide)).2.2.2.1 (by decide)

/-- C23: in every run of `main`, whenever a call posts work on a queue pair
`q` (`create_a_wqe` or `rdma_post_send` with that `qpid`), the calls made
before it include, in this order, `allocate_rdma_qp` for `q`,
`config_last_rq_psn` for `q` and `config_sq_psn` for `q`. -/
theorem psn_configured_before_posting (hdr : RdmaTest.header_t) (o : RdmaTest.options_t)
    (env : RdmaTest.env_t) (num_qp : Nat) (k : Nat) (c : RdmaTest.api_call_t) (q : Nat)
    (hk : (RdmaTest.main hdr o env num_qp).2[k]? = some c)
    (hq : RdmaTest.posts_on c = some q) :
    ∃ i j1 j2 : Nat, i < j1 ∧ j1 < j2 ∧ j2 < k ∧
      (RdmaTest.main hdr o env num_qp).2[i]?
        = some (RdmaTest.api_call_t.allocate_rdma_qp q o.dst_qpid (RdmaTest.cq_cidb_addr env)
            (RdmaTest.rq_cidb_addr env num_qp) 64 o.qp_location) ∧
      (RdmaTest.main hdr o env num_qp).2[j1]?
        = some (RdmaTest.api_call_t.config_last_rq_psn q 0xabc) ∧
      (RdmaTest.main hdr o env num_qp).2[j2]?
        = some (RdmaTest.api_call_t.config_sq_psn q (0xabc + 1)) := by
  by_cases hfd : env.fpga_fd < 0
  · rw [RdmaTest.main_without_device hdr o env num_qp hfd] at hk
    have hnone := RdmaTest.setup_calls_post_nothing hdr num_qp c (List.getElem?_mem hk)
    rw [hnone] at hq
    exact absurd hq (by simp)
  · obtain ⟨rest, hlog, hrest⟩ := RdmaTest.main_log_shape hdr o env num_qp hfd
    have hshape : (RdmaTest.main hdr o env num_qp).2
        = RdmaTest.setup_calls hdr num_qp
          ++ RdmaTest.api_call_t.allocate_rdma_qp 2 o.dst_qpid (RdmaTest.cq_cidb_addr env)
              (RdmaTest.rq_cidb_addr env num_qp) 64 o.qp_location
          :: RdmaTest.api_call_t.config_last_rq_psn 2 0xabc
          :: RdmaTest.api_call_t.config_sq_psn 2 (0xabc + 1) :: rest := by
      rw [hlog]
      unfold RdmaTest.qp_calls
      simp
    rw [hshape] at hk ⊢
    obtain ⟨hpos, hmem, e0, e1, e2⟩ := RdmaTest.posting_call_position
      (RdmaTest.setup_calls hdr num_qp) rest
      (RdmaTest.api_call_t.allocate_rdma_qp 2 o.dst_qpid (RdmaTest.cq_cidb_addr env)
        (RdmaTest.rq_cidb_addr env num_qp) 64 o.qp_location)
      (RdmaTest.api_call_t.config_last_rq_psn 2 0xabc)
      (RdmaTest.api_call_t.config_sq_psn 2 (0xabc + 1))
      (RdmaTest.setup_calls_post_nothing hdr num_qp) rfl rfl rfl k c q hk hq
    obtain rfl : q = 2 := hrest c hmem q hq
    exact ⟨_, _, _, by omega, by omega, hpos, e0, e1, e2⟩

/-- Witness for C23: a client run; the call of `rdma_post_send` is the
fifteenth call of the run. -/
theorem psn_configured_before_posting_witness :
    ∃ i j1 j2 : Nat, i < j1 ∧ j1 < j2 ∧ j2 < 14 ∧
      (RdmaTest.main ⟨"host_mem", "dev_mem", "host_mem", 21, 0x1234, 0x8, 4⟩
        { RdmaTest.initial_options ⟨"host_mem", "dev_mem", "host_mem", 21, 0x1234, 0x8, 4⟩ with
          client := 1 }
        ⟨0x10000000, 3, 8, 0x2000, 0xa350000000, fun _ => true, 4, fun i => i % 10, 0, 0⟩
        8).2[i]?
        = some (RdmaTest.api_call_t.allocate_rdma_qp 2
            ({ RdmaTest.initial_options ⟨"host_mem", "dev_mem", "host_mem", 21, 0x1234, 0x8, 4⟩
              with client := 1 } : RdmaTest.options_t).dst_qpid
            (RdmaTest.cq_cidb_addr
              ⟨0x10000000, 3, 8, 0x2000, 0xa350000000, fun _ => true, 4, fun i => i % 10, 0, 0⟩)
            (RdmaTest.rq_cidb_addr
              ⟨0x10000000, 3, 8, 0x2000, 0xa350000000, fun _ => true, 4, fun i => i % 10, 0, 0⟩
              8) 64
            ({ RdmaTest.initial_options ⟨"host_mem", "dev_mem", "host_mem", 21, 0x1234, 0x8, 4⟩
              with client := 1 } : RdmaTest.options_t).qp_location) ∧
      (RdmaTest.main ⟨"host_mem", "dev_mem", "host_mem", 21, 0x1234, 0x8, 4⟩
        { RdmaTest.initial_options ⟨"host_mem", "dev_mem", "host_mem", 21, 0x1234, 0x8, 4⟩ with
          client := 1 }
        ⟨0x10000000, 3, 8, 0x2000, 0xa350000000, fun _ => true, 4, fun i => i % 10, 0, 0⟩
        8).2[j1]?
        = some (RdmaTest.api_call_t.config_last_rq_psn 2 0xabc) ∧
      (RdmaTest.main ⟨"host_mem", "dev_mem", "host_mem", 21, 0x1234, 0x8, 4⟩
        { RdmaTest.initial_options ⟨"host_mem", "dev_mem", "host_mem", 21, 0x1234, 0x8, 4⟩ with
          client := 1 }
        ⟨0x10000000, 3, 8, 0x2000, 0xa350000000, fun _ => true, 4, fun i => i % 10, 0, 0⟩
        8).2[j2]?
        = some (RdmaTest.api_call_t.config_sq_psn 2 (0xabc + 1)) :=
  psn_configured_before_posting ⟨"host_mem", "dev_mem", "host_mem", 21, 0x1234, 0x8, 4⟩
    { RdmaTest.initial_options ⟨"host_mem", "dev_mem", "host_mem", 21, 0x1234, 0x8, 4⟩ with
      client := 1 }
    ⟨0x10000000, 3, 8, 0x2000, 0xa350000000, fun _ => true, 4, fun i => i % 10, 0, 0⟩ 8
    14 (RdmaTest.api_call_t.rdma_post_send 2) 2 (by decide) rfl

/-- C30: the check of `-l` is
`!(strcmp(qp_location, HOST_MEM) || strcmp(qp_location, DEVICE_MEM))`, which
holds only for a string equal to both names.  With the two names distinct it
never holds: for every location string, also one that is neither name, the
option loop goes on with that location instead of printing the usage and
exiting.  With `-l bogus` the loop ends normally with `qp_location = bogus`,
and the run then calls `allocate_rdma_qp` with the location `bogus`. -/
theorem qp_location_check_never_rejects :
    RdmaTest.parse_options ⟨"host_mem", "dev_mem", "host_mem", 21, 0x1234, 0x8, 4⟩
        (fun _ => 0) (fun _ => 0) (fun _ => .nothing) [.c, .l "bogus"]
        (RdmaTest.initial_options ⟨"host_mem", "dev_mem", "host_mem", 21, 0x1234, 0x8, 4⟩)
      = .proceed
          { RdmaTest.initial_options ⟨"host_mem", "dev_mem", "host_mem", 21, 0x1234, 0x8, 4⟩
            with client := 1, qp_location := "bogus" } ∧
    (RdmaTest.main ⟨"host_mem", "dev_mem", "host_mem", 21, 0x1234, 0x8, 4⟩
        { RdmaTest.initial_options ⟨"host_mem", "dev_mem", "host_mem", 21, 0x1234, 0x8, 4⟩
          with client := 1, qp_location := "bogus" }
        ⟨0x10000000, 3, 8, 0x2000, 0xa350000000, fun _ => true, 4, fun i => i % 10, 0, 0⟩
        8).2[9]?
      = some (RdmaTest.api_call_t.allocate_rdma_qp 2 2 0x10000000 0x10000020 64 "bogus") ∧
    (∀ (hdr : RdmaTest.header_t) (convert_ip_addr_to_uint : String → Nat)
        (atoi : String → Int) (arp : String → RdmaTest.arp_result_t) (location : String)
        (rest : List RdmaTest.cmd_opt_t) (o : RdmaTest.options_t),
      hdr.HOST_MEM ≠ hdr.DEVICE_MEM →
      RdmaTest.parse_options hdr convert_ip_addr_to_uint atoi arp (.l location :: rest) o
        = RdmaTest.parse_options hdr convert_ip_addr_to_uint atoi arp rest
            { o with qp_location := location }) := by
  have hgen : ∀ (hdr : RdmaTest.header_t) (convert_ip_addr_to_uint : String → Nat)
      (atoi : String → Int) (arp : String → RdmaTest.arp_result_t) (location : String)
      (rest : List RdmaTest.cmd_opt_t) (o : RdmaTest.options_t),
      hdr.HOST_MEM ≠ hdr.DEVICE_MEM →
      RdmaTest.parse_options hdr convert_ip_addr_to_uint atoi arp (.l location :: rest) o
        = RdmaTest.parse_options hdr convert_ip_addr_to_uint atoi arp rest
            { o with qp_location := location } := ?_
  · refine ⟨?_, by decide, hgen⟩
    rw [RdmaTest.parse_options, hgen _ _ _ _ _ _ _ (by decide), RdmaTest.parse_options]
    rfl
  intro hdr conv atoi arp location rest o hne
  rw [RdmaTest.parse_options]
  rw [if_neg]
  intro hboth
  apply hboth
  by_cases h1 : location = hdr.HOST_MEM
  · right
    have h2 : location ≠ hdr.DEVICE_MEM := fun h2 => hne (h1.symm.trans h2)
    unfold RdmaTest.strcmp
    rw [if_neg h2]
    split <;> decide
  · left
    unfold RdmaTest.strcmp
    rw [if_neg h1]
    split <;> decide

end Reconic
